import Mathlib

/-! # RenderDevice state cache (G3DWidget / GLG3D)

A shallow embedding of the render-state cache of `RenderDevice`
(`GLG3D.lib/source/RenderDevice.cpp`, `GLG3D.lib/include/RenderDevice.h`),
of the simulation block and clean-up loops of `GApp::oneFrame`
(`GLG3D.lib/source/GApp.cpp`) and of the life cycle and mouse-button mapping
of `mojo::G3DWidget` (`G3DWidget.cpp`).

Conventions of the embedding

* A device is a value of `Device`; every member function `f(args)` becomes
  `f args : Device → Option Device`.  `none` stands for a failed
  `debugAssert` / `alwaysAssertM` (the call aborts); the embedding is the debug
  build, in which all assertions are active.
* `uint32` statistics are natural numbers reduced modulo `2^32`.
* `float` / `double` values are exact rationals: NaN, signed zeros and rounding
  are not represented, so `==` on them is equality.
* Native OpenGL calls act on `GLState`, a record of the server-side state the
  properties below observe.  Native calls on state that is not in the record
  are kept as comments at the place where the source issues them.
* `shared_ptr<T>` is `Option T`; pointer equality is equality of the
  objects, which carry their identity (`id`, `openGLID`).
-/

/-! ## The widget `mojo::G3DWidget` (`G3DWidget.cpp`) -/

namespace mojo

namespace G3DWidget

/-! Values of the enumeration `Qt::MouseButton` as fixed by the Qt header
`qnamespace.h`, which is external to the sources.  A value of
`Qt::MouseButtons` is the bitwise or of the buttons it holds. -/

def NoButton : Nat := 0x00
def LeftButton : Nat := 0x01
def RightButton : Nat := 0x02
def MiddleButton : Nat := 0x04
def XButton1 : Nat := 0x08
def XButton2 : Nat := 0x10

/-- G3DWidget::getG3DMouseButtonPressedFlags; the result is a `uint8`. -/
def getG3DMouseButtonPressedFlags (qtMouseButtons : Nat) : Nat :=
  let g3dMouseButtonPressedFlags := 0
  let g3dMouseButtonPressedFlags :=
    if qtMouseButtons &&& LeftButton ≠ 0 then (g3dMouseButtonPressedFlags ||| 1 <<< 0) % 256
    else g3dMouseButtonPressedFlags
  let g3dMouseButtonPressedFlags :=
    if qtMouseButtons &&& RightButton ≠ 0 then (g3dMouseButtonPressedFlags ||| 1 <<< 2) % 256
    else g3dMouseButtonPressedFlags
  let g3dMouseButtonPressedFlags :=
    if qtMouseButtons &&& MiddleButton ≠ 0 then (g3dMouseButtonPressedFlags ||| 1 <<< 1) % 256
    else g3dMouseButtonPressedFlags
  let g3dMouseButtonPressedFlags :=
    if qtMouseButtons &&& XButton1 ≠ 0 then (g3dMouseButtonPressedFlags ||| 1 <<< 3) % 256
    else g3dMouseButtonPressedFlags
  let g3dMouseButtonPressedFlags :=
    if qtMouseButtons &&& XButton2 ≠ 0 then (g3dMouseButtonPressedFlags ||| 1 <<< 4) % 256
    else g3dMouseButtonPressedFlags
  g3dMouseButtonPressedFlags

/-- G3DWidget::getG3DMouseButtonPressedIndex.  `none` is the failed
`MOJO_ASSERT(0 && "No mouse buttons have been pressed.")` of the debug build;
without `MOJO_DEBUG` the function returns 255 there. -/
def getG3DMouseButtonPressedIndex (qtMouseButtons : Nat) : Option Nat :=
  if qtMouseButtons &&& LeftButton ≠ 0 then some 0
  else if qtMouseButtons &&& RightButton ≠ 0 then some 2
  else if qtMouseButtons &&& MiddleButton ≠ 0 then some 1
  else if qtMouseButtons &&& XButton1 ≠ 0 then some 3
  else if qtMouseButtons &&& XButton2 ≠ 0 then some 4
  else none

/-- The members of G3DWidget that initialize, update and terminate read or
write.  `m_joy` holds the handles of the opened joysticks. -/
structure Widget where
  m_initialized : Bool
  m_joy : List Nat
  m_previouslyActive : Bool
  width : Int
  height : Int
deriving DecidableEq

/-- The member initialisers of the constructor G3DWidget::G3DWidget. -/
def Widget.new : Widget :=
  { m_initialized := false, m_joy := [], m_previouslyActive := false, width := 0, height := 0 }

/-- The loop of G3DWidget::initialize that opens the joysticks `i`, `i + 1`, ...;
`joystickOpen` is SDL_JoystickOpen, whose result is null (`none`) on failure,
which `debugAssert(m_joy[i])` rejects. -/
def openJoysticks (joystickOpen : Nat → Option Nat) : Nat → Nat → Option (List Nat)
  | _, 0 => some []
  | i, n + 1 =>
    match joystickOpen i with
    | none => none
    | some h => (openJoysticks joystickOpen (i + 1) n).map (fun hs => h :: hs)

/-- G3DWidget::initialize (the name is a keyword here, hence the suffix).
`numJoysticks` is the result of SDL_NumJoysticks, `w` and `h` are
QWidget::width() and QWidget::height(). -/
def initializeWidget (numJoysticks : Int) (joystickOpen : Nat → Option Nat) (w h : Int)
    (self : Widget) : Option Widget :=
  -- Check for joysticks
  let j := if numJoysticks < 0 ∨ numJoysticks > 10 then 0 else numJoysticks
  match (if j > 0 then openJoysticks joystickOpen 0 j.toNat else some self.m_joy) with
  | none => none
  | some joy =>
    -- m_settings.x = 0; m_settings.y = 0; OSWindow::makeCurrent(); G3D::GLCaps::init()
    some { self with m_joy := joy, width := w, height := h, m_initialized := true }

/-- G3DWidget::update.  `currentlyActive` is `QApplication::activeWindow() != NULL`.
`none` is the failed MOJO_RELEASE_ASSERT.  The calls fireEvent, executeLoopBody
and swapBuffers act on objects outside the widget. -/
def update (currentlyActive : Bool) (self : Widget) : Option Widget :=
  if ¬ self.m_initialized then none
  else
    -- OSWindow::makeCurrent()
    let self :=
      if currentlyActive ≠ self.m_previouslyActive then
        -- fireEvent(e) with e.type = FOCUS
        { self with m_previouslyActive := currentlyActive }
      else self
    -- executeLoopBody(); m_renderDevice->swapBuffers()
    some self

/-- G3DWidget::terminate.  `none` is the failed MOJO_RELEASE_ASSERT of
terminate or of popLoopBody; OSWindow::popLoopBody is a library call outside
the widget. -/
def terminate (self : Widget) : Option Widget :=
  if ¬ self.m_initialized then none
  else
    -- popLoopBody(): MOJO_RELEASE_ASSERT(m_initialized); OSWindow::popLoopBody()
    if ¬ self.m_initialized then none
    else
      -- SDL_JoystickClose(m_joy[j]) for every j
      some { self with m_joy := [] }

end G3DWidget

end mojo

namespace G3D

/-! ## OpenGL enumerants

Values of the enumerants as fixed by the OpenGL API headers (`gl.h`,
`glext.h`); the headers are external to the sources. -/

def GL_NONE : Nat := 0
def GL_ZERO : Nat := 0
def GL_ONE : Nat := 1

def GL_NEVER : Nat := 0x0200
def GL_LESS : Nat := 0x0201
def GL_EQUAL : Nat := 0x0202
def GL_LEQUAL : Nat := 0x0203
def GL_GREATER : Nat := 0x0204
def GL_NOTEQUAL : Nat := 0x0205
def GL_GEQUAL : Nat := 0x0206
def GL_ALWAYS : Nat := 0x0207

def GL_SRC_COLOR : Nat := 0x0300
def GL_ONE_MINUS_SRC_COLOR : Nat := 0x0301
def GL_SRC_ALPHA : Nat := 0x0302
def GL_ONE_MINUS_SRC_ALPHA : Nat := 0x0303
def GL_DST_COLOR : Nat := 0x0306
def GL_ONE_MINUS_DST_COLOR : Nat := 0x0307

def GL_FUNC_ADD : Nat := 0x8006
def GL_MIN : Nat := 0x8007
def GL_MAX : Nat := 0x8008
def GL_FUNC_SUBTRACT : Nat := 0x800A
def GL_FUNC_REVERSE_SUBTRACT : Nat := 0x800B

def GL_FRONT_LEFT : Nat := 0x0400
def GL_FRONT_RIGHT : Nat := 0x0401
def GL_BACK_LEFT : Nat := 0x0402
def GL_BACK_RIGHT : Nat := 0x0403
def GL_FRONT : Nat := 0x0404
def GL_BACK : Nat := 0x0405
def GL_LEFT : Nat := 0x0406
def GL_RIGHT : Nat := 0x0407
def GL_FRONT_AND_BACK : Nat := 0x0408
def GL_AUX0 : Nat := 0x0409
def GL_AUX1 : Nat := 0x040A
def GL_AUX2 : Nat := 0x040B
def GL_AUX3 : Nat := 0x040C

def GL_COLOR_ATTACHMENT0 : Nat := 0x8CE0
def GL_COLOR_ATTACHMENT15 : Nat := 0x8CEF
def GL_DEPTH_ATTACHMENT : Nat := 0x8D00
def GL_STENCIL_ATTACHMENT : Nat := 0x8D20

def GL_KEEP : Nat := 0x1E00
def GL_REPLACE : Nat := 0x1E01
def GL_INCR : Nat := 0x1E02
def GL_DECR : Nat := 0x1E03
def GL_INVERT : Nat := 0x150A
def GL_INCR_WRAP : Nat := 0x8507
def GL_DECR_WRAP : Nat := 0x8508

def GL_CLEAR : Nat := 0x1500
def GL_AND : Nat := 0x1501
def GL_AND_REVERSE : Nat := 0x1502
def GL_COPY : Nat := 0x1503
def GL_AND_INVERTED : Nat := 0x1504
def GL_NOOP : Nat := 0x1505
def GL_XOR : Nat := 0x1506
def GL_OR : Nat := 0x1507
def GL_NOR : Nat := 0x1508
def GL_EQUIV : Nat := 0x1509
def GL_OR_REVERSE : Nat := 0x150B
def GL_COPY_INVERTED : Nat := 0x150C
def GL_OR_INVERTED : Nat := 0x150D
def GL_NAND : Nat := 0x150E
def GL_SET : Nat := 0x150F

def GL_FLAT : Nat := 0x1D00
def GL_SMOOTH : Nat := 0x1D01

def GL_POINT : Nat := 0x1B00
def GL_LINE : Nat := 0x1B01
def GL_FILL : Nat := 0x1B02

/-! ## Enumerations of `RenderDevice.h`

A C++ enumeration is kept as its underlying integer, so that two enumerators
with the same value are the same value here as well.  An enumerator without
an initialiser has the value of the preceding enumerator plus one. -/

abbrev DrawBuffer := Nat
def DRAW_NONE : DrawBuffer := GL_NONE
def DRAW_FRONT_LEFT : DrawBuffer := GL_FRONT_LEFT
def DRAW_FRONT_RIGHT : DrawBuffer := GL_FRONT_RIGHT
def DRAW_BACK_LEFT : DrawBuffer := GL_BACK_LEFT
def DRAW_BACK_RIGHT : DrawBuffer := GL_BACK_RIGHT
def DRAW_FRONT : DrawBuffer := GL_FRONT
def DRAW_BACK : DrawBuffer := GL_BACK
def DRAW_LEFT : DrawBuffer := GL_LEFT
def DRAW_RIGHT : DrawBuffer := GL_RIGHT
def DRAW_FRONT_AND_BACK : DrawBuffer := GL_FRONT_AND_BACK
def DRAW_COLOR0 : DrawBuffer := GL_COLOR_ATTACHMENT0
def DRAW_COLOR15 : DrawBuffer := GL_COLOR_ATTACHMENT15
def DRAW_CURRENT : DrawBuffer := DRAW_COLOR15 + 1

abbrev ReadBuffer := Nat
def READ_FRONT_LEFT : ReadBuffer := GL_FRONT_LEFT
def READ_FRONT_RIGHT : ReadBuffer := GL_FRONT_RIGHT
def READ_BACK_LEFT : ReadBuffer := GL_BACK_LEFT
def READ_BACK_RIGHT : ReadBuffer := GL_BACK_RIGHT
def READ_FRONT : ReadBuffer := GL_FRONT
def READ_BACK : ReadBuffer := GL_BACK
def READ_LEFT : ReadBuffer := GL_LEFT
def READ_RIGHT : ReadBuffer := GL_RIGHT
def READ_COLOR0 : ReadBuffer := GL_COLOR_ATTACHMENT0
def READ_DEPTH : ReadBuffer := GL_DEPTH_ATTACHMENT
def READ_STENCIL : ReadBuffer := GL_STENCIL_ATTACHMENT
def READ_CURRENT : ReadBuffer := READ_STENCIL + 1

abbrev DepthTest := Nat
def DEPTH_GREATER : DepthTest := GL_GREATER
def DEPTH_LESS : DepthTest := GL_LESS
def DEPTH_GEQUAL : DepthTest := GL_GEQUAL
def DEPTH_LEQUAL : DepthTest := GL_LEQUAL
def DEPTH_NOTEQUAL : DepthTest := GL_NOTEQUAL
def DEPTH_EQUAL : DepthTest := GL_EQUAL
def DEPTH_ALWAYS_PASS : DepthTest := GL_ALWAYS
def DEPTH_NEVER_PASS : DepthTest := GL_NEVER
def DEPTH_CURRENT : DepthTest := DEPTH_NEVER_PASS + 1

abbrev AlphaTest := Nat
def ALPHA_GREATER : AlphaTest := GL_GREATER
def ALPHA_LESS : AlphaTest := GL_LESS
def ALPHA_GEQUAL : AlphaTest := GL_GEQUAL
def ALPHA_LEQUAL : AlphaTest := GL_LEQUAL
def ALPHA_NOTEQUAL : AlphaTest := GL_NOTEQUAL
def ALPHA_EQUAL : AlphaTest := GL_EQUAL
def ALPHA_ALWAYS_PASS : AlphaTest := GL_ALWAYS
def ALPHA_NEVER_PASS : AlphaTest := GL_NEVER
def ALPHA_CURRENT : AlphaTest := ALPHA_NEVER_PASS + 1

abbrev StencilTest := Nat
def STENCIL_GREATER : StencilTest := GL_GREATER
def STENCIL_LESS : StencilTest := GL_LESS
def STENCIL_GEQUAL : StencilTest := GL_GEQUAL
def STENCIL_LEQUAL : StencilTest := GL_LEQUAL
def STENCIL_NOTEQUAL : StencilTest := GL_NOTEQUAL
def STENCIL_EQUAL : StencilTest := GL_EQUAL
def STENCIL_ALWAYS_PASS : StencilTest := GL_ALWAYS
def STENCIL_NEVER_PASS : StencilTest := GL_NEVER
def STENCIL_CURRENT : StencilTest := STENCIL_NEVER_PASS + 1

abbrev BlendFunc := Nat
def BLEND_SRC_ALPHA : BlendFunc := GL_SRC_ALPHA
def BLEND_ONE_MINUS_SRC_ALPHA : BlendFunc := GL_ONE_MINUS_SRC_ALPHA
def BLEND_ONE : BlendFunc := GL_ONE
def BLEND_ZERO : BlendFunc := GL_ZERO
def BLEND_SRC_COLOR : BlendFunc := GL_SRC_COLOR
def BLEND_DST_COLOR : BlendFunc := GL_DST_COLOR
def BLEND_ONE_MINUS_SRC_COLOR : BlendFunc := GL_ONE_MINUS_SRC_COLOR
def BLEND_ONE_MINUS_DST_COLOR : BlendFunc := GL_ONE_MINUS_DST_COLOR
def BLEND_CURRENT : BlendFunc := BLEND_ONE_MINUS_DST_COLOR + 1

abbrev BlendEq := Nat
def BLENDEQ_MIN : BlendEq := GL_MIN
def BLENDEQ_MAX : BlendEq := GL_MAX
def BLENDEQ_ADD : BlendEq := GL_FUNC_ADD
def BLENDEQ_SUBTRACT : BlendEq := GL_FUNC_SUBTRACT
def BLENDEQ_REVERSE_SUBTRACT : BlendEq := GL_FUNC_REVERSE_SUBTRACT
def BLENDEQ_CURRENT : BlendEq := BLENDEQ_REVERSE_SUBTRACT + 1

abbrev StencilOp := Nat
def STENCIL_INCR_WRAP : StencilOp := GL_INCR_WRAP
def STENCIL_DECR_WRAP : StencilOp := GL_DECR_WRAP
def STENCIL_KEEP : StencilOp := GL_KEEP
def STENCIL_INCR : StencilOp := GL_INCR
def STENCIL_DECR : StencilOp := GL_DECR
def STENCIL_REPLACE : StencilOp := GL_REPLACE
def STENCIL_ZERO : StencilOp := GL_ZERO
def STENCIL_INVERT : StencilOp := GL_INVERT
def STENCILOP_CURRENT : StencilOp := STENCIL_INVERT + 1

abbrev LogicOp := Nat
def LOGIC_CLEAR : LogicOp := GL_CLEAR
def LOGIC_AND : LogicOp := GL_AND
def LOGIC_AND_REVERSE : LogicOp := GL_AND_REVERSE
def LOGIC_COPY : LogicOp := GL_COPY
def LOGIC_AND_INVERTED : LogicOp := GL_AND_INVERTED
def LOGIC_NOOP : LogicOp := GL_NOOP
def LOGIC_XOR : LogicOp := GL_XOR
def LOGIC_OR : LogicOp := GL_OR
def LOGIC_NOR : LogicOp := GL_NOR
def LOGIC_EQUIV : LogicOp := GL_EQUIV
def LOGIC_INVERT : LogicOp := GL_INVERT
def LOGIC_OR_REVERSE : LogicOp := GL_OR_REVERSE
def LOGIC_COPY_INVERTED : LogicOp := GL_COPY_INVERTED
def LOGIC_OR_INVERTED : LogicOp := GL_OR_INVERTED
def LOGIC_NAND : LogicOp := GL_NAND
def LOGIC_SET : LogicOp := GL_SET
def LOGICOP_CURRENT : LogicOp := LOGIC_SET + 1

abbrev ShadeMode := Nat
def SHADE_FLAT : ShadeMode := GL_FLAT
def SHADE_SMOOTH : ShadeMode := GL_SMOOTH
def SHADE_CURRENT : ShadeMode := SHADE_SMOOTH + 1

/-- The enumeration RenderMode: plain enumerators, numbered from zero. -/
inductive RenderMode where
  | RENDER_SOLID
  | RENDER_WIREFRAME
  | RENDER_POINTS
  | RENDER_CURRENT
deriving DecidableEq, Repr

/-- The enumeration CombineMode: plain enumerators, numbered from zero. -/
inductive CombineMode where
  | TEX_REPLACE
  | TEX_BLEND
  | TEX_INTERPOLATE
  | TEX_ADD
  | TEX_MODULATE
  | TEX_ADD_SIGNED
  | TEX_SUBTRACT
  | TEX_DOT3_RGB
  | TEX_DOT3_RGBA
  | TEX_CURRENT
deriving DecidableEq, Repr

/-- The class CullFace of the library (its header is not among the sources):
an enumeration whose FRONT and BACK enumerators are cast to the OpenGL face
enumerants by `forceSetCullFace`. -/
inductive CullFace where
  | NONE
  | FRONT
  | BACK
  | CURRENT
deriving DecidableEq, Repr

/-- The cast `GLenum(f.value)` used by `forceSetCullFace` for FRONT and BACK. -/
def CullFace.value : CullFace → Nat
  | .NONE => 0
  | .FRONT => GL_FRONT
  | .BACK => GL_BACK
  | .CURRENT => GL_BACK + 1

/-! ## Value types of the library

`Rect2D`, `Color3`, `Color4`, `Vector3`, `Vector4`, `Matrix4`,
`CoordinateFrame`, `Texture` and `Framebuffer` are library classes whose
headers are not among the sources; they are modelled by the data the device
code reads from them. -/

/-- Modelled from the spec: the library class Rect2D, which is missing from the
sources.  A rectangle is either an ordinary rectangle given by its corner and
extent, or one of the two special values `Rect2D::inf()` (the whole plane,
not finite, not empty) and `Rect2D::empty()` (the empty rectangle, not
finite, empty). -/
inductive Rect2D where
  | xywh (x y w h : ℚ)
  | inf
  | empty
deriving DecidableEq

/-- The member Rect2D::isFinite. -/
def Rect2D.isFinite : Rect2D → Bool
  | .xywh _ _ _ _ => true
  | .inf => false
  | .empty => false

/-- The member Rect2D::isEmpty. -/
def Rect2D.isEmpty : Rect2D → Bool
  | .xywh _ _ _ _ => false
  | .inf => false
  | .empty => true

structure Color3 where
  r : ℚ
  g : ℚ
  b : ℚ
deriving DecidableEq

structure Color4 where
  r : ℚ
  g : ℚ
  b : ℚ
  a : ℚ
deriving DecidableEq

structure Vector3 where
  x : ℚ
  y : ℚ
  z : ℚ
deriving DecidableEq

structure Vector4 where
  x : ℚ
  y : ℚ
  z : ℚ
  w : ℚ
deriving DecidableEq

/-- A 4x4 matrix, its sixteen entries in row-major order. -/
structure Matrix4 where
  elt : List ℚ
deriving DecidableEq

/-- A rigid frame: a 3x3 rotation (nine entries, row-major) and a translation. -/
structure CoordinateFrame where
  rotation : List ℚ
  translation : Vector3
deriving DecidableEq

/-- The default constructor CoordinateFrame(): identity rotation, zero translation. -/
def CoordinateFrame.identity : CoordinateFrame :=
  { rotation := [1, 0, 0, 0, 1, 0, 0, 0, 1], translation := ⟨0, 0, 0⟩ }

/-- The member CoordinateFrame::inverse of the library: the transposed rotation
and the translation carried through it with the opposite sign. -/
def CoordinateFrame.inverse (c : CoordinateFrame) : CoordinateFrame :=
  let r := fun (i : Nat) => c.rotation.getD i 0
  let t := c.translation
  { rotation := [r 0, r 3, r 6, r 1, r 4, r 7, r 2, r 5, r 8],
    translation :=
      ⟨-(r 0 * t.x + r 3 * t.y + r 6 * t.z),
       -(r 1 * t.x + r 4 * t.y + r 7 * t.z),
       -(r 2 * t.x + r 5 * t.y + r 8 * t.z)⟩ }

/-- A texture object, as far as `setTexture` reads it. -/
structure Texture where
  openGLID : Nat
  openGLTextureTarget : Nat
deriving DecidableEq

/-- A framebuffer object, as far as the device reads it.  `bindNeedsSync` is
the value returned by `Framebuffer::bind` (whose source is not included):
whether the attachment points had to be synchronised. -/
structure Framebuffer where
  id : Nat
  rect2DBounds : Rect2D
  openGLDrawArray : List Nat
  attachments : List Nat
  stencilBits : Nat
  bindNeedsSync : Bool
deriving DecidableEq

/-- The member Framebuffer::has. -/
def Framebuffer.has (fb : Framebuffer) (p : Nat) : Bool := fb.attachments.contains p

/-- The member Framebuffer::numAttachments. -/
def Framebuffer.numAttachments (fb : Framebuffer) : Nat := fb.attachments.length

/-! ## Constants of `RenderDevice` -/

def MAX_TRACKED_TEXTURE_UNITS : Nat := 2
def MAX_TRACKED_TEXTURE_IMAGE_UNITS : Nat := 2

/-- Unsigned 32-bit wrap-around, for the `uint32` counters of `Stats`. -/
def wrap32 (n : Nat) : Nat := n % 2 ^ 32

/-! ## `RenderDevice::RenderState` -/

namespace RenderState

structure TextureUnit where
  texCoord : Vector4
  textureMatrix : List ℚ
  combineMode : CombineMode
  LODBias : ℚ
deriving DecidableEq

/-- The constructor TextureUnit::TextureUnit(). -/
def TextureUnit.default : TextureUnit :=
  { texCoord := ⟨0, 0, 0, 1⟩,
    combineMode := CombineMode.TEX_MODULATE,
    textureMatrix := [1, 0, 0, 0, 0, 1, 0, 0, 0, 0, 1, 0, 0, 0, 0, 1],
    LODBias := 0 }

structure TextureImageUnit where
  texture : Option Texture
deriving DecidableEq

/-- The constructor TextureImageUnit::TextureImageUnit(): a null texture. -/
def TextureImageUnit.default : TextureImageUnit := { texture := none }

structure Stencil where
  stencilTest : StencilTest
  stencilReference : Int
  stencilClear : Int
  frontStencilFail : StencilOp
  frontStencilZFail : StencilOp
  frontStencilZPass : StencilOp
  backStencilFail : StencilOp
  backStencilZFail : StencilOp
  backStencilZPass : StencilOp
deriving DecidableEq

structure Matrices where
  objectToWorldMatrix : CoordinateFrame
  cameraToWorldMatrix : CoordinateFrame
  cameraToWorldMatrixInverse : CoordinateFrame
  projectionMatrix : Matrix4
  invertY : Bool
  changed : Bool
deriving DecidableEq

end RenderState

open RenderState in
/-- The class RenderDevice::RenderState, field by field. -/
structure RenderState where
  viewport : Rect2D
  clip2D : Rect2D
  useClip2D : Bool
  depthWrite : Bool
  colorWrite : Bool
  alphaWrite : Bool
  drawBuffer : DrawBuffer
  readBuffer : ReadBuffer
  drawFramebuffer : Option Framebuffer
  readFramebuffer : Option Framebuffer
  depthTest : DepthTest
  alphaTest : AlphaTest
  alphaReference : ℚ
  depthClear : ℚ
  colorClear : Color4
  cullFace : CullFace
  sRGBConversion : Bool
  stencil : Stencil
  logicOp : LogicOp
  srcBlendFunc : BlendFunc
  dstBlendFunc : BlendFunc
  blendEq : BlendEq
  shadeMode : ShadeMode
  polygonOffset : ℚ
  renderMode : RenderMode
  specular : Color3
  shininess : ℚ
  lowDepthRange : ℚ
  highDepthRange : ℚ
  lineWidth : ℚ
  pointSize : ℚ
  color : Color4
  normal : Vector3
  highestTextureUnitThatChanged : Int
  textureUnits : List TextureUnit
  textureImageUnits : List TextureImageUnit
  matrices : Matrices
deriving DecidableEq

/-- The member RenderState::textureUnitModified. -/
def RenderState.textureUnitModified (s : RenderState) (u : Nat) : RenderState :=
  { s with highestTextureUnitThatChanged := max s.highestTextureUnitThatChanged (u : Int) }

/-- The constructor RenderState::RenderState(width, height, htutc).  `proj` is
the value of `Matrix4::perspectiveProjection(-aspect, aspect, -1, 1, 0.1, 100.0)`
for the aspect ratio of the window, a library computation that is not among
the sources. -/
def RenderState.init (width height : Int) (htutc : Int) (proj : Matrix4) : RenderState :=
  { viewport := Rect2D.xywh 0 0 width height,
    clip2D := Rect2D.inf,
    useClip2D := false,
    depthWrite := true,
    colorWrite := true,
    alphaWrite := true,
    depthTest := DEPTH_LEQUAL,
    alphaTest := ALPHA_ALWAYS_PASS,
    alphaReference := 0,
    sRGBConversion := false,
    drawFramebuffer := none,
    readFramebuffer := none,
    srcBlendFunc := BLEND_ONE,
    dstBlendFunc := BLEND_ZERO,
    blendEq := BLENDEQ_ADD,
    drawBuffer := DRAW_BACK,
    readBuffer := READ_BACK,
    stencil :=
      { stencilTest := STENCIL_ALWAYS_PASS,
        stencilReference := 0,
        frontStencilFail := STENCIL_KEEP,
        frontStencilZFail := STENCIL_KEEP,
        frontStencilZPass := STENCIL_KEEP,
        backStencilFail := STENCIL_KEEP,
        backStencilZFail := STENCIL_KEEP,
        backStencilZPass := STENCIL_KEEP,
        stencilClear := 0 },
    logicOp := LOGIC_COPY,
    polygonOffset := 0,
    lineWidth := 1,
    pointSize := 1,
    renderMode := RenderMode.RENDER_SOLID,
    shininess := 15,
    specular := ⟨mkRat 4 5, mkRat 4 5, mkRat 4 5⟩,
    color := ⟨1, 1, 1, 1⟩,
    normal := ⟨0, 0, 0⟩,
    textureUnits := List.replicate MAX_TRACKED_TEXTURE_UNITS RenderState.TextureUnit.default,
    textureImageUnits :=
      List.replicate MAX_TRACKED_TEXTURE_IMAGE_UNITS RenderState.TextureImageUnit.default,
    matrices :=
      { objectToWorldMatrix := CoordinateFrame.identity,
        cameraToWorldMatrix := CoordinateFrame.identity,
        cameraToWorldMatrixInverse := CoordinateFrame.identity,
        invertY := true,
        changed := true,
        projectionMatrix := proj },
    depthClear := 1,
    colorClear := ⟨0, 0, 0, 1⟩,
    shadeMode := SHADE_FLAT,
    cullFace := CullFace.BACK,
    lowDepthRange := 0,
    highDepthRange := 1,
    highestTextureUnitThatChanged := htutc }

/-! ## The device -/

/-- The class RenderDevice::Stats, its integer counters. -/
structure Stats where
  minorStateChanges : Nat
  minorOpenGLStateChanges : Nat
  majorStateChanges : Nat
  majorOpenGLStateChanges : Nat
  pushStates : Nat
  primitives : Nat
  triangles : Nat
deriving DecidableEq

/-- The capability queries of GLCaps that the device code branches on; GLCaps
is a library class whose source is not included, so the answers are
parameters of a device. -/
structure GLCaps where
  supports_GL_EXT_stencil_two_side : Bool
  supports_GL_ATI_separate_stencil : Bool
  supports_two_sided_stencil : Bool
  supports_GL_ARB_multitexture : Bool
  supports_GL_ARB_framebuffer_object : Bool
  supports_GL_EXT_framebuffer_object : Bool
  supports_GL_EXT_blend_minmax : Bool
  supports_GL_EXT_blend_subtract : Bool
  supports_GL_EXT_stencil_wrap : Bool
  has_glBlendEquationEXT : Bool
  maxDrawBuffers : Nat
  windowStencilBits : Nat
deriving DecidableEq

/-- The part of the OpenGL server state that the native calls of the device
act on and that the properties below observe.  `drawBuffers` is the argument
of the last draw-buffers call.  OpenGL keeps the draw-buffer selection per
framebuffer object: `framebufferDrawBuffers` records, newest first, the
identifier of the framebuffer object bound for drawing and the argument of
each draw-buffers call. -/
structure GLState where
  depthTest : Bool
  depthFunc : Nat
  depthMask : Bool
  colorMaskRGB : Bool
  colorMaskA : Bool
  blend : Bool
  blendSrc : Nat
  blendDst : Nat
  blendEquation : Nat
  stencilTest : Bool
  alphaTest : Bool
  alphaFunc : Nat
  alphaRef : ℚ
  scissorTest : Bool
  cullFace : Bool
  cullFaceMode : Nat
  colorLogicOp : Bool
  logicOp : Nat
  shadeModel : Nat
  polygonMode : Nat
  polygonOffsetFill : Bool
  framebufferSRGB : Bool
  drawBuffer : Nat
  readBuffer : Nat
  drawBuffers : List Nat
  framebufferDrawBuffers : List (Nat × List Nat)
  drawFramebufferBinding : Option Nat
  readFramebufferBinding : Option Nat
  materialShininess : ℚ
  materialSpecular : Color4
deriving DecidableEq

/-- The members of RenderDevice that the state cache reads or writes. -/
structure Device where
  caps : GLCaps
  width : Int
  height : Int
  initialProjection : Matrix4
  m_numTextureUnits : Nat
  m_numTextureCoords : Nat
  m_numTextures : Nat
  m_inPrimitive : Bool
  m_state : RenderState
  m_stateStack : List RenderState
  m_stats : Stats
  currentlyBoundTextures : List Nat
  gl : GLState
deriving DecidableEq

/-! ## The application loop `GApp` (`GApp.cpp`, `GApp.h`) -/

namespace GApp

/-- The enumerator REAL_TIME of `GApp.h`. -/
def REAL_TIME : ℚ := -100

/-- The enumerator MATCH_REAL_TIME_TARGET of `GApp.h`. -/
def MATCH_REAL_TIME_TARGET : ℚ := -200

/-- The class GApp::DebugShape, as far as the loop reads it: `shape` stands
for the shape, colours and frame of the entry. -/
structure DebugShape where
  shape : Nat
  id : Int
  endTime : ℚ
deriving DecidableEq

/-- The class GApp::DebugLabel, as far as the loop reads it: `text` stands
for the text, position and layout of the entry. -/
structure DebugLabel where
  text : Nat
  id : Int
  endTime : ℚ
deriving DecidableEq

/-- The members of GApp that the simulation block and the clean-up loops of
oneFrame read or write. -/
structure App where
  m_now : ℚ
  m_lastTime : ℚ
  m_wallClockTargetDuration : ℚ
  m_simTimeStep : ℚ
  m_simTimeScale : ℚ
  m_previousSimTimeStep : ℚ
  m_previousRealTimeStep : ℚ
  m_realTime : ℚ
  m_simTime : ℚ
  m_lastDebugID : Int
  debugShapeArray : List DebugShape
  debugLabelArray : List DebugLabel
deriving DecidableEq

/-- The accessor realTime(). -/
def realTime (a : App) : ℚ := a.m_realTime

/-- The accessor simTime(). -/
def simTime (a : App) : ℚ := a.m_simTime

/-- The accessor realTimeTargetDuration(). -/
def realTimeTargetDuration (a : App) : ℚ := a.m_wallClockTargetDuration

/-- The accessor simulationTimeScale(). -/
def simulationTimeScale (a : App) : ℚ := a.m_simTimeScale

/-- GApp::setFrameDuration. -/
def setFrameDuration (realTimeTargetDuration simulationStepDuration : ℚ) (a : App) : App :=
  { a with m_wallClockTargetDuration := realTimeTargetDuration,
           m_simTimeStep := simulationStepDuration }

/-- GApp::setSimulationTimeScale. -/
def setSimulationTimeScale (s : ℚ) (a : App) : App := { a with m_simTimeScale := s }

/-- GApp::setRealTime. -/
def setRealTime (r : ℚ) (a : App) : App := { a with m_realTime := r }

/-- GApp::setSimTime. -/
def setSimTime (s : ℚ) (a : App) : App := { a with m_simTime := s }

/-- A call of one of the two simulation callbacks that take their time steps
by value, with the arguments handed to it. -/
inductive SimulationCall where
  | onSimulation (rdt sdt idt : ℚ)
  | onAfterSimulation (rdt sdt idt : ℚ)
deriving DecidableEq

/-- The virtual function onBeforeSimulation as an application may override
it: it receives the three time steps by reference and returns them as it
leaves them. -/
abbrev BeforeSimulation := ℚ × ℚ × ℚ → ℚ × ℚ × ℚ

/-- GApp::onBeforeSimulation, the default implementation: it leaves its
arguments alone. -/
def onBeforeSimulation : BeforeSimulation := fun t => t

/-- The values of `rdt`, `sdt` and `idt` that the simulation block of
GApp::oneFrame computes for the measured step `timeStep`, before it calls
onBeforeSimulation. -/
def timeSteps (timeStep : ℚ) (a : App) : ℚ × ℚ × ℚ :=
  let rdt := timeStep
  let sdt := a.m_simTimeStep
  let sdt :=
    if sdt = MATCH_REAL_TIME_TARGET then a.m_wallClockTargetDuration
    else if sdt = REAL_TIME then timeStep
    else sdt
  let sdt := sdt * a.m_simTimeScale
  let idt := a.m_wallClockTargetDuration
  (rdt, sdt, idt)

/-- The simulation block of GApp::oneFrame for the measured step `timeStep`
(`m_now - m_lastTime`).  The result is the application afterwards and the
calls of onSimulation and onAfterSimulation in order. -/
def simulationBlock (before : BeforeSimulation) (timeStep : ℚ) (a : App) :
    App × List SimulationCall :=
  -- onBeforeSimulation(rdt, sdt, idt)
  let (rdt, sdt, idt) := before (timeSteps timeStep a)
  let calls := [SimulationCall.onSimulation rdt sdt idt,
                SimulationCall.onAfterSimulation rdt sdt idt]
  -- m_debugCamera->setFrame(m_cameraManipulator->frame())
  let a := { a with m_previousSimTimeStep := sdt, m_previousRealTimeStep := rdt }
  let a := setRealTime (realTime a + rdt) a
  let a := setSimTime (simTime a + sdt) a
  (a, calls)

/-- One pass of the loop over `repeat` in GApp::oneFrame: `now` is the value
of System::time().  The event, network and AI callbacks between the time
measurement and the simulation block act on objects outside `App`. -/
def simulationStep (before : BeforeSimulation) (now : ℚ) (a : App) :
    App × List SimulationCall :=
  let a := { a with m_lastTime := a.m_now }
  let a := { a with m_now := now }
  let timeStep := a.m_now - a.m_lastTime
  simulationBlock before timeStep a

/-- The function debugDraw for the current application: `now` is the value of
System::time(). -/
def debugDraw (shape : Nat) (displayTime : ℚ) (now : ℚ) (a : App) : App × Int :=
  let endTime := if displayTime = 0 then 0 else now + displayTime
  let s : DebugShape := { shape := shape, id := a.m_lastDebugID, endTime := endTime }
  ({ a with debugShapeArray := a.debugShapeArray ++ [s],
            m_lastDebugID := a.m_lastDebugID + 1 }, s.id)

/-- The member Array::fastRemove of the library: the last element is copied
to `index` and the array shrinks by one. -/
def fastRemove {α : Type} (l : List α) (index : Nat) : List α :=
  match l.getLast? with
  | none => l
  | some x => (l.set index x).dropLast

/-- The loop `for (int i = ..; i < array.size(); ++i)` that removes the
expired entries, continued at index `i`: after `fastRemove(i); --i` the
increment of the loop leaves `i` where it is. -/
def removeExpiredFrom {α : Type} (endTime : α → ℚ) (now : ℚ) (array : List α) (i : Nat) :
    List α :=
  if h : i < array.length then
    if endTime array[i] ≤ now then
      removeExpiredFrom endTime now (fastRemove array i) i
    else
      removeExpiredFrom endTime now array (i + 1)
  else array
termination_by array.length - i
decreasing_by
  all_goals simp_wf
  · have hl : (fastRemove array i).length = array.length - 1 := by
      unfold fastRemove
      cases hx : array.getLast? with
      | none =>
        rw [List.getLast?_eq_none_iff] at hx
        rw [hx] at h
        exact absurd h (Nat.not_lt_zero _)
      | some x => simp
    omega
  · omega

/-- The two clean-up loops at the end of GApp::oneFrame. -/
def removeExpired (a : App) : App :=
  let a := { a with debugShapeArray :=
    removeExpiredFrom DebugShape.endTime a.m_now a.debugShapeArray 0 }
  { a with debugLabelArray :=
    removeExpiredFrom DebugLabel.endTime a.m_now a.debugLabelArray 0 }

/-- An application that runs at 60 frames per second with the simulation step
set to MATCH_REAL_TIME_TARGET and the time scale 1, used as a test input. -/
def testApp : App :=
  { m_now := 1000,
    m_lastTime := 1000,
    m_wallClockTargetDuration := mkRat 1 60,
    m_simTimeStep := MATCH_REAL_TIME_TARGET,
    m_simTimeScale := 1,
    m_previousSimTimeStep := 0,
    m_previousRealTimeStep := 0,
    m_realTime := 0,
    m_simTime := 0,
    m_lastDebugID := 0,
    debugShapeArray := [],
    debugLabelArray := [] }

/-- An override of onBeforeSimulation that doubles `rdt` and `sdt`, used as a
test input. -/
def doubleSteps : BeforeSimulation := fun t => (2 * t.1, 2 * t.2.1, t.2.2)

end GApp

namespace RenderDevice

/-! ### Statistics helpers (`RenderDevice.h`) -/

def majStateChange (inc : Nat) (d : Device) : Device :=
  { d with m_stats := { d.m_stats with
      majorStateChanges := wrap32 (d.m_stats.majorStateChanges + inc) } }

def minStateChange (inc : Nat) (d : Device) : Device :=
  { d with m_stats := { d.m_stats with
      minorStateChanges := wrap32 (d.m_stats.minorStateChanges + inc) } }

def majGLStateChange (inc : Nat) (d : Device) : Device :=
  { d with m_stats := { d.m_stats with
      majorOpenGLStateChanges := wrap32 (d.m_stats.majorOpenGLStateChanges + inc) } }

def minGLStateChange (inc : Nat) (d : Device) : Device :=
  { d with m_stats := { d.m_stats with
      minorOpenGLStateChanges := wrap32 (d.m_stats.minorOpenGLStateChanges + inc) } }

/-- The accessor invertY(). -/
def invertY (d : Device) : Bool := d.m_state.matrices.invertY

/-- Applies `f` to the cached state `m_state`. -/
def withState (f : RenderState → RenderState) (d : Device) : Device :=
  { d with m_state := f d.m_state }

/-- Applies `f` to the native OpenGL state: the effect of a native call. -/
def withGL (f : GLState → GLState) (d : Device) : Device :=
  { d with gl := f d.gl }

/-! ### Draw and read buffer synchronisation -/

/-- RenderDevice::syncDrawBuffer.  The native call glDrawBuffersARB sets the
draw-buffer selection of the framebuffer object bound for drawing, which is
`fb` after `bind`. -/
def syncDrawBuffer (_alreadyBound : Bool) (d : Device) : Option Device :=
  match d.m_state.drawFramebuffer with
  | none => some d
  | some fb =>
    -- m_state.drawFramebuffer->bind(alreadyBound, Framebuffer::MODE_DRAW)
    let d := withGL (fun g => { g with drawFramebufferBinding := some fb.id }) d
    if fb.bindNeedsSync then
      if 0 < fb.openGLDrawArray.length then
        if fb.openGLDrawArray.length ≤ d.caps.maxDrawBuffers then
          -- glDrawBuffersARB(array.size(), array.getCArray())
          some (withGL (fun g => { g with
            drawBuffers := fb.openGLDrawArray,
            framebufferDrawBuffers := (fb.id, fb.openGLDrawArray) :: g.framebufferDrawBuffers }) d)
        else none
      else
        -- glDrawBuffersARB(1, noColorBuffers)
        some (withGL (fun g => { g with
          drawBuffers := [GL_NONE],
          framebufferDrawBuffers := (fb.id, [GL_NONE]) :: g.framebufferDrawBuffers }) d)
    else some d

/-- The static helper toFBOReadBuffer. -/
def toFBOReadBuffer (b : ReadBuffer) (fbo : Framebuffer) : Nat :=
  if b = READ_FRONT ∨ b = READ_BACK ∨ b = READ_FRONT_LEFT ∨ b = READ_FRONT_RIGHT ∨
      b = READ_BACK_LEFT ∨ b = READ_BACK_RIGHT ∨ b = READ_LEFT ∨ b = READ_RIGHT then
    if fbo.has GL_COLOR_ATTACHMENT0 then GL_COLOR_ATTACHMENT0 else GL_NONE
  else
    if fbo.has b then b else GL_NONE

/-- RenderDevice::syncReadBuffer. -/
def syncReadBuffer (_alreadyBound : Bool) (d : Device) : Option Device :=
  match d.m_state.readFramebuffer with
  | none => some d
  | some fb =>
    -- m_state.readFramebuffer->bind(alreadyBound, Framebuffer::MODE_READ)
    let d := withGL (fun g => { g with readFramebufferBinding := some fb.id }) d
    if fb.numAttachments = 1 ∧ fb.has GL_DEPTH_ATTACHMENT then
      some (withGL (fun g => { g with readBuffer := GL_NONE }) d)
    else
      some (withGL (fun g => { g with readBuffer := toFBOReadBuffer d.m_state.readBuffer fb }) d)

/-- RenderDevice::applyWinding. -/
def applyWinding (d : Device) (f : Nat) : Nat :=
  if ¬ invertY d then
    if f = GL_FRONT then GL_BACK
    else if f = GL_BACK then GL_FRONT
    else f
  else f

/-! ### Setters, in the order of `RenderDevice.cpp` -/

/-- RenderDevice::setGlossyCoefficient(const Color3&). -/
def setGlossyCoefficient (c : Color3) (d : Device) : Option Device :=
  let d := minStateChange 1 d
  if d.m_state.specular ≠ c then
    let d := withState (fun s => { s with specular := c }) d
    -- glMaterialfv(GL_FRONT_AND_BACK, GL_SPECULAR, spec), spec = (c[0], c[1], c[2], 1)
    let d := withGL (fun g => { g with materialSpecular := ⟨c.r, c.g, c.b, 1⟩ }) d
    some (minGLStateChange 1 d)
  else some d

/-- RenderDevice::setShininess. -/
def setShininess (s : ℚ) (d : Device) : Option Device :=
  let d := minStateChange 1 d
  if d.m_state.shininess ≠ s then
    let d := withState (fun st => { st with shininess := s }) d
    -- glMaterialf(GL_FRONT_AND_BACK, GL_SHININESS, clamp(s, 0.0f, 128.0f))
    let d := withGL (fun g => { g with materialShininess := max 0 (min s 128) }) d
    some (minGLStateChange 1 d)
  else some d

/-- RenderDevice::setRenderMode. -/
def setRenderMode (m : RenderMode) (d : Device) : Option Device :=
  let d := minStateChange 1 d
  if m = RenderMode.RENDER_CURRENT then some d
  else if d.m_state.renderMode ≠ m then
    let d := minGLStateChange 1 d
    let d := withState (fun s => { s with renderMode := m }) d
    match m with
    | .RENDER_SOLID => some (withGL (fun g => { g with polygonMode := GL_FILL }) d)
    | .RENDER_WIREFRAME => some (withGL (fun g => { g with polygonMode := GL_LINE }) d)
    | .RENDER_POINTS => some (withGL (fun g => { g with polygonMode := GL_POINT }) d)
    | .RENDER_CURRENT => some d
  else some d

/-- RenderDevice::setDrawBuffer. -/
def setDrawBuffer (b : DrawBuffer) (d : Device) : Option Device :=
  let d := minStateChange 1 d
  if b = DRAW_CURRENT then some d
  else if d.m_state.drawFramebuffer = none ∧ (DRAW_COLOR0 ≤ b ∧ b ≤ DRAW_COLOR15) then
    -- alwaysAssertM: drawing to a color buffer needs an application-created framebuffer
    none
  else if b ≠ d.m_state.drawBuffer then
    let d := minGLStateChange 1 d
    let d := withState (fun s => { s with drawBuffer := b }) d
    if d.m_state.drawFramebuffer = none then
      -- Only update the GL state if there is no framebuffer bound.
      some (withGL (fun g => { g with drawBuffer := b }) d)
    else some d
  else some d

/-- RenderDevice::setReadBuffer. -/
def setReadBuffer (b : ReadBuffer) (d : Device) : Option Device :=
  let d := minStateChange 1 d
  if b = READ_CURRENT then some d
  else if b ≠ d.m_state.readBuffer then
    let d := minGLStateChange 1 d
    let d := withState (fun s => { s with readBuffer := b }) d
    match d.m_state.readFramebuffer with
    | some fb => some (withGL (fun g => { g with readBuffer := toFBOReadBuffer b fb }) d)
    | none => some (withGL (fun g => { g with readBuffer := b }) d)
  else some d

/-- RenderDevice::forceSetCullFace. -/
def forceSetCullFace (f : CullFace) (d : Device) : Device :=
  let d := minGLStateChange 1 d
  let d :=
    if f = CullFace.NONE then
      withGL (fun g => { g with cullFace := false }) d
    else
      withGL (fun g => { g with cullFace := true, cullFaceMode := applyWinding d f.value }) d
  withState (fun s => { s with cullFace := f }) d

/-- RenderDevice::setCullFace. -/
def setCullFace (f : CullFace) (d : Device) : Option Device :=
  let d := minStateChange 1 d
  if f ≠ d.m_state.cullFace ∧ f ≠ CullFace.CURRENT then
    some (forceSetCullFace f d)
  else some d

/-- RenderDevice::setSRGBConversion. -/
def setSRGBConversion (b : Bool) (d : Device) : Option Device :=
  if d.m_inPrimitive then none else
  let d := minStateChange 1 d
  if d.m_state.sRGBConversion ≠ b then
    let d := withState (fun s => { s with sRGBConversion := b }) d
    let d := minGLStateChange 1 d
    some (withGL (fun g => { g with framebufferSRGB := b }) d)
  else some d

/-- RenderDevice::setStencilClearValue. -/
def setStencilClearValue (v : Int) (d : Device) : Option Device :=
  if d.m_inPrimitive then none else
  let d := minStateChange 1 d
  if d.m_state.stencil.stencilClear ≠ v then
    let d := minGLStateChange 1 d
    -- glClearStencil(s)
    some (withState (fun s => { s with stencil := { s.stencil with stencilClear := v } }) d)
  else some d

/-- RenderDevice::setDepthClearValue. -/
def setDepthClearValue (v : ℚ) (d : Device) : Option Device :=
  let d := minStateChange 1 d
  if d.m_inPrimitive then none else
  if d.m_state.depthClear ≠ v then
    let d := minGLStateChange 1 d
    -- glClearDepth(d)
    some (withState (fun s => { s with depthClear := v }) d)
  else some d

/-- RenderDevice::setColorClearValue. -/
def setColorClearValue (c : Color4) (d : Device) : Option Device :=
  if d.m_inPrimitive then none else
  let d := minStateChange 1 d
  if d.m_state.colorClear ≠ c then
    let d := minGLStateChange 1 d
    -- glClearColor(c.r, c.g, c.b, c.a)
    some (withState (fun s => { s with colorClear := c }) d)
  else some d

/-- RenderDevice::forceSetViewport. -/
def forceSetViewport (v : Rect2D) (d : Device) : Device :=
  -- _glViewport(x, y, v.width(), v.height()), y flipped when invertY()
  let d := withState (fun s => { s with viewport := v }) d
  minGLStateChange 1 d

/-- RenderDevice::setViewport. -/
def setViewport (v : Rect2D) (d : Device) : Option Device :=
  let d := minStateChange 1 d
  if d.m_state.viewport ≠ v then some (forceSetViewport v d) else some d

/-- The test `clip.area() == 0` of setClip2D. -/
def Rect2D.areaIsZero : Rect2D → Bool
  | .xywh _ _ w h => decide (w = 0 ∨ h = 0)
  | .inf => false
  | .empty => false

/-- The block of setClip2D guarded by `clip.area() == 0`. -/
def clipZeroArea (clip : Rect2D) (d : Device) : Device :=
  if Rect2D.areaIsZero clip then
    -- glScissor(0,0,0,0); glEnable(GL_SCISSOR_TEST)
    withGL (fun g => { g with scissorTest := true }) d
  else d

/-- RenderDevice::setClip2D. -/
def setClip2D (clip : Rect2D) (d : Device) : Option Device :=
  let d := minStateChange 1 d
  if clip.isFinite ∨ clip.isEmpty then
    let d := withState (fun s => { s with clip2D := clip }) d
    -- set the new clip Rect2D
    let d := minGLStateChange 1 d
    -- glScissor(clipX0, y, clipX1 - clipX0, clipY1 - clipY0)
    let d := clipZeroArea clip d
    -- enable scissor test itself if not just adjusting the clip region
    if ¬ d.m_state.useClip2D then
      let d := withGL (fun g => { g with scissorTest := true }) d
      let d := minStateChange 1 d
      let d := minGLStateChange 1 d
      some (withState (fun s => { s with useClip2D := true }) d)
    else some d
  else if d.m_state.useClip2D then
    -- disable scissor test if not already disabled
    let d := minGLStateChange 1 d
    let d := withGL (fun g => { g with scissorTest := false }) d
    some (withState (fun s => { s with useClip2D := false }) d)
  else some d

/-- The accessor clip2D(). -/
def clip2D (d : Device) : Rect2D :=
  if d.m_state.useClip2D then d.m_state.clip2D else d.m_state.viewport

/-- The accessor viewport(). -/
def viewport (d : Device) : Rect2D := d.m_state.viewport

/-- RenderDevice::forceSetProjectionMatrix. -/
def forceSetProjectionMatrix (P : Matrix4) (d : Device) : Device :=
  let d := withState (fun s => { s with matrices :=
    { s.matrices with projectionMatrix := P, changed := true } }) d
  -- glMatrixMode(GL_PROJECTION); glLoadMatrix(invertYMatrix() * P); glMatrixMode(GL_MODELVIEW)
  minGLStateChange 1 d

/-- RenderDevice::setProjectionMatrix(const Matrix4&). -/
def setProjectionMatrix (P : Matrix4) (d : Device) : Option Device :=
  let d := minStateChange 1 d
  if d.m_state.matrices.projectionMatrix ≠ P then some (forceSetProjectionMatrix P d)
  else some d

/-- RenderDevice::setObjectToWorldMatrix. -/
def setObjectToWorldMatrix (cFrame : CoordinateFrame) (d : Device) : Option Device :=
  let d := minStateChange 1 d
  if d.m_inPrimitive then none else
  let d := withState (fun s => { s with matrices :=
    { s.matrices with changed := true, objectToWorldMatrix := cFrame } }) d
  -- glMatrixMode(GL_MODELVIEW); glLoadMatrix(cameraToWorldMatrixInverse * objectToWorldMatrix)
  some (minGLStateChange 1 d)

/-- RenderDevice::setCameraToWorldMatrix. -/
def setCameraToWorldMatrix (cFrame : CoordinateFrame) (d : Device) : Option Device :=
  if d.m_inPrimitive then none else
  let d := majStateChange 1 d
  let d := majGLStateChange 1 d
  -- glMatrixMode(GL_MODELVIEW); glLoadMatrix(cameraToWorldMatrixInverse * objectToWorldMatrix)
  some (withState (fun s => { s with matrices :=
    { s.matrices with changed := true, cameraToWorldMatrix := cFrame,
                      cameraToWorldMatrixInverse := cFrame.inverse } }) d)

/-- RenderDevice::toGLStencilOp; `none` is the failed debugAssert. -/
def toGLStencilOp (d : Device) (op : StencilOp) : Option Nat :=
  if op = STENCILOP_CURRENT then none
  else if op = STENCIL_INCR_WRAP then
    some (if d.caps.supports_GL_EXT_stencil_wrap then GL_INCR_WRAP else GL_INCR)
  else if op = STENCIL_DECR_WRAP then
    some (if d.caps.supports_GL_EXT_stencil_wrap then GL_DECR_WRAP else GL_DECR)
  else some op

/-- RenderDevice::forceSetStencilOp.  The native stencil operations are not
part of `GLState`; the conversions are kept for their assertions. -/
def forceSetStencilOp (frontStencilFail frontZFail frontZPass
    backStencilFail backZFail backZPass : StencilOp) (d : Device) : Option Device :=
  let swap := ¬ invertY d
  let fF := if swap then backStencilFail else frontStencilFail
  let bF := if swap then frontStencilFail else backStencilFail
  let fZF := if swap then backZFail else frontZFail
  let bZF := if swap then frontZFail else backZFail
  let fZP := if swap then backZPass else frontZPass
  let bZP := if swap then frontZPass else backZPass
  if d.caps.supports_GL_EXT_stencil_two_side then
    if (toGLStencilOp d bF).isSome ∧ (toGLStencilOp d bZF).isSome ∧ (toGLStencilOp d bZP).isSome ∧
        (toGLStencilOp d fF).isSome ∧ (toGLStencilOp d fZF).isSome ∧ (toGLStencilOp d fZP).isSome then
      -- glActiveStencilFaceEXT(GL_BACK); glStencilOp(..); glActiveStencilFaceEXT(GL_FRONT); glStencilOp(..)
      some (minGLStateChange 4 d)
    else none
  else if d.caps.supports_GL_ATI_separate_stencil then
    let d := minGLStateChange 2 d
    if (toGLStencilOp d fF).isSome ∧ (toGLStencilOp d fZF).isSome ∧ (toGLStencilOp d fZP).isSome ∧
        (toGLStencilOp d bF).isSome ∧ (toGLStencilOp d bZF).isSome ∧ (toGLStencilOp d bZP).isSome then
      -- glStencilOpSeparateATI(GL_FRONT, ..); glStencilOpSeparateATI(GL_BACK, ..)
      some d
    else none
  else
    if (toGLStencilOp d fF).isSome ∧ (toGLStencilOp d fZF).isSome ∧ (toGLStencilOp d fZP).isSome then
      -- glStencilOp(..)
      some (minGLStateChange 1 d)
    else none

/-- RenderDevice::setReadFramebuffer. -/
def setReadFramebuffer (fbo : Option Framebuffer) (d : Device) : Option Device :=
  if fbo ≠ d.m_state.readFramebuffer then
    let d := majGLStateChange 1 d
    match fbo with
    | none =>
      let d := withState (fun s => { s with readFramebuffer := none }) d
      -- Framebuffer::bindWindowBuffer(Framebuffer::MODE_READ)
      let d := withGL (fun g => { g with readFramebufferBinding := none }) d
      -- Restore the buffer that was in use before the framebuffer was attached
      some (withGL (fun g => { g with readBuffer := d.m_state.readBuffer }) d)
    | some fb =>
      if d.caps.supports_GL_ARB_framebuffer_object ∨ d.caps.supports_GL_EXT_framebuffer_object then
        let d := withState (fun s => { s with readFramebuffer := some fb }) d
        syncReadBuffer false d
      else none
  else some d

/-- The tail of setDrawFramebuffer: the Y-inversion flag follows the draw
framebuffer, and the state that depends on it is re-emitted when it flips. -/
def updateInvertY (d : Device) : Option Device :=
  let newInvertY : Bool := d.m_state.drawFramebuffer.isNone
  if d.m_state.matrices.invertY ≠ newInvertY then
    let d := withState (fun s => { s with matrices := { s.matrices with invertY := newInvertY } }) d
    -- Force projection matrix change
    let d := forceSetProjectionMatrix d.m_state.matrices.projectionMatrix d
    let d := forceSetViewport (viewport d) d
    let d := forceSetCullFace d.m_state.cullFace d
    forceSetStencilOp
      d.m_state.stencil.frontStencilFail d.m_state.stencil.frontStencilZFail
      d.m_state.stencil.frontStencilZPass d.m_state.stencil.backStencilFail
      d.m_state.stencil.backStencilZFail d.m_state.stencil.backStencilZPass d
  else some d

/-- RenderDevice::setDrawFramebuffer. -/
def setDrawFramebuffer (fbo : Option Framebuffer) (d : Device) : Option Device :=
  if fbo ≠ d.m_state.drawFramebuffer then
    let d := majGLStateChange 1 d
    match fbo with
    | none =>
      let d := withState (fun s => { s with drawFramebuffer := none }) d
      -- Framebuffer::bindWindowBuffer(Framebuffer::MODE_DRAW)
      let d := withGL (fun g => { g with drawFramebufferBinding := none }) d
      -- Restore the buffer that was in use before the framebuffer was attached
      updateInvertY (withGL (fun g => { g with drawBuffer := d.m_state.drawBuffer }) d)
    | some fb =>
      if d.caps.supports_GL_ARB_framebuffer_object ∨ d.caps.supports_GL_EXT_framebuffer_object then
        let d := withState (fun s => { s with drawFramebuffer := some fb }) d
        match syncDrawBuffer false d with
        | none => none
        | some d => updateInvertY d
      else none
  else some d

/-- RenderDevice::setFramebuffer. -/
def setFramebuffer (fbo : Option Framebuffer) (d : Device) : Option Device :=
  match setDrawFramebuffer fbo d with
  | none => none
  | some d => setReadFramebuffer fbo d

/-- RenderDevice::setDepthTest. -/
def setDepthTest (test : DepthTest) (d : Device) : Option Device :=
  if d.m_inPrimitive then none else
  let d := minStateChange 1 d
  -- On ALWAYS_PASS we must force a change because under OpenGL
  -- depthWrite and depth test are dependent.
  if test = DEPTH_CURRENT ∧ test ≠ DEPTH_ALWAYS_PASS then some d
  else if d.m_state.depthTest ≠ test ∨ test = DEPTH_ALWAYS_PASS then
    let d := minGLStateChange 1 d
    if test = DEPTH_ALWAYS_PASS ∧ d.m_state.depthWrite = false then
      let d := withGL (fun g => { g with depthTest := false }) d
      some (withState (fun s => { s with depthTest := test }) d)
    else
      let d := minStateChange 1 d
      let d := minGLStateChange 1 d
      let d := withGL (fun g => { g with depthTest := true, depthFunc := test }) d
      some (withState (fun s => { s with depthTest := test }) d)
  else some d

/-- RenderDevice::_setStencilTest.  The native stencil function is not part
of `GLState`; the call has no assertion. -/
def _setStencilTest (test : StencilTest) (_reference : Int) (d : Device) : Device :=
  if test = STENCIL_CURRENT then d
  else if d.caps.supports_GL_EXT_stencil_two_side then
    minGLStateChange 4 d
  else if d.caps.supports_GL_ATI_separate_stencil then
    minGLStateChange 1 d
  else
    minGLStateChange 1 d

/-- RenderDevice::setStencilConstant. -/
def setStencilConstant (reference : Int) (d : Device) : Option Device :=
  let d := minStateChange 1 d
  if d.m_inPrimitive then none else
  if d.m_state.stencil.stencilReference ≠ reference then
    let d := withState (fun s => { s with stencil := { s.stencil with stencilReference := reference } }) d
    let d := _setStencilTest d.m_state.stencil.stencilTest reference d
    some (minStateChange 1 d)
  else some d

/-- RenderDevice::setStencilTest. -/
def setStencilTest (test : StencilTest) (d : Device) : Option Device :=
  let d := minStateChange 1 d
  if test = STENCIL_CURRENT then some d
  else if d.m_inPrimitive then none
  else if d.m_state.stencil.stencilTest ≠ test then
    let d := withGL (fun g => { g with stencilTest := true }) d
    if test = STENCIL_ALWAYS_PASS then
      -- Can't actually disable if the stencil op is using the test as well
      if d.m_state.stencil.frontStencilFail = STENCIL_KEEP ∧
          d.m_state.stencil.frontStencilZFail = STENCIL_KEEP ∧
          d.m_state.stencil.frontStencilZPass = STENCIL_KEEP ∧
          (¬ d.caps.supports_GL_EXT_stencil_two_side ∨
            (d.m_state.stencil.backStencilFail = STENCIL_KEEP ∧
             d.m_state.stencil.backStencilZFail = STENCIL_KEEP ∧
             d.m_state.stencil.backStencilZPass = STENCIL_KEEP)) then
        let d := minGLStateChange 1 d
        let d := withGL (fun g => { g with stencilTest := false }) d
        some (withState (fun s => { s with stencil := { s.stencil with stencilTest := test } }) d)
      else
        some (withState (fun s => { s with stencil := { s.stencil with stencilTest := test } }) d)
    else
      let d := _setStencilTest test d.m_state.stencil.stencilReference d
      some (withState (fun s => { s with stencil := { s.stencil with stencilTest := test } }) d)
  else some d

/-- RenderDevice::setLogicOp. -/
def setLogicOp (op : LogicOp) (d : Device) : Option Device :=
  if d.m_inPrimitive then none else
  let d := minStateChange 1 d
  if op = LOGICOP_CURRENT then some d
  else if d.m_state.logicOp ≠ op then
    let d := minGLStateChange 1 d
    if op = LOGIC_COPY then
      let d := withGL (fun g => { g with colorLogicOp := false }) d
      some (withState (fun s => { s with logicOp := op }) d)
    else
      let d := withGL (fun g => { g with colorLogicOp := true, logicOp := op }) d
      some (withState (fun s => { s with logicOp := op }) d)
  else some d

/-- RenderDevice::setAlphaTest.  `glAlphaFunc` is the effect of the native
call of that name. -/
def setAlphaTest (test : AlphaTest) (reference : ℚ) (d : Device) : Option Device :=
  if d.m_inPrimitive then none else
  let d := minStateChange 1 d
  if test = ALPHA_CURRENT then some d
  else if d.m_state.alphaTest ≠ test ∨ d.m_state.alphaReference ≠ reference then
    let d := minGLStateChange 1 d
    let store := withState (fun s => { s with alphaTest := test, alphaReference := reference })
    let glAlphaFunc := fun (f : Nat) (d : Device) =>
      withGL (fun g => { g with alphaFunc := f, alphaRef := reference }) d
    if test = ALPHA_ALWAYS_PASS then
      some (store (withGL (fun g => { g with alphaTest := false }) d))
    else
      let d := withGL (fun g => { g with alphaTest := true }) d
      if test = ALPHA_LESS then some (store (glAlphaFunc GL_LESS d))
      else if test = ALPHA_LEQUAL then some (store (glAlphaFunc GL_LEQUAL d))
      else if test = ALPHA_GREATER then some (store (glAlphaFunc GL_GREATER d))
      else if test = ALPHA_GEQUAL then some (store (glAlphaFunc GL_GEQUAL d))
      else if test = ALPHA_EQUAL then some (store (glAlphaFunc GL_EQUAL d))
      else if test = ALPHA_NOTEQUAL then some (store (glAlphaFunc GL_NOTEQUAL d))
      else if test = ALPHA_NEVER_PASS then some (store (glAlphaFunc GL_NEVER d))
      else
        -- debugAssertM(false, "Fell through switch")
        none
  else some d

/-- RenderDevice::setStencilOp, the six-argument overload. -/
def setStencilOp (frontStencilFail frontZFail frontZPass
    backStencilFail backZFail backZPass : StencilOp) (d : Device) : Option Device :=
  let d := minStateChange 1 d
  let st := d.m_state.stencil
  let frontStencilFail := if frontStencilFail = STENCILOP_CURRENT then st.frontStencilFail else frontStencilFail
  let frontZFail := if frontZFail = STENCILOP_CURRENT then st.frontStencilZFail else frontZFail
  let frontZPass := if frontZPass = STENCILOP_CURRENT then st.frontStencilZPass else frontZPass
  let backStencilFail := if backStencilFail = STENCILOP_CURRENT then st.backStencilFail else backStencilFail
  let backZFail := if backZFail = STENCILOP_CURRENT then st.backStencilZFail else backZFail
  let backZPass := if backZPass = STENCILOP_CURRENT then st.backStencilZPass else backZPass
  let store := withState (fun s => { s with stencil := { s.stencil with
    frontStencilFail := frontStencilFail,
    frontStencilZFail := frontZFail,
    frontStencilZPass := frontZPass,
    backStencilFail := backStencilFail,
    backStencilZFail := backZFail,
    backStencilZPass := backZPass } })
  if frontStencilFail ≠ st.frontStencilFail ∨
      frontZFail ≠ st.frontStencilZFail ∨
      frontZPass ≠ st.frontStencilZPass ∨
      (d.caps.supports_two_sided_stencil ∧
        (backStencilFail ≠ st.backStencilFail ∨
         backZFail ≠ st.backStencilZFail ∨
         backZPass ≠ st.backStencilZPass)) then
    match forceSetStencilOp frontStencilFail frontZFail frontZPass
        backStencilFail backZFail backZPass d with
    | none => none
    | some d =>
      -- Need to manage the mask as well
      if frontStencilFail = STENCIL_KEEP ∧ frontZPass = STENCIL_KEEP ∧ frontZFail = STENCIL_KEEP ∧
          (¬ d.caps.supports_two_sided_stencil ∨
            (backStencilFail = STENCIL_KEEP ∧ backZPass = STENCIL_KEEP ∧ backZFail = STENCIL_KEEP)) then
        -- Turn off writing.  May need to turn off the stencil test.
        if d.m_state.stencil.stencilTest = STENCIL_ALWAYS_PASS then
          some (store (withGL (fun g => { g with stencilTest := false }) d))
        else some (store d)
      else
        let stencilBits :=
          match d.m_state.drawFramebuffer with
          | none => d.caps.windowStencilBits
          | some fb => fb.stencilBits
        if ¬ (0 < stencilBits) then none
        else if d.m_state.stencil.stencilTest = STENCIL_ALWAYS_PASS then
          -- Test is not already on
          let d := withGL (fun g => { g with stencilTest := true }) d
          some (store (_setStencilTest d.m_state.stencil.stencilTest d.m_state.stencil.stencilReference d))
        else some (store d)
  else some d

/-- The static helper toGLBlendFunc; `none` is the failed debugAssert. -/
def toGLBlendFunc (b : BlendFunc) : Option Nat :=
  if b = BLEND_CURRENT then none else some b

/-- The static helper toGLBlendEq; `none` is a failed debugAssert. -/
def toGLBlendEq (caps : GLCaps) (e : BlendEq) : Option Nat :=
  if e = BLENDEQ_MIN then
    if caps.supports_GL_EXT_blend_minmax then some GL_MIN else none
  else if e = BLENDEQ_MAX then
    if caps.supports_GL_EXT_blend_minmax then some GL_MAX else none
  else if e = BLENDEQ_ADD then some GL_FUNC_ADD
  else if e = BLENDEQ_SUBTRACT then
    if caps.supports_GL_EXT_blend_subtract then some GL_FUNC_SUBTRACT else none
  else if e = BLENDEQ_REVERSE_SUBTRACT then
    if caps.supports_GL_EXT_blend_subtract then some GL_FUNC_REVERSE_SUBTRACT else none
  else none

/-- RenderDevice::setBlendFunc. -/
def setBlendFunc (src dst : BlendFunc) (eq : BlendEq) (d : Device) : Option Device :=
  if d.m_inPrimitive then none else
  let d := minStateChange 1 d
  let src := if src = BLEND_CURRENT then d.m_state.srcBlendFunc else src
  let dst := if dst = BLEND_CURRENT then d.m_state.dstBlendFunc else dst
  let eq := if eq = BLENDEQ_CURRENT then d.m_state.blendEq else eq
  let store := withState (fun s => { s with dstBlendFunc := dst, srcBlendFunc := src, blendEq := eq })
  if d.m_state.dstBlendFunc ≠ dst ∨ d.m_state.srcBlendFunc ≠ src ∨ d.m_state.blendEq ≠ eq then
    let d := minGLStateChange 1 d
    if dst = BLEND_ZERO ∧ src = BLEND_ONE ∧ (eq = BLENDEQ_ADD ∨ eq = BLENDEQ_SUBTRACT) then
      some (store (withGL (fun g => { g with blend := false }) d))
    else
      let d := withGL (fun g => { g with blend := true }) d
      -- glBlendFunc(toGLBlendFunc(src), toGLBlendFunc(dst))
      if src = BLEND_CURRENT ∨ dst = BLEND_CURRENT then none
      else
        let d := withGL (fun g => { g with blendSrc := src, blendDst := dst }) d
        if ¬ (eq = BLENDEQ_ADD ∨ d.caps.supports_GL_EXT_blend_minmax ∨
              d.caps.supports_GL_EXT_blend_subtract) then none
        else if d.caps.supports_GL_EXT_blend_minmax ∧ d.caps.has_glBlendEquationEXT then
          -- glBlendEquationEXT(toGLBlendEq(eq))
          match toGLBlendEq d.caps eq with
          | some e => some (store (withGL (fun g => { g with blendEquation := e }) d))
          | none => none
        else some (store d)
  else some d

/-- RenderDevice::setLineWidth. -/
def setLineWidth (width : ℚ) (d : Device) : Option Device :=
  if d.m_inPrimitive then none else
  let d := minStateChange 1 d
  if d.m_state.lineWidth ≠ width then
    -- glLineWidth(max(m_minLineWidth, width))
    let d := minGLStateChange 1 d
    some (withState (fun s => { s with lineWidth := width }) d)
  else some d

/-- RenderDevice::setPointSize. -/
def setPointSize (width : ℚ) (d : Device) : Option Device :=
  if d.m_inPrimitive then none else
  let d := minStateChange 1 d
  if d.m_state.pointSize ≠ width then
    -- glPointSize(width)
    let d := minGLStateChange 1 d
    some (withState (fun s => { s with pointSize := width }) d)
  else some d

/-- Writes entry `unit` of the array `textureUnits`. -/
def writeTextureUnit (unit : Nat) (tu : RenderState.TextureUnit) (d : Device) : Device :=
  withState (fun s => { s with textureUnits := s.textureUnits.set unit tu }) d

/-- RenderDevice::forceSetTextureMatrix(int, const float*).  An index outside
the array `textureUnits` is undefined behaviour in the source and rejected
here, as in every texture setter below. -/
def forceSetTextureMatrix (unit : Nat) (m : List ℚ) (d : Device) : Option Device :=
  let d := minStateChange 1 d
  let d := minGLStateChange 1 d
  let d := withState (fun s => s.textureUnitModified unit) d
  -- glActiveTextureARB(GL_TEXTURE0_ARB + unit); glMatrixMode(GL_TEXTURE); glLoadMatrixf(tt)
  match d.m_state.textureUnits[unit]? with
  | none => none
  | some tu => some (writeTextureUnit unit { tu with textureMatrix := m } d)

/-- RenderDevice::setTextureMatrix(int, const float*). -/
def setTextureMatrix (unit : Nat) (m : List ℚ) (d : Device) : Option Device :=
  if d.m_inPrimitive then none
  else if ¬ (unit < d.m_numTextureCoords) then none
  else
    match d.m_state.textureUnits[unit]? with
    | none => none
    | some tu => if m ≠ tu.textureMatrix then forceSetTextureMatrix unit m d else some d

/-- RenderDevice::setTextureLODBias. -/
def setTextureLODBias (unit : Nat) (bias : ℚ) (d : Device) : Option Device :=
  let d := minStateChange 1 d
  match d.m_state.textureUnits[unit]? with
  | none => none
  | some tu =>
    if tu.LODBias ≠ bias then
      let d := withState (fun s => s.textureUnitModified unit) d
      let d := writeTextureUnit unit { tu with LODBias := bias } d
      -- glTexEnvf(GL_TEXTURE_FILTER_CONTROL_EXT, GL_TEXTURE_LOD_BIAS_EXT, bias)
      some (minGLStateChange 1 d)
    else some d

/-- RenderDevice::setTextureCombineMode.  The native glTexEnvi call is not
part of `GLState`; every enumerator other than TEX_CURRENT has a case in the
switch. -/
def setTextureCombineMode (unit : Nat) (mode : CombineMode) (d : Device) : Option Device :=
  let d := minStateChange 1 d
  if mode = CombineMode.TEX_CURRENT then some d
  else if ¬ (unit < d.m_numTextureUnits) then none
  else
    match d.m_state.textureUnits[unit]? with
    | none => none
    | some tu =>
      if tu.combineMode ≠ mode then
        let d := minGLStateChange 1 d
        let d := withState (fun s => s.textureUnitModified unit) d
        some (writeTextureUnit unit { tu with combineMode := mode } d)
      else some d

/-- RenderDevice::setPolygonOffset. -/
def setPolygonOffset (offset : ℚ) (d : Device) : Option Device :=
  if d.m_inPrimitive then none else
  let d := minStateChange 1 d
  if d.m_state.polygonOffset ≠ offset then
    let d := minGLStateChange 1 d
    if offset ≠ 0 then
      -- glEnable(GL_POLYGON_OFFSET_FILL / LINE / POINT); glPolygonOffset(offset, sign(offset) * 2.0f)
      let d := withGL (fun g => { g with polygonOffsetFill := true }) d
      some (withState (fun s => { s with polygonOffset := offset }) d)
    else
      -- glDisable(GL_POLYGON_OFFSET_POINT / FILL / LINE)
      let d := withGL (fun g => { g with polygonOffsetFill := false }) d
      some (withState (fun s => { s with polygonOffset := offset }) d)
  else some d

/-- RenderDevice::setNormal. -/
def setNormal (normal : Vector3) (d : Device) : Option Device :=
  let d := withState (fun s => { s with normal := normal }) d
  -- glNormal(normal)
  let d := minStateChange 1 d
  some (minGLStateChange 1 d)

/-- RenderDevice::setTexCoord(int, const Vector4&). -/
def setTexCoord (unit : Nat) (texCoord : Vector4) (d : Device) : Option Device :=
  if ¬ (unit < d.m_numTextureCoords) then none
  else
    match d.m_state.textureUnits[unit]? with
    | none => none
    | some tu =>
      let d := writeTextureUnit unit { tu with texCoord := texCoord } d
      -- glMultiTexCoord(GL_TEXTURE0_ARB + unit, texCoord) or glTexCoord(texCoord)
      if ¬ d.caps.supports_GL_ARB_multitexture ∧ unit ≠ 0 then none
      else
        let d := withState (fun s => s.textureUnitModified unit) d
        let d := minStateChange 1 d
        some (minGLStateChange 1 d)

/-- The assignment `currentlyBoundTextures[unit] = id`. -/
def recordBoundTexture (unit : Nat) (id : Nat) (d : Device) : Device :=
  { d with currentlyBoundTextures := d.currentlyBoundTextures.set unit id }

/-- RenderDevice::setTexture. -/
def setTexture (unit : Nat) (texture : Option Texture) (d : Device) : Option Device :=
  if d.m_inPrimitive then none
  else if ¬ (unit < d.m_numTextures) then none
  else
    match d.m_state.textureImageUnits[unit]? with
    | none => none
    | some tiu =>
      -- early-return if the texture is already set
      if tiu.texture = texture then some d
      else
        let d := majStateChange 1 d
        let d := majGLStateChange 1 d
        let d := withState (fun s => { s with
          textureImageUnits := s.textureImageUnits.set unit { texture := texture } }) d
        let d := withState (fun s => s.textureUnitModified unit) d
        -- glActiveTextureARB(GL_TEXTURE0_ARB + unit); glDisableAllTextures() on fixed-function units
        match texture with
        | some t =>
          -- glBindTexture(target, id) when currentlyBoundTextures[unit] differs; glEnable(target)
          some (recordBoundTexture unit t.openGLID d)
        | none =>
          -- Disabled texture unit
          some (recordBoundTexture unit 0 d)

/-- RenderDevice::setColor(const Color4&). -/
def setColor (color : Color4) (d : Device) : Option Device :=
  -- glColor(m_state.color)
  some (withState (fun s => { s with color := color }) d)

/-- RenderDevice::setAlphaWrite. -/
def setAlphaWrite (a : Bool) (d : Device) : Option Device :=
  if d.m_inPrimitive then none else
  let d := minStateChange 1 d
  if d.m_state.alphaWrite ≠ a then
    let d := minGLStateChange 1 d
    let c := d.m_state.colorWrite
    let d := withState (fun s => { s with alphaWrite := a }) d
    some (withGL (fun g => { g with colorMaskRGB := c, colorMaskA := a }) d)
  else some d

/-- RenderDevice::setColorWrite. -/
def setColorWrite (a : Bool) (d : Device) : Option Device :=
  if d.m_inPrimitive then none else
  let d := minStateChange 1 d
  if d.m_state.colorWrite ≠ a then
    let d := minGLStateChange 1 d
    let d := withState (fun s => { s with colorWrite := a }) d
    some (withGL (fun g => { g with colorMaskRGB := a, colorMaskA := d.m_state.alphaWrite }) d)
  else some d

/-- RenderDevice::setDepthWrite. -/
def setDepthWrite (a : Bool) (d : Device) : Option Device :=
  if d.m_inPrimitive then none else
  let d := minStateChange 1 d
  if d.m_state.depthWrite ≠ a then
    let d := minGLStateChange 1 d
    let d := withGL (fun g => { g with depthMask := a }) d
    let d := withState (fun s => { s with depthWrite := a }) d
    if d.m_state.depthTest = DEPTH_ALWAYS_PASS then
      setDepthTest d.m_state.depthTest d
    else some d
  else some d

/-- RenderDevice::setShadeMode. -/
def setShadeMode (s : ShadeMode) (d : Device) : Option Device :=
  let d := minStateChange 1 d
  if s ≠ d.m_state.shadeMode then
    let d := withState (fun st => { st with shadeMode := s }) d
    let d := withGL (fun g => { g with shadeModel := if s = SHADE_FLAT then GL_FLAT else GL_SMOOTH }) d
    some (minGLStateChange 1 d)
  else some d

/-- RenderDevice::setDepthRange. -/
def setDepthRange (low high : ℚ) (d : Device) : Option Device :=
  let d := majStateChange 1 d
  if d.m_state.lowDepthRange ≠ low ∨ d.m_state.highDepthRange ≠ high then
    -- glDepthRange(low, high)
    let d := withState (fun s => { s with lowDepthRange := low, highDepthRange := high }) d
    some (minGLStateChange 1 d)
  else some d

/-! ### Saving and restoring the state -/

/-- Runs a sequence of statements, each a device call, in order; a failed
assertion in one of them aborts the sequence. -/
def runSteps : List (Device → Option Device) → Device → Option Device
  | [], d => some d
  | f :: fs, d => (f d).bind (runSteps fs)

/-- First block of the body of the texture-unit loop of setState, for the
index `u`: the texture image unit. -/
def restoreTextureImageUnit (newState : RenderState) (u : Nat) (d : Device) : Option Device :=
  if u < d.m_numTextures then
    match newState.textureImageUnits[u]?, d.m_state.textureImageUnits[u]? with
    | some n, some c => if n ≠ c then setTexture u n.texture d else some d
    | _, _ => none
  else some d

/-- The statements guarded by `newState.textureUnits[u] != m_state.textureUnits[u]`;
`n` is `newState.textureUnits[u]`. -/
def revertTextureUnit (n : RenderState.TextureUnit) (u : Nat) : List (Device → Option Device) :=
  [ -- Only revert valid texture units
    fun d =>
      if u < d.m_numTextureUnits then
        runSteps
          [ setTextureCombineMode u n.combineMode,
            setTextureMatrix u n.textureMatrix,
            setTextureLODBias u n.LODBias ] d
      else some d,
    -- Only revert valid texture coords
    fun d => if u < d.m_numTextureCoords then setTexCoord u n.texCoord d else some d ]

/-- Second block of the body of the texture-unit loop of setState, for the
index `u`: the fixed-function unit. -/
def restoreFixedUnit (newState : RenderState) (u : Nat) (d : Device) : Option Device :=
  if u < MAX_TRACKED_TEXTURE_UNITS then
    match newState.textureUnits[u]?, d.m_state.textureUnits[u]? with
    | some n, some c => if n ≠ c then runSteps (revertTextureUnit n u) d else some d
    | _, _ => none
  else some d

/-- The body of the texture-unit loop of setState, for the index `u`. -/
def restoreTextureUnit (newState : RenderState) (u : Nat) (d : Device) : Option Device :=
  runSteps [restoreTextureImageUnit newState u, restoreFixedUnit newState u] d

/-- The loop `for (int u = ...; u >= 0; --u)` of setState, run for the indices
`n - 1` down to `0`. -/
def restoreTextureUnits (newState : RenderState) : Nat → Device → Option Device
  | 0, d => some d
  | n + 1, d => runSteps [restoreTextureUnit newState n, restoreTextureUnits newState n] d

/-- First statement of setState: the draw framebuffer. -/
def restoreDrawFramebuffer (newState : RenderState) (d : Device) : Option Device :=
  -- Set framebuffer first, since it can affect the viewport
  if d.m_state.drawFramebuffer ≠ newState.drawFramebuffer then
    match setDrawFramebuffer newState.drawFramebuffer d with
    | none => none
    | some d =>
      -- Intentionally corrupt the viewport, forcing renderdevice to reset it below.
      some (withState (fun s => { s with viewport := Rect2D.xywh (-1) (-1) (-1) (-1) }) d)
  else some d

/-- Statement of setState for the read framebuffer (it occurs twice). -/
def restoreReadFramebuffer (newState : RenderState) (d : Device) : Option Device :=
  if d.m_state.readFramebuffer ≠ newState.readFramebuffer then
    setReadFramebuffer newState.readFramebuffer d
  else some d

/-- Statement of setState for the 2D clip. -/
def restoreClip2D (newState : RenderState) (d : Device) : Option Device :=
  if newState.useClip2D then setClip2D newState.clip2D d else setClip2D Rect2D.inf d

/-- Statement of setState for the stencil block. -/
def restoreStencil (newState : RenderState) (d : Device) : Option Device :=
  if newState.stencil ≠ d.m_state.stencil then
    runSteps
      [ setStencilConstant newState.stencil.stencilReference,
        setStencilTest newState.stencil.stencilTest,
        setStencilOp
          newState.stencil.frontStencilFail newState.stencil.frontStencilZFail
          newState.stencil.frontStencilZPass newState.stencil.backStencilFail
          newState.stencil.backStencilZFail newState.stencil.backStencilZPass,
        setStencilClearValue newState.stencil.stencilClear ] d
  else some d

/-- Statement of setState: the loop over the texture units, from
`m_state.highestTextureUnitThatChanged` down to zero. -/
def restoreChangedTextureUnits (newState : RenderState) (d : Device) : Option Device :=
  restoreTextureUnits newState (d.m_state.highestTextureUnitThatChanged + 1).toNat d

/-- Statement of setState for the matrices. -/
def restoreMatrices (newState : RenderState) (d : Device) : Option Device :=
  if d.m_state.matrices.changed then
    runSteps
      [ fun d =>
          if newState.matrices.cameraToWorldMatrix ≠ d.m_state.matrices.cameraToWorldMatrix then
            setCameraToWorldMatrix newState.matrices.cameraToWorldMatrix d
          else some d,
        fun d =>
          if newState.matrices.objectToWorldMatrix ≠ d.m_state.matrices.objectToWorldMatrix then
            setObjectToWorldMatrix newState.matrices.objectToWorldMatrix d
          else some d,
        setProjectionMatrix newState.matrices.projectionMatrix ] d
  else some d

/-- Last statements of setState: adopt the popped state's deltas relative the
state that it replaced. -/
def adoptDeltas (newState : RenderState) (d : Device) : Option Device :=
  some (withState (fun s => { s with
    highestTextureUnitThatChanged := newState.highestTextureUnitThatChanged,
    matrices := { s.matrices with changed := newState.matrices.changed } }) d)

/-- The statements of RenderDevice::setState, in order. -/
def setStateSteps (newState : RenderState) : List (Device → Option Device) :=
  [ restoreDrawFramebuffer newState,
    restoreReadFramebuffer newState,
    restoreReadFramebuffer newState,
    setViewport newState.viewport,
    restoreClip2D newState,
    setDepthWrite newState.depthWrite,
    setColorWrite newState.colorWrite,
    setAlphaWrite newState.alphaWrite,
    setDrawBuffer newState.drawBuffer,
    setReadBuffer newState.readBuffer,
    setShadeMode newState.shadeMode,
    setDepthTest newState.depthTest,
    restoreStencil newState,
    setDepthClearValue newState.depthClear,
    setColorClearValue newState.colorClear,
    setAlphaTest newState.alphaTest newState.alphaReference,
    setBlendFunc newState.srcBlendFunc newState.dstBlendFunc newState.blendEq,
    setRenderMode newState.renderMode,
    setPolygonOffset newState.polygonOffset,
    setLineWidth newState.lineWidth,
    setPointSize newState.pointSize,
    setGlossyCoefficient newState.specular,
    setShininess newState.shininess,
    setColor newState.color,
    setNormal newState.normal,
    restoreChangedTextureUnits newState,
    setCullFace newState.cullFace,
    setSRGBConversion newState.sRGBConversion,
    setDepthRange newState.lowDepthRange newState.highDepthRange,
    restoreMatrices newState,
    adoptDeltas newState ]

/-- RenderDevice::setState. -/
def setState (newState : RenderState) (d : Device) : Option Device :=
  runSteps (setStateSteps newState) d

/-- RenderDevice::pushState(). -/
def pushState (d : Device) : Option Device :=
  if d.m_inPrimitive then none else
  -- glPushAttrib(GL_TEXTURE_BIT)
  let d := { d with m_stateStack := d.m_stateStack ++ [d.m_state] }
  -- Record that the lights and matrices are unchanged since the previous state.
  let d := withState (fun s => { s with
    matrices := { s.matrices with changed := false },
    highestTextureUnitThatChanged := -1 }) d
  some { d with m_stats := { d.m_stats with pushStates := wrap32 (d.m_stats.pushStates + 1) } }

/-- RenderDevice::popState(). -/
def popState (d : Device) : Option Device :=
  if d.m_inPrimitive then none else
  match d.m_stateStack.getLast? with
  | none => none
  | some top =>
    match setState top d with
    | none => none
    | some d =>
      -- glPopAttrib()
      some { d with m_stateStack := d.m_stateStack.dropLast }

/-- RenderDevice::pushState(const shared_ptr<Framebuffer>&). -/
def pushStateFramebuffer (fb : Option Framebuffer) (d : Device) : Option Device :=
  match pushState d with
  | none => none
  | some d =>
    match fb with
    | some f =>
      runSteps
        [ setFramebuffer (some f),
          -- When we change framebuffers, we almost certainly don't want to use the old clipping region
          setClip2D Rect2D.inf,
          setViewport f.rect2DBounds ] d
    | none => some d

/-- The native calls of resetState that act on `GLState`, in order. -/
def resetStateGL (g : GLState) : GLState :=
  -- _glViewport(..); glDepthMask(GL_TRUE); glColorMask(1,1,1,1)
  let g := { g with depthMask := true, colorMaskRGB := true, colorMaskA := true }
  -- glStencilMask; glDisable(GL_STENCIL_TEST); glStencilOp; glStencilFunc; glDisable(GL_ALPHA_TEST)
  let g := { g with stencilTest := false, alphaTest := false }
  -- glLogicOp(GL_COPY)
  let g := { g with logicOp := GL_COPY }
  -- glDepthFunc(GL_LEQUAL); glEnable(GL_DEPTH_TEST); glDisable(GL_SCISSOR_TEST)
  let g := { g with depthFunc := GL_LEQUAL, depthTest := true, scissorTest := false }
  -- glDisable(GL_BLEND); glDisable(GL_POLYGON_OFFSET_FILL); glLineWidth(1); glPointSize(1)
  let g := { g with blend := false, polygonOffsetFill := false }
  -- glDisable(GL_LIGHTING); glDrawBuffer(GL_BACK); glReadBuffer(GL_BACK)
  let g := { g with drawBuffer := GL_BACK, readBuffer := GL_BACK }
  -- glColor4d(1, 1, 1, 1); glNormal3d(0, 0, 0); glPolygonMode(GL_FRONT_AND_BACK, GL_FILL)
  { g with polygonMode := GL_FILL }

/-- The native calls of resetState after the two material setters. -/
def resetStateGLTail (g : GLState) : GLState :=
  -- glMatrixMode(GL_MODELVIEW); glLoadIdentity(); glShadeModel(GL_FLAT)
  let g := { g with shadeModel := GL_FLAT }
  -- glClearStencil(0); glClearDepth(1); glClearColor(0,0,0,1); glLoadMatrix(projectionMatrix)
  -- glEnable(GL_CULL_FACE); glCullFace(GL_BACK); glDisable(GL_FRAMEBUFFER_SRGB); glDepthRange(0, 1)
  -- glMultiTexCoord4fvARB for every texture coordinate; glActiveTextureARB(GL_TEXTURE0_ARB)
  { g with cullFace := true, cullFaceMode := GL_BACK, framebufferSRGB := false }

/-- The index `iMax(MAX_TRACKED_TEXTURE_UNITS, MAX_TRACKED_TEXTURE_IMAGE_UNITS) - 1`. -/
def highestTrackedUnit : Int :=
  max (MAX_TRACKED_TEXTURE_UNITS : Int) (MAX_TRACKED_TEXTURE_IMAGE_UNITS : Int) - 1

/-- RenderDevice::resetState. -/
def resetState (d : Device) : Option Device :=
  let d := withState
    (fun _ => RenderState.init d.width d.height highestTrackedUnit d.initialProjection) d
  let d := withGL resetStateGL d
  runSteps
    [ setShininess d.m_state.shininess,
      setGlossyCoefficient d.m_state.specular,
      fun d => some (withGL resetStateGLTail d) ] d

/-! ### Texture unit reset, 2D mode, primitives and clearing -/

/-- RenderDevice::resetTextureUnit.  The copy `newState` is taken before the
two array entries of `m_state` are overwritten.  An index outside the tracked
arrays is undefined behaviour in the source and rejected here. -/
def resetTextureUnit (unit : Nat) (d : Device) : Option Device :=
  if ¬ (unit < d.m_numTextureUnits) then none
  else if ¬ (unit < d.m_state.textureUnits.length ∧
      unit < d.m_state.textureImageUnits.length) then none
  else
    let newState := d.m_state
    let d := writeTextureUnit unit RenderState.TextureUnit.default d
    let d := withState (fun s => { s with
      textureImageUnits := s.textureImageUnits.set unit RenderState.TextureImageUnit.default }) d
    let d := withState (fun s => s.textureUnitModified unit) d
    setState newState d

/-- RenderDevice::push2D(const shared_ptr<Framebuffer>&, const Rect2D&).  `P`
is the value of `Matrix4::orthogonalProjection` for the viewport, a library
computation that is not among the sources. -/
def push2D (fb : Option Framebuffer) (viewport : Rect2D) (P : Matrix4) (d : Device) :
    Option Device :=
  runSteps
    [ pushStateFramebuffer fb,
      setDepthWrite false,
      setDepthTest DEPTH_ALWAYS_PASS,
      setCullFace CullFace.NONE,
      setViewport viewport,
      setObjectToWorldMatrix CoordinateFrame.identity,
      setCameraToWorldMatrix CoordinateFrame.identity,
      setProjectionMatrix P,
      -- Workaround for a bug where setting the draw buffer alone is not enough
      setFramebuffer fb ] d

/-- RenderDevice::pop2D. -/
def pop2D (d : Device) : Option Device := popState d

/-- RenderDevice::setInvertY (`RenderDevice.h`). -/
def setInvertY (i : Bool) (d : Device) : Option Device :=
  let d := withState (fun s => { s with matrices := { s.matrices with invertY := i } }) d
  some (forceSetCullFace d.m_state.cullFace d)

/-- RenderDevice::beforePrimitive.  The flag `m_inRawOpenGL` is not a member
of `Device`: no beginOpenGL block is open. -/
def beforePrimitive (d : Device) : Option Device :=
  runSteps [syncDrawBuffer true, syncReadBuffer true] d

/-- The statements of RenderDevice::clear that follow the two synchronisation
calls and the completeness assertion. -/
def clearBuffers (clearColor clearDepth clearStencil : Bool) (d : Device) : Option Device :=
  let d := majStateChange 1 d
  let d := majGLStateChange 1 d
  let oldColorWrite := d.m_state.colorWrite
  match (if clearColor then setColorWrite true d else some d) with
  | none => none
  | some d =>
    let oldDepthWrite := d.m_state.depthWrite
    match (if clearDepth then setDepthWrite true d else some d) with
    | none => none
    | some d =>
      let d := if clearStencil then minStateChange 1 (minGLStateChange 1 d) else d
      -- glClear(mask)
      let d := minGLStateChange 1 d
      let d := minStateChange 1 d
      runSteps [setColorWrite oldColorWrite, setDepthWrite oldDepthWrite] d

/-- RenderDevice::clear.  `complete` is the answer of `checkDrawFramebuffer`,
which asks the driver whether the bound framebuffer is complete. -/
def clear (clearColor clearDepth clearStencil : Bool) (complete : Bool) (d : Device) :
    Option Device :=
  if d.m_inPrimitive then none
  else
    runSteps
      [ syncDrawBuffer true,
        syncReadBuffer true,
        -- debugAssertM(currentDrawFramebufferComplete(why), why)
        fun d => if d.m_state.drawFramebuffer = none ∨ complete then some d else none,
        clearBuffers clearColor clearDepth clearStencil ] d

/-! ### Primitive counting and the texture matrix accessor -/

/-- The enumerators of the library enumeration PrimitiveType that
countTriangles has a case for. -/
inductive PrimitiveType where
  | POINTS
  | LINES
  | LINE_STRIP
  | TRIANGLES
  | TRIANGLE_FAN
  | QUADS
  | QUAD_STRIP
  | TRIANGLE_STRIP
deriving DecidableEq, Repr

/-- The `int` expression that countTriangles adds for each primitive; `/` on
`int` truncates toward zero. -/
def triangleIncrement (primitive : PrimitiveType) (numVertices : Int) : Int :=
  match primitive with
  | .LINES => Int.tdiv numVertices 2
  | .LINE_STRIP => numVertices - 1
  | .TRIANGLES => Int.tdiv numVertices 3
  | .TRIANGLE_STRIP => numVertices - 2
  | .TRIANGLE_FAN => numVertices - 2
  | .QUADS => Int.tdiv numVertices 4 * 2
  | .QUAD_STRIP => (Int.tdiv numVertices 2 - 1) * 2
  | .POINTS => numVertices

/-- RenderDevice::countTriangles.  The statement `m_stats.triangles += e` adds
an `int` to a `uint32`: the sum is taken modulo 2^32. -/
def countTriangles (primitive : PrimitiveType) (numVertices : Int) (d : Device) : Device :=
  { d with m_stats := { d.m_stats with
      triangles :=
        (((d.m_stats.triangles : Int) + triangleIncrement primitive numVertices) % 2 ^ 32).toNat } }

/-- RenderDevice::afterPrimitive (its body is empty). -/
def afterPrimitive (d : Device) : Device := d

/-- RenderDevice::sendSequentialIndices. -/
def sendSequentialIndices (primitive : PrimitiveType) (numVertices : Int) (_start : Int)
    (d : Device) : Option Device :=
  match beforePrimitive d with
  | none => none
  | some d =>
    -- glDrawArrays(primitiveToGLenum(primitive), start, numVertices)
    let d := countTriangles primitive numVertices d
    let d := afterPrimitive d
    let d := minStateChange 1 d
    some (minGLStateChange 1 d)

/-- The element `m[r][c]` of a Matrix4. -/
def matrixElement (m : Matrix4) (r c : Nat) : ℚ := m.elt.getD (4 * r + c) 0

/-- RenderDevice::getTextureMatrix.  The constructor of Matrix4 takes its
sixteen arguments row by row. -/
def getTextureMatrix (unit : Nat) (d : Device) : Option Matrix4 :=
  if ¬ (unit < d.m_numTextureCoords) then none
  else
    match d.m_state.textureUnits[unit]? with
    | none => none
    | some tu =>
      let M := fun (i : Nat) => tu.textureMatrix.getD i 0
      some ⟨[M 0, M 4, M 8,  M 12,
             M 1, M 5, M 9,  M 13,
             M 2, M 6, M 10, M 14,
             M 3, M 7, M 11, M 15]⟩

/-- RenderDevice::setTextureMatrix(int, const Matrix4&): the two loops fill
`f[r * 4 + c] = m[r][c]`. -/
def setTextureMatrix4 (unit : Nat) (m : Matrix4) (d : Device) : Option Device :=
  let f := (List.range 4).flatMap (fun r => (List.range 4).map (fun c => matrixElement m r c))
  setTextureMatrix unit f d

/-! ### Frames and buffer swaps -/

/-- The member function Stats::reset, on the integer counters. -/
def Stats.reset (_s : Stats) : Stats :=
  { minorStateChanges := 0,
    minorOpenGLStateChanges := 0,
    majorStateChanges := 0,
    majorOpenGLStateChanges := 0,
    pushStates := 0,
    primitives := 0,
    triangles := 0 }

/-- The device together with the members that beginFrame, endFrame,
swapBuffers and setSwapBuffersAutomatically read or write.  `swaps` counts the
calls of `m_window->swapGLBuffers()`, the native effect of swapBuffers.  The
counter `m_beginEndFrame` is an `int`; it is asserted to be 0 or 1 after every
change, so its overflow is never reached. -/
structure FrameDevice where
  device : Device
  m_beginEndFrame : Int
  m_swapBuffersAutomatically : Bool
  m_swapGLBuffersPending : Bool
  swaps : Nat
deriving DecidableEq

/-- The values that RenderDevice::init gives the frame members. -/
def FrameDevice.init (d : Device) : FrameDevice :=
  { device := d,
    m_beginEndFrame := 0,
    m_swapBuffersAutomatically := true,
    m_swapGLBuffersPending := false,
    swaps := 0 }

/-- The accessor swapBuffersAutomatically(). -/
def swapBuffersAutomatically (w : FrameDevice) : Bool := w.m_swapBuffersAutomatically

/-- RenderDevice::swapBuffers. -/
def swapBuffers (w : FrameDevice) : Option FrameDevice :=
  -- m_swapTimer.tick(); m_window->swapGLBuffers(); m_swapTimer.tock()
  let w := { w with swaps := w.swaps + 1 }
  some { w with m_swapGLBuffersPending := false }

/-- RenderDevice::beginFrame. -/
def beginFrame (w : FrameDevice) : Option FrameDevice :=
  match (if w.m_swapGLBuffersPending then swapBuffers w else some w) with
  | none => none
  | some w =>
    let w := { w with device := { w.device with m_stats := Stats.reset w.device.m_stats } }
    let w := { w with m_beginEndFrame := w.m_beginEndFrame + 1 }
    -- debugAssertM(m_beginEndFrame == 1, "Mismatched calls to beginFrame/endFrame")
    if w.m_beginEndFrame = 1 then some w else none

/-- RenderDevice::setSwapBuffersAutomatically. -/
def setSwapBuffersAutomatically (b : Bool) (w : FrameDevice) : Option FrameDevice :=
  if b = w.m_swapBuffersAutomatically then
    -- Setting to current state; nothing to do.
    some w
  else
    match (if w.m_swapGLBuffersPending then swapBuffers w else some w) with
    | none => none
    | some w => some { w with m_swapBuffersAutomatically := b }

/-- RenderDevice::endFrame.  The statements after the second assertion update
the frame-rate statistics (floating-point members of Stats) and `m_lastTime`,
which are not members of `Device`. -/
def endFrame (w : FrameDevice) : Option FrameDevice :=
  let w := { w with m_beginEndFrame := w.m_beginEndFrame - 1 }
  -- debugAssertM(m_beginEndFrame == 0, "Mismatched calls to beginFrame/endFrame")
  if w.m_beginEndFrame ≠ 0 then none
  else
    -- Schedule a swap buffer iff we are handling them automatically.
    let w := { w with m_swapGLBuffersPending := w.m_swapBuffersAutomatically }
    -- debugAssertM(m_stateStack.size() == 0, "Missing RenderDevice::popState or RenderDevice::pop2D.")
    if w.device.m_stateStack.length ≠ 0 then none
    else some w

/-! ### Concrete devices used as test inputs -/

/-- A capability set in which every queried extension is present. -/
def fullCaps : GLCaps :=
  { supports_GL_EXT_stencil_two_side := true,
    supports_GL_ATI_separate_stencil := false,
    supports_two_sided_stencil := true,
    supports_GL_ARB_multitexture := true,
    supports_GL_ARB_framebuffer_object := true,
    supports_GL_EXT_framebuffer_object := true,
    supports_GL_EXT_blend_minmax := true,
    supports_GL_EXT_blend_subtract := true,
    supports_GL_EXT_stencil_wrap := true,
    has_glBlendEquationEXT := true,
    maxDrawBuffers := 8,
    windowStencilBits := 8 }

/-- The OpenGL state of a fresh context, as far as `GLState` records it. -/
def freshGL : GLState :=
  { depthTest := false, depthFunc := GL_LESS, depthMask := true,
    colorMaskRGB := true, colorMaskA := true,
    blend := false, blendSrc := GL_ONE, blendDst := GL_ZERO, blendEquation := GL_FUNC_ADD,
    stencilTest := false, alphaTest := false, alphaFunc := GL_ALWAYS, alphaRef := 0,
    scissorTest := false, cullFace := false, cullFaceMode := GL_BACK,
    colorLogicOp := false, logicOp := GL_COPY, shadeModel := GL_SMOOTH,
    polygonMode := GL_FILL, polygonOffsetFill := false, framebufferSRGB := false,
    drawBuffer := GL_BACK, readBuffer := GL_BACK, drawBuffers := [GL_BACK],
    framebufferDrawBuffers := [], drawFramebufferBinding := none, readFramebufferBinding := none,
    materialShininess := 0, materialSpecular := ⟨0, 0, 0, 1⟩ }

/-- A device right after construction and `init`, before resetState: a
640x480 window, `units` fixed-function units, `coords` texture coordinates
and `textures` texture image units. -/
def freshDevice (units coords textures : Nat) : Device :=
  { caps := fullCaps,
    width := 640,
    height := 480,
    initialProjection := ⟨[1, 0, 0, 0, 0, 1, 0, 0, 0, 0, 1, 0, 0, 0, 0, 1]⟩,
    m_numTextureUnits := units,
    m_numTextureCoords := coords,
    m_numTextures := textures,
    m_inPrimitive := false,
    m_state := RenderState.init 1 1 (MAX_TRACKED_TEXTURE_IMAGE_UNITS : Int)
      ⟨[1, 0, 0, 0, 0, 1, 0, 0, 0, 0, 1, 0, 0, 0, 0, 1]⟩,
    m_stateStack := [],
    m_stats := ⟨0, 0, 0, 0, 0, 0, 0⟩,
    currentlyBoundTextures := [0, 0],
    gl := freshGL }

/-! ### Observations of a device, used to state what a call leaves alone -/

/-- The members of the device that no state setter writes: the capabilities,
the window size, the unit counts, the primitive flag and the state stack. -/
def Env (d : Device) :
    GLCaps × Int × Int × Matrix4 × Nat × Nat × Nat × Bool × List RenderState :=
  (d.caps, d.width, d.height, d.initialProjection, d.m_numTextureUnits, d.m_numTextureCoords,
   d.m_numTextures, d.m_inPrimitive, d.m_stateStack)

/-- An observation of a device: `Env` together with a view `g` of the cached
state. -/
def Obs {β : Type} (g : RenderState → β) (d : Device) :
    (GLCaps × Int × Int × Matrix4 × Nat × Nat × Nat × Bool × List RenderState) × β :=
  (Env d, g d.m_state)

/-- The result `r` of a call started in `d` has the same observation `π` as
`d`, or the call failed. -/
def Keeps {α : Type} (π : Device → α) (d : Device) : Option Device → Prop
  | none => True
  | some d' => π d' = π d

/-- The call `f` never changes the observation `π`. -/
def Frame {α : Type} (π : Device → α) (f : Device → Option Device) : Prop :=
  ∀ d, Keeps π d (f d)

/-- The result of a call, if there is one, satisfies `Q`. -/
def Ensures (Q : Device → Prop) : Option Device → Prop
  | none => True
  | some d' => Q d'

/-- The call returned, and its result satisfies `Q`. -/
def Yields (Q : Device → Prop) : Option Device → Prop
  | none => False
  | some d' => Q d'

/-- The call returned and left `Env` and the whole cached state as they were
in `d`; statistics and native state may differ. -/
def Quiet (d : Device) (r : Option Device) : Prop :=
  Yields (fun d' => Obs id d' = Obs id d) r

/-- The cached logic op. -/
def logicOpOf (s : RenderState) : LogicOp := s.logicOp

/-- The cached viewport and logic op. -/
def viewportAndLogicOp (s : RenderState) : Rect2D × LogicOp := (s.viewport, s.logicOp)

/-! ### Runs of calls and reachable states, used in the statements below -/

/-- A run of `n` consecutive calls of `f`. -/
def callTimes (f : Device → Option Device) : Nat → Device → Option Device
  | 0, d => some d
  | n + 1, d => (f d).bind (callTimes f n)

/-- The states reachable from resetState through setDepthTest and
setDepthWrite calls. -/
inductive DepthReachable : Device → Prop
  | reset (d0 d : Device) : resetState d0 = some d → DepthReachable d
  | depthTest (t : DepthTest) (d d' : Device) :
      DepthReachable d → setDepthTest t d = some d' → DepthReachable d'
  | depthWrite (a : Bool) (d d' : Device) :
      DepthReachable d → setDepthWrite a d = some d' → DepthReachable d'

/-- The states reachable from resetState through setBlendFunc calls. -/
inductive BlendReachable : Device → Prop
  | reset (d0 d : Device) : resetState d0 = some d → BlendReachable d
  | blendFunc (src dst : BlendFunc) (eq : BlendEq) (d d' : Device) :
      BlendReachable d → setBlendFunc src dst eq d = some d' → BlendReachable d'

/-- A framebuffer with one colour attachment, used as a test input. -/
def testFramebuffer : Framebuffer :=
  { id := 1,
    rect2DBounds := Rect2D.xywh 0 0 256 256,
    openGLDrawArray := [GL_COLOR_ATTACHMENT0],
    attachments := [GL_COLOR_ATTACHMENT0],
    stencilBits := 0,
    bindNeedsSync := true }

/-- A texture matrix other than the identity, used as a test input. -/
def testMatrix : List ℚ := [2, 0, 0, 0, 0, 2, 0, 0, 0, 0, 2, 0, 0, 0, 0, 1]


/-- A call of a sequence: pushState, popState, or any other device call. -/
inductive Call where
  | push
  | pop
  | other (f : Device → Option Device)

/-- Runs one call. -/
def Call.run : Call → Device → Option Device
  | .push, d => pushState d
  | .pop, d => popState d
  | .other f, d => f d

/-- Runs a sequence of calls in order; the sequence is accepted when the
result is not `none`. -/
def runCalls : List Call → Device → Option Device
  | [], d => some d
  | c :: cs, d => (c.run d).bind (runCalls cs)

/-- Number of pushState calls in a sequence. -/
def pushCount : List Call → Nat
  | [] => 0
  | .push :: cs => pushCount cs + 1
  | _ :: cs => pushCount cs

/-- Number of popState calls in a sequence. -/
def popCount : List Call → Nat
  | [] => 0
  | .pop :: cs => popCount cs + 1
  | _ :: cs => popCount cs

/-- Every call of the sequence other than pushState and popState leaves the
state stack alone, as all state setters do. -/
def StackNeutral : List Call → Prop
  | [] => True
  | .other f :: cs => Frame (fun d => d.m_stateStack) f ∧ StackNeutral cs
  | _ :: cs => StackNeutral cs

/-- The native depth test agrees with the cache: it is disabled exactly when
the cached test is DEPTH_ALWAYS_PASS and depth write is disabled, and while
enabled its function is the cached test. -/
def DepthTestInSync (d : Device) : Prop :=
  (d.gl.depthTest = false ↔
    (d.m_state.depthTest = DEPTH_ALWAYS_PASS ∧ d.m_state.depthWrite = false)) ∧
  (d.gl.depthTest = true → d.gl.depthFunc = d.m_state.depthTest)

/-- Native blending agrees with the cache: it is disabled exactly when the
cached triple is (ONE, ZERO, ADD) or (ONE, ZERO, SUBTRACT), and while enabled
the native function pair is the cached pair. -/
def BlendInSync (d : Device) : Prop :=
  (d.gl.blend = false ↔
    (d.m_state.srcBlendFunc = BLEND_ONE ∧ d.m_state.dstBlendFunc = BLEND_ZERO ∧
      (d.m_state.blendEq = BLENDEQ_ADD ∨ d.m_state.blendEq = BLENDEQ_SUBTRACT))) ∧
  (d.gl.blend = true →
    d.gl.blendSrc = d.m_state.srcBlendFunc ∧ d.gl.blendDst = d.m_state.dstBlendFunc)

/-- A cached state that setState can hand back to its setters: a colour
attachment is selected as draw buffer only while a framebuffer is bound, and
an enabled 2D clip is a finite or empty rectangle. -/
def Restorable (s : RenderState) : Prop :=
  (s.drawFramebuffer = none → ¬ (DRAW_COLOR0 ≤ s.drawBuffer ∧ s.drawBuffer ≤ DRAW_COLOR15)) ∧
  (s.useClip2D = true → s.clip2D.isFinite = true ∨ s.clip2D.isEmpty = true)

/-- The current state right after pushState saved `s`, with the viewport
replaced by `v`. -/
def pushedState (s : RenderState) (v : Rect2D) : RenderState :=
  { s with
    viewport := v,
    matrices := { s.matrices with changed := false },
    highestTextureUnitThatChanged := -1 }

/-- None of the six cached stencil operations is the sentinel
STENCILOP_CURRENT (setStencilOp never caches it). -/
def StencilOpsSet (s : RenderState) : Prop :=
  s.stencil.frontStencilFail ≠ STENCILOP_CURRENT ∧
  s.stencil.frontStencilZFail ≠ STENCILOP_CURRENT ∧
  s.stencil.frontStencilZPass ≠ STENCILOP_CURRENT ∧
  s.stencil.backStencilFail ≠ STENCILOP_CURRENT ∧
  s.stencil.backStencilZFail ≠ STENCILOP_CURRENT ∧
  s.stencil.backStencilZPass ≠ STENCILOP_CURRENT

/-- The cached draw and read framebuffer and the 2D clip switch. -/
def framebuffersAndClip (s : RenderState) :
    Option Framebuffer × Option Framebuffer × Bool :=
  (s.drawFramebuffer, s.readFramebuffer, s.useClip2D)

/-- The assignment `m_inPrimitive = true` of beginPrimitive: a device on which
a primitive is open.  The rest of beginPrimitive (beforePrimitive, glBegin)
does not touch the state stack. -/
def openPrimitive (d : Device) : Device := { d with m_inPrimitive := true }

/-! ### Inputs and notions for the statements on textures, clipping, stencil, winding and frames -/

/-- A texture, used as a test input. -/
def testTexture : Texture := { openGLID := 7, openGLTextureTarget := 0x0DE1 }

/-- A device call made between the frame calls: it acts on the device and
cannot reach the frame members. -/
def onDevice (f : Device → Option Device) (w : FrameDevice) : Option FrameDevice :=
  (f w.device).map (fun d => { w with device := d })

/-- A call of a sequence: one of the four frame calls, or any device call. -/
inductive FrameCall where
  | beginFrame
  | endFrame
  | swapBuffers
  | setSwapBuffersAutomatically (b : Bool)
  | device (f : Device → Option Device)

/-- Runs one call. -/
def FrameCall.run : FrameCall → FrameDevice → Option FrameDevice
  | .beginFrame, w => G3D.RenderDevice.beginFrame w
  | .endFrame, w => G3D.RenderDevice.endFrame w
  | .swapBuffers, w => G3D.RenderDevice.swapBuffers w
  | .setSwapBuffersAutomatically b, w => G3D.RenderDevice.setSwapBuffersAutomatically b w
  | .device f, w => onDevice f w

/-- Runs a sequence of calls in order; the sequence is accepted when the
result is not `none`. -/
def runFrameCalls : List FrameCall → FrameDevice → Option FrameDevice
  | [], w => some w
  | c :: cs, w => (c.run w).bind (runFrameCalls cs)

/-- Number of beginFrame calls in a sequence. -/
def beginCount : List FrameCall → Nat
  | [] => 0
  | .beginFrame :: cs => beginCount cs + 1
  | _ :: cs => beginCount cs

/-- Number of endFrame calls in a sequence. -/
def endCount : List FrameCall → Nat
  | [] => 0
  | .endFrame :: cs => endCount cs + 1
  | _ :: cs => endCount cs

/-- The states reachable from the one that `init` leaves, through frame calls
and device calls. -/
inductive FrameReachable : FrameDevice → Prop
  | start (d : Device) : FrameReachable (FrameDevice.init d)
  | step (c : FrameCall) (w w' : FrameDevice) :
      FrameReachable w → c.run w = some w' → FrameReachable w'

/-! ### The native stencil test -/

/-- The states reachable from resetState through setStencilTest and
setStencilOp calls. -/
inductive StencilReachable : Device → Prop
  | reset (d0 d : Device) : resetState d0 = some d → StencilReachable d
  | stencilTest (t : StencilTest) (d d' : Device) :
      StencilReachable d → setStencilTest t d = some d' → StencilReachable d'
  | stencilOp (a b c e f h : StencilOp) (d d' : Device) :
      StencilReachable d → setStencilOp a b c e f h d = some d' → StencilReachable d'

/-- The three cached front operations are all STENCIL_KEEP. -/
def FrontOpsKeep (s : RenderState) : Prop :=
  s.stencil.frontStencilFail = STENCIL_KEEP ∧ s.stencil.frontStencilZFail = STENCIL_KEEP ∧
    s.stencil.frontStencilZPass = STENCIL_KEEP

/-- The three cached back operations are all STENCIL_KEEP. -/
def BackOpsKeep (s : RenderState) : Prop :=
  s.stencil.backStencilFail = STENCIL_KEEP ∧ s.stencil.backStencilZFail = STENCIL_KEEP ∧
    s.stencil.backStencilZPass = STENCIL_KEEP

/-- Both capability queries for two-sided stencil that the two setters ask
are answered with yes: `supports_GL_EXT_stencil_two_side` (setStencilTest) and
`supports_two_sided_stencil` (setStencilOp). -/
def TwoSidedEXT (c : GLCaps) : Prop :=
  c.supports_GL_EXT_stencil_two_side = true ∧ c.supports_two_sided_stencil = true

/-- The native stencil test is on whenever a cached front operation is not
KEEP, or two-sided stencil is available through the EXT extension and a cached
back operation is not KEEP; it is also on whenever the cached test is not
STENCIL_ALWAYS_PASS. -/
def StencilTestInSync (d : Device) : Prop :=
  ((¬ FrontOpsKeep d.m_state ∨ (TwoSidedEXT d.caps ∧ ¬ BackOpsKeep d.m_state)) →
    d.gl.stencilTest = true) ∧
  (d.m_state.stencil.stencilTest ≠ STENCIL_ALWAYS_PASS → d.gl.stencilTest = true)

/-- A capability set with neither extension for two-sided stencil. -/
def oneSidedCaps : GLCaps :=
  { fullCaps with
    supports_GL_EXT_stencil_two_side := false,
    supports_GL_ATI_separate_stencil := false,
    supports_two_sided_stencil := false }

/-- A capability set with two-sided stencil through the ATI extension only. -/
def separateStencilCaps : GLCaps :=
  { fullCaps with
    supports_GL_EXT_stencil_two_side := false,
    supports_GL_ATI_separate_stencil := true,
    supports_two_sided_stencil := true }

/-- The device `d` with the capability answers `c`. -/
def withCaps (c : GLCaps) (d : Device) : Device := { d with caps := c }

/-! ### The operations of the device and the states they reach -/

/-- The call `f` keeps the property `P`: started where `P` holds, it fails or
returns a device where `P` holds. -/
def Preserves (P : Device → Prop) (f : Device → Option Device) : Prop :=
  ∀ d, P d → Ensures P (f d)

/-- The state operations of the device, each with its arguments; setInvertY,
which overrides the Y-inversion flag, is not among them. -/
inductive Op where
  | setGlossyCoefficient (c : Color3)
  | setShininess (s : ℚ)
  | setRenderMode (m : RenderMode)
  | setDrawBuffer (b : DrawBuffer)
  | setReadBuffer (b : ReadBuffer)
  | setCullFace (f : CullFace)
  | setSRGBConversion (b : Bool)
  | setStencilClearValue (v : Int)
  | setDepthClearValue (v : ℚ)
  | setColorClearValue (c : Color4)
  | setViewport (v : Rect2D)
  | setClip2D (c : Rect2D)
  | setProjectionMatrix (P : Matrix4)
  | setObjectToWorldMatrix (c : CoordinateFrame)
  | setCameraToWorldMatrix (c : CoordinateFrame)
  | setReadFramebuffer (fbo : Option Framebuffer)
  | setDrawFramebuffer (fbo : Option Framebuffer)
  | setFramebuffer (fbo : Option Framebuffer)
  | setDepthTest (t : DepthTest)
  | setStencilConstant (r : Int)
  | setStencilTest (t : StencilTest)
  | setLogicOp (op : LogicOp)
  | setAlphaTest (t : AlphaTest) (r : ℚ)
  | setStencilOp (a b c e f h : StencilOp)
  | setBlendFunc (src dst : BlendFunc) (eq : BlendEq)
  | setLineWidth (w : ℚ)
  | setPointSize (w : ℚ)
  | setTextureMatrix (u : Nat) (m : List ℚ)
  | setTextureLODBias (u : Nat) (b : ℚ)
  | setTextureCombineMode (u : Nat) (m : CombineMode)
  | setPolygonOffset (o : ℚ)
  | setNormal (n : Vector3)
  | setTexCoord (u : Nat) (c : Vector4)
  | setTexture (u : Nat) (t : Option Texture)
  | setColor (c : Color4)
  | setAlphaWrite (a : Bool)
  | setColorWrite (a : Bool)
  | setDepthWrite (a : Bool)
  | setShadeMode (s : ShadeMode)
  | setDepthRange (lo hi : ℚ)
  | resetTextureUnit (u : Nat)
  | pushState
  | pushStateFramebuffer (fb : Option Framebuffer)
  | popState
  | push2D (fb : Option Framebuffer) (viewport : Rect2D) (P : Matrix4)
  | pop2D
  | resetState
  | beforePrimitive
  | clear (clearColor clearDepth clearStencil complete : Bool)

/-- Runs one operation. -/
def Op.run : Op → Device → Option Device
  | .setGlossyCoefficient c => G3D.RenderDevice.setGlossyCoefficient c
  | .setShininess s => G3D.RenderDevice.setShininess s
  | .setRenderMode m => G3D.RenderDevice.setRenderMode m
  | .setDrawBuffer b => G3D.RenderDevice.setDrawBuffer b
  | .setReadBuffer b => G3D.RenderDevice.setReadBuffer b
  | .setCullFace f => G3D.RenderDevice.setCullFace f
  | .setSRGBConversion b => G3D.RenderDevice.setSRGBConversion b
  | .setStencilClearValue v => G3D.RenderDevice.setStencilClearValue v
  | .setDepthClearValue v => G3D.RenderDevice.setDepthClearValue v
  | .setColorClearValue c => G3D.RenderDevice.setColorClearValue c
  | .setViewport v => G3D.RenderDevice.setViewport v
  | .setClip2D c => G3D.RenderDevice.setClip2D c
  | .setProjectionMatrix P => G3D.RenderDevice.setProjectionMatrix P
  | .setObjectToWorldMatrix c => G3D.RenderDevice.setObjectToWorldMatrix c
  | .setCameraToWorldMatrix c => G3D.RenderDevice.setCameraToWorldMatrix c
  | .setReadFramebuffer fbo => G3D.RenderDevice.setReadFramebuffer fbo
  | .setDrawFramebuffer fbo => G3D.RenderDevice.setDrawFramebuffer fbo
  | .setFramebuffer fbo => G3D.RenderDevice.setFramebuffer fbo
  | .setDepthTest t => G3D.RenderDevice.setDepthTest t
  | .setStencilConstant r => G3D.RenderDevice.setStencilConstant r
  | .setStencilTest t => G3D.RenderDevice.setStencilTest t
  | .setLogicOp op => G3D.RenderDevice.setLogicOp op
  | .setAlphaTest t r => G3D.RenderDevice.setAlphaTest t r
  | .setStencilOp a b c e f h => G3D.RenderDevice.setStencilOp a b c e f h
  | .setBlendFunc src dst eq => G3D.RenderDevice.setBlendFunc src dst eq
  | .setLineWidth w => G3D.RenderDevice.setLineWidth w
  | .setPointSize w => G3D.RenderDevice.setPointSize w
  | .setTextureMatrix u m => G3D.RenderDevice.setTextureMatrix u m
  | .setTextureLODBias u b => G3D.RenderDevice.setTextureLODBias u b
  | .setTextureCombineMode u m => G3D.RenderDevice.setTextureCombineMode u m
  | .setPolygonOffset o => G3D.RenderDevice.setPolygonOffset o
  | .setNormal n => G3D.RenderDevice.setNormal n
  | .setTexCoord u c => G3D.RenderDevice.setTexCoord u c
  | .setTexture u t => G3D.RenderDevice.setTexture u t
  | .setColor c => G3D.RenderDevice.setColor c
  | .setAlphaWrite a => G3D.RenderDevice.setAlphaWrite a
  | .setColorWrite a => G3D.RenderDevice.setColorWrite a
  | .setDepthWrite a => G3D.RenderDevice.setDepthWrite a
  | .setShadeMode s => G3D.RenderDevice.setShadeMode s
  | .setDepthRange lo hi => G3D.RenderDevice.setDepthRange lo hi
  | .resetTextureUnit u => G3D.RenderDevice.resetTextureUnit u
  | .pushState => G3D.RenderDevice.pushState
  | .pushStateFramebuffer fb => G3D.RenderDevice.pushStateFramebuffer fb
  | .popState => G3D.RenderDevice.popState
  | .push2D fb viewport P => G3D.RenderDevice.push2D fb viewport P
  | .pop2D => G3D.RenderDevice.pop2D
  | .resetState => G3D.RenderDevice.resetState
  | .beforePrimitive => G3D.RenderDevice.beforePrimitive
  | .clear cc cd cs complete => G3D.RenderDevice.clear cc cd cs complete

/-- The states reachable from resetState through any sequence of
operations. -/
inductive Reachable : Device → Prop
  | reset (d0 d : Device) : resetState d0 = some d → Reachable d
  | step (op : Op) (d d' : Device) : Reachable d → op.run d = some d' → Reachable d'

/-- What the winding of the faces depends on and acts on: the Y-inversion
flag, the bound draw framebuffer, the cached cull face and the native cull
face state. -/
def windingView (d : Device) : Bool × Option Framebuffer × CullFace × Bool × Nat :=
  (d.m_state.matrices.invertY, d.m_state.drawFramebuffer, d.m_state.cullFace,
   d.gl.cullFace, d.gl.cullFaceMode)

/-- The Y-inversion flag is set exactly when no draw framebuffer is bound. -/
def InvertYInSync (d : Device) : Prop :=
  d.m_state.matrices.invertY = d.m_state.drawFramebuffer.isNone

/-- Native culling agrees with the cache: it is disabled when the cached cull
face is NONE, and otherwise enabled with the cached face passed through
applyWinding. -/
def CullInSync (d : Device) : Prop :=
  (d.m_state.cullFace = CullFace.NONE → d.gl.cullFace = false) ∧
  (d.m_state.cullFace ≠ CullFace.NONE →
    d.gl.cullFace = true ∧ d.gl.cullFaceMode = applyWinding d d.m_state.cullFace.value)

/-- Both of the above, and the cached cull face is not the sentinel. -/
def WindingInSync (d : Device) : Prop :=
  InvertYInSync d ∧ CullInSync d ∧ d.m_state.cullFace ≠ CullFace.CURRENT

/-- The cached values that depend on the Y-inversion flag in their native
form: projection matrix, viewport, cull face and the six stencil
operations. -/
def flippedState (s : RenderState) :
    Matrix4 × Rect2D × CullFace × StencilOp × StencilOp × StencilOp × StencilOp × StencilOp ×
      StencilOp :=
  (s.matrices.projectionMatrix, s.viewport, s.cullFace,
   s.stencil.frontStencilFail, s.stencil.frontStencilZFail, s.stencil.frontStencilZPass,
   s.stencil.backStencilFail, s.stencil.backStencilZFail, s.stencil.backStencilZPass)

/-! ### Notions for the statements on the change tracking of pushState -/

/-- The change tracking of the current state agrees with the snapshot on top
of the stack: every texture unit and texture image unit above
`highestTextureUnitThatChanged` is as in the snapshot, and unless
`matrices.changed` is set the three matrices are as in the snapshot. -/
def DeltasTracked (d : Device) : Prop :=
  ∀ top, d.m_stateStack.getLast? = some top →
    (∀ u : Nat, d.m_state.highestTextureUnitThatChanged < (u : Int) →
      d.m_state.textureUnits[u]? = top.textureUnits[u]? ∧
      d.m_state.textureImageUnits[u]? = top.textureImageUnits[u]?) ∧
    (d.m_state.matrices.changed = false →
      d.m_state.matrices.objectToWorldMatrix = top.matrices.objectToWorldMatrix ∧
      d.m_state.matrices.cameraToWorldMatrix = top.matrices.cameraToWorldMatrix ∧
      d.m_state.matrices.projectionMatrix = top.matrices.projectionMatrix)

/-- The transpose of a 4x4 matrix. -/
def transpose (m : Matrix4) : Matrix4 :=
  ⟨(List.range 4).flatMap (fun r => (List.range 4).map (fun c => matrixElement m c r))⟩

/-- A matrix that is not symmetric, used as a test input. -/
def testMatrix4 : Matrix4 := ⟨[1, 2, 3, 4, 5, 6, 7, 8, 9, 10, 11, 12, 13, 14, 15, 16]⟩

/-! # Properties -/

/-! ## Basic facts about the helpers -/

@[simp] theorem env_withState (f : RenderState → RenderState) (d : Device) :
    Env (withState f d) = Env d := rfl
@[simp] theorem env_withGL (f : GLState → GLState) (d : Device) : Env (withGL f d) = Env d := rfl
@[simp] theorem env_minStateChange (n : Nat) (d : Device) : Env (minStateChange n d) = Env d := rfl
@[simp] theorem env_minGLStateChange (n : Nat) (d : Device) : Env (minGLStateChange n d) = Env d := rfl
@[simp] theorem env_majStateChange (n : Nat) (d : Device) : Env (majStateChange n d) = Env d := rfl
@[simp] theorem env_majGLStateChange (n : Nat) (d : Device) : Env (majGLStateChange n d) = Env d := rfl
@[simp] theorem state_withState (f : RenderState → RenderState) (d : Device) :
    (withState f d).m_state = f d.m_state := rfl
@[simp] theorem state_withGL (f : GLState → GLState) (d : Device) :
    (withGL f d).m_state = d.m_state := rfl
@[simp] theorem state_minStateChange (n : Nat) (d : Device) :
    (minStateChange n d).m_state = d.m_state := rfl
@[simp] theorem state_minGLStateChange (n : Nat) (d : Device) :
    (minGLStateChange n d).m_state = d.m_state := rfl
@[simp] theorem state_majStateChange (n : Nat) (d : Device) :
    (majStateChange n d).m_state = d.m_state := rfl
@[simp] theorem state_majGLStateChange (n : Nat) (d : Device) :
    (majGLStateChange n d).m_state = d.m_state := rfl

@[simp] theorem inPrimitive_withState (f : RenderState → RenderState) (d : Device) :
    (withState f d).m_inPrimitive = d.m_inPrimitive := rfl
@[simp] theorem inPrimitive_withGL (f : GLState → GLState) (d : Device) :
    (withGL f d).m_inPrimitive = d.m_inPrimitive := rfl
@[simp] theorem inPrimitive_minStateChange (n : Nat) (d : Device) :
    (minStateChange n d).m_inPrimitive = d.m_inPrimitive := rfl
@[simp] theorem inPrimitive_minGLStateChange (n : Nat) (d : Device) :
    (minGLStateChange n d).m_inPrimitive = d.m_inPrimitive := rfl
@[simp] theorem inPrimitive_majStateChange (n : Nat) (d : Device) :
    (majStateChange n d).m_inPrimitive = d.m_inPrimitive := rfl
@[simp] theorem inPrimitive_majGLStateChange (n : Nat) (d : Device) :
    (majGLStateChange n d).m_inPrimitive = d.m_inPrimitive := rfl
@[simp] theorem caps_withState (f : RenderState → RenderState) (d : Device) :
    (withState f d).caps = d.caps := rfl
@[simp] theorem caps_withGL (f : GLState → GLState) (d : Device) :
    (withGL f d).caps = d.caps := rfl
@[simp] theorem caps_minStateChange (n : Nat) (d : Device) :
    (minStateChange n d).caps = d.caps := rfl
@[simp] theorem caps_minGLStateChange (n : Nat) (d : Device) :
    (minGLStateChange n d).caps = d.caps := rfl
@[simp] theorem caps_majStateChange (n : Nat) (d : Device) :
    (majStateChange n d).caps = d.caps := rfl
@[simp] theorem caps_majGLStateChange (n : Nat) (d : Device) :
    (majGLStateChange n d).caps = d.caps := rfl
@[simp] theorem gl_withState (f : RenderState → RenderState) (d : Device) :
    (withState f d).gl = d.gl := rfl
@[simp] theorem gl_withGL (f : GLState → GLState) (d : Device) :
    (withGL f d).gl = f d.gl := rfl
@[simp] theorem gl_minStateChange (n : Nat) (d : Device) :
    (minStateChange n d).gl = d.gl := rfl
@[simp] theorem gl_minGLStateChange (n : Nat) (d : Device) :
    (minGLStateChange n d).gl = d.gl := rfl
@[simp] theorem gl_majStateChange (n : Nat) (d : Device) :
    (majStateChange n d).gl = d.gl := rfl
@[simp] theorem gl_majGLStateChange (n : Nat) (d : Device) :
    (majGLStateChange n d).gl = d.gl := rfl
@[simp] theorem stats_withState (f : RenderState → RenderState) (d : Device) :
    (withState f d).m_stats = d.m_stats := rfl
@[simp] theorem stats_withGL (f : GLState → GLState) (d : Device) :
    (withGL f d).m_stats = d.m_stats := rfl
@[simp] theorem glCount_minStateChange (n : Nat) (d : Device) :
    (minStateChange n d).m_stats.minorOpenGLStateChanges =
      d.m_stats.minorOpenGLStateChanges := rfl
@[simp] theorem glCount_minGLStateChange (n : Nat) (d : Device) :
    (minGLStateChange n d).m_stats.minorOpenGLStateChanges =
      (d.m_stats.minorOpenGLStateChanges + n) % 2 ^ 32 := rfl

theorem obs_def {β : Type} (g : RenderState → β) (d : Device) :
    Obs g d = (Env d, g d.m_state) := rfl

@[simp] theorem env_recordBoundTexture (u i : Nat) (d : Device) :
    Env (recordBoundTexture u i d) = Env d := rfl
@[simp] theorem state_recordBoundTexture (u i : Nat) (d : Device) :
    (recordBoundTexture u i d).m_state = d.m_state := rfl

@[simp] theorem env_clipZeroArea (c : Rect2D) (d : Device) : Env (clipZeroArea c d) = Env d := by
  unfold clipZeroArea
  split <;> rfl

@[simp] theorem state_clipZeroArea (c : Rect2D) (d : Device) :
    (clipZeroArea c d).m_state = d.m_state := by
  unfold clipZeroArea
  split <;> rfl

@[simp] theorem env_setStencilTest (t : StencilTest) (r : Int) (d : Device) :
    Env (_setStencilTest t r d) = Env d := by
  unfold _setStencilTest
  repeat' split
  all_goals rfl

@[simp] theorem state_setStencilTest (t : StencilTest) (r : Int) (d : Device) :
    (_setStencilTest t r d).m_state = d.m_state := by
  unfold _setStencilTest
  repeat' split
  all_goals rfl

@[simp] theorem env_forceSetViewport (v : Rect2D) (d : Device) :
    Env (forceSetViewport v d) = Env d := rfl

@[simp] theorem state_forceSetViewport (v : Rect2D) (d : Device) :
    (forceSetViewport v d).m_state = { d.m_state with viewport := v } := rfl

@[simp] theorem env_forceSetCullFace (f : CullFace) (d : Device) :
    Env (forceSetCullFace f d) = Env d := by
  unfold forceSetCullFace
  split <;> rfl

@[simp] theorem state_forceSetCullFace (f : CullFace) (d : Device) :
    (forceSetCullFace f d).m_state = { d.m_state with cullFace := f } := by
  unfold forceSetCullFace
  split <;> rfl

@[simp] theorem env_forceSetProjectionMatrix (P : Matrix4) (d : Device) :
    Env (forceSetProjectionMatrix P d) = Env d := rfl

@[simp] theorem state_forceSetProjectionMatrix (P : Matrix4) (d : Device) :
    (forceSetProjectionMatrix P d).m_state =
      { d.m_state with matrices :=
          { d.m_state.matrices with projectionMatrix := P, changed := true } } := rfl

@[simp] theorem env_writeTextureUnit (u : Nat) (tu : RenderState.TextureUnit) (d : Device) :
    Env (writeTextureUnit u tu d) = Env d := rfl

@[simp] theorem state_writeTextureUnit (u : Nat) (tu : RenderState.TextureUnit) (d : Device) :
    (writeTextureUnit u tu d).m_state =
      { d.m_state with textureUnits := d.m_state.textureUnits.set u tu } := rfl

/-! ## Combinators for `Keeps` and `Frame` -/

theorem keeps_none {α : Type} (π : Device → α) (d : Device) : Keeps π d none := trivial

theorem keeps_of_eq {α : Type} (π : Device → α) (d d' : Device) (h : π d' = π d) :
    Keeps π d (some d') := h

theorem keeps_ite {α : Type} (π : Device → α) (d : Device) (c : Prop) [Decidable c]
    (a b : Option Device) (ha : c → Keeps π d a) (hb : ¬ c → Keeps π d b) :
    Keeps π d (if c then a else b) := by
  by_cases h : c
  · rw [if_pos h]; exact ha h
  · rw [if_neg h]; exact hb h

/-- A call of a framed function at a device whose observation is that of `d`. -/
theorem keeps_call {α : Type} (π : Device → α) (f : Device → Option Device)
    (hf : Frame π f) (d x : Device) (h : π x = π d) : Keeps π d (f x) := by
  have hx := hf x
  cases hfx : f x with
  | none => exact keeps_none _ _
  | some y =>
    rw [hfx] at hx
    exact (show π y = π x from hx).trans h

theorem frame_eq {α : Type} (π : Device → α) (f : Device → Option Device) (hf : Frame π f)
    (d d' : Device) (h : f d = some d') : π d' = π d := by
  have hd := hf d
  rw [h] at hd
  exact hd

theorem frame_of_eq {α : Type} (π : Device → α) (f : Device → Option Device)
    (h : ∀ d d', f d = some d' → π d' = π d) : Frame π f := by
  intro d
  cases hfd : f d with
  | none => exact keeps_none _ _
  | some y => exact h d y hfd

theorem runSteps_nil (d : Device) : runSteps [] d = some d := rfl

theorem runSteps_cons (f : Device → Option Device) (fs : List (Device → Option Device))
    (d : Device) : runSteps (f :: fs) d = (f d).bind (runSteps fs) := rfl

theorem runSteps_cons_some (f : Device → Option Device) (fs : List (Device → Option Device))
    (d d' : Device) (h : f d = some d') : runSteps (f :: fs) d = runSteps fs d' := by
  rw [runSteps_cons, h, Option.some_bind]

theorem runSteps_append (fs gs : List (Device → Option Device)) (d : Device) :
    runSteps (fs ++ gs) d = (runSteps fs d).bind (runSteps gs) := by
  induction fs generalizing d with
  | nil => rfl
  | cons f fs ih =>
    rw [List.cons_append, runSteps_cons, runSteps_cons]
    cases f d with
    | none => rfl
    | some y => rw [Option.some_bind, Option.some_bind]; exact ih y

theorem frame_runSteps {α : Type} (π : Device → α) (fs : List (Device → Option Device))
    (h : ∀ f ∈ fs, Frame π f) : Frame π (runSteps fs) := by
  induction fs with
  | nil => intro d; exact keeps_of_eq _ _ _ rfl
  | cons f fs ih =>
    apply frame_of_eq
    intro d d' hd
    rw [runSteps_cons] at hd
    cases hfd : f d with
    | none => rw [hfd] at hd; exact Option.noConfusion hd
    | some y =>
      rw [hfd, Option.some_bind] at hd
      have h1 := frame_eq π f (h f (List.mem_cons_self _ _)) d y hfd
      have h2 := frame_eq π (runSteps fs)
        (ih (fun g hg => h g (List.mem_cons_of_mem _ hg))) y d' hd
      exact h2.trans h1

/-- A weaker view of the cached state is kept whenever a stronger one is. -/
theorem frame_weaken {β γ : Type} (g : RenderState → β) (k : β → γ)
    (f : Device → Option Device) (hf : Frame (Obs g) f) :
    Frame (Obs (fun s => k (g s))) f := by
  apply frame_of_eq
  intro d d' h
  have h1 := frame_eq _ f hf d d' h
  simp only [obs_def, Prod.mk.injEq] at h1 ⊢
  exact ⟨h1.1, by rw [h1.2]⟩

/-! ## What each setter leaves alone -/

theorem forceSetStencilOp_frame {β : Type} (g : RenderState → β) (a b c e f h : StencilOp) :
    Frame (Obs g) (forceSetStencilOp a b c e f h) := by
  intro d
  simp only [forceSetStencilOp]
  repeat' first
    | exact keeps_none _ _
    | (apply keeps_ite <;> intro _)
    | (apply keeps_of_eq; simp [obs_def])

theorem syncDrawBuffer_frame {β : Type} (g : RenderState → β) (b : Bool) :
    Frame (Obs g) (syncDrawBuffer b) := by
  intro d
  simp only [syncDrawBuffer]
  repeat' first
    | exact keeps_none _ _
    | (apply keeps_ite <;> intro _)
    | (apply keeps_of_eq; simp [obs_def])
    | split

theorem syncReadBuffer_frame {β : Type} (g : RenderState → β) (b : Bool) :
    Frame (Obs g) (syncReadBuffer b) := by
  intro d
  simp only [syncReadBuffer]
  repeat' first
    | (apply keeps_ite <;> intro _)
    | (apply keeps_of_eq; simp [obs_def])
    | split

theorem setGlossyCoefficient_frame (c : Color3) :
    Frame (Obs viewportAndLogicOp) (setGlossyCoefficient c) := by
  intro d
  simp only [setGlossyCoefficient]
  repeat' first
    | (apply keeps_ite <;> intro _)
    | (apply keeps_of_eq; simp [obs_def, viewportAndLogicOp, viewport, RenderState.textureUnitModified])

theorem setShininess_frame (x : ℚ) :
    Frame (Obs viewportAndLogicOp) (setShininess x) := by
  intro d
  simp only [setShininess]
  repeat' first
    | (apply keeps_ite <;> intro _)
    | (apply keeps_of_eq; simp [obs_def, viewportAndLogicOp, viewport, RenderState.textureUnitModified])

theorem setRenderMode_frame (m : RenderMode) :
    Frame (Obs viewportAndLogicOp) (setRenderMode m) := by
  intro d
  simp only [setRenderMode]
  repeat' first
    | (apply keeps_ite <;> intro _)
    | (apply keeps_of_eq; simp [obs_def, viewportAndLogicOp, viewport, RenderState.textureUnitModified])
    | split

theorem setDrawBuffer_frame (b : DrawBuffer) :
    Frame (Obs viewportAndLogicOp) (setDrawBuffer b) := by
  intro d
  simp only [setDrawBuffer]
  repeat' first
    | exact keeps_none _ _
    | (apply keeps_ite <;> intro _)
    | (apply keeps_of_eq; simp [obs_def, viewportAndLogicOp, viewport, RenderState.textureUnitModified])

theorem setReadBuffer_frame (b : ReadBuffer) :
    Frame (Obs viewportAndLogicOp) (setReadBuffer b) := by
  intro d
  simp only [setReadBuffer]
  repeat' first
    | (apply keeps_ite <;> intro _)
    | (apply keeps_of_eq; simp [obs_def, viewportAndLogicOp, viewport, RenderState.textureUnitModified])
    | split

theorem setCullFace_frame (f : CullFace) :
    Frame (Obs viewportAndLogicOp) (setCullFace f) := by
  intro d
  simp only [setCullFace]
  repeat' first
    | (apply keeps_ite <;> intro _)
    | (apply keeps_of_eq; simp [obs_def, viewportAndLogicOp, viewport, RenderState.textureUnitModified])

theorem setSRGBConversion_frame (b : Bool) :
    Frame (Obs viewportAndLogicOp) (setSRGBConversion b) := by
  intro d
  simp only [setSRGBConversion]
  repeat' first
    | exact keeps_none _ _
    | (apply keeps_ite <;> intro _)
    | (apply keeps_of_eq; simp [obs_def, viewportAndLogicOp, viewport, RenderState.textureUnitModified])

theorem setStencilClearValue_frame (v : Int) :
    Frame (Obs viewportAndLogicOp) (setStencilClearValue v) := by
  intro d
  simp only [setStencilClearValue]
  repeat' first
    | exact keeps_none _ _
    | (apply keeps_ite <;> intro _)
    | (apply keeps_of_eq; simp [obs_def, viewportAndLogicOp, viewport, RenderState.textureUnitModified])

theorem setDepthClearValue_frame (v : ℚ) :
    Frame (Obs viewportAndLogicOp) (setDepthClearValue v) := by
  intro d
  simp only [setDepthClearValue]
  repeat' first
    | exact keeps_none _ _
    | (apply keeps_ite <;> intro _)
    | (apply keeps_of_eq; simp [obs_def, viewportAndLogicOp, viewport, RenderState.textureUnitModified])

theorem setColorClearValue_frame (c : Color4) :
    Frame (Obs viewportAndLogicOp) (setColorClearValue c) := by
  intro d
  simp only [setColorClearValue]
  repeat' first
    | exact keeps_none _ _
    | (apply keeps_ite <;> intro _)
    | (apply keeps_of_eq; simp [obs_def, viewportAndLogicOp, viewport, RenderState.textureUnitModified])

theorem setClip2D_frame (c : Rect2D) :
    Frame (Obs viewportAndLogicOp) (setClip2D c) := by
  intro d
  simp only [setClip2D]
  repeat' first
    | (apply keeps_ite <;> intro _)
    | (apply keeps_of_eq; simp [obs_def, viewportAndLogicOp, viewport, RenderState.textureUnitModified])

theorem setProjectionMatrix_frame (P : Matrix4) :
    Frame (Obs viewportAndLogicOp) (setProjectionMatrix P) := by
  intro d
  simp only [setProjectionMatrix]
  repeat' first
    | (apply keeps_ite <;> intro _)
    | (apply keeps_of_eq; simp [obs_def, viewportAndLogicOp, viewport, RenderState.textureUnitModified])

theorem setObjectToWorldMatrix_frame (c : CoordinateFrame) :
    Frame (Obs viewportAndLogicOp) (setObjectToWorldMatrix c) := by
  intro d
  simp only [setObjectToWorldMatrix]
  repeat' first
    | exact keeps_none _ _
    | (apply keeps_ite <;> intro _)
    | (apply keeps_of_eq; simp [obs_def, viewportAndLogicOp, viewport, RenderState.textureUnitModified])

theorem setCameraToWorldMatrix_frame (c : CoordinateFrame) :
    Frame (Obs viewportAndLogicOp) (setCameraToWorldMatrix c) := by
  intro d
  simp only [setCameraToWorldMatrix]
  repeat' first
    | exact keeps_none _ _
    | (apply keeps_ite <;> intro _)
    | (apply keeps_of_eq; simp [obs_def, viewportAndLogicOp, viewport, RenderState.textureUnitModified])

theorem setDepthTest_frame (t : DepthTest) :
    Frame (Obs viewportAndLogicOp) (setDepthTest t) := by
  intro d
  simp only [setDepthTest]
  repeat' first
    | exact keeps_none _ _
    | (apply keeps_ite <;> intro _)
    | (apply keeps_of_eq; simp [obs_def, viewportAndLogicOp, viewport, RenderState.textureUnitModified])

theorem setStencilConstant_frame (r : Int) :
    Frame (Obs viewportAndLogicOp) (setStencilConstant r) := by
  intro d
  simp only [setStencilConstant]
  repeat' first
    | exact keeps_none _ _
    | (apply keeps_ite <;> intro _)
    | (apply keeps_of_eq; simp [obs_def, viewportAndLogicOp, viewport, RenderState.textureUnitModified])

theorem setStencilTest_frame (t : StencilTest) :
    Frame (Obs viewportAndLogicOp) (setStencilTest t) := by
  intro d
  simp only [setStencilTest]
  repeat' first
    | exact keeps_none _ _
    | (apply keeps_ite <;> intro _)
    | (apply keeps_of_eq; simp [obs_def, viewportAndLogicOp, viewport, RenderState.textureUnitModified])

theorem setAlphaTest_frame (t : AlphaTest) (r : ℚ) :
    Frame (Obs viewportAndLogicOp) (setAlphaTest t r) := by
  intro d
  simp only [setAlphaTest]
  repeat' first
    | exact keeps_none _ _
    | (apply keeps_ite <;> intro _)
    | (apply keeps_of_eq; simp [obs_def, viewportAndLogicOp, viewport, RenderState.textureUnitModified])

theorem setBlendFunc_frame (a b : BlendFunc) (e : BlendEq) :
    Frame (Obs viewportAndLogicOp) (setBlendFunc a b e) := by
  intro d
  simp only [setBlendFunc]
  repeat' first
    | exact keeps_none _ _
    | (apply keeps_ite <;> intro _)
    | (apply keeps_of_eq; simp [obs_def, viewportAndLogicOp, viewport, RenderState.textureUnitModified])
    | split

theorem setLineWidth_frame (w : ℚ) :
    Frame (Obs viewportAndLogicOp) (setLineWidth w) := by
  intro d
  simp only [setLineWidth]
  repeat' first
    | exact keeps_none _ _
    | (apply keeps_ite <;> intro _)
    | (apply keeps_of_eq; simp [obs_def, viewportAndLogicOp, viewport, RenderState.textureUnitModified])

theorem setPointSize_frame (w : ℚ) :
    Frame (Obs viewportAndLogicOp) (setPointSize w) := by
  intro d
  simp only [setPointSize]
  repeat' first
    | exact keeps_none _ _
    | (apply keeps_ite <;> intro _)
    | (apply keeps_of_eq; simp [obs_def, viewportAndLogicOp, viewport, RenderState.textureUnitModified])

theorem forceSetTextureMatrix_frame (u : Nat) (m : List ℚ) :
    Frame (Obs viewportAndLogicOp) (forceSetTextureMatrix u m) := by
  intro d
  simp only [forceSetTextureMatrix]
  repeat' first
    | exact keeps_none _ _
    | (apply keeps_of_eq; simp [obs_def, viewportAndLogicOp, viewport, RenderState.textureUnitModified])
    | split

theorem setTextureLODBias_frame (u : Nat) (b : ℚ) :
    Frame (Obs viewportAndLogicOp) (setTextureLODBias u b) := by
  intro d
  simp only [setTextureLODBias]
  repeat' first
    | exact keeps_none _ _
    | (apply keeps_ite <;> intro _)
    | (apply keeps_of_eq; simp [obs_def, viewportAndLogicOp, viewport, RenderState.textureUnitModified])
    | split

theorem setTextureCombineMode_frame (u : Nat) (m : CombineMode) :
    Frame (Obs viewportAndLogicOp) (setTextureCombineMode u m) := by
  intro d
  simp only [setTextureCombineMode]
  repeat' first
    | exact keeps_none _ _
    | (apply keeps_ite <;> intro _)
    | (apply keeps_of_eq; simp [obs_def, viewportAndLogicOp, viewport, RenderState.textureUnitModified])
    | split

theorem setPolygonOffset_frame (o : ℚ) :
    Frame (Obs viewportAndLogicOp) (setPolygonOffset o) := by
  intro d
  simp only [setPolygonOffset]
  repeat' first
    | exact keeps_none _ _
    | (apply keeps_ite <;> intro _)
    | (apply keeps_of_eq; simp [obs_def, viewportAndLogicOp, viewport, RenderState.textureUnitModified])

theorem setNormal_frame (n : Vector3) :
    Frame (Obs viewportAndLogicOp) (setNormal n) := by
  intro d
  simp only [setNormal]
  apply keeps_of_eq
  simp [obs_def, viewportAndLogicOp, viewport, RenderState.textureUnitModified]

theorem setTexCoord_frame (u : Nat) (c : Vector4) :
    Frame (Obs viewportAndLogicOp) (setTexCoord u c) := by
  intro d
  simp only [setTexCoord]
  repeat' first
    | exact keeps_none _ _
    | (apply keeps_ite <;> intro _)
    | (apply keeps_of_eq; simp [obs_def, viewportAndLogicOp, viewport, RenderState.textureUnitModified])
    | split

theorem setTexture_frame (u : Nat) (t : Option Texture) :
    Frame (Obs viewportAndLogicOp) (setTexture u t) := by
  intro d
  simp only [setTexture]
  repeat' first
    | exact keeps_none _ _
    | (apply keeps_ite <;> intro _)
    | (apply keeps_of_eq; simp [obs_def, viewportAndLogicOp, viewport, RenderState.textureUnitModified])
    | split

theorem setColor_frame (c : Color4) :
    Frame (Obs viewportAndLogicOp) (setColor c) := by
  intro d
  simp only [setColor]
  apply keeps_of_eq
  simp [obs_def, viewportAndLogicOp, viewport, RenderState.textureUnitModified]

theorem setAlphaWrite_frame (a : Bool) :
    Frame (Obs viewportAndLogicOp) (setAlphaWrite a) := by
  intro d
  simp only [setAlphaWrite]
  repeat' first
    | exact keeps_none _ _
    | (apply keeps_ite <;> intro _)
    | (apply keeps_of_eq; simp [obs_def, viewportAndLogicOp, viewport, RenderState.textureUnitModified])

theorem setColorWrite_frame (a : Bool) :
    Frame (Obs viewportAndLogicOp) (setColorWrite a) := by
  intro d
  simp only [setColorWrite]
  repeat' first
    | exact keeps_none _ _
    | (apply keeps_ite <;> intro _)
    | (apply keeps_of_eq; simp [obs_def, viewportAndLogicOp, viewport, RenderState.textureUnitModified])

theorem setShadeMode_frame (s : ShadeMode) :
    Frame (Obs viewportAndLogicOp) (setShadeMode s) := by
  intro d
  simp only [setShadeMode]
  repeat' first
    | (apply keeps_ite <;> intro _)
    | (apply keeps_of_eq; simp [obs_def, viewportAndLogicOp, viewport, RenderState.textureUnitModified])

theorem setDepthRange_frame (lo hi : ℚ) :
    Frame (Obs viewportAndLogicOp) (setDepthRange lo hi) := by
  intro d
  simp only [setDepthRange]
  repeat' first
    | (apply keeps_ite <;> intro _)
    | (apply keeps_of_eq; simp [obs_def, viewportAndLogicOp, viewport, RenderState.textureUnitModified])

theorem adoptDeltas_frame (n : RenderState) :
    Frame (Obs viewportAndLogicOp) (adoptDeltas n) := by
  intro d
  simp only [adoptDeltas]
  apply keeps_of_eq
  simp [obs_def, viewportAndLogicOp, viewport, RenderState.textureUnitModified]

theorem setDepthWrite_frame (a : Bool) :
    Frame (Obs viewportAndLogicOp) (setDepthWrite a) := by
  intro d
  simp only [setDepthWrite]
  repeat' first
    | exact keeps_none _ _
    | (apply keeps_ite <;> intro _)
    | (apply keeps_of_eq; simp [obs_def, viewportAndLogicOp, viewport, RenderState.textureUnitModified])

theorem setTextureMatrix_frame (u : Nat) (m : List ℚ) :
    Frame (Obs viewportAndLogicOp) (setTextureMatrix u m) := by
  intro d
  simp only [setTextureMatrix]
  repeat' first
    | exact keeps_none _ _
    | (apply keeps_ite <;> intro _)
    | (refine keeps_call _ _ (forceSetTextureMatrix_frame _ _) _ _ ?_; simp [obs_def, viewportAndLogicOp, viewport, RenderState.textureUnitModified])
    | (apply keeps_of_eq; simp [obs_def, viewportAndLogicOp, viewport, RenderState.textureUnitModified])
    | split

theorem setReadFramebuffer_frame (fbo : Option Framebuffer) :
    Frame (Obs viewportAndLogicOp) (setReadFramebuffer fbo) := by
  intro d
  simp only [setReadFramebuffer]
  repeat' first
    | exact keeps_none _ _
    | (apply keeps_ite <;> intro _)
    | (apply keeps_of_eq; simp [obs_def, viewportAndLogicOp, viewport, RenderState.textureUnitModified])
    | split

theorem updateInvertY_frame :
    Frame (Obs viewportAndLogicOp) (updateInvertY) := by
  intro d
  simp only [updateInvertY]
  repeat' first
    | exact keeps_none _ _
    | (apply keeps_ite <;> intro _)
    | (apply keeps_of_eq; simp [obs_def, viewportAndLogicOp, viewport, RenderState.textureUnitModified])

theorem setDrawFramebuffer_frame (fbo : Option Framebuffer) :
    Frame (Obs viewportAndLogicOp) (setDrawFramebuffer fbo) := by
  intro d
  simp only [setDrawFramebuffer]
  apply keeps_ite <;> intro _
  · split
    · refine keeps_call _ _ updateInvertY_frame _ _ ?_
      simp [obs_def, viewportAndLogicOp]
    · apply keeps_ite <;> intro _
      · split
        · exact keeps_none _ _
        · rename_i x hx
          have h1 := frame_eq _ _ (syncDrawBuffer_frame viewportAndLogicOp false) _ _ hx
          refine keeps_call _ _ updateInvertY_frame _ _ ?_
          rw [h1]
          simp [obs_def, viewportAndLogicOp]
      · exact keeps_none _ _
  · exact keeps_of_eq _ _ _ rfl

theorem setFramebuffer_frame (fbo : Option Framebuffer) :
    Frame (Obs viewportAndLogicOp) (setFramebuffer fbo) := by
  apply frame_of_eq
  intro d d' h
  simp only [setFramebuffer] at h
  split at h
  · exact Option.noConfusion h
  · rename_i x hx
    exact (frame_eq _ _ (setReadFramebuffer_frame fbo) _ _ h).trans
      (frame_eq _ _ (setDrawFramebuffer_frame fbo) _ _ hx)

theorem setStencilOp_frame (a b c e f h : StencilOp) :
    Frame (Obs viewportAndLogicOp) (setStencilOp a b c e f h) := by
  intro d
  simp only [setStencilOp]
  apply keeps_ite <;> intro _
  · split
    · exact keeps_none _ _
    · rename_i x hx
      have h1 := frame_eq _ _ (forceSetStencilOp_frame viewportAndLogicOp _ _ _ _ _ _) _ _ hx
      have h2 : Obs viewportAndLogicOp x = Obs viewportAndLogicOp d := by
        rw [h1]; simp [obs_def]
      repeat' first
        | exact keeps_none _ _
        | (apply keeps_ite <;> intro _)
        | (apply keeps_of_eq; rw [← h2]; simp [obs_def, viewportAndLogicOp])
  · apply keeps_of_eq; simp [obs_def]

theorem restoreStencil_frame (n : RenderState) :
    Frame (Obs viewportAndLogicOp) (restoreStencil n) := by
  intro d
  simp only [restoreStencil]
  apply keeps_ite <;> intro _
  · apply frame_runSteps
    intro f hf
    simp only [List.mem_cons, List.mem_singleton, List.not_mem_nil, or_false] at hf
    rcases hf with rfl | rfl | rfl | rfl
    · exact setStencilConstant_frame _
    · exact setStencilTest_frame _
    · exact setStencilOp_frame _ _ _ _ _ _
    · exact setStencilClearValue_frame _
  · exact keeps_of_eq _ _ _ rfl

theorem restoreReadFramebuffer_frame (n : RenderState) :
    Frame (Obs viewportAndLogicOp) (restoreReadFramebuffer n) := by
  intro d
  simp only [restoreReadFramebuffer]
  apply keeps_ite <;> intro _
  · exact setReadFramebuffer_frame _ d
  · exact keeps_of_eq _ _ _ rfl

theorem restoreClip2D_frame (n : RenderState) :
    Frame (Obs viewportAndLogicOp) (restoreClip2D n) := by
  intro d
  simp only [restoreClip2D]
  apply keeps_ite <;> intro _
  · exact setClip2D_frame _ d
  · exact setClip2D_frame _ d

theorem restoreTextureImageUnit_frame (n : RenderState) (u : Nat) :
    Frame (Obs viewportAndLogicOp) (restoreTextureImageUnit n u) := by
  intro d
  simp only [restoreTextureImageUnit]
  apply keeps_ite <;> intro _
  · split
    · apply keeps_ite <;> intro _
      · exact setTexture_frame _ _ d
      · exact keeps_of_eq _ _ _ rfl
    · exact keeps_none _ _
  · exact keeps_of_eq _ _ _ rfl

theorem revertTextureUnit_frame (n : RenderState.TextureUnit) (u : Nat) :
    Frame (Obs viewportAndLogicOp) (runSteps (revertTextureUnit n u)) := by
  apply frame_runSteps
  intro f hf
  simp only [revertTextureUnit, List.mem_cons, List.mem_singleton, List.not_mem_nil,
    or_false] at hf
  rcases hf with rfl | rfl
  · intro d
    apply keeps_ite <;> intro _
    · apply frame_runSteps
      intro f hf
      simp only [List.mem_cons, List.mem_singleton, List.not_mem_nil, or_false] at hf
      rcases hf with rfl | rfl | rfl
      · exact setTextureCombineMode_frame _ _
      · exact setTextureMatrix_frame _ _
      · exact setTextureLODBias_frame _ _
    · exact keeps_of_eq _ _ _ rfl
  · intro d
    apply keeps_ite <;> intro _
    · exact setTexCoord_frame _ _ d
    · exact keeps_of_eq _ _ _ rfl

theorem restoreFixedUnit_frame (n : RenderState) (u : Nat) :
    Frame (Obs viewportAndLogicOp) (restoreFixedUnit n u) := by
  intro d
  simp only [restoreFixedUnit]
  apply keeps_ite <;> intro _
  · split
    · apply keeps_ite <;> intro _
      · exact revertTextureUnit_frame _ _ d
      · exact keeps_of_eq _ _ _ rfl
    · exact keeps_none _ _
  · exact keeps_of_eq _ _ _ rfl

theorem restoreTextureUnit_frame (n : RenderState) (u : Nat) :
    Frame (Obs viewportAndLogicOp) (restoreTextureUnit n u) := by
  intro d
  simp only [restoreTextureUnit]
  apply frame_runSteps
  intro f hf
  simp only [List.mem_cons, List.mem_singleton, List.not_mem_nil, or_false] at hf
  rcases hf with rfl | rfl
  · exact restoreTextureImageUnit_frame _ _
  · exact restoreFixedUnit_frame _ _

theorem restoreTextureUnits_frame (n : RenderState) (k : Nat) :
    Frame (Obs viewportAndLogicOp) (restoreTextureUnits n k) := by
  induction k with
  | zero => intro d; exact keeps_of_eq _ _ _ rfl
  | succ k ih =>
    intro d
    simp only [restoreTextureUnits]
    apply frame_runSteps
    intro f hf
    simp only [List.mem_cons, List.mem_singleton, List.not_mem_nil, or_false] at hf
    rcases hf with rfl | rfl
    · exact restoreTextureUnit_frame _ _
    · exact ih

theorem restoreChangedTextureUnits_frame (n : RenderState) :
    Frame (Obs viewportAndLogicOp) (restoreChangedTextureUnits n) := by
  intro d
  exact restoreTextureUnits_frame _ _ d

theorem restoreMatrices_frame (n : RenderState) :
    Frame (Obs viewportAndLogicOp) (restoreMatrices n) := by
  intro d
  simp only [restoreMatrices]
  apply keeps_ite <;> intro _
  · apply frame_runSteps
    intro f hf
    simp only [List.mem_cons, List.mem_singleton, List.not_mem_nil, or_false] at hf
    rcases hf with rfl | rfl | rfl
    · intro d
      apply keeps_ite <;> intro _
      · exact setCameraToWorldMatrix_frame _ d
      · exact keeps_of_eq _ _ _ rfl
    · intro d
      apply keeps_ite <;> intro _
      · exact setObjectToWorldMatrix_frame _ d
      · exact keeps_of_eq _ _ _ rfl
    · exact setProjectionMatrix_frame _
  · exact keeps_of_eq _ _ _ rfl

/-! ## What setState and popState leave alone -/

theorem restoreDrawFramebuffer_frame (n : RenderState) :
    Frame (Obs logicOpOf) (restoreDrawFramebuffer n) := by
  intro d
  simp only [restoreDrawFramebuffer]
  apply keeps_ite <;> intro _
  · split
    · exact keeps_none _ _
    · rename_i x hx
      have h1 := frame_eq _ _ (setDrawFramebuffer_frame _) _ _ hx
      simp only [obs_def, viewportAndLogicOp, Prod.mk.injEq] at h1
      apply keeps_of_eq
      simp [obs_def, logicOpOf, h1.1, h1.2.2]
  · exact keeps_of_eq _ _ _ rfl

theorem setViewport_frame (v : Rect2D) : Frame (Obs logicOpOf) (setViewport v) := by
  intro d
  simp only [setViewport]
  repeat' first
    | (apply keeps_ite <;> intro _)
    | (apply keeps_of_eq; simp [obs_def, logicOpOf])

theorem logicOp_of_viewportAndLogicOp (f : Device → Option Device)
    (hf : Frame (Obs viewportAndLogicOp) f) : Frame (Obs logicOpOf) f :=
  frame_weaken viewportAndLogicOp (fun p => p.2) f hf

/-- The statements of setState that follow the viewport. -/
theorem setStateSteps_tail_frame (n : RenderState) :
    ∀ f ∈ (setStateSteps n).drop 4, Frame (Obs viewportAndLogicOp) f := by
  intro f hf
  simp only [setStateSteps, List.drop_succ_cons, List.drop_zero, List.mem_cons,
    List.mem_singleton, List.not_mem_nil, or_false] at hf
  rcases hf with rfl | rfl | rfl | rfl | rfl | rfl | rfl | rfl | rfl | rfl | rfl | rfl | rfl |
    rfl | rfl | rfl | rfl | rfl | rfl | rfl | rfl | rfl | rfl | rfl | rfl | rfl | rfl
  · exact restoreClip2D_frame _
  · exact setDepthWrite_frame _
  · exact setColorWrite_frame _
  · exact setAlphaWrite_frame _
  · exact setDrawBuffer_frame _
  · exact setReadBuffer_frame _
  · exact setShadeMode_frame _
  · exact setDepthTest_frame _
  · exact restoreStencil_frame _
  · exact setDepthClearValue_frame _
  · exact setColorClearValue_frame _
  · exact setAlphaTest_frame _ _
  · exact setBlendFunc_frame _ _ _
  · exact setRenderMode_frame _
  · exact setPolygonOffset_frame _
  · exact setLineWidth_frame _
  · exact setPointSize_frame _
  · exact setGlossyCoefficient_frame _
  · exact setShininess_frame _
  · exact setColor_frame _
  · exact setNormal_frame _
  · exact restoreChangedTextureUnits_frame _
  · exact setCullFace_frame _
  · exact setSRGBConversion_frame _
  · exact setDepthRange_frame _ _
  · exact restoreMatrices_frame _
  · exact adoptDeltas_frame _

/-- The first four statements of setState. -/
theorem setStateSteps_head_frame (n : RenderState) :
    ∀ f ∈ (setStateSteps n).take 4, Frame (Obs logicOpOf) f := by
  intro f hf
  simp only [setStateSteps, List.take_succ_cons, List.take_zero, List.mem_cons,
    List.mem_singleton, List.not_mem_nil, or_false] at hf
  rcases hf with rfl | rfl | rfl | rfl
  · exact restoreDrawFramebuffer_frame _
  · exact logicOp_of_viewportAndLogicOp _ (restoreReadFramebuffer_frame _)
  · exact logicOp_of_viewportAndLogicOp _ (restoreReadFramebuffer_frame _)
  · exact setViewport_frame _

theorem setState_split (n : RenderState) (d : Device) :
    setState n d =
      (runSteps ((setStateSteps n).take 4) d).bind (runSteps ((setStateSteps n).drop 4)) := by
  have h : setState n d =
      runSteps ((setStateSteps n).take 4 ++ (setStateSteps n).drop 4) d := by
    rw [List.take_append_drop, setState]
  rw [h, runSteps_append]

/-- Neither setState nor any call made by it writes the cached logic op, the
state stack, or any other member of `Env`. -/
theorem setState_frame (n : RenderState) : Frame (Obs logicOpOf) (setState n) := by
  apply frame_of_eq
  intro d d' h
  rw [setState_split] at h
  cases h1 : runSteps ((setStateSteps n).take 4) d with
  | none => rw [h1] at h; exact Option.noConfusion h
  | some x =>
    rw [h1, Option.some_bind] at h
    have e1 := frame_eq _ _ (frame_runSteps _ _ (setStateSteps_head_frame n)) _ _ h1
    have e2 := frame_eq _ _ (frame_runSteps _ _ (fun f hf =>
      logicOp_of_viewportAndLogicOp f (setStateSteps_tail_frame n f hf))) _ _ h
    exact e2.trans e1

/-! ## Combinators for `Ensures` and `Yields` -/

theorem ensures_none (Q : Device → Prop) : Ensures Q none := trivial

theorem ensures_some (Q : Device → Prop) (d' : Device) (h : Q d') : Ensures Q (some d') := h

theorem ensures_ite (Q : Device → Prop) (c : Prop) [Decidable c] (a b : Option Device)
    (ha : c → Ensures Q a) (hb : ¬ c → Ensures Q b) : Ensures Q (if c then a else b) := by
  by_cases h : c
  · rw [if_pos h]; exact ha h
  · rw [if_neg h]; exact hb h

theorem ensures_eq (Q : Device → Prop) (r : Option Device) (h : Ensures Q r) (d' : Device)
    (hr : r = some d') : Q d' := by
  rw [hr] at h
  exact h

theorem yields_some (Q : Device → Prop) (d' : Device) (h : Q d') : Yields Q (some d') := h

theorem yields_ite (Q : Device → Prop) (c : Prop) [Decidable c] (a b : Option Device)
    (ha : c → Yields Q a) (hb : ¬ c → Yields Q b) : Yields Q (if c then a else b) := by
  by_cases h : c
  · rw [if_pos h]; exact ha h
  · rw [if_neg h]; exact hb h

theorem yields_exists (Q : Device → Prop) (r : Option Device) (h : Yields Q r) :
    ∃ d', r = some d' ∧ Q d' := by
  cases r with
  | none => exact False.elim h
  | some y => exact ⟨y, rfl, h⟩

theorem exists_of_isSome (r : Option Device) (h : r.isSome = true) : ∃ d, r = some d :=
  Option.isSome_iff_exists.mp h

/-! ## popState and pushState -/

/-- The shape of a successful popState. -/
theorem popState_some (d d' : Device) (h : popState d = some d') :
    d.m_inPrimitive = false ∧
      ∃ top x, d.m_stateStack.getLast? = some top ∧ setState top d = some x ∧
        d' = { x with m_stateStack := x.m_stateStack.dropLast } := by
  simp only [popState] at h
  split at h
  · exact Option.noConfusion h
  · rename_i hp
    split at h
    · exact Option.noConfusion h
    · rename_i top htop
      split at h
      · exact Option.noConfusion h
      · rename_i x hx
        exact ⟨by simpa using hp, top, x, htop, hx, (Option.some.inj h).symm⟩

theorem stack_of_env (d d' : Device) (h : Env d' = Env d) :
    d'.m_stateStack = d.m_stateStack := by
  simp only [Env, Prod.mk.injEq] at h
  exact h.2.2.2.2.2.2.2.2

theorem inPrimitive_of_env (d d' : Device) (h : Env d' = Env d) :
    d'.m_inPrimitive = d.m_inPrimitive := by
  simp only [Env, Prod.mk.injEq] at h
  exact h.2.2.2.2.2.2.2.1

theorem env_of_obs {β : Type} (g : RenderState → β) (d d' : Device)
    (h : Obs g d' = Obs g d) : Env d' = Env d := by
  simp only [obs_def, Prod.mk.injEq] at h
  exact h.1

theorem view_of_obs {β : Type} (g : RenderState → β) (d d' : Device)
    (h : Obs g d' = Obs g d) : g d'.m_state = g d.m_state := by
  simp only [obs_def, Prod.mk.injEq] at h
  exact h.2

theorem pushState_stack (d d' : Device) (h : pushState d = some d') :
    d'.m_stateStack = d.m_stateStack ++ [d.m_state] := by
  simp only [pushState] at h
  split at h
  · exact Option.noConfusion h
  · rw [← Option.some.inj h]
    rfl

theorem popState_stack (d d' : Device) (h : popState d = some d') :
    d.m_stateStack ≠ [] ∧ d'.m_stateStack = d.m_stateStack.dropLast := by
  obtain ⟨_, top, x, htop, hx, rfl⟩ := popState_some d d' h
  have hs : x.m_stateStack = d.m_stateStack :=
    stack_of_env d x (env_of_obs logicOpOf d x (frame_eq _ _ (setState_frame top) _ _ hx))
  constructor
  · intro hnil
    rw [hnil] at htop
    exact Option.noConfusion htop
  · show x.m_stateStack.dropLast = d.m_stateStack.dropLast
    rw [hs]

theorem pushState_eq (d : Device) (h : d.m_inPrimitive = false) :
    pushState d = some
      { d with
        m_stateStack := d.m_stateStack ++ [d.m_state],
        m_state := { d.m_state with
          matrices := { d.m_state.matrices with changed := false },
          highestTextureUnitThatChanged := -1 },
        m_stats := { d.m_stats with pushStates := (d.m_stats.pushStates + 1) % 2 ^ 32 } } := by
  simp only [pushState, h, Bool.false_eq_true, if_false, withState, wrap32]

/-! ## C1: popState and the logic op -/

/-- C1: popState never writes the cached logic op, so a logic op set between
pushState and popState survives the pop instead of being restored. -/
theorem popState_keeps_logicOp (d d' : Device) (h : popState d = some d') :
    d'.m_state.logicOp = d.m_state.logicOp := by
  obtain ⟨_, top, x, _, hx, rfl⟩ := popState_some d d' h
  show x.m_state.logicOp = d.m_state.logicOp
  exact view_of_obs logicOpOf d x (frame_eq _ _ (setState_frame top) _ _ hx)

theorem popState_keeps_logicOp_witness :
    ∃ d0 d1 d2 d3, resetState (freshDevice 2 2 2) = some d0 ∧ pushState d0 = some d1 ∧
      setLogicOp LOGIC_XOR d1 = some d2 ∧ popState d2 = some d3 ∧
      d0.m_state.logicOp = LOGIC_COPY ∧ d3.m_state.logicOp = LOGIC_XOR := by
  obtain ⟨d0, h0⟩ := exists_of_isSome (resetState (freshDevice 2 2 2)) (by decide)
  have e1 : ((resetState (freshDevice 2 2 2)).bind pushState).isSome = true := by decide
  rw [h0, Option.some_bind] at e1
  obtain ⟨d1, h1⟩ := exists_of_isSome _ e1
  have e2 : (((resetState (freshDevice 2 2 2)).bind pushState).bind
      (setLogicOp LOGIC_XOR)).isSome = true := by decide
  rw [h0, Option.some_bind, h1, Option.some_bind] at e2
  obtain ⟨d2, h2⟩ := exists_of_isSome _ e2
  have e3 : ((((resetState (freshDevice 2 2 2)).bind pushState).bind
      (setLogicOp LOGIC_XOR)).bind popState).isSome = true := by decide
  rw [h0, Option.some_bind, h1, Option.some_bind, h2, Option.some_bind] at e3
  obtain ⟨d3, h3⟩ := exists_of_isSome _ e3
  have v0 : (resetState (freshDevice 2 2 2)).map (fun d => d.m_state.logicOp) =
      some LOGIC_COPY := by decide
  have v2 : (((resetState (freshDevice 2 2 2)).bind pushState).bind
      (setLogicOp LOGIC_XOR)).map (fun d => d.m_state.logicOp) = some LOGIC_XOR := by decide
  rw [h0, Option.map_some'] at v0
  rw [h0, Option.some_bind, h1, Option.some_bind, h2, Option.map_some'] at v2
  refine ⟨d0, d1, d2, d3, h0, h1, h2, h3, Option.some.inj v0, ?_⟩
  rw [popState_keeps_logicOp d2 d3 h3]
  exact Option.some.inj v2

/-! ## C2: texture units across nested pushState and popState -/

/-- C2: on a device with one fixed-function texture unit and two texture
coordinate sets, setTextureMatrix accepts unit 1, but setState restores the
texture matrix only of units below the number of fixed-function units.  After
pushState(); setTextureMatrix(1, M); pushState(); popState(); popState() all
calls have returned and the texture matrix of unit 1 is still M, not the
identity it was before the outer push.  With two fixed-function units and one
coordinate set, pushState(); setTextureLODBias(1, 1); popState() does not
return: setState calls setTextureMatrix(1, ..), whose assertion fails. -/
theorem popState_skips_texture_matrix :
    (resetState (freshDevice 1 2 2)).map
        (fun d => d.m_state.textureUnits.map (fun u => u.textureMatrix)) =
      some [[1, 0, 0, 0, 0, 1, 0, 0, 0, 0, 1, 0, 0, 0, 0, 1],
        [1, 0, 0, 0, 0, 1, 0, 0, 0, 0, 1, 0, 0, 0, 0, 1]] ∧
    (runSteps [resetState, pushState, setTextureMatrix 1 testMatrix, pushState, popState,
        popState] (freshDevice 1 2 2)).map
        (fun d => (d.m_stateStack.length,
          d.m_state.textureUnits.map (fun u => u.textureMatrix))) =
      some (0, [[1, 0, 0, 0, 0, 1, 0, 0, 0, 0, 1, 0, 0, 0, 0, 1], testMatrix]) ∧
    (runSteps [resetState, pushState, setTextureLODBias 1 1] (freshDevice 2 1 2)).isSome = true ∧
    runSteps [resetState, pushState, setTextureLODBias 1 1, popState] (freshDevice 2 1 2) =
      none := by
  decide

/-! ## C3: pushState, setViewport, popState -/

theorem setViewport_sets (v : Rect2D) (d : Device) :
    Yields (fun d' => d'.m_state.viewport = v) (setViewport v d) := by
  simp only [setViewport]
  apply yields_ite <;> intro h
  · apply yields_some
    simp
  · apply yields_some
    simpa using h

theorem runSteps_last (fs : List (Device → Option Device)) (f : Device → Option Device)
    (d d' : Device) (h : runSteps (fs ++ [f]) d = some d') : ∃ x, f x = some d' := by
  rw [runSteps_append] at h
  cases hx : runSteps fs d with
  | none => rw [hx] at h; exact Option.noConfusion h
  | some x =>
    rw [hx, Option.some_bind, runSteps_cons] at h
    cases hy : f x with
    | none => rw [hy] at h; exact Option.noConfusion h
    | some y =>
      rw [hy, Option.some_bind, runSteps_nil] at h
      exact ⟨x, by rw [hy, ← Option.some.inj h]⟩

/-- After a successful setState the cached viewport is the one of the state
that was handed in. -/
theorem setState_viewport (n : RenderState) (d d' : Device) (h : setState n d = some d') :
    d'.m_state.viewport = n.viewport := by
  rw [setState_split] at h
  cases h1 : runSteps ((setStateSteps n).take 4) d with
  | none => rw [h1] at h; exact Option.noConfusion h
  | some x =>
    rw [h1, Option.some_bind] at h
    have e2 := view_of_obs _ _ _
      (frame_eq _ _ (frame_runSteps _ _ (setStateSteps_tail_frame n)) _ _ h)
    have hx : x.m_state.viewport = n.viewport := by
      have h1' : runSteps ([restoreDrawFramebuffer n, restoreReadFramebuffer n,
          restoreReadFramebuffer n] ++ [setViewport n.viewport]) d = some x := h1
      obtain ⟨w, hw⟩ := runSteps_last _ _ _ _ h1'
      have := setViewport_sets n.viewport w
      rw [hw] at this
      exact this
    have e3 : d'.m_state.viewport = x.m_state.viewport := congrArg Prod.fst e2
    rw [e3, hx]

/-- Whenever the three calls return, the viewport is the one before the push. -/
theorem viewport_after_push_pop (d : Device) (A : Rect2D) (d1 d2 d3 : Device)
    (h1 : pushState d = some d1) (h2 : setViewport A d1 = some d2)
    (h3 : popState d2 = some d3) : viewport d3 = viewport d := by
  obtain ⟨_, top, x, htop, hx, rfl⟩ := popState_some d2 d3 h3
  have s1 := pushState_stack d d1 h1
  have s2 : d2.m_stateStack = d1.m_stateStack :=
    stack_of_env d1 d2 (env_of_obs _ d1 d2 (frame_eq _ _ (setViewport_frame A) d1 d2 h2))
  rw [s2, s1, List.getLast?_append, List.getLast?_singleton] at htop
  have ht : top = d.m_state := by
    simpa using htop.symm
  show x.m_state.viewport = d.m_state.viewport
  rw [setState_viewport top d2 x hx, ht]

/-! ### Setters called with the value that is already cached -/

theorem quiet_of_eq (d d' : Device) (he : Env d' = Env d) (hs : d'.m_state = d.m_state) :
    Quiet d (some d') := by
  show Obs id d' = Obs id d
  rw [obs_def, obs_def, he, hs]

theorem quiet_env (d : Device) (r : Option Device) (h : Quiet d r) :
    ∃ d', r = some d' ∧ Env d' = Env d ∧ d'.m_state = d.m_state := by
  obtain ⟨d', hr, hq⟩ := yields_exists _ _ h
  exact ⟨d', hr, env_of_obs id d d' hq, view_of_obs id d d' hq⟩

theorem setDepthWrite_quiet (a : Bool) (d : Device) (hp : d.m_inPrimitive = false)
    (h : d.m_state.depthWrite = a) :
    Quiet d (setDepthWrite a d) := by
  simp only [setDepthWrite]
  repeat' first
    | (apply yields_ite <;> intro _)
    | (apply quiet_of_eq <;> simp <;> done)
    | (exfalso; simp_all)

theorem setColorWrite_quiet (a : Bool) (d : Device) (hp : d.m_inPrimitive = false)
    (h : d.m_state.colorWrite = a) :
    Quiet d (setColorWrite a d) := by
  simp only [setColorWrite]
  repeat' first
    | (apply yields_ite <;> intro _)
    | (apply quiet_of_eq <;> simp <;> done)
    | (exfalso; simp_all)

theorem setAlphaWrite_quiet (a : Bool) (d : Device) (hp : d.m_inPrimitive = false)
    (h : d.m_state.alphaWrite = a) :
    Quiet d (setAlphaWrite a d) := by
  simp only [setAlphaWrite]
  repeat' first
    | (apply yields_ite <;> intro _)
    | (apply quiet_of_eq <;> simp <;> done)
    | (exfalso; simp_all)

theorem setDrawBuffer_quiet (b : DrawBuffer) (d : Device)
    (h : d.m_state.drawBuffer = b)
    (hb : d.m_state.drawFramebuffer = none → ¬ (DRAW_COLOR0 ≤ b ∧ b ≤ DRAW_COLOR15)) :
    Quiet d (setDrawBuffer b d) := by
  simp only [setDrawBuffer]
  repeat' first
    | (apply yields_ite <;> intro _)
    | (apply quiet_of_eq <;> simp <;> done)
    | (exfalso; simp_all)

theorem setReadBuffer_quiet (b : ReadBuffer) (d : Device)
    (h : d.m_state.readBuffer = b) :
    Quiet d (setReadBuffer b d) := by
  simp only [setReadBuffer]
  repeat' first
    | (apply yields_ite <;> intro _)
    | (apply quiet_of_eq <;> simp)
    | (exfalso; simp_all)

theorem setShadeMode_quiet (s : ShadeMode) (d : Device)
    (h : d.m_state.shadeMode = s) :
    Quiet d (setShadeMode s d) := by
  simp only [setShadeMode]
  repeat' first
    | (apply yields_ite <;> intro _)
    | (apply quiet_of_eq <;> simp <;> done)
    | (exfalso; simp_all)

theorem setDepthClearValue_quiet (v : ℚ) (d : Device) (hp : d.m_inPrimitive = false)
    (h : d.m_state.depthClear = v) :
    Quiet d (setDepthClearValue v d) := by
  simp only [setDepthClearValue]
  repeat' first
    | (apply yields_ite <;> intro _)
    | (apply quiet_of_eq <;> simp <;> done)
    | (exfalso; simp_all)

theorem setColorClearValue_quiet (c : Color4) (d : Device) (hp : d.m_inPrimitive = false)
    (h : d.m_state.colorClear = c) :
    Quiet d (setColorClearValue c d) := by
  simp only [setColorClearValue]
  repeat' first
    | (apply yields_ite <;> intro _)
    | (apply quiet_of_eq <;> simp <;> done)
    | (exfalso; simp_all)

theorem setAlphaTest_quiet (t : AlphaTest) (r : ℚ) (d : Device) (hp : d.m_inPrimitive = false)
    (h : d.m_state.alphaTest = t) (hr : d.m_state.alphaReference = r) :
    Quiet d (setAlphaTest t r d) := by
  simp only [setAlphaTest]
  repeat' first
    | (apply yields_ite <;> intro _)
    | (apply quiet_of_eq <;> simp <;> done)
    | (exfalso; simp_all)

theorem setBlendFunc_quiet (s t : BlendFunc) (e : BlendEq) (d : Device)
    (hp : d.m_inPrimitive = false)
    (hs : d.m_state.srcBlendFunc = s) (ht : d.m_state.dstBlendFunc = t)
    (he : d.m_state.blendEq = e) :
    Quiet d (setBlendFunc s t e d) := by
  simp only [setBlendFunc]
  apply yields_ite <;> intro h0
  · exact absurd h0 (by rw [hp]; exact Bool.false_ne_true)
  · apply yields_ite <;> intro h1
    · exfalso
      revert h1
      simp [hs, ht, he]
    · apply quiet_of_eq <;> simp

theorem setRenderMode_quiet (m : RenderMode) (d : Device)
    (h : d.m_state.renderMode = m) :
    Quiet d (setRenderMode m d) := by
  simp only [setRenderMode]
  repeat' first
    | (apply yields_ite <;> intro _)
    | (apply quiet_of_eq <;> simp)
    | (exfalso; simp_all)

theorem setPolygonOffset_quiet (o : ℚ) (d : Device) (hp : d.m_inPrimitive = false)
    (h : d.m_state.polygonOffset = o) :
    Quiet d (setPolygonOffset o d) := by
  simp only [setPolygonOffset]
  repeat' first
    | (apply yields_ite <;> intro _)
    | (apply quiet_of_eq <;> simp <;> done)
    | (exfalso; simp_all)

theorem setLineWidth_quiet (w : ℚ) (d : Device) (hp : d.m_inPrimitive = false)
    (h : d.m_state.lineWidth = w) :
    Quiet d (setLineWidth w d) := by
  simp only [setLineWidth]
  repeat' first
    | (apply yields_ite <;> intro _)
    | (apply quiet_of_eq <;> simp <;> done)
    | (exfalso; simp_all)

theorem setPointSize_quiet (w : ℚ) (d : Device) (hp : d.m_inPrimitive = false)
    (h : d.m_state.pointSize = w) :
    Quiet d (setPointSize w d) := by
  simp only [setPointSize]
  repeat' first
    | (apply yields_ite <;> intro _)
    | (apply quiet_of_eq <;> simp <;> done)
    | (exfalso; simp_all)

theorem setGlossyCoefficient_quiet (c : Color3) (d : Device)
    (h : d.m_state.specular = c) :
    Quiet d (setGlossyCoefficient c d) := by
  simp only [setGlossyCoefficient]
  repeat' first
    | (apply yields_ite <;> intro _)
    | (apply quiet_of_eq <;> simp <;> done)
    | (exfalso; simp_all)

theorem setShininess_quiet (x : ℚ) (d : Device)
    (h : d.m_state.shininess = x) :
    Quiet d (setShininess x d) := by
  simp only [setShininess]
  repeat' first
    | (apply yields_ite <;> intro _)
    | (apply quiet_of_eq <;> simp <;> done)
    | (exfalso; simp_all)

theorem setCullFace_quiet (f : CullFace) (d : Device)
    (h : d.m_state.cullFace = f) :
    Quiet d (setCullFace f d) := by
  simp only [setCullFace]
  repeat' first
    | (apply yields_ite <;> intro _)
    | (apply quiet_of_eq <;> simp <;> done)
    | (exfalso; simp_all)

theorem setSRGBConversion_quiet (b : Bool) (d : Device) (hp : d.m_inPrimitive = false)
    (h : d.m_state.sRGBConversion = b) :
    Quiet d (setSRGBConversion b d) := by
  simp only [setSRGBConversion]
  repeat' first
    | (apply yields_ite <;> intro _)
    | (apply quiet_of_eq <;> simp <;> done)
    | (exfalso; simp_all)

theorem setDepthRange_quiet (lo hi : ℚ) (d : Device)
    (hl : d.m_state.lowDepthRange = lo) (hh : d.m_state.highDepthRange = hi) :
    Quiet d (setDepthRange lo hi d) := by
  simp only [setDepthRange]
  repeat' first
    | (apply yields_ite <;> intro _)
    | (apply quiet_of_eq <;> simp <;> done)
    | (exfalso; simp_all)

theorem setDepthTest_quiet (t : DepthTest) (d : Device) (hp : d.m_inPrimitive = false)
    (h : d.m_state.depthTest = t) : Quiet d (setDepthTest t d) := by
  subst h
  simp only [setDepthTest]
  repeat' first
    | (apply yields_ite <;> intro _)
    | (apply quiet_of_eq <;> simp)
    | (exfalso; simp_all)

theorem setColor_quiet (c : Color4) (d : Device) (h : d.m_state.color = c) :
    Quiet d (setColor c d) := by
  subst h
  simp only [setColor]
  apply quiet_of_eq <;> simp

theorem setNormal_quiet (n : Vector3) (d : Device) (h : d.m_state.normal = n) :
    Quiet d (setNormal n d) := by
  subst h
  simp only [setNormal]
  apply quiet_of_eq <;> simp

theorem restoreClip2D_quiet (n : RenderState) (d : Device)
    (hu : d.m_state.useClip2D = n.useClip2D) (hc : d.m_state.clip2D = n.clip2D)
    (hw : n.useClip2D = true → n.clip2D.isFinite = true ∨ n.clip2D.isEmpty = true) :
    Quiet d (restoreClip2D n d) := by
  simp only [restoreClip2D, setClip2D]
  apply yields_ite <;> intro h0
  · rw [if_pos (hw h0)]
    apply yields_ite <;> intro h1
    · exfalso
      revert h1
      simp [hu, h0]
    · apply quiet_of_eq
      · simp
      · simp only [state_clipZeroArea, state_minGLStateChange, state_withState,
          state_minStateChange, ← hc]
  · rw [if_neg (by simp [Rect2D.isFinite, Rect2D.isEmpty])]
    apply yields_ite <;> intro h1
    · exfalso
      revert h1
      simp [hu, h0]
    · apply quiet_of_eq <;> simp

theorem restoreStencil_quiet (n : RenderState) (d : Device)
    (h : d.m_state.stencil = n.stencil) : Quiet d (restoreStencil n d) := by
  simp only [restoreStencil]
  rw [if_neg (by rw [h]; exact fun hh => hh rfl)]
  exact quiet_of_eq d d rfl rfl

theorem restoreChangedTextureUnits_quiet (n : RenderState) (d : Device)
    (h : d.m_state.highestTextureUnitThatChanged = -1) :
    Quiet d (restoreChangedTextureUnits n d) := by
  simp only [restoreChangedTextureUnits, h]
  exact quiet_of_eq d d rfl rfl

theorem restoreMatrices_quiet (n : RenderState) (d : Device)
    (h : d.m_state.matrices.changed = false) : Quiet d (restoreMatrices n d) := by
  simp only [restoreMatrices]
  rw [if_neg (by rw [h]; exact Bool.false_ne_true)]
  exact quiet_of_eq d d rfl rfl

theorem restoreDrawFramebuffer_quiet (n : RenderState) (d : Device)
    (h : d.m_state.drawFramebuffer = n.drawFramebuffer) :
    Quiet d (restoreDrawFramebuffer n d) := by
  simp only [restoreDrawFramebuffer]
  rw [if_neg (by rw [h]; exact fun hh => hh rfl)]
  exact quiet_of_eq d d rfl rfl

theorem restoreReadFramebuffer_quiet (n : RenderState) (d : Device)
    (h : d.m_state.readFramebuffer = n.readFramebuffer) :
    Quiet d (restoreReadFramebuffer n d) := by
  simp only [restoreReadFramebuffer]
  rw [if_neg (by rw [h]; exact fun hh => hh rfl)]
  exact quiet_of_eq d d rfl rfl

/-! ### setState on a device that differs from the saved state only in the
viewport and the two change-tracking fields -/

theorem runSteps_quiet (fs : List (Device → Option Device)) (x : Device)
    (h : ∀ f ∈ fs, ∀ d, Obs id d = Obs id x → Quiet d (f d)) :
    ∀ d, Obs id d = Obs id x → Quiet d (runSteps fs d) := by
  induction fs with
  | nil => intro d _; exact quiet_of_eq d d rfl rfl
  | cons f fs ih =>
    intro d hd
    obtain ⟨y, hy, hq⟩ := yields_exists _ _ (h f (List.mem_cons_self _ _) d hd)
    rw [runSteps_cons, hy, Option.some_bind]
    obtain ⟨z, hz, hq2⟩ := yields_exists _ _
      (ih (fun g hg => h g (List.mem_cons_of_mem _ hg)) y (hq.trans hd))
    rw [hz]
    exact hq2.trans hq

theorem pushedState_viewport (s : RenderState) (v w : Rect2D) :
    { pushedState s v with viewport := w } = pushedState s w := rfl

theorem pushedState_self (s : RenderState) (v w : Rect2D)
    (h : (pushedState s v).viewport = w) :
    pushedState s v = pushedState s w := by
  subst h
  rfl

theorem adoptDeltas_pushedState (s : RenderState) (d : Device)
    (h : d.m_state = pushedState s s.viewport) :
    ∃ y, adoptDeltas s d = some y ∧ y.m_state = s ∧ Env y = Env d := by
  refine ⟨_, rfl, ?_, rfl⟩
  rw [state_withState, h]
  rfl

/-- The statements of setState between the viewport and the final adoption
of the change-tracking fields do nothing to a device whose cached state is
the saved one with the change-tracking fields cleared. -/
theorem setStateSteps_middle_quiet (n : RenderState) (hn : Restorable n) (x : Device)
    (hp : x.m_inPrimitive = false) (hx : x.m_state = pushedState n n.viewport) :
    ∀ f ∈ ((setStateSteps n).drop 4).take 26, ∀ d, Obs id d = Obs id x → Quiet d (f d) := by
  intro f hf d hd
  have hs : d.m_state = pushedState n n.viewport := (view_of_obs id x d hd).trans hx
  have hq : d.m_inPrimitive = false :=
    (inPrimitive_of_env x d (env_of_obs id x d hd)).trans hp
  simp only [setStateSteps, List.drop_succ_cons, List.drop_zero, List.take_succ_cons,
    List.take_zero, List.mem_cons, List.mem_singleton, List.not_mem_nil, or_false] at hf
  rcases hf with rfl | rfl | rfl | rfl | rfl | rfl | rfl | rfl | rfl | rfl | rfl | rfl | rfl |
    rfl | rfl | rfl | rfl | rfl | rfl | rfl | rfl | rfl | rfl | rfl | rfl | rfl
  · exact restoreClip2D_quiet n d (by rw [hs]; rfl) (by rw [hs]; rfl) hn.2
  · exact setDepthWrite_quiet _ d hq (by rw [hs]; rfl)
  · exact setColorWrite_quiet _ d hq (by rw [hs]; rfl)
  · exact setAlphaWrite_quiet _ d hq (by rw [hs]; rfl)
  · exact setDrawBuffer_quiet _ d (by rw [hs]; rfl) (by rw [hs]; exact hn.1)
  · exact setReadBuffer_quiet _ d (by rw [hs]; rfl)
  · exact setShadeMode_quiet _ d (by rw [hs]; rfl)
  · exact setDepthTest_quiet _ d hq (by rw [hs]; rfl)
  · exact restoreStencil_quiet n d (by rw [hs]; rfl)
  · exact setDepthClearValue_quiet _ d hq (by rw [hs]; rfl)
  · exact setColorClearValue_quiet _ d hq (by rw [hs]; rfl)
  · exact setAlphaTest_quiet _ _ d hq (by rw [hs]; rfl) (by rw [hs]; rfl)
  · exact setBlendFunc_quiet _ _ _ d hq (by rw [hs]; rfl) (by rw [hs]; rfl) (by rw [hs]; rfl)
  · exact setRenderMode_quiet _ d (by rw [hs]; rfl)
  · exact setPolygonOffset_quiet _ d hq (by rw [hs]; rfl)
  · exact setLineWidth_quiet _ d hq (by rw [hs]; rfl)
  · exact setPointSize_quiet _ d hq (by rw [hs]; rfl)
  · exact setGlossyCoefficient_quiet _ d (by rw [hs]; rfl)
  · exact setShininess_quiet _ d (by rw [hs]; rfl)
  · exact setColor_quiet _ d (by rw [hs]; rfl)
  · exact setNormal_quiet _ d (by rw [hs]; rfl)
  · exact restoreChangedTextureUnits_quiet n d (by rw [hs]; rfl)
  · exact setCullFace_quiet _ d (by rw [hs]; rfl)
  · exact setSRGBConversion_quiet _ d hq (by rw [hs]; rfl)
  · exact setDepthRange_quiet _ _ d (by rw [hs]; rfl) (by rw [hs]; rfl)
  · exact restoreMatrices_quiet n d (by rw [hs]; rfl)

theorem setStateSteps_parts (n : RenderState) :
    setStateSteps n =
      [restoreDrawFramebuffer n, restoreReadFramebuffer n, restoreReadFramebuffer n] ++
        ([setViewport n.viewport] ++
          (((setStateSteps n).drop 4).take 26 ++ [adoptDeltas n])) := rfl

/-- On a device outside a primitive whose cached state is a restorable state
`n` with the change-tracking fields cleared and any viewport, setState(n)
returns, and the cached state is then `n`. -/
theorem setState_restores (n : RenderState) (hn : Restorable n) (x : Device) (v : Rect2D)
    (hp : x.m_inPrimitive = false) (hx : x.m_state = pushedState n v) :
    ∃ y, setState n x = some y ∧ y.m_state = n ∧ Env y = Env x := by
  -- the framebuffer statements
  have q1 : Quiet x (runSteps
      [restoreDrawFramebuffer n, restoreReadFramebuffer n, restoreReadFramebuffer n] x) := by
    apply runSteps_quiet _ x _ x rfl
    intro f hf d hd
    have hs : d.m_state = pushedState n v := (view_of_obs id x d hd).trans hx
    simp only [List.mem_cons, List.mem_singleton, List.not_mem_nil, or_false] at hf
    rcases hf with rfl | rfl | rfl
    · exact restoreDrawFramebuffer_quiet n d (by rw [hs]; rfl)
    · exact restoreReadFramebuffer_quiet n d (by rw [hs]; rfl)
    · exact restoreReadFramebuffer_quiet n d (by rw [hs]; rfl)
  obtain ⟨a, ha, hae, has⟩ := quiet_env _ _ q1
  -- the viewport
  have hv : ∃ b, setViewport n.viewport a = some b ∧ Env b = Env a ∧
      b.m_state = pushedState n n.viewport := by
    simp only [setViewport]
    by_cases hc : (minStateChange 1 a).m_state.viewport ≠ n.viewport
    · rw [if_pos hc]
      refine ⟨_, rfl, rfl, ?_⟩
      rw [state_forceSetViewport, state_minStateChange, has, hx]
      rfl
    · rw [if_neg hc]
      refine ⟨_, rfl, rfl, ?_⟩
      rw [state_minStateChange] at hc ⊢
      rw [has, hx] at hc ⊢
      exact pushedState_self n v _ (not_not.mp hc)
  obtain ⟨b, hb, hbe, hbs⟩ := hv
  have hbp : b.m_inPrimitive = false := by
    rw [inPrimitive_of_env a b hbe, inPrimitive_of_env x a hae]; exact hp
  -- the other setters
  have q3 := runSteps_quiet _ b (setStateSteps_middle_quiet n hn b hbp hbs) b rfl
  obtain ⟨c, hc, hce, hcs⟩ := quiet_env _ _ q3
  -- the change-tracking fields
  obtain ⟨y, hy, hys, hye⟩ := adoptDeltas_pushedState n c (hcs.trans hbs)
  refine ⟨y, ?_, hys, ?_⟩
  · rw [setState, setStateSteps_parts, runSteps_append, ha, Option.some_bind, runSteps_append,
      runSteps_cons, hb, Option.some_bind, runSteps_nil, Option.some_bind, runSteps_append, hc,
      Option.some_bind, runSteps_cons, hy, Option.some_bind, runSteps_nil]
  · rw [hye, hce, hbe, hae]

/-- C3: whenever pushState(); setViewport(A); popState() runs to completion,
viewport() is what it was before the push.  The sequence does run to
completion on every device that is outside a primitive and whose cached state
is restorable (a colour attachment is the draw buffer only while a framebuffer
is bound, an enabled 2D clip is finite or empty); it then leaves the whole
cached state and the state stack as they were. -/
theorem push_setViewport_pop (d : Device) (A : Rect2D) :
    (∀ d1 d2 d3, pushState d = some d1 → setViewport A d1 = some d2 →
      popState d2 = some d3 → viewport d3 = viewport d) ∧
    (d.m_inPrimitive = false → Restorable d.m_state →
      ∃ d1 d2 d3, pushState d = some d1 ∧ setViewport A d1 = some d2 ∧
        popState d2 = some d3 ∧ viewport d3 = viewport d ∧
        d3.m_state = d.m_state ∧ d3.m_stateStack = d.m_stateStack) := by
  refine ⟨fun d1 d2 d3 => viewport_after_push_pop d A d1 d2 d3, ?_⟩
  intro hp hr
  have h1 := pushState_eq d hp
  generalize hd1 : ({ d with
        m_stateStack := d.m_stateStack ++ [d.m_state],
        m_state := { d.m_state with
          matrices := { d.m_state.matrices with changed := false },
          highestTextureUnitThatChanged := -1 },
        m_stats := { d.m_stats with pushStates := (d.m_stats.pushStates + 1) % 2 ^ 32 } } :
      Device) = d1 at h1
  have s1 : d1.m_state = pushedState d.m_state d.m_state.viewport := by rw [← hd1]; rfl
  have k1 : d1.m_stateStack = d.m_stateStack ++ [d.m_state] := by rw [← hd1]
  have p1 : d1.m_inPrimitive = false := by rw [← hd1]; exact hp
  have hv : ∃ d2, setViewport A d1 = some d2 ∧ Env d2 = Env d1 ∧
      d2.m_state = pushedState d.m_state A := by
    simp only [setViewport]
    by_cases hc : (minStateChange 1 d1).m_state.viewport ≠ A
    · rw [if_pos hc]
      refine ⟨_, rfl, rfl, ?_⟩
      rw [state_forceSetViewport, state_minStateChange, s1]
      rfl
    · rw [if_neg hc]
      refine ⟨_, rfl, rfl, ?_⟩
      rw [state_minStateChange] at hc ⊢
      rw [s1] at hc ⊢
      exact pushedState_self _ _ _ (not_not.mp hc)
  obtain ⟨d2, h2, e2, s2⟩ := hv
  have p2 : d2.m_inPrimitive = false := by rw [inPrimitive_of_env d1 d2 e2]; exact p1
  have k2 : d2.m_stateStack = d.m_stateStack ++ [d.m_state] := by
    rw [stack_of_env d1 d2 e2]; exact k1
  obtain ⟨y, hy, ys, ye⟩ := setState_restores d.m_state hr d2 A p2 s2
  have ky : y.m_stateStack = d.m_stateStack ++ [d.m_state] := by
    rw [stack_of_env d2 y ye]; exact k2
  have htop : d2.m_stateStack.getLast? = some d.m_state := by
    rw [k2, List.getLast?_append, List.getLast?_singleton]
    rfl
  have h3 : popState d2 = some { y with m_stateStack := y.m_stateStack.dropLast } := by
    simp only [popState, p2, Bool.false_eq_true, if_false, htop, hy]
  refine ⟨d1, d2, _, h1, h2, h3, ?_, ys, ?_⟩
  · show y.m_state.viewport = d.m_state.viewport
    rw [ys]
  · show y.m_stateStack.dropLast = d.m_stateStack
    rw [ky, List.dropLast_concat]

theorem push_setViewport_pop_witness :
    ∃ d1 d2 d3, pushState (freshDevice 2 2 2) = some d1 ∧
      setViewport (Rect2D.xywh 10 20 300 200) d1 = some d2 ∧ popState d2 = some d3 ∧
      viewport d3 = viewport (freshDevice 2 2 2) ∧
      d3.m_state = (freshDevice 2 2 2).m_state ∧
      d3.m_stateStack = (freshDevice 2 2 2).m_stateStack :=
  (push_setViewport_pop (freshDevice 2 2 2) (Rect2D.xywh 10 20 300 200)).2 (by decide)
    ⟨fun _ => by decide, fun h => absurd h (by decide)⟩

/-! ## C4: what pushState does -/

/-- C4: outside a primitive, pushState appends a copy of the current state to
the stack, clears the two change-tracking fields of the current state and
nothing else in it, and increments the 32-bit counter `pushStates` by one. -/
theorem pushState_spec (d : Device) (h : d.m_inPrimitive = false) :
    pushState d = some
      { d with
        m_stateStack := d.m_stateStack ++ [d.m_state],
        m_state := { d.m_state with
          matrices := { d.m_state.matrices with changed := false },
          highestTextureUnitThatChanged := -1 },
        m_stats := { d.m_stats with pushStates := (d.m_stats.pushStates + 1) % 2 ^ 32 } } ∧
    (d.m_stats.pushStates + 1 < 2 ^ 32 →
      ∀ d', pushState d = some d' → d'.m_stats.pushStates = d.m_stats.pushStates + 1) := by
  have e := pushState_eq d h
  refine ⟨e, ?_⟩
  intro hlt d' hd'
  rw [e] at hd'
  have := Option.some.inj hd'
  subst this
  exact Nat.mod_eq_of_lt hlt

theorem pushState_spec_witness :
    (∃ d d', resetState (freshDevice 2 2 2) = some d ∧ pushState d = some d' ∧
      d'.m_stateStack = [d.m_state] ∧ d'.m_state.highestTextureUnitThatChanged = -1 ∧
      d'.m_state.matrices.changed = false ∧ d'.m_stats.pushStates = 1) := by
  obtain ⟨d, hd⟩ := exists_of_isSome (resetState (freshDevice 2 2 2)) (by decide)
  have hp : (resetState (freshDevice 2 2 2)).map (fun d => d.m_inPrimitive) = some false := by
    decide
  have hs : (resetState (freshDevice 2 2 2)).map (fun d => d.m_stateStack) = some [] := by
    decide
  have hc : (resetState (freshDevice 2 2 2)).map (fun d => d.m_stats.pushStates) = some 0 := by
    decide
  rw [hd, Option.map_some'] at hp hs hc
  have hp := Option.some.inj hp
  have hs := Option.some.inj hs
  have hc := Option.some.inj hc
  have h := pushState_spec d hp
  refine ⟨d, _, hd, h.1, ?_, rfl, rfl, ?_⟩
  · show d.m_stateStack ++ [d.m_state] = [d.m_state]
    rw [hs]; rfl
  · show (d.m_stats.pushStates + 1) % 2 ^ 32 = 1
    rw [hc]
    norm_num

/-! ## C5: when popState fails -/

theorem runCalls_cons (c : Call) (cs : List Call) (d : Device) :
    runCalls (c :: cs) d = (c.run d).bind (runCalls cs) := rfl

theorem runCalls_append_some (p s : List Call) (d d' : Device)
    (h : runCalls (p ++ s) d = some d') : ∃ x, runCalls p d = some x := by
  induction p generalizing d with
  | nil => exact ⟨d, rfl⟩
  | cons c p ih =>
    rw [List.cons_append, runCalls_cons] at h
    rw [runCalls_cons]
    cases hc : c.run d with
    | none => rw [hc] at h; exact Option.noConfusion h
    | some y =>
      rw [hc, Option.some_bind] at h
      rw [Option.some_bind]
      exact ih y h

/-- In an accepted sequence the stack depth is the initial depth plus the
pushes minus the pops. -/
theorem runCalls_depth (cs : List Call) (hn : StackNeutral cs) (d d' : Device)
    (h : runCalls cs d = some d') :
    d'.m_stateStack.length + popCount cs = d.m_stateStack.length + pushCount cs := by
  induction cs generalizing d with
  | nil =>
    have e : d' = d := (Option.some.inj h).symm
    rw [e]
    rfl
  | cons c cs ih =>
    rw [runCalls_cons] at h
    cases hc : c.run d with
    | none => rw [hc] at h; exact Option.noConfusion h
    | some y =>
      rw [hc, Option.some_bind] at h
      cases c with
      | push =>
        have e := pushState_stack d y hc
        have i := ih hn y h
        simp only [pushCount, popCount] at i ⊢
        rw [e, List.length_append, List.length_singleton] at i
        omega
      | pop =>
        have e := popState_stack d y hc
        have i := ih hn y h
        have hl : 0 < d.m_stateStack.length := List.length_pos.mpr e.1
        simp only [pushCount, popCount] at i ⊢
        rw [e.2, List.length_dropLast] at i
        omega
      | other f =>
        have e : y.m_stateStack = d.m_stateStack := frame_eq _ f hn.1 d y hc
        have i := ih hn.2 y h
        simp only [pushCount, popCount] at i ⊢
        rw [e] at i
        exact i

/-- C5, the stated equivalence fails: popState can fail on a non-empty stack.
After resetState and pushState the stack holds one state; once a primitive is
open popState fails on it, by its assertion that no primitive is open.  It
also fails with no primitive open when a setter called by setState asserts:
after a framebuffer was bound, colour attachment 0 selected as draw buffer and
the framebuffer unbound again, setDrawBuffer rejects the saved draw buffer. -/
theorem popState_fails_on_nonempty_stack :
    ((runSteps [resetState, pushState] (freshDevice 2 2 2)).map
      (fun d => ((openPrimitive d).m_stateStack.length, popState (openPrimitive d)))) =
      some (1, none) ∧
    ((runSteps [resetState, setFramebuffer (some testFramebuffer), setDrawBuffer DRAW_COLOR0,
        setFramebuffer none, pushState] (freshDevice 2 2 2)).map
      (fun d => (d.m_stateStack.length, d.m_inPrimitive, popState d))) =
      some (1, false, none) := by
  decide

/-- C5: popState fails whenever the state stack is empty or a primitive is
open; when it succeeds the stack was not empty, no primitive was open and the
result holds the same stack without its last entry, so the depth decreases by
exactly one.  Hence every prefix of an accepted sequence of pushState,
popState and stack-neutral calls started on an empty stack has at most as
many popState as pushState calls. -/
theorem popState_contract (d : Device) :
    ((d.m_stateStack = [] ∨ d.m_inPrimitive = true) → popState d = none) ∧
    (∀ d', popState d = some d' →
      d.m_stateStack ≠ [] ∧ d.m_inPrimitive = false ∧
      d'.m_stateStack = d.m_stateStack.dropLast ∧
      d'.m_stateStack.length + 1 = d.m_stateStack.length) ∧
    (∀ p s d', StackNeutral p → d.m_stateStack = [] → runCalls (p ++ s) d = some d' →
      popCount p ≤ pushCount p) := by
  refine ⟨?_, ?_, ?_⟩
  · intro h
    cases hr : popState d with
    | none => rfl
    | some d' =>
      obtain ⟨hp, top, _, htop, _, _⟩ := popState_some d d' hr
      rcases h with h | h
      · rw [h] at htop; exact Option.noConfusion htop
      · rw [h] at hp; exact Bool.noConfusion hp
  · intro d' h
    obtain ⟨hne, hs⟩ := popState_stack d d' h
    refine ⟨hne, (popState_some d d' h).1, hs, ?_⟩
    have hl : 0 < d.m_stateStack.length := List.length_pos.mpr hne
    rw [hs, List.length_dropLast]
    omega
  · intro p s d' hn hnil h
    obtain ⟨x, hx⟩ := runCalls_append_some p s d d' h
    have e := runCalls_depth p hn d x hx
    rw [hnil] at e
    simp only [List.length_nil] at e
    omega

theorem popState_contract_witness :
    ∃ d d1 d2, resetState (freshDevice 2 2 2) = some d ∧ popState d = none ∧
      pushState d = some d1 ∧ popState d1 = some d2 ∧
      d2.m_stateStack.length + 1 = d1.m_stateStack.length := by
  obtain ⟨d, hd⟩ := exists_of_isSome (resetState (freshDevice 2 2 2)) (by decide)
  have hs : (resetState (freshDevice 2 2 2)).map (fun d => d.m_stateStack) = some [] := by
    decide
  rw [hd, Option.map_some'] at hs
  have e1 : ((resetState (freshDevice 2 2 2)).bind pushState).isSome = true := by decide
  rw [hd, Option.some_bind] at e1
  obtain ⟨d1, h1⟩ := exists_of_isSome _ e1
  have e2 : (((resetState (freshDevice 2 2 2)).bind pushState).bind popState).isSome = true := by
    decide
  rw [hd, Option.some_bind, h1, Option.some_bind] at e2
  obtain ⟨d2, h2⟩ := exists_of_isSome _ e2
  exact ⟨d, d1, d2, hd, (popState_contract d).1 (Or.inl (Option.some.inj hs)), h1, h2,
    ((popState_contract d1).2.1 d2 h2).2.2.2⟩

/-! ## C6: pushState with a framebuffer -/

theorem ensures_call {β : Type} (g : RenderState → β) (f : Device → Option Device)
    (hf : Frame (Obs g) f) (x : Device) (v : β) (h : g x.m_state = v) :
    Ensures (fun d' => g d'.m_state = v) (f x) := by
  cases hfx : f x with
  | none => exact ensures_none _
  | some y =>
    have e := view_of_obs g x y (frame_eq _ _ hf x y hfx)
    exact ensures_some _ _ (e.trans h)

theorem updateInvertY_keeps_draw :
    Frame (Obs (fun s => s.drawFramebuffer)) updateInvertY := by
  intro d
  simp only [updateInvertY]
  repeat' first
    | exact keeps_none _ _
    | (apply keeps_ite <;> intro _)
    | (apply keeps_of_eq; simp [obs_def, viewport])

theorem setDrawFramebuffer_binds (fbo : Option Framebuffer) (d : Device) :
    Ensures (fun d' => d'.m_state.drawFramebuffer = fbo) (setDrawFramebuffer fbo d) := by
  simp only [setDrawFramebuffer]
  apply ensures_ite <;> intro h0
  · split
    · exact ensures_call _ _ updateInvertY_keeps_draw _ _ (by simp)
    · apply ensures_ite <;> intro _
      · split
        · exact ensures_none _
        · rename_i fb _ x hx
          have e := view_of_obs _ _ _
            (frame_eq _ _ (syncDrawBuffer_frame (fun s => s.drawFramebuffer) false) _ _ hx)
          exact ensures_call _ _ updateInvertY_keeps_draw _ _ (by rw [e]; simp)
      · exact ensures_none _
  · apply ensures_some
    exact (not_not.mp h0).symm

theorem setReadFramebuffer_binds (fbo : Option Framebuffer) (d : Device) :
    Ensures (fun d' => d'.m_state.readFramebuffer = fbo ∧
        d'.m_state.drawFramebuffer = d.m_state.drawFramebuffer)
      (setReadFramebuffer fbo d) := by
  simp only [setReadFramebuffer]
  apply ensures_ite <;> intro h0
  · split
    · apply ensures_some
      simp
    · apply ensures_ite <;> intro _
      · simp only [syncReadBuffer, state_withState, state_majGLStateChange]
        repeat' first
          | (apply ensures_ite <;> intro _)
          | (apply ensures_some; simp)
      · exact ensures_none _
  · apply ensures_some
    exact ⟨(not_not.mp h0).symm, rfl⟩

theorem setClip2D_inf (d : Device) :
    Yields (fun d' => Env d' = Env d ∧ d'.m_state.useClip2D = false ∧
        d'.m_state.drawFramebuffer = d.m_state.drawFramebuffer ∧
        d'.m_state.readFramebuffer = d.m_state.readFramebuffer)
      (setClip2D Rect2D.inf d) := by
  simp only [setClip2D]
  rw [if_neg (by simp [Rect2D.isFinite, Rect2D.isEmpty])]
  apply yields_ite <;> intro h
  · apply yields_some
    simp
  · apply yields_some
    simpa using h

theorem setViewport_keeps (v : Rect2D) (d : Device) :
    Yields (fun d' => Env d' = Env d ∧ d'.m_state.viewport = v ∧
        framebuffersAndClip d'.m_state = framebuffersAndClip d.m_state)
      (setViewport v d) := by
  simp only [setViewport]
  apply yields_ite <;> intro h
  · apply yields_some
    simp [framebuffersAndClip]
  · apply yields_some
    simpa [framebuffersAndClip] using h

theorem toGLStencilOp_isSome (d : Device) (op : StencilOp) (h : op ≠ STENCILOP_CURRENT) :
    (toGLStencilOp d op).isSome = true := by
  simp only [toGLStencilOp]
  rw [if_neg h]
  split_ifs <;> rfl

theorem toGLStencilOp_ite_isSome (d : Device) (c : Prop) [Decidable c] (a b : StencilOp)
    (ha : a ≠ STENCILOP_CURRENT) (hb : b ≠ STENCILOP_CURRENT) :
    (toGLStencilOp d (if c then a else b)).isSome = true := by
  split_ifs
  · exact toGLStencilOp_isSome d a ha
  · exact toGLStencilOp_isSome d b hb

theorem forceSetStencilOp_total (a b c e f h : StencilOp) (d : Device)
    (ha : a ≠ STENCILOP_CURRENT) (hb : b ≠ STENCILOP_CURRENT) (hc : c ≠ STENCILOP_CURRENT)
    (he : e ≠ STENCILOP_CURRENT) (hf : f ≠ STENCILOP_CURRENT) (hh : h ≠ STENCILOP_CURRENT) :
    (forceSetStencilOp a b c e f h d).isSome = true := by
  simp only [forceSetStencilOp]
  simp only [toGLStencilOp_ite_isSome _ _ _ _ ha he, toGLStencilOp_ite_isSome _ _ _ _ he ha,
    toGLStencilOp_ite_isSome _ _ _ _ hb hf, toGLStencilOp_ite_isSome _ _ _ _ hf hb,
    toGLStencilOp_ite_isSome _ _ _ _ hc hh, toGLStencilOp_ite_isSome _ _ _ _ hh hc,
    and_self, if_true]
  split_ifs <;> rfl

theorem updateInvertY_total (d : Device) (ho : StencilOpsSet d.m_state) :
    (updateInvertY d).isSome = true := by
  obtain ⟨h1, h2, h3, h4, h5, h6⟩ := ho
  simp only [updateInvertY]
  split_ifs
  · apply forceSetStencilOp_total <;> simpa [viewport]
  · rfl

theorem setDrawFramebuffer_total (f : Framebuffer) (d : Device)
    (hc : d.caps.supports_GL_ARB_framebuffer_object = true ∨
      d.caps.supports_GL_EXT_framebuffer_object = true)
    (hs : f.bindNeedsSync = true → f.openGLDrawArray.length ≤ d.caps.maxDrawBuffers)
    (ho : StencilOpsSet d.m_state) :
    (setDrawFramebuffer (some f) d).isSome = true := by
  simp only [setDrawFramebuffer]
  split_ifs with h0 h1
  · simp only [syncDrawBuffer, state_withState]
    split_ifs with k1 k2 k3
    · exact updateInvertY_total _ (by simpa [StencilOpsSet] using ho)
    · exact absurd (hs k1) k3
    · exact updateInvertY_total _ (by simpa [StencilOpsSet] using ho)
    · exact updateInvertY_total _ (by simpa [StencilOpsSet] using ho)
  · exact absurd hc h1
  · rfl

theorem setReadFramebuffer_total (f : Framebuffer) (d : Device)
    (hc : d.caps.supports_GL_ARB_framebuffer_object = true ∨
      d.caps.supports_GL_EXT_framebuffer_object = true) :
    (setReadFramebuffer (some f) d).isSome = true := by
  simp only [setReadFramebuffer]
  split_ifs with h0 h1
  · simp only [syncReadBuffer, state_withState]
    split_ifs <;> rfl
  · exact absurd hc h1
  · rfl

/-- The calls that pushState(fb) makes after pushState(), taken apart. -/
theorem pushStateFramebuffer_some (f : Framebuffer) (d d' : Device)
    (h : pushStateFramebuffer (some f) d = some d') :
    ∃ d1 x d2 d3, pushState d = some d1 ∧ setDrawFramebuffer (some f) d1 = some x ∧
      setReadFramebuffer (some f) x = some d2 ∧ setClip2D Rect2D.inf d2 = some d3 ∧
      setViewport f.rect2DBounds d3 = some d' := by
  simp only [pushStateFramebuffer] at h
  split at h
  · exact Option.noConfusion h
  · rename_i d1 h1
    rw [runSteps_cons] at h
    cases hA : setFramebuffer (some f) d1 with
    | none => rw [hA] at h; exact Option.noConfusion h
    | some d2 =>
      rw [hA, Option.some_bind, runSteps_cons] at h
      cases hB : setClip2D Rect2D.inf d2 with
      | none => rw [hB] at h; exact Option.noConfusion h
      | some d3 =>
        rw [hB, Option.some_bind, runSteps_cons] at h
        cases hC : setViewport f.rect2DBounds d3 with
        | none => rw [hC] at h; exact Option.noConfusion h
        | some d4 =>
          rw [hC, Option.some_bind, runSteps_nil] at h
          simp only [setFramebuffer] at hA
          split at hA
          · exact Option.noConfusion hA
          · rename_i x hx
            exact ⟨d1, x, d2, d3, h1, hx, hA, hB, by rw [← Option.some.inj h]; exact hC⟩

theorem pushStateFramebuffer_of (f : Framebuffer) (d d1 x d2 d3 d' : Device)
    (h1 : pushState d = some d1) (hx : setDrawFramebuffer (some f) d1 = some x)
    (h2 : setReadFramebuffer (some f) x = some d2) (h3 : setClip2D Rect2D.inf d2 = some d3)
    (h4 : setViewport f.rect2DBounds d3 = some d') :
    pushStateFramebuffer (some f) d = some d' := by
  simp only [pushStateFramebuffer, h1, runSteps_cons, setFramebuffer, hx, h2, h3, h4,
    Option.some_bind, runSteps_nil]

/-- C6: whenever pushState(fb) returns for a non-null framebuffer fb, the
stack is the old stack with the pre-call state on top, the draw and the read
framebuffer are both fb, 2D clipping is disabled, so that clip2D() is the
viewport, and viewport() is the bounds rectangle of fb.  It does return
outside a primitive when framebuffer objects are supported, the draw-buffer
array of fb fits the device and no cached stencil operation is the sentinel.
For a null fb, pushState(fb) is pushState(). -/
theorem pushState_framebuffer (d : Device) (f : Framebuffer) :
    (∀ d', pushStateFramebuffer (some f) d = some d' →
      d'.m_stateStack = d.m_stateStack ++ [d.m_state] ∧
      d'.m_state.drawFramebuffer = some f ∧ d'.m_state.readFramebuffer = some f ∧
      d'.m_state.useClip2D = false ∧ clip2D d' = viewport d' ∧
      viewport d' = f.rect2DBounds) ∧
    (d.m_inPrimitive = false →
      (d.caps.supports_GL_ARB_framebuffer_object = true ∨
        d.caps.supports_GL_EXT_framebuffer_object = true) →
      (f.bindNeedsSync = true → f.openGLDrawArray.length ≤ d.caps.maxDrawBuffers) →
      StencilOpsSet d.m_state →
      ∃ d', pushStateFramebuffer (some f) d = some d') ∧
    pushStateFramebuffer none d = pushState d := by
  refine ⟨?_, ?_, ?_⟩
  · intro d' h
    obtain ⟨d1, x, d2, d3, h1, hx, h2, h3, h4⟩ := pushStateFramebuffer_some f d d' h
    have k1 := pushState_stack d d1 h1
    have kx := stack_of_env d1 x
      (env_of_obs _ d1 x (frame_eq _ _ (setDrawFramebuffer_frame _) d1 x hx))
    have k2 := stack_of_env x d2
      (env_of_obs _ x d2 (frame_eq _ _ (setReadFramebuffer_frame _) x d2 h2))
    have fx := ensures_eq _ _ (setDrawFramebuffer_binds (some f) d1) x hx
    have f2 := ensures_eq _ _ (setReadFramebuffer_binds (some f) x) d2 h2
    have c3 := setClip2D_inf d2
    rw [h3] at c3
    have c4 := setViewport_keeps f.rect2DBounds d3
    rw [h4] at c4
    obtain ⟨e3, u3, a3, b3⟩ := c3
    obtain ⟨e4, v4, g4⟩ := c4
    simp only [framebuffersAndClip, Prod.mk.injEq] at g4
    have hu : d'.m_state.useClip2D = false := by rw [g4.2.2]; exact u3
    refine ⟨?_, ?_, ?_, hu, ?_, v4⟩
    · rw [stack_of_env d3 d' e4, stack_of_env d2 d3 e3, k2, kx, k1]
    · rw [g4.1, a3, f2.2, fx]
    · rw [g4.2.1, b3, f2.1]
    · simp only [clip2D, viewport, hu, Bool.false_eq_true, if_false]
  · intro hp hc hs ho
    have h1 := pushState_eq d hp
    generalize hd1 : ({ d with
        m_stateStack := d.m_stateStack ++ [d.m_state],
        m_state := { d.m_state with
          matrices := { d.m_state.matrices with changed := false },
          highestTextureUnitThatChanged := -1 },
        m_stats := { d.m_stats with pushStates := (d.m_stats.pushStates + 1) % 2 ^ 32 } } :
      Device) = d1 at h1
    have c1 : d1.caps = d.caps := by rw [← hd1]
    have o1 : StencilOpsSet d1.m_state := by rw [← hd1]; exact ho
    obtain ⟨x, hx⟩ := exists_of_isSome _
      (setDrawFramebuffer_total f d1 (by rw [c1]; exact hc) (by rw [c1]; exact hs) o1)
    have ex : Env x = Env d1 :=
      env_of_obs _ d1 x (frame_eq _ _ (setDrawFramebuffer_frame _) d1 x hx)
    have cx : x.caps = d.caps := by
      have := congrArg Prod.fst ex
      exact this.trans c1
    obtain ⟨d2, h2⟩ := exists_of_isSome _
      (setReadFramebuffer_total f x (by rw [cx]; exact hc))
    obtain ⟨d3, h3, _⟩ := yields_exists _ _ (setClip2D_inf d2)
    obtain ⟨d4, h4, _⟩ := yields_exists _ _ (setViewport_keeps f.rect2DBounds d3)
    exact ⟨d4, pushStateFramebuffer_of f d d1 x d2 d3 d4 h1 hx h2 h3 h4⟩
  · simp only [pushStateFramebuffer]
    cases pushState d <;> rfl

theorem pushState_framebuffer_witness :
    ∃ d d', resetState (freshDevice 2 2 2) = some d ∧
      pushStateFramebuffer (some testFramebuffer) d = some d' ∧
      d'.m_stateStack = d.m_stateStack ++ [d.m_state] ∧
      d'.m_state.drawFramebuffer = some testFramebuffer ∧
      d'.m_state.readFramebuffer = some testFramebuffer ∧
      d'.m_state.useClip2D = false ∧ clip2D d' = viewport d' ∧
      viewport d' = Rect2D.xywh 0 0 256 256 := by
  obtain ⟨d, hd⟩ := exists_of_isSome (resetState (freshDevice 2 2 2)) (by decide)
  have hp : (resetState (freshDevice 2 2 2)).map (fun d => d.m_inPrimitive) = some false := by
    decide
  have hc : (resetState (freshDevice 2 2 2)).map (fun d => d.caps) = some fullCaps := by
    decide
  have ho : (resetState (freshDevice 2 2 2)).map (fun d => d.m_state.stencil) =
      some (RenderState.init 1 1 1 ⟨[]⟩).stencil := by decide
  rw [hd, Option.map_some'] at hp hc ho
  have hp := Option.some.inj hp
  have hc := Option.some.inj hc
  have ho := Option.some.inj ho
  obtain ⟨d', h'⟩ := (pushState_framebuffer d testFramebuffer).2.1 hp
    (by rw [hc]; decide) (by rw [hc]; decide)
    (by simp only [StencilOpsSet, ho]; decide)
  exact ⟨d, d', hd, h', (pushState_framebuffer d testFramebuffer).1 d' h'⟩

/-! ## C7: the LESS enumerators and the CURRENT sentinels -/

/-- C7: DEPTH_LESS, ALPHA_LESS and STENCIL_LESS have the integer value of the
sentinels DEPTH_CURRENT, ALPHA_CURRENT and STENCIL_CURRENT, which are declared
right after NEVER_PASS = GL_NEVER and so equal GL_LESS.  The three setters
therefore treat LESS as the request to keep the test: the cached state after
the call is the cached state before it. -/
theorem less_means_current (d d' : Device) :
    DEPTH_LESS = DEPTH_CURRENT ∧ ALPHA_LESS = ALPHA_CURRENT ∧ STENCIL_LESS = STENCIL_CURRENT ∧
    (setDepthTest DEPTH_LESS d = some d' → d'.m_state = d.m_state) ∧
    (∀ r, setAlphaTest ALPHA_LESS r d = some d' → d'.m_state = d.m_state) ∧
    (setStencilTest STENCIL_LESS d = some d' → d'.m_state = d.m_state) := by
  refine ⟨by decide, by decide, by decide, ?_, ?_, ?_⟩
  · refine ensures_eq (fun x => x.m_state = d.m_state) _ ?_ d'
    simp only [setDepthTest]
    apply ensures_ite <;> intro _
    · exact ensures_none _
    · rw [if_pos (by decide)]
      exact ensures_some _ _ rfl
  · intro r
    refine ensures_eq (fun x => x.m_state = d.m_state) _ ?_ d'
    simp only [setAlphaTest]
    apply ensures_ite <;> intro _
    · exact ensures_none _
    · rw [if_pos (by decide)]
      exact ensures_some _ _ rfl
  · refine ensures_eq (fun x => x.m_state = d.m_state) _ ?_ d'
    simp only [setStencilTest]
    rw [if_pos (by decide)]
    exact ensures_some _ _ rfl

theorem less_means_current_witness :
    ∃ d d1 d2 d3, resetState (freshDevice 2 2 2) = some d ∧
      setDepthTest DEPTH_LESS d = some d1 ∧ d1.m_state.depthTest = DEPTH_LEQUAL ∧
      setAlphaTest ALPHA_LESS 0 d = some d2 ∧ d2.m_state.alphaTest = ALPHA_ALWAYS_PASS ∧
      setStencilTest STENCIL_LESS d = some d3 ∧
      d3.m_state.stencil.stencilTest = STENCIL_ALWAYS_PASS ∧
      DEPTH_LEQUAL ≠ DEPTH_LESS ∧ ALPHA_ALWAYS_PASS ≠ ALPHA_LESS ∧
      STENCIL_ALWAYS_PASS ≠ STENCIL_LESS := by
  obtain ⟨d, hd⟩ := exists_of_isSome (resetState (freshDevice 2 2 2)) (by decide)
  have v : (resetState (freshDevice 2 2 2)).map
      (fun d => (d.m_state.depthTest, d.m_state.alphaTest, d.m_state.stencil.stencilTest)) =
      some (DEPTH_LEQUAL, ALPHA_ALWAYS_PASS, STENCIL_ALWAYS_PASS) := by decide
  rw [hd, Option.map_some'] at v
  have v := Option.some.inj v
  simp only [Prod.mk.injEq] at v
  have e1 : ((resetState (freshDevice 2 2 2)).bind (setDepthTest DEPTH_LESS)).isSome = true := by
    decide
  have e2 : ((resetState (freshDevice 2 2 2)).bind (setAlphaTest ALPHA_LESS 0)).isSome =
      true := by decide
  have e3 : ((resetState (freshDevice 2 2 2)).bind (setStencilTest STENCIL_LESS)).isSome =
      true := by decide
  rw [hd, Option.some_bind] at e1 e2 e3
  obtain ⟨d1, h1⟩ := exists_of_isSome _ e1
  obtain ⟨d2, h2⟩ := exists_of_isSome _ e2
  obtain ⟨d3, h3⟩ := exists_of_isSome _ e3
  refine ⟨d, d1, d2, d3, hd, h1, ?_, h2, ?_, h3, ?_, by decide, by decide, by decide⟩
  · rw [(less_means_current d d1).2.2.2.1 h1]; exact v.1
  · rw [(less_means_current d d2).2.2.2.2.1 0 h2]; exact v.2.1
  · rw [(less_means_current d d3).2.2.2.2.2 h3]; exact v.2.2

/-! ## C8: repeated setDepthTest calls and the native state-change counter -/

/-- A setDepthTest call whose argument is already cached, or is the sentinel,
only counts a minor state change. -/
theorem setDepthTest_again (t : DepthTest) (x : Device) (hp : x.m_inPrimitive = false)
    (ht : t ≠ DEPTH_ALWAYS_PASS) (hc : t ≠ DEPTH_CURRENT → x.m_state.depthTest = t) :
    setDepthTest t x = some (minStateChange 1 x) := by
  simp only [setDepthTest]
  rw [if_neg (by rw [hp]; exact Bool.false_ne_true)]
  by_cases h : t = DEPTH_CURRENT
  · rw [if_pos ⟨h, ht⟩]
  · rw [if_neg (fun hh => h hh.1), if_neg]
    intro hh
    rcases hh with hh | hh
    · exact hh (by rw [state_minStateChange]; exact hc h)
    · exact ht hh

/-- Outside a primitive setDepthTest returns; after it the argument is
cached, unless it is the sentinel, and depth write is as before. -/
theorem setDepthTest_caches (t : DepthTest) (d : Device) (hp : d.m_inPrimitive = false) :
    Yields (fun d1 => d1.m_inPrimitive = false ∧
        d1.m_state.depthWrite = d.m_state.depthWrite ∧
        (t ≠ DEPTH_CURRENT → d1.m_state.depthTest = t))
      (setDepthTest t d) := by
  simp only [setDepthTest]
  apply yields_ite <;> intro h0
  · exact absurd h0 (by rw [hp]; exact Bool.false_ne_true)
  · apply yields_ite <;> intro h1
    · apply yields_some
      simp only [inPrimitive_minStateChange, state_minStateChange]
      exact ⟨hp, trivial, fun hne => absurd h1.1 hne⟩
    · apply yields_ite <;> intro h2
      · apply yields_ite <;> intro h3
        · apply yields_some
          simp [hp]
        · apply yields_some
          simp [hp]
      · apply yields_some
        simp only [inPrimitive_minStateChange, state_minStateChange] at h2 ⊢
        refine ⟨hp, trivial, fun _ => ?_⟩
        by_contra hh
        exact h2 (Or.inl hh)

theorem callTimes_succ (f : Device → Option Device) (n : Nat) (d : Device) :
    callTimes f (n + 1) d = (f d).bind (callTimes f n) := rfl

theorem setDepthTest_later_calls (t : DepthTest) (ht : t ≠ DEPTH_ALWAYS_PASS) (n : Nat) :
    ∀ x : Device, x.m_inPrimitive = false → (t ≠ DEPTH_CURRENT → x.m_state.depthTest = t) →
      ∃ y, callTimes (setDepthTest t) n x = some y ∧
        y.m_stats.minorOpenGLStateChanges = x.m_stats.minorOpenGLStateChanges := by
  induction n with
  | zero => intro x _ _; exact ⟨x, rfl, rfl⟩
  | succ n ih =>
    intro x hp hc
    rw [callTimes_succ, setDepthTest_again t x hp ht hc, Option.some_bind]
    obtain ⟨y, hy, hg⟩ := ih (minStateChange 1 x) hp hc
    exact ⟨y, hy, hg⟩

theorem setDepthTest_always_pass_count (t : DepthTest) (ht : t = DEPTH_ALWAYS_PASS)
    (d : Device) (hp : d.m_inPrimitive = false) :
    Yields (fun d1 => d1.m_stats.minorOpenGLStateChanges =
        (d.m_stats.minorOpenGLStateChanges + (if d.m_state.depthWrite then 2 else 1)) % 2 ^ 32)
      (setDepthTest t d) := by
  simp only [setDepthTest]
  apply yields_ite <;> intro h0
  · exact absurd h0 (by rw [hp]; exact Bool.false_ne_true)
  · apply yields_ite <;> intro h1
    · exact absurd ht h1.2
    · apply yields_ite <;> intro h2
      · apply yields_ite <;> intro hw
        · apply yields_some
          have hw2 : d.m_state.depthWrite = false := by simpa using hw.2
          simp [hw2]
        · apply yields_some
          have hw2 : d.m_state.depthWrite = true := by
            cases hd : d.m_state.depthWrite with
            | false => exact absurd ⟨ht, by simpa using hd⟩ hw
            | true => rfl
          simp only [stats_withState, stats_withGL, glCount_minGLStateChange,
            glCount_minStateChange, hw2, if_true]
          omega
      · exact absurd (Or.inr ht) h2

/-- C8, the stated exception is too narrow: from the default state, with no
call in between and depth write never toggled, the second
setDepthTest(DEPTH_ALWAYS_PASS) increases the native state-change counter
again, from 2 to 4. -/
theorem setDepthTest_always_pass_recounts :
    (runSteps [resetState, setDepthTest DEPTH_ALWAYS_PASS] (freshDevice 2 2 2)).map
        (fun d => (d.m_stats.minorOpenGLStateChanges, d.m_state.depthWrite)) = some (2, true) ∧
    (runSteps [resetState, setDepthTest DEPTH_ALWAYS_PASS, setDepthTest DEPTH_ALWAYS_PASS]
        (freshDevice 2 2 2)).map
        (fun d => (d.m_stats.minorOpenGLStateChanges, d.m_state.depthWrite)) = some (4, true) := by
  decide

/-- C8: outside a primitive setDepthTest(t) returns.  For t other than
DEPTH_ALWAYS_PASS every later call of a run of setDepthTest(t) calls leaves
the native state-change counter as the first call left it.  For
t = DEPTH_ALWAYS_PASS every call, first or later, advances the 32-bit counter:
by 2 while depth write is enabled and by 1 while it is disabled. -/
theorem setDepthTest_run (t : DepthTest) (d : Device) (hp : d.m_inPrimitive = false) :
    ∃ d1, setDepthTest t d = some d1 ∧
      (t ≠ DEPTH_ALWAYS_PASS → ∀ n, ∃ dn, callTimes (setDepthTest t) n d1 = some dn ∧
        dn.m_stats.minorOpenGLStateChanges = d1.m_stats.minorOpenGLStateChanges) ∧
      (t = DEPTH_ALWAYS_PASS →
        d1.m_stats.minorOpenGLStateChanges =
          (d.m_stats.minorOpenGLStateChanges + (if d.m_state.depthWrite then 2 else 1))
            % 2 ^ 32) := by
  obtain ⟨d1, h1, hp1, _, hc1⟩ := yields_exists _ _ (setDepthTest_caches t d hp)
  refine ⟨d1, h1, ?_, ?_⟩
  · intro ht n
    exact setDepthTest_later_calls t ht n d1 hp1 hc1
  · intro ht
    subst ht
    obtain ⟨d2, h2, hg⟩ := yields_exists _ _ (setDepthTest_always_pass_count _ rfl d hp)
    rw [h1] at h2
    rw [Option.some.inj h2]
    exact hg

theorem setDepthTest_run_witness :
    ∃ d d1, resetState (freshDevice 2 2 2) = some d ∧
      setDepthTest DEPTH_GREATER d = some d1 ∧
      ∃ d4, callTimes (setDepthTest DEPTH_GREATER) 3 d1 = some d4 ∧
        d4.m_stats.minorOpenGLStateChanges = d1.m_stats.minorOpenGLStateChanges := by
  obtain ⟨d, hd⟩ := exists_of_isSome (resetState (freshDevice 2 2 2)) (by decide)
  have hp : (resetState (freshDevice 2 2 2)).map (fun d => d.m_inPrimitive) = some false := by
    decide
  rw [hd, Option.map_some'] at hp
  obtain ⟨d1, h1, hrun, _⟩ := setDepthTest_run DEPTH_GREATER d (Option.some.inj hp)
  exact ⟨d, d1, hd, h1, hrun (by decide) 3⟩

/-! ## C9: the native depth test follows the cached test and depth write -/

/-- The device that resetState returns. -/
theorem resetState_eq (d0 : Device) :
    resetState d0 = some (withGL resetStateGLTail (minStateChange 1 (minStateChange 1
      (withGL resetStateGL (withState
        (fun _ => RenderState.init d0.width d0.height highestTrackedUnit d0.initialProjection)
        d0))))) := by
  simp only [resetState, runSteps, setShininess, setGlossyCoefficient, state_withGL,
    state_withState, state_minStateChange, ne_eq, not_true_eq_false, if_false,
    Option.some_bind]

theorem resetState_depth (d0 d : Device) (h : resetState d0 = some d) :
    d.gl.depthTest = true ∧ d.gl.depthFunc = GL_LEQUAL ∧
      d.m_state.depthTest = DEPTH_LEQUAL ∧ d.m_state.depthWrite = true := by
  rw [resetState_eq] at h
  rw [← Option.some.inj h]
  simp [resetStateGL, resetStateGLTail, RenderState.init]

theorem resetState_blend (d0 d : Device) (h : resetState d0 = some d) :
    d.gl.blend = false ∧ d.m_state.srcBlendFunc = BLEND_ONE ∧
      d.m_state.dstBlendFunc = BLEND_ZERO ∧ d.m_state.blendEq = BLENDEQ_ADD := by
  rw [resetState_eq] at h
  rw [← Option.some.inj h]
  simp [resetStateGL, resetStateGLTail, RenderState.init]

theorem setDepthTest_sync (t : DepthTest) (d : Device) (h : DepthTestInSync d) :
    Ensures DepthTestInSync (setDepthTest t d) := by
  simp only [setDepthTest]
  apply ensures_ite <;> intro h0
  · exact ensures_none _
  · apply ensures_ite <;> intro h1
    · apply ensures_some
      exact h
    · apply ensures_ite <;> intro h2
      · apply ensures_ite <;> intro h3
        · apply ensures_some
          simp only [state_minGLStateChange, state_minStateChange] at h3
          simp [DepthTestInSync, h3.1, h3.2]
        · apply ensures_some
          simp only [state_minGLStateChange, state_minStateChange, not_and] at h3
          simp only [DepthTestInSync, gl_withState, gl_withGL, state_withState, state_withGL,
            state_minGLStateChange, state_minStateChange]
          simp only [Bool.true_eq_false, false_iff, not_and, forall_const, and_true]
          exact h3
      · apply ensures_some
        exact h

/-- A setDepthTest(DEPTH_ALWAYS_PASS) call brings the native depth test in
line with the cache whatever the state before it. -/
theorem setDepthTest_always_sync (t : DepthTest) (ht : t = DEPTH_ALWAYS_PASS) (d : Device) :
    Ensures DepthTestInSync (setDepthTest t d) := by
  simp only [setDepthTest]
  apply ensures_ite <;> intro h0
  · exact ensures_none _
  · apply ensures_ite <;> intro h1
    · exact absurd ht h1.2
    · apply ensures_ite <;> intro h2
      · apply ensures_ite <;> intro h3
        · apply ensures_some
          simp only [state_minGLStateChange, state_minStateChange] at h3
          simp [DepthTestInSync, h3.1, h3.2]
        · apply ensures_some
          simp only [state_minGLStateChange, state_minStateChange, not_and] at h3
          simp only [DepthTestInSync, gl_withState, gl_withGL, state_withState, state_withGL,
            state_minGLStateChange, state_minStateChange]
          simp only [Bool.true_eq_false, false_iff, not_and, forall_const, and_true]
          exact h3
      · exact absurd (Or.inr ht) h2

theorem setDepthWrite_sync (a : Bool) (d : Device) (h : DepthTestInSync d) :
    Ensures DepthTestInSync (setDepthWrite a d) := by
  simp only [setDepthWrite]
  apply ensures_ite <;> intro h0
  · exact ensures_none _
  · apply ensures_ite <;> intro h1
    · apply ensures_ite <;> intro h2
      · exact setDepthTest_always_sync _ h2 _
      · apply ensures_some
        simp only [state_withState, state_withGL, state_minGLStateChange,
          state_minStateChange] at h2
        simp only [DepthTestInSync, gl_withState, gl_withGL, state_withState, state_withGL,
          state_minGLStateChange, state_minStateChange] at h ⊢
        refine ⟨⟨fun hg => absurd (h.1.mp hg).1 h2, fun hc => absurd hc.1 h2⟩, h.2⟩
    · apply ensures_some
      exact h

theorem depthReachable_sync (d : Device) (h : DepthReachable d) : DepthTestInSync d := by
  induction h with
  | reset d0 d h0 =>
    obtain ⟨h1, h2, h3, h4⟩ := resetState_depth d0 d h0
    simp [DepthTestInSync, h1, h2, h3, h4, DEPTH_LEQUAL]
  | depthTest t d d' _ hc ih => exact ensures_eq _ _ (setDepthTest_sync t d ih) d' hc
  | depthWrite a d d' _ hc ih => exact ensures_eq _ _ (setDepthWrite_sync a d ih) d' hc

/-- Outside a primitive setDepthWrite returns; after it the argument is
cached and the cached depth test is as before. -/
theorem setDepthWrite_caches (a : Bool) (d : Device) (hp : d.m_inPrimitive = false) :
    Yields (fun d1 => d1.m_inPrimitive = false ∧ d1.m_state.depthWrite = a ∧
        d1.m_state.depthTest = d.m_state.depthTest)
      (setDepthWrite a d) := by
  simp only [setDepthWrite]
  apply yields_ite <;> intro h0
  · exact absurd h0 (by rw [hp]; exact Bool.false_ne_true)
  · apply yields_ite <;> intro h1
    · apply yields_ite <;> intro h2
      · simp only [state_withState, state_withGL, state_minGLStateChange,
          state_minStateChange] at h2
        obtain ⟨y, hy, hyp, hyw, hyt⟩ := yields_exists _ _
          (setDepthTest_caches DEPTH_ALWAYS_PASS
            (withState (fun s => { s with depthWrite := a })
              (withGL (fun g => { g with depthMask := a })
                (minGLStateChange 1 (minStateChange 1 d))))
            (by simp [hp]))
        simp only [state_withState, state_withGL, state_minGLStateChange,
          state_minStateChange, h2]
        rw [hy]
        apply yields_some
        refine ⟨hyp, ?_, ?_⟩
        · rw [hyw]; simp
        · exact hyt (by decide)
      · apply yields_some
        simp [hp]
    · apply yields_some
      simp only [state_minStateChange, ne_eq, not_not] at h1
      simp [hp, h1]

/-- C9: in every state reachable from resetState through setDepthTest and
setDepthWrite calls the native depth test is disabled exactly when the cached
test is DEPTH_ALWAYS_PASS and depth write is disabled, and while enabled it
uses the cached test as its function.  From the default state, outside a
primitive, the calls setDepthTest(DEPTH_ALWAYS_PASS), setDepthWrite(false),
setDepthTest(DEPTH_ALWAYS_PASS) all return; the native depth test is still
enabled after the first and disabled after the last. -/
theorem native_depth_test_follows_cache :
    (∀ d, DepthReachable d → DepthTestInSync d) ∧
    (∀ d0 d, resetState d0 = some d → d.m_inPrimitive = false →
      ∃ d1 d2 d3, setDepthTest DEPTH_ALWAYS_PASS d = some d1 ∧
        setDepthWrite false d1 = some d2 ∧
        setDepthTest DEPTH_ALWAYS_PASS d2 = some d3 ∧
        d1.gl.depthTest = true ∧ d3.gl.depthTest = false) := by
  refine ⟨depthReachable_sync, ?_⟩
  intro d0 d h hp
  obtain ⟨d1, h1, hp1, hw1, ht1⟩ :=
    yields_exists _ _ (setDepthTest_caches DEPTH_ALWAYS_PASS d hp)
  obtain ⟨d2, h2, hp2, hw2, ht2⟩ := yields_exists _ _ (setDepthWrite_caches false d1 hp1)
  obtain ⟨d3, h3, _, hw3, ht3⟩ :=
    yields_exists _ _ (setDepthTest_caches DEPTH_ALWAYS_PASS d2 hp2)
  have r0 : DepthReachable d := DepthReachable.reset d0 d h
  have r1 : DepthReachable d1 := DepthReachable.depthTest _ d d1 r0 h1
  have r2 : DepthReachable d2 := DepthReachable.depthWrite _ d1 d2 r1 h2
  have r3 : DepthReachable d3 := DepthReachable.depthTest _ d2 d3 r2 h3
  refine ⟨d1, d2, d3, h1, h2, h3, ?_, ?_⟩
  · have hw : d1.m_state.depthWrite = true := by
      rw [hw1]; exact (resetState_depth d0 d h).2.2.2
    cases hg : d1.gl.depthTest with
    | true => rfl
    | false =>
      have := ((depthReachable_sync d1 r1).1.mp hg).2
      rw [hw] at this
      exact Bool.noConfusion this
  · exact (depthReachable_sync d3 r3).1.mpr ⟨ht3 (by decide), by rw [hw3, hw2]⟩

theorem native_depth_test_follows_cache_witness :
    ∃ d d1 d2 d3, resetState (freshDevice 2 2 2) = some d ∧
      setDepthTest DEPTH_ALWAYS_PASS d = some d1 ∧ setDepthWrite false d1 = some d2 ∧
      setDepthTest DEPTH_ALWAYS_PASS d2 = some d3 ∧
      d1.gl.depthTest = true ∧ d3.gl.depthTest = false ∧ DepthTestInSync d3 := by
  obtain ⟨d, hd⟩ := exists_of_isSome (resetState (freshDevice 2 2 2)) (by decide)
  have hp : (resetState (freshDevice 2 2 2)).map (fun d => d.m_inPrimitive) = some false := by
    decide
  rw [hd, Option.map_some'] at hp
  obtain ⟨d1, d2, d3, h1, h2, h3, g1, g3⟩ :=
    native_depth_test_follows_cache.2 (freshDevice 2 2 2) d hd (Option.some.inj hp)
  refine ⟨d, d1, d2, d3, hd, h1, h2, h3, g1, g3, ?_⟩
  exact native_depth_test_follows_cache.1 d3
    (DepthReachable.depthTest _ d2 d3
      (DepthReachable.depthWrite _ d1 d2
        (DepthReachable.depthTest _ d d1 (DepthReachable.reset _ d hd) h1) h2) h3)

/-! ## C10: native blending follows the cached blend function -/

theorem setBlendFunc_sync (src dst : BlendFunc) (eq : BlendEq) (d : Device)
    (h : BlendInSync d) : Ensures BlendInSync (setBlendFunc src dst eq d) := by
  simp only [setBlendFunc]
  generalize (if src = BLEND_CURRENT then (minStateChange 1 d).m_state.srcBlendFunc else src)
    = s
  generalize (if dst = BLEND_CURRENT then (minStateChange 1 d).m_state.dstBlendFunc else dst)
    = t
  generalize (if eq = BLENDEQ_CURRENT then (minStateChange 1 d).m_state.blendEq else eq) = e
  apply ensures_ite <;> intro h0
  · exact ensures_none _
  · apply ensures_ite <;> intro h1
    · apply ensures_ite <;> intro h2
      · apply ensures_some
        simp [BlendInSync]
        exact ⟨h2.2.1, h2.1, h2.2.2⟩
      · have h2' : ¬ (s = BLEND_ONE ∧ t = BLEND_ZERO ∧ (e = BLENDEQ_ADD ∨ e = BLENDEQ_SUBTRACT)) :=
          fun hh => h2 ⟨hh.2.1, hh.1, hh.2.2⟩
        repeat' first
          | exact ensures_none _
          | (apply ensures_ite <;> intro _)
          | (apply ensures_some
             simp [BlendInSync]
             intro hs ht
             exact not_or.mp (fun hh => h2' ⟨hs, ht, hh⟩))
          | split
    · apply ensures_some
      exact h

theorem blendReachable_sync (d : Device) (h : BlendReachable d) : BlendInSync d := by
  induction h with
  | reset d0 d h0 =>
    obtain ⟨h1, h2, h3, h4⟩ := resetState_blend d0 d h0
    simp [BlendInSync, h1, h2, h3, h4]
  | blendFunc s t e d d' _ hc ih => exact ensures_eq _ _ (setBlendFunc_sync s t e d ih) d' hc

/-- Outside a primitive setBlendFunc returns when called with the equation
BLENDEQ_ADD and two functions other than the sentinel, and caches its
arguments. -/
theorem setBlendFunc_caches (src dst : BlendFunc) (eq : BlendEq) (d : Device)
    (hp : d.m_inPrimitive = false) (hs : src ≠ BLEND_CURRENT) (ht : dst ≠ BLEND_CURRENT)
    (he : eq = BLENDEQ_ADD) :
    Yields (fun d1 => d1.m_state.srcBlendFunc = src ∧ d1.m_state.dstBlendFunc = dst ∧
        d1.m_state.blendEq = eq)
      (setBlendFunc src dst eq d) := by
  have he' : eq ≠ BLENDEQ_CURRENT := by rw [he]; decide
  simp only [setBlendFunc]
  rw [if_neg hs, if_neg ht, if_neg he']
  apply yields_ite <;> intro h0
  · exact absurd h0 (by rw [hp]; exact Bool.false_ne_true)
  · apply yields_ite <;> intro h1
    · apply yields_ite <;> intro h2
      · apply yields_some
        simp
      · apply yields_ite <;> intro h3
        · exact absurd h3 (fun hh => hh.elim hs ht)
        · apply yields_ite <;> intro h4
          · exact absurd (Or.inl he) h4
          · apply yields_ite <;> intro h5
            · have hq : toGLBlendEq
                  (withGL (fun g => { g with blendSrc := src, blendDst := dst })
                    (withGL (fun g => { g with blend := true })
                      (minGLStateChange 1 (minStateChange 1 d)))).caps eq =
                  some GL_FUNC_ADD := by
                rw [he]
                simp [toGLBlendEq, BLENDEQ_ADD, BLENDEQ_MIN, BLENDEQ_MAX, GL_MIN, GL_MAX,
                  GL_FUNC_ADD]
              rw [hq]
              apply yields_some
              simp
            · apply yields_some
              simp
    · apply yields_some
      simp only [state_minStateChange, ne_eq, not_or, not_not] at h1 ⊢
      exact ⟨h1.2.1, h1.1, h1.2.2⟩

/-- C10: in every state reachable from resetState through setBlendFunc calls
native blending is disabled exactly when the cached (src, dst, eq) is
(ONE, ZERO, ADD) or (ONE, ZERO, SUBTRACT), and while enabled the native
function pair is the cached one.  In such a state, outside a primitive,
setBlendFunc(ONE, ZERO, ADD) returns with blending disabled and
setBlendFunc(SRC_ALPHA, ONE_MINUS_SRC_ALPHA, ADD) returns with blending
enabled and that pair applied. -/
theorem native_blend_follows_cache (d : Device) (h : BlendReachable d) :
    BlendInSync d ∧
    (d.m_inPrimitive = false →
      (∃ d1, setBlendFunc BLEND_ONE BLEND_ZERO BLENDEQ_ADD d = some d1 ∧
        d1.gl.blend = false) ∧
      (∃ d2, setBlendFunc BLEND_SRC_ALPHA BLEND_ONE_MINUS_SRC_ALPHA BLENDEQ_ADD d = some d2 ∧
        d2.gl.blend = true ∧ d2.gl.blendSrc = GL_SRC_ALPHA ∧
        d2.gl.blendDst = GL_ONE_MINUS_SRC_ALPHA)) := by
  refine ⟨blendReachable_sync d h, ?_⟩
  intro hp
  constructor
  · obtain ⟨d1, h1, c1, c2, c3⟩ := yields_exists _ _
      (setBlendFunc_caches BLEND_ONE BLEND_ZERO BLENDEQ_ADD d hp (by decide) (by decide) rfl)
    have s1 := blendReachable_sync d1 (BlendReachable.blendFunc _ _ _ d d1 h h1)
    exact ⟨d1, h1, s1.1.mpr ⟨c1, c2, Or.inl c3⟩⟩
  · obtain ⟨d2, h2, c1, c2, c3⟩ := yields_exists _ _
      (setBlendFunc_caches BLEND_SRC_ALPHA BLEND_ONE_MINUS_SRC_ALPHA BLENDEQ_ADD d hp
        (by decide) (by decide) rfl)
    have s2 := blendReachable_sync d2 (BlendReachable.blendFunc _ _ _ d d2 h h2)
    have hb : d2.gl.blend = true := by
      cases hg : d2.gl.blend with
      | true => rfl
      | false =>
        have := (s2.1.mp hg).1
        rw [c1] at this
        exact absurd this (by decide)
    have hf := s2.2 hb
    refine ⟨d2, h2, hb, ?_, ?_⟩
    · rw [hf.1, c1]; rfl
    · rw [hf.2, c2]; rfl

theorem native_blend_follows_cache_witness :
    ∃ d d1 d2, resetState (freshDevice 2 2 2) = some d ∧ BlendInSync d ∧
      setBlendFunc BLEND_SRC_ALPHA BLEND_ONE_MINUS_SRC_ALPHA BLENDEQ_ADD d = some d1 ∧
      d1.gl.blend = true ∧ d1.gl.blendSrc = GL_SRC_ALPHA ∧
      d1.gl.blendDst = GL_ONE_MINUS_SRC_ALPHA ∧
      setBlendFunc BLEND_ONE BLEND_ZERO BLENDEQ_ADD d1 = some d2 ∧ d2.gl.blend = false := by
  obtain ⟨d, hd⟩ := exists_of_isSome (resetState (freshDevice 2 2 2)) (by decide)
  have hp : (resetState (freshDevice 2 2 2)).map (fun d => d.m_inPrimitive) = some false := by
    decide
  rw [hd, Option.map_some'] at hp
  have hp := Option.some.inj hp
  have r0 : BlendReachable d := BlendReachable.reset _ d hd
  obtain ⟨s0, t0⟩ := native_blend_follows_cache d r0
  obtain ⟨d1, h1, b1, b2, b3⟩ := (t0 hp).2
  have r1 : BlendReachable d1 := BlendReachable.blendFunc _ _ _ d d1 r0 h1
  have hp1 : d1.m_inPrimitive = false := by
    have e := frame_eq _ _ (setBlendFunc_frame _ _ _) d d1 h1
    rw [inPrimitive_of_env d d1 (env_of_obs _ d d1 e)]
    exact hp
  obtain ⟨d2, h2, c2⟩ := ((native_blend_follows_cache d1 r1).2 hp1).1
  exact ⟨d, d1, d2, hd, s0, h1, b1, b2, b3, h2, c2⟩

/-! ## Runs of statements, step by step -/

theorem runSteps_cons_inv (f : Device → Option Device) (fs : List (Device → Option Device))
    (d d' : Device) (h : runSteps (f :: fs) d = some d') :
    ∃ x, f d = some x ∧ runSteps fs x = some d' := by
  rw [runSteps_cons] at h
  cases hx : f d with
  | none => rw [hx] at h; exact Option.noConfusion h
  | some x =>
    rw [hx, Option.some_bind] at h
    exact ⟨x, rfl, h⟩

theorem runSteps_nil_inv (d d' : Device) (h : runSteps [] d = some d') : d' = d :=
  (Option.some.inj h).symm

/-- The statements of clear after the synchronisation keep every observation
that the statistics do not enter and that setColorWrite and setDepthWrite
keep. -/
theorem clearBuffers_frame {α : Type} (π : Device → α)
    (hs : ∀ n d, π (minStateChange n d) = π d) (hg : ∀ n d, π (minGLStateChange n d) = π d)
    (hS : ∀ n d, π (majStateChange n d) = π d) (hG : ∀ n d, π (majGLStateChange n d) = π d)
    (hc : ∀ a, Frame π (setColorWrite a)) (hd : ∀ a, Frame π (setDepthWrite a))
    (cc cd cs : Bool) : Frame π (clearBuffers cc cd cs) := by
  apply frame_of_eq
  intro d d' h
  simp only [clearBuffers] at h
  split at h
  · exact Option.noConfusion h
  · rename_i x hx
    split at h
    · exact Option.noConfusion h
    · rename_i y hy
      have e1 : π x = π d := by
        by_cases hcc : cc = true
        · rw [if_pos hcc] at hx
          exact (frame_eq _ _ (hc true) _ _ hx).trans ((hG _ _).trans (hS _ _))
        · rw [if_neg hcc] at hx
          rw [← Option.some.inj hx]
          exact (hG _ _).trans (hS _ _)
      have e2 : π y = π x := by
        by_cases hcd : cd = true
        · rw [if_pos hcd] at hy
          exact frame_eq _ _ (hd true) _ _ hy
        · rw [if_neg hcd] at hy
          rw [← Option.some.inj hy]
      have e3 := frame_eq _ _ (frame_runSteps π _ (by
        intro f hf
        simp only [List.mem_cons, List.mem_singleton, List.not_mem_nil, or_false] at hf
        rcases hf with rfl | rfl
        · exact hc _
        · exact hd _)) _ _ h
      rw [e3, ← e1, ← e2, hs, hg]
      by_cases hcs : cs = true
      · rw [if_pos hcs, hs, hg]
      · rw [if_neg hcs]

/-! ## The native state under the helpers -/

@[simp] theorem gl_forceSetViewport (v : Rect2D) (d : Device) :
    (forceSetViewport v d).gl = d.gl := rfl

@[simp] theorem gl_forceSetProjectionMatrix (P : Matrix4) (d : Device) :
    (forceSetProjectionMatrix P d).gl = d.gl := rfl

@[simp] theorem gl_writeTextureUnit (u : Nat) (tu : RenderState.TextureUnit) (d : Device) :
    (writeTextureUnit u tu d).gl = d.gl := rfl

@[simp] theorem gl_recordBoundTexture (u i : Nat) (d : Device) :
    (recordBoundTexture u i d).gl = d.gl := rfl

@[simp] theorem gl_setStencilTest (t : StencilTest) (r : Int) (d : Device) :
    (_setStencilTest t r d).gl = d.gl := by
  unfold _setStencilTest
  repeat' split
  all_goals rfl

@[simp] theorem drawBuffer_forceSetCullFace (f : CullFace) (d : Device) :
    (forceSetCullFace f d).gl.drawBuffer = d.gl.drawBuffer := by
  unfold forceSetCullFace
  split <;> rfl

/-- The cached state and the native state: forceSetStencilOp writes neither
(the native stencil operations are not part of the record). -/
theorem forceSetStencilOp_keeps (a b c e f h : StencilOp) :
    Frame (fun d => (Env d, d.m_state, d.gl)) (forceSetStencilOp a b c e f h) := by
  intro d
  simp only [forceSetStencilOp]
  repeat' first
    | exact keeps_none _ _
    | (apply keeps_ite <;> intro _)
    | (apply keeps_of_eq; simp)

theorem syncDrawBuffer_drawBuffer (b : Bool) :
    Frame (fun d => (d.m_state, d.gl.drawBuffer)) (syncDrawBuffer b) := by
  intro d
  simp only [syncDrawBuffer]
  repeat' first
    | exact keeps_none _ _
    | (apply keeps_ite <;> intro _)
    | (apply keeps_of_eq; simp)
    | split

/-! ## C11: setTexture skips a handle that is already cached -/

theorem getElem?_set_self_of_lt {α : Type} (l : List α) (i : Nat) (a : α) (h : i < l.length) :
    (l.set i a)[i]? = some a := by
  simp [List.getElem?_set, h]

theorem getElem?_set_other {α : Type} (l : List α) (i j : Nat) (a : α) (h : j ≠ i) :
    (l.set i a)[j]? = l[j]? := by
  rw [List.getElem?_set_ne (Ne.symm h)]

/-- The device that setTexture returns when the handle differs from the cached
one. -/
theorem setTexture_changed (unit : Nat) (T : Option Texture) (d : Device)
    (hp : d.m_inPrimitive = false) (hu : unit < d.m_numTextures)
    (tiu : RenderState.TextureImageUnit) (hc : d.m_state.textureImageUnits[unit]? = some tiu)
    (hne : tiu.texture ≠ T) :
    setTexture unit T d = some (recordBoundTexture unit (T.elim 0 (fun t => t.openGLID))
      (withState (fun s => s.textureUnitModified unit)
        (withState (fun s => { s with
            textureImageUnits := s.textureImageUnits.set unit { texture := T } })
          (majGLStateChange 1 (majStateChange 1 d))))) := by
  simp only [setTexture]
  rw [if_neg (by rw [hp]; exact Bool.false_ne_true), if_neg (not_not.mpr hu), hc]
  simp only []
  rw [if_neg hne]
  cases T <;> rfl

theorem numTextures_of_env (d d' : Device) (h : Env d' = Env d) :
    d'.m_numTextures = d.m_numTextures := by
  simp only [Env, Prod.mk.injEq] at h
  exact h.2.2.2.2.2.2.1

/-- A call of setTexture with the handle that is cached for the unit returns
the device as it is. -/
theorem setTexture_same (unit : Nat) (T : Option Texture) (d : Device)
    (hp : d.m_inPrimitive = false) (hu : unit < d.m_numTextures)
    (hc : d.m_state.textureImageUnits[unit]? = some { texture := T }) :
    setTexture unit T d = some d := by
  simp only [setTexture]
  rw [if_neg (by rw [hp]; exact Bool.false_ne_true), if_neg (not_not.mpr hu), hc]
  simp

/-- C11: outside a primitive, for a unit below the number of textures whose
entry exists in the cache: setTexture with the handle that is already cached
for the unit returns the device unchanged, so no cached state changes and
Stats::majorOpenGLStateChanges stays as it is; with a different handle it
returns, the 32-bit counter majorOpenGLStateChanges is one more (it increases
below the wrap at 2^32), the new handle (null included) is the cached binding
of the unit, the cached binding and the recorded native binding of every other
unit are unchanged, and a second call with the same handle changes nothing. -/
theorem setTexture_contract (unit : Nat) (T : Option Texture) (d : Device)
    (hp : d.m_inPrimitive = false) (hu : unit < d.m_numTextures)
    (hl : unit < d.m_state.textureImageUnits.length) :
    (d.m_state.textureImageUnits[unit]? = some { texture := T } → setTexture unit T d = some d) ∧
    (d.m_state.textureImageUnits[unit]? ≠ some { texture := T } →
      ∃ d', setTexture unit T d = some d' ∧ Env d' = Env d ∧
        d'.m_stats.majorOpenGLStateChanges = (d.m_stats.majorOpenGLStateChanges + 1) % 2 ^ 32 ∧
        (d.m_stats.majorOpenGLStateChanges + 1 < 2 ^ 32 →
          d.m_stats.majorOpenGLStateChanges < d'.m_stats.majorOpenGLStateChanges) ∧
        d'.m_state.textureImageUnits[unit]? = some { texture := T } ∧
        (∀ v, v ≠ unit →
          d'.m_state.textureImageUnits[v]? = d.m_state.textureImageUnits[v]? ∧
          d'.currentlyBoundTextures[v]? = d.currentlyBoundTextures[v]?) ∧
        setTexture unit T d' = some d') := by
  refine ⟨setTexture_same unit T d hp hu, ?_⟩
  intro hc
  obtain ⟨tiu, htiu⟩ : ∃ tiu, d.m_state.textureImageUnits[unit]? = some tiu :=
    ⟨_, List.getElem?_eq_getElem hl⟩
  have hne : tiu.texture ≠ T := by
    intro e
    apply hc
    rw [htiu, ← e]
  have e := setTexture_changed unit T d hp hu tiu htiu hne
  have henv : Env (recordBoundTexture unit (T.elim 0 (fun t => t.openGLID))
      (withState (fun s => s.textureUnitModified unit)
        (withState (fun s => { s with
            textureImageUnits := s.textureImageUnits.set unit { texture := T } })
          (majGLStateChange 1 (majStateChange 1 d))))) = Env d := by
    simp
  have hcache : (recordBoundTexture unit (T.elim 0 (fun t => t.openGLID))
      (withState (fun s => s.textureUnitModified unit)
        (withState (fun s => { s with
            textureImageUnits := s.textureImageUnits.set unit { texture := T } })
          (majGLStateChange 1 (majStateChange 1 d))))).m_state.textureImageUnits =
      d.m_state.textureImageUnits.set unit { texture := T } := by
    simp [RenderState.textureUnitModified]
  refine ⟨_, e, henv, ?_, ?_, ?_, ?_, ?_⟩
  · rfl
  · intro hlt
    show d.m_stats.majorOpenGLStateChanges < (d.m_stats.majorOpenGLStateChanges + 1) % 2 ^ 32
    rw [Nat.mod_eq_of_lt hlt]
    exact Nat.lt_succ_self _
  · rw [hcache]
    exact getElem?_set_self_of_lt _ _ _ hl
  · intro v hv
    constructor
    · rw [hcache]
      exact getElem?_set_other _ _ _ _ hv
    · exact getElem?_set_other _ _ _ _ hv
  · apply setTexture_same
    · rw [inPrimitive_of_env _ _ henv]; exact hp
    · rw [numTextures_of_env _ _ henv]; exact hu
    · rw [hcache]
      exact getElem?_set_self_of_lt _ _ _ hl

theorem setTexture_contract_witness :
    ∃ d d1 d3, resetState (freshDevice 2 2 2) = some d ∧
      setTexture 0 (some testTexture) d = some d1 ∧
      setTexture 0 (some testTexture) d1 = some d1 ∧
      setTexture 0 none d1 = some d3 ∧
      d1.m_stats.majorOpenGLStateChanges = 1 ∧
      d3.m_stats.majorOpenGLStateChanges = 2 ∧
      d1.m_state.textureImageUnits[0]? = some { texture := some testTexture } ∧
      d3.m_state.textureImageUnits[0]? = some { texture := none } := by
  obtain ⟨d, hd⟩ := exists_of_isSome (resetState (freshDevice 2 2 2)) (by decide)
  have hq : (resetState (freshDevice 2 2 2)).map
      (fun d => (d.m_inPrimitive, d.m_numTextures, d.m_state.textureImageUnits,
        d.m_stats.majorOpenGLStateChanges)) =
      some (false, 2, [{ texture := none }, { texture := none }], 0) := by
    decide
  rw [hd, Option.map_some'] at hq
  have hq := Option.some.inj hq
  simp only [Prod.mk.injEq] at hq
  obtain ⟨hp, hn, hu, hc⟩ := hq
  obtain ⟨d1, h1, v1, c1, _, t1, _, s1⟩ :=
    (setTexture_contract 0 (some testTexture) d hp (by rw [hn]; decide)
      (by rw [hu]; decide)).2 (by rw [hu]; decide)
  have hp1 : d1.m_inPrimitive = false := by rw [inPrimitive_of_env _ _ v1]; exact hp
  have hn1 : d1.m_numTextures = 2 := by rw [numTextures_of_env _ _ v1]; exact hn
  have hl1 : 0 < d1.m_state.textureImageUnits.length := by
    cases hx : d1.m_state.textureImageUnits with
    | nil => rw [hx] at t1; exact Option.noConfusion t1
    | cons a l => exact Nat.succ_pos _
  obtain ⟨d3, h3, _, c3, _, t3, _, _⟩ :=
    (setTexture_contract 0 none d1 hp1 (by rw [hn1]; decide) hl1).2
      (by rw [t1]; decide)
  refine ⟨d, d1, d3, hd, h1, s1, h3, ?_, ?_, t1, t3⟩
  · rw [c1, hc]; rfl
  · rw [c3, c1, hc]; rfl

/-! ## C12: which rectangles enable the 2D clip -/

/-- C12, the stated rule fails for the empty rectangle: setClip2D takes the
enabling branch whenever the rectangle is finite or empty.  From the default
state setClip2D(Rect2D::empty()) returns with 2D clipping enabled, the native
scissor test on, and clip2D() equal to the empty rectangle, not the
viewport. -/
theorem setClip2D_empty_enables :
    (runSteps [resetState, setClip2D Rect2D.empty] (freshDevice 2 2 2)).map
        (fun d => (d.m_state.useClip2D, d.gl.scissorTest, clip2D d, viewport d)) =
      some (true, true, Rect2D.empty, Rect2D.xywh 0 0 640 480) := by
  decide

/-- C12: setClip2D always returns.  For a rectangle that is neither finite
nor empty (Rect2D::inf()) 2D clipping is disabled afterwards and clip2D() is
the viewport; for a finite or an empty rectangle it is enabled afterwards and
clip2D() is that rectangle.  The viewport is not changed. -/
theorem setClip2D_contract (r : Rect2D) (d : Device) :
    ∃ d', setClip2D r d = some d' ∧
      (r.isFinite = false ∧ r.isEmpty = false →
        d'.m_state.useClip2D = false ∧ clip2D d' = viewport d') ∧
      (r.isFinite = true ∨ r.isEmpty = true →
        d'.m_state.useClip2D = true ∧ clip2D d' = r) ∧
      viewport d' = viewport d := by
  apply yields_exists
  simp only [setClip2D]
  apply yields_ite <;> intro h0
  · apply yields_ite <;> intro h1
    · apply yields_some
      refine ⟨fun h => ?_, fun _ => ?_, ?_⟩
      · rcases h0 with h0 | h0
        · rw [h.1] at h0; exact Bool.noConfusion h0
        · rw [h.2] at h0; exact Bool.noConfusion h0
      · simp [clip2D]
      · simp [viewport]
    · apply yields_some
      simp only [state_clipZeroArea, state_minGLStateChange, state_withState, state_minStateChange,
        Bool.not_eq_true, Bool.not_eq_false] at h1
      refine ⟨fun h => ?_, fun _ => ?_, ?_⟩
      · rcases h0 with h0 | h0
        · rw [h.1] at h0; exact Bool.noConfusion h0
        · rw [h.2] at h0; exact Bool.noConfusion h0
      · simp [clip2D, h1]
      · simp [viewport]
  · apply yields_ite <;> intro h1
    · apply yields_some
      refine ⟨fun _ => ?_, fun h => absurd h h0, ?_⟩
      · simp [clip2D, viewport]
      · simp [viewport]
    · apply yields_some
      simp only [state_minStateChange, Bool.not_eq_true] at h1
      refine ⟨fun _ => ?_, fun h => absurd h h0, ?_⟩
      · simp [clip2D, viewport, h1]
      · simp [viewport]

theorem setClip2D_contract_witness :
    ∃ d', setClip2D (Rect2D.xywh 0 0 10 10) (freshDevice 2 2 2) = some d' ∧
      d'.m_state.useClip2D = true ∧ clip2D d' = Rect2D.xywh 0 0 10 10 := by
  obtain ⟨d', h, _, h2, _⟩ := setClip2D_contract (Rect2D.xywh 0 0 10 10) (freshDevice 2 2 2)
  exact ⟨d', h, h2 (Or.inl rfl)⟩

/-! ## C13: when the native stencil test is on -/

theorem resetState_stencil (d0 d : Device) (h : resetState d0 = some d) :
    d.gl.stencilTest = false ∧ d.m_state.stencil.stencilTest = STENCIL_ALWAYS_PASS ∧
      FrontOpsKeep d.m_state ∧ BackOpsKeep d.m_state := by
  rw [resetState_eq] at h
  rw [← Option.some.inj h]
  simp [resetStateGL, resetStateGLTail, RenderState.init, FrontOpsKeep, BackOpsKeep]

theorem setStencilTest_sync (t : StencilTest) (d : Device) (h : StencilTestInSync d) :
    Ensures StencilTestInSync (setStencilTest t d) := by
  simp only [setStencilTest]
  apply ensures_ite <;> intro h0
  · apply ensures_some
    exact h
  · apply ensures_ite <;> intro h1
    · exact ensures_none _
    · apply ensures_ite <;> intro h2
      · apply ensures_ite <;> intro h3
        · apply ensures_ite <;> intro h4
          · apply ensures_some
            simp only [state_withGL, state_minStateChange, caps_withGL, caps_minStateChange,
              Bool.not_eq_true] at h4
            simp only [StencilTestInSync, FrontOpsKeep, BackOpsKeep, TwoSidedEXT,
              state_withState, state_withGL, state_minGLStateChange, state_minStateChange,
              caps_withState, caps_withGL, caps_minGLStateChange, caps_minStateChange,
              gl_withState, gl_withGL, gl_minGLStateChange, gl_minStateChange]
            constructor
            · intro hh
              rcases hh with hh | hh
              · exact absurd ⟨h4.1, h4.2.1, h4.2.2.1⟩ hh
              · rcases h4.2.2.2 with h5 | h5
                · rw [hh.1.1] at h5; exact Bool.noConfusion h5
                · exact absurd h5 hh.2
            · intro hh
              exact absurd h3 hh
          · apply ensures_some
            simp [StencilTestInSync]
        · apply ensures_some
          simp [StencilTestInSync]
      · apply ensures_some
        exact h

theorem setStencilOp_sync (a b c e f k : StencilOp) (d : Device) (h : StencilTestInSync d) :
    Ensures StencilTestInSync (setStencilOp a b c e f k d) := by
  simp only [setStencilOp]
  generalize (if a = STENCILOP_CURRENT then (minStateChange 1 d).m_state.stencil.frontStencilFail
    else a) = a'
  generalize (if b = STENCILOP_CURRENT then (minStateChange 1 d).m_state.stencil.frontStencilZFail
    else b) = b'
  generalize (if c = STENCILOP_CURRENT then (minStateChange 1 d).m_state.stencil.frontStencilZPass
    else c) = c'
  generalize (if e = STENCILOP_CURRENT then (minStateChange 1 d).m_state.stencil.backStencilFail
    else e) = e'
  generalize (if f = STENCILOP_CURRENT then (minStateChange 1 d).m_state.stencil.backStencilZFail
    else f) = f'
  generalize (if k = STENCILOP_CURRENT then (minStateChange 1 d).m_state.stencil.backStencilZPass
    else k) = k'
  apply ensures_ite <;> intro h0
  · split
    · exact ensures_none _
    · rename_i x hx
      have ex := frame_eq _ _ (forceSetStencilOp_keeps a' b' c' e' f' k') _ _ hx
      simp only [Prod.mk.injEq, env_minStateChange, state_minStateChange,
        gl_minStateChange] at ex
      obtain ⟨ev, es, eg⟩ := ex
      have ec : x.caps = d.caps := by
        simp only [Env, Prod.mk.injEq] at ev
        exact ev.1
      obtain ⟨hI, hJ⟩ := h
      apply ensures_ite <;> intro h1
      · apply ensures_ite <;> intro h2
        · apply ensures_some
          rw [ec] at h1
          simp only [StencilTestInSync, FrontOpsKeep, BackOpsKeep, TwoSidedEXT,
            state_withState, state_withGL, caps_withState, caps_withGL, gl_withState,
            gl_withGL, ec, es]
          constructor
          · intro hh
            rcases hh with hh | hh
            · exact absurd ⟨h1.1, h1.2.2.1, h1.2.1⟩ hh
            · rcases h1.2.2.2 with h5 | h5
              · exact absurd hh.1.2 h5
              · exact absurd ⟨h5.1, h5.2.2, h5.2.1⟩ hh.2
          · intro hh
            rw [es] at h2
            exact absurd h2 hh
        · apply ensures_some
          rw [ec] at h1
          rw [es] at h2
          simp only [StencilTestInSync, FrontOpsKeep, BackOpsKeep, TwoSidedEXT,
            state_withState, caps_withState, gl_withState, ec, es, eg]
          exact ⟨fun _ => hJ h2, hJ⟩
      · apply ensures_ite <;> intro h2
        · exact ensures_none _
        · apply ensures_ite <;> intro h3
          · apply ensures_some
            simp [StencilTestInSync]
          · apply ensures_some
            rw [es] at h3
            simp only [StencilTestInSync, FrontOpsKeep, BackOpsKeep, TwoSidedEXT,
              state_withState, caps_withState, gl_withState, ec, es, eg]
            exact ⟨fun _ => hJ h3, hJ⟩
  · apply ensures_some
    exact h

theorem stencilReachable_sync (d : Device) (h : StencilReachable d) : StencilTestInSync d := by
  induction h with
  | reset d0 d h0 =>
    obtain ⟨_, h2, h3, h4⟩ := resetState_stencil d0 d h0
    constructor
    · intro hh
      rcases hh with hh | hh
      · exact absurd h3 hh
      · exact absurd h4 hh.2
    · intro hh
      exact absurd h2 hh
  | stencilTest t d d' _ hc ih => exact ensures_eq _ _ (setStencilTest_sync t d ih) d' hc
  | stencilOp a b c e f k d d' _ hc ih =>
    exact ensures_eq _ _ (setStencilOp_sync a b c e f k d ih) d' hc

/-- C13, the stated rule fails when two-sided stencil is not supported: the
back operations are then cached but do not count.  With neither extension,
from the default state, setStencilOp(REPLACE, KEEP, KEEP, INCR, KEEP, KEEP)
turns the native test on and caches INCR as back operation; a following
setStencilOp(KEEP, KEEP, KEEP, CURRENT, CURRENT, CURRENT) turns the native
test off while the cached back operation is still INCR. -/
theorem stencil_test_off_with_back_op :
    (runSteps [resetState,
        setStencilOp STENCIL_REPLACE STENCIL_KEEP STENCIL_KEEP STENCIL_INCR STENCIL_KEEP
          STENCIL_KEEP] (withCaps oneSidedCaps (freshDevice 2 2 2))).map
        (fun d => (d.gl.stencilTest, d.m_state.stencil.backStencilFail)) =
      some (true, STENCIL_INCR) ∧
    (runSteps [resetState,
        setStencilOp STENCIL_REPLACE STENCIL_KEEP STENCIL_KEEP STENCIL_INCR STENCIL_KEEP
          STENCIL_KEEP,
        setStencilOp STENCIL_KEEP STENCIL_KEEP STENCIL_KEEP STENCILOP_CURRENT STENCILOP_CURRENT
          STENCILOP_CURRENT] (withCaps oneSidedCaps (freshDevice 2 2 2))).map
        (fun d => (d.gl.stencilTest, d.m_state.stencil.backStencilFail,
          d.m_state.stencil.stencilTest)) =
      some (false, STENCIL_INCR, STENCIL_ALWAYS_PASS) := by
  decide

/-- With two-sided stencil through the ATI extension only, setStencilOp counts
the back operations and setStencilTest does not: after
setStencilOp(KEEP, KEEP, KEEP, INCR, KEEP, KEEP), setStencilTest(EQUAL) and
setStencilTest(ALWAYS_PASS) the native test is off while the back operation
INCR is in use. -/
theorem stencil_test_off_with_separate_stencil :
    (runSteps [resetState,
        setStencilOp STENCIL_KEEP STENCIL_KEEP STENCIL_KEEP STENCIL_INCR STENCIL_KEEP
          STENCIL_KEEP] (withCaps separateStencilCaps (freshDevice 2 2 2))).map
        (fun d => (d.gl.stencilTest, d.m_state.stencil.backStencilFail)) =
      some (true, STENCIL_INCR) ∧
    (runSteps [resetState,
        setStencilOp STENCIL_KEEP STENCIL_KEEP STENCIL_KEEP STENCIL_INCR STENCIL_KEEP
          STENCIL_KEEP,
        setStencilTest STENCIL_EQUAL, setStencilTest STENCIL_ALWAYS_PASS]
        (withCaps separateStencilCaps (freshDevice 2 2 2))).map
        (fun d => (d.gl.stencilTest, d.m_state.stencil.backStencilFail)) =
      some (false, STENCIL_INCR) := by
  decide

/-- C13: in every state reachable from resetState through setStencilTest and
setStencilOp calls, whatever the capability flags, the native stencil test is
enabled whenever one of the three cached front operations differs from KEEP,
or two-sided stencil is supported through the EXT extension and one of the
three cached back operations differs from KEEP; so neither setter leaves the
native test off unless all operations that count are KEEP.  The native test
is also enabled whenever the cached test is not ALWAYS_PASS. -/
theorem native_stencil_test_follows_ops (d : Device) (h : StencilReachable d) :
    ((¬ FrontOpsKeep d.m_state ∨ (TwoSidedEXT d.caps ∧ ¬ BackOpsKeep d.m_state)) →
      d.gl.stencilTest = true) ∧
    (d.m_state.stencil.stencilTest ≠ STENCIL_ALWAYS_PASS → d.gl.stencilTest = true) :=
  stencilReachable_sync d h

theorem native_stencil_test_follows_ops_witness :
    ∃ d, runSteps [resetState,
        setStencilOp STENCIL_KEEP STENCIL_KEEP STENCIL_KEEP STENCIL_INCR STENCIL_KEEP
          STENCIL_KEEP,
        setStencilTest STENCIL_EQUAL, setStencilTest STENCIL_ALWAYS_PASS]
        (freshDevice 2 2 2) = some d ∧
      d.m_state.stencil.backStencilFail = STENCIL_INCR ∧
      d.m_state.stencil.stencilTest = STENCIL_ALWAYS_PASS ∧ d.gl.stencilTest = true := by
  obtain ⟨d, hd⟩ := exists_of_isSome (runSteps [resetState,
    setStencilOp STENCIL_KEEP STENCIL_KEEP STENCIL_KEEP STENCIL_INCR STENCIL_KEEP STENCIL_KEEP,
    setStencilTest STENCIL_EQUAL, setStencilTest STENCIL_ALWAYS_PASS] (freshDevice 2 2 2))
    (by decide)
  have hq : (runSteps [resetState,
      setStencilOp STENCIL_KEEP STENCIL_KEEP STENCIL_KEEP STENCIL_INCR STENCIL_KEEP STENCIL_KEEP,
      setStencilTest STENCIL_EQUAL, setStencilTest STENCIL_ALWAYS_PASS] (freshDevice 2 2 2)).map
      (fun d => (d.m_state.stencil.backStencilFail, d.m_state.stencil.stencilTest,
        d.caps.supports_GL_EXT_stencil_two_side, d.caps.supports_two_sided_stencil)) =
      some (STENCIL_INCR, STENCIL_ALWAYS_PASS, true, true) := by
    decide
  rw [hd, Option.map_some'] at hq
  have hq := Option.some.inj hq
  simp only [Prod.mk.injEq] at hq
  obtain ⟨hb, ht, c1, c2⟩ := hq
  obtain ⟨x1, h1, r1⟩ := runSteps_cons_inv _ _ _ _ hd
  obtain ⟨x2, h2, r2⟩ := runSteps_cons_inv _ _ _ _ r1
  obtain ⟨x3, h3, r3⟩ := runSteps_cons_inv _ _ _ _ r2
  obtain ⟨x4, h4, r4⟩ := runSteps_cons_inv _ _ _ _ r3
  have e4 := runSteps_nil_inv _ _ r4
  subst e4
  have hr : StencilReachable d :=
    StencilReachable.stencilTest _ x3 d
      (StencilReachable.stencilTest _ x2 x3
        (StencilReachable.stencilOp _ _ _ _ _ _ x1 x2 (StencilReachable.reset _ x1 h1) h2) h3) h4
  refine ⟨d, hd, hb, ht, ?_⟩
  apply (native_stencil_test_follows_ops d hr).1
  right
  refine ⟨⟨c1, c2⟩, ?_⟩
  intro hk
  rw [hk.1] at hb
  exact absurd hb (by decide)

/-! ## What each setter leaves of the winding state -/

@[simp] theorem cullFace_clipZeroArea (c : Rect2D) (d : Device) :
    (clipZeroArea c d).gl.cullFace = d.gl.cullFace := by
  unfold clipZeroArea
  split <;> rfl

@[simp] theorem cullFaceMode_clipZeroArea (c : Rect2D) (d : Device) :
    (clipZeroArea c d).gl.cullFaceMode = d.gl.cullFaceMode := by
  unfold clipZeroArea
  split <;> rfl

/-- A coarser observation is kept whenever a finer one is. -/
theorem frame_map {α β : Type} (π : Device → α) (k : α → β) (f : Device → Option Device)
    (hf : Frame π f) : Frame (fun d => k (π d)) f := by
  apply frame_of_eq
  intro d d' h
  have e := frame_eq _ f hf d d' h
  show k (π d') = k (π d)
  rw [e]

theorem forceSetStencilOp_winding (a b c e f h : StencilOp) :
    Frame windingView (forceSetStencilOp a b c e f h) :=
  frame_map _ (fun p => (p.2.1.matrices.invertY, p.2.1.drawFramebuffer, p.2.1.cullFace,
    p.2.2.cullFace, p.2.2.cullFaceMode)) _ (forceSetStencilOp_keeps a b c e f h)

theorem syncDrawBuffer_winding (b : Bool) :
    Frame windingView (syncDrawBuffer b) := by
  intro d
  simp only [syncDrawBuffer]
  repeat' first
    | exact keeps_none _ _
    | (apply keeps_ite <;> intro _)
    | (apply keeps_of_eq; simp [windingView, RenderState.textureUnitModified, viewport])
    | split

theorem syncReadBuffer_winding (b : Bool) :
    Frame windingView (syncReadBuffer b) := by
  intro d
  simp only [syncReadBuffer]
  repeat' first
    | (apply keeps_ite <;> intro _)
    | (apply keeps_of_eq; simp [windingView, RenderState.textureUnitModified, viewport])
    | split

theorem setGlossyCoefficient_winding (c : Color3) :
    Frame windingView (setGlossyCoefficient c) := by
  intro d
  simp only [setGlossyCoefficient]
  repeat' first
    | (apply keeps_ite <;> intro _)
    | (apply keeps_of_eq; simp [windingView, RenderState.textureUnitModified, viewport])

theorem setShininess_winding (x : ℚ) :
    Frame windingView (setShininess x) := by
  intro d
  simp only [setShininess]
  repeat' first
    | (apply keeps_ite <;> intro _)
    | (apply keeps_of_eq; simp [windingView, RenderState.textureUnitModified, viewport])

theorem setRenderMode_winding (m : RenderMode) :
    Frame windingView (setRenderMode m) := by
  intro d
  simp only [setRenderMode]
  repeat' first
    | (apply keeps_ite <;> intro _)
    | (apply keeps_of_eq; simp [windingView, RenderState.textureUnitModified, viewport])
    | split

theorem setDrawBuffer_winding (b : DrawBuffer) :
    Frame windingView (setDrawBuffer b) := by
  intro d
  simp only [setDrawBuffer]
  repeat' first
    | exact keeps_none _ _
    | (apply keeps_ite <;> intro _)
    | (apply keeps_of_eq; simp [windingView, RenderState.textureUnitModified, viewport])

theorem setReadBuffer_winding (b : ReadBuffer) :
    Frame windingView (setReadBuffer b) := by
  intro d
  simp only [setReadBuffer]
  repeat' first
    | (apply keeps_ite <;> intro _)
    | (apply keeps_of_eq; simp [windingView, RenderState.textureUnitModified, viewport])
    | split

theorem setSRGBConversion_winding (b : Bool) :
    Frame windingView (setSRGBConversion b) := by
  intro d
  simp only [setSRGBConversion]
  repeat' first
    | exact keeps_none _ _
    | (apply keeps_ite <;> intro _)
    | (apply keeps_of_eq; simp [windingView, RenderState.textureUnitModified, viewport])

theorem setStencilClearValue_winding (v : Int) :
    Frame windingView (setStencilClearValue v) := by
  intro d
  simp only [setStencilClearValue]
  repeat' first
    | exact keeps_none _ _
    | (apply keeps_ite <;> intro _)
    | (apply keeps_of_eq; simp [windingView, RenderState.textureUnitModified, viewport])

theorem setDepthClearValue_winding (v : ℚ) :
    Frame windingView (setDepthClearValue v) := by
  intro d
  simp only [setDepthClearValue]
  repeat' first
    | exact keeps_none _ _
    | (apply keeps_ite <;> intro _)
    | (apply keeps_of_eq; simp [windingView, RenderState.textureUnitModified, viewport])

theorem setColorClearValue_winding (c : Color4) :
    Frame windingView (setColorClearValue c) := by
  intro d
  simp only [setColorClearValue]
  repeat' first
    | exact keeps_none _ _
    | (apply keeps_ite <;> intro _)
    | (apply keeps_of_eq; simp [windingView, RenderState.textureUnitModified, viewport])

theorem setViewport_winding (v : Rect2D) :
    Frame windingView (setViewport v) := by
  intro d
  simp only [setViewport]
  repeat' first
    | (apply keeps_ite <;> intro _)
    | (apply keeps_of_eq; simp [windingView, RenderState.textureUnitModified, viewport])

theorem setClip2D_winding (c : Rect2D) :
    Frame windingView (setClip2D c) := by
  intro d
  simp only [setClip2D]
  repeat' first
    | (apply keeps_ite <;> intro _)
    | (apply keeps_of_eq; simp [windingView, RenderState.textureUnitModified, viewport])

theorem setProjectionMatrix_winding (P : Matrix4) :
    Frame windingView (setProjectionMatrix P) := by
  intro d
  simp only [setProjectionMatrix]
  repeat' first
    | (apply keeps_ite <;> intro _)
    | (apply keeps_of_eq; simp [windingView, RenderState.textureUnitModified, viewport])

theorem setObjectToWorldMatrix_winding (c : CoordinateFrame) :
    Frame windingView (setObjectToWorldMatrix c) := by
  intro d
  simp only [setObjectToWorldMatrix]
  repeat' first
    | exact keeps_none _ _
    | (apply keeps_ite <;> intro _)
    | (apply keeps_of_eq; simp [windingView, RenderState.textureUnitModified, viewport])

theorem setCameraToWorldMatrix_winding (c : CoordinateFrame) :
    Frame windingView (setCameraToWorldMatrix c) := by
  intro d
  simp only [setCameraToWorldMatrix]
  repeat' first
    | exact keeps_none _ _
    | (apply keeps_ite <;> intro _)
    | (apply keeps_of_eq; simp [windingView, RenderState.textureUnitModified, viewport])

theorem setDepthTest_winding (t : DepthTest) :
    Frame windingView (setDepthTest t) := by
  intro d
  simp only [setDepthTest]
  repeat' first
    | exact keeps_none _ _
    | (apply keeps_ite <;> intro _)
    | (apply keeps_of_eq; simp [windingView, RenderState.textureUnitModified, viewport])

theorem setStencilConstant_winding (r : Int) :
    Frame windingView (setStencilConstant r) := by
  intro d
  simp only [setStencilConstant]
  repeat' first
    | exact keeps_none _ _
    | (apply keeps_ite <;> intro _)
    | (apply keeps_of_eq; simp [windingView, RenderState.textureUnitModified, viewport])

theorem setStencilTest_winding (t : StencilTest) :
    Frame windingView (setStencilTest t) := by
  intro d
  simp only [setStencilTest]
  repeat' first
    | exact keeps_none _ _
    | (apply keeps_ite <;> intro _)
    | (apply keeps_of_eq; simp [windingView, RenderState.textureUnitModified, viewport])

theorem setLogicOp_winding (op : LogicOp) :
    Frame windingView (setLogicOp op) := by
  intro d
  simp only [setLogicOp]
  repeat' first
    | exact keeps_none _ _
    | (apply keeps_ite <;> intro _)
    | (apply keeps_of_eq; simp [windingView, RenderState.textureUnitModified, viewport])

theorem setAlphaTest_winding (t : AlphaTest) (r : ℚ) :
    Frame windingView (setAlphaTest t r) := by
  intro d
  simp only [setAlphaTest]
  repeat' first
    | exact keeps_none _ _
    | (apply keeps_ite <;> intro _)
    | (apply keeps_of_eq; simp [windingView, RenderState.textureUnitModified, viewport])

theorem setBlendFunc_winding (a b : BlendFunc) (e : BlendEq) :
    Frame windingView (setBlendFunc a b e) := by
  intro d
  simp only [setBlendFunc]
  repeat' first
    | exact keeps_none _ _
    | (apply keeps_ite <;> intro _)
    | (apply keeps_of_eq; simp [windingView, RenderState.textureUnitModified, viewport])
    | split

theorem setLineWidth_winding (w : ℚ) :
    Frame windingView (setLineWidth w) := by
  intro d
  simp only [setLineWidth]
  repeat' first
    | exact keeps_none _ _
    | (apply keeps_ite <;> intro _)
    | (apply keeps_of_eq; simp [windingView, RenderState.textureUnitModified, viewport])

theorem setPointSize_winding (w : ℚ) :
    Frame windingView (setPointSize w) := by
  intro d
  simp only [setPointSize]
  repeat' first
    | exact keeps_none _ _
    | (apply keeps_ite <;> intro _)
    | (apply keeps_of_eq; simp [windingView, RenderState.textureUnitModified, viewport])

theorem forceSetTextureMatrix_winding (u : Nat) (m : List ℚ) :
    Frame windingView (forceSetTextureMatrix u m) := by
  intro d
  simp only [forceSetTextureMatrix]
  repeat' first
    | exact keeps_none _ _
    | (apply keeps_of_eq; simp [windingView, RenderState.textureUnitModified, viewport])
    | split

theorem setTextureLODBias_winding (u : Nat) (b : ℚ) :
    Frame windingView (setTextureLODBias u b) := by
  intro d
  simp only [setTextureLODBias]
  repeat' first
    | exact keeps_none _ _
    | (apply keeps_ite <;> intro _)
    | (apply keeps_of_eq; simp [windingView, RenderState.textureUnitModified, viewport])
    | split

theorem setTextureCombineMode_winding (u : Nat) (m : CombineMode) :
    Frame windingView (setTextureCombineMode u m) := by
  intro d
  simp only [setTextureCombineMode]
  repeat' first
    | exact keeps_none _ _
    | (apply keeps_ite <;> intro _)
    | (apply keeps_of_eq; simp [windingView, RenderState.textureUnitModified, viewport])
    | split

theorem setPolygonOffset_winding (o : ℚ) :
    Frame windingView (setPolygonOffset o) := by
  intro d
  simp only [setPolygonOffset]
  repeat' first
    | exact keeps_none _ _
    | (apply keeps_ite <;> intro _)
    | (apply keeps_of_eq; simp [windingView, RenderState.textureUnitModified, viewport])

theorem setNormal_winding (n : Vector3) :
    Frame windingView (setNormal n) := by
  intro d
  simp only [setNormal]
  apply keeps_of_eq
  simp [windingView, RenderState.textureUnitModified, viewport]

theorem setTexCoord_winding (u : Nat) (c : Vector4) :
    Frame windingView (setTexCoord u c) := by
  intro d
  simp only [setTexCoord]
  repeat' first
    | exact keeps_none _ _
    | (apply keeps_ite <;> intro _)
    | (apply keeps_of_eq; simp [windingView, RenderState.textureUnitModified, viewport])
    | split

theorem setTexture_winding (u : Nat) (t : Option Texture) :
    Frame windingView (setTexture u t) := by
  intro d
  simp only [setTexture]
  repeat' first
    | exact keeps_none _ _
    | (apply keeps_ite <;> intro _)
    | (apply keeps_of_eq; simp [windingView, RenderState.textureUnitModified, viewport])
    | split

theorem setColor_winding (c : Color4) :
    Frame windingView (setColor c) := by
  intro d
  simp only [setColor]
  apply keeps_of_eq
  simp [windingView, RenderState.textureUnitModified, viewport]

theorem setAlphaWrite_winding (a : Bool) :
    Frame windingView (setAlphaWrite a) := by
  intro d
  simp only [setAlphaWrite]
  repeat' first
    | exact keeps_none _ _
    | (apply keeps_ite <;> intro _)
    | (apply keeps_of_eq; simp [windingView, RenderState.textureUnitModified, viewport])

theorem setColorWrite_winding (a : Bool) :
    Frame windingView (setColorWrite a) := by
  intro d
  simp only [setColorWrite]
  repeat' first
    | exact keeps_none _ _
    | (apply keeps_ite <;> intro _)
    | (apply keeps_of_eq; simp [windingView, RenderState.textureUnitModified, viewport])

theorem setShadeMode_winding (s : ShadeMode) :
    Frame windingView (setShadeMode s) := by
  intro d
  simp only [setShadeMode]
  repeat' first
    | (apply keeps_ite <;> intro _)
    | (apply keeps_of_eq; simp [windingView, RenderState.textureUnitModified, viewport])

theorem setDepthRange_winding (lo hi : ℚ) :
    Frame windingView (setDepthRange lo hi) := by
  intro d
  simp only [setDepthRange]
  repeat' first
    | (apply keeps_ite <;> intro _)
    | (apply keeps_of_eq; simp [windingView, RenderState.textureUnitModified, viewport])

theorem adoptDeltas_winding (n : RenderState) :
    Frame windingView (adoptDeltas n) := by
  intro d
  simp only [adoptDeltas]
  apply keeps_of_eq
  simp [windingView, RenderState.textureUnitModified, viewport]

theorem setDepthWrite_winding (a : Bool) :
    Frame windingView (setDepthWrite a) := by
  intro d
  simp only [setDepthWrite]
  repeat' first
    | exact keeps_none _ _
    | (apply keeps_ite <;> intro _)
    | (apply keeps_of_eq; simp [windingView, RenderState.textureUnitModified, viewport])

theorem setTextureMatrix_winding (u : Nat) (m : List ℚ) :
    Frame windingView (setTextureMatrix u m) := by
  intro d
  simp only [setTextureMatrix]
  repeat' first
    | exact keeps_none _ _
    | (apply keeps_ite <;> intro _)
    | (refine keeps_call _ _ (forceSetTextureMatrix_winding _ _) _ _ ?_; simp [windingView, RenderState.textureUnitModified, viewport])
    | (apply keeps_of_eq; simp [windingView, RenderState.textureUnitModified, viewport])
    | split

theorem setReadFramebuffer_winding (fbo : Option Framebuffer) :
    Frame windingView (setReadFramebuffer fbo) := by
  intro d
  simp only [setReadFramebuffer]
  repeat' first
    | exact keeps_none _ _
    | (apply keeps_ite <;> intro _)
    | (apply keeps_of_eq; simp [windingView, RenderState.textureUnitModified, viewport])
    | split

/-! ## What the statements of setState leave of the winding state -/

theorem setStencilOp_winding (a b c e f h : StencilOp) :
    Frame windingView (setStencilOp a b c e f h) := by
  intro d
  simp only [setStencilOp]
  apply keeps_ite <;> intro _
  · split
    · exact keeps_none _ _
    · rename_i x hx
      have h1 := frame_eq _ _ (forceSetStencilOp_winding _ _ _ _ _ _) _ _ hx
      have h2 : windingView x = windingView d := by
        rw [h1]; simp [windingView]
      repeat' first
        | exact keeps_none _ _
        | (apply keeps_ite <;> intro _)
        | (apply keeps_of_eq; rw [← h2]; simp [windingView])
  · apply keeps_of_eq; simp [windingView]

theorem restoreStencil_winding (n : RenderState) :
    Frame windingView (restoreStencil n) := by
  intro d
  simp only [restoreStencil]
  apply keeps_ite <;> intro _
  · apply frame_runSteps
    intro f hf
    simp only [List.mem_cons, List.mem_singleton, List.not_mem_nil, or_false] at hf
    rcases hf with rfl | rfl | rfl | rfl
    · exact setStencilConstant_winding _
    · exact setStencilTest_winding _
    · exact setStencilOp_winding _ _ _ _ _ _
    · exact setStencilClearValue_winding _
  · exact keeps_of_eq _ _ _ rfl

theorem restoreReadFramebuffer_winding (n : RenderState) :
    Frame windingView (restoreReadFramebuffer n) := by
  intro d
  simp only [restoreReadFramebuffer]
  apply keeps_ite <;> intro _
  · exact setReadFramebuffer_winding _ d
  · exact keeps_of_eq _ _ _ rfl

theorem restoreClip2D_winding (n : RenderState) :
    Frame windingView (restoreClip2D n) := by
  intro d
  simp only [restoreClip2D]
  apply keeps_ite <;> intro _
  · exact setClip2D_winding _ d
  · exact setClip2D_winding _ d

theorem restoreTextureImageUnit_winding (n : RenderState) (u : Nat) :
    Frame windingView (restoreTextureImageUnit n u) := by
  intro d
  simp only [restoreTextureImageUnit]
  apply keeps_ite <;> intro _
  · split
    · apply keeps_ite <;> intro _
      · exact setTexture_winding _ _ d
      · exact keeps_of_eq _ _ _ rfl
    · exact keeps_none _ _
  · exact keeps_of_eq _ _ _ rfl

theorem revertTextureUnit_winding (n : RenderState.TextureUnit) (u : Nat) :
    Frame windingView (runSteps (revertTextureUnit n u)) := by
  apply frame_runSteps
  intro f hf
  simp only [revertTextureUnit, List.mem_cons, List.mem_singleton, List.not_mem_nil,
    or_false] at hf
  rcases hf with rfl | rfl
  · intro d
    apply keeps_ite <;> intro _
    · apply frame_runSteps
      intro f hf
      simp only [List.mem_cons, List.mem_singleton, List.not_mem_nil, or_false] at hf
      rcases hf with rfl | rfl | rfl
      · exact setTextureCombineMode_winding _ _
      · exact setTextureMatrix_winding _ _
      · exact setTextureLODBias_winding _ _
    · exact keeps_of_eq _ _ _ rfl
  · intro d
    apply keeps_ite <;> intro _
    · exact setTexCoord_winding _ _ d
    · exact keeps_of_eq _ _ _ rfl

theorem restoreFixedUnit_winding (n : RenderState) (u : Nat) :
    Frame windingView (restoreFixedUnit n u) := by
  intro d
  simp only [restoreFixedUnit]
  apply keeps_ite <;> intro _
  · split
    · apply keeps_ite <;> intro _
      · exact revertTextureUnit_winding _ _ d
      · exact keeps_of_eq _ _ _ rfl
    · exact keeps_none _ _
  · exact keeps_of_eq _ _ _ rfl

theorem restoreTextureUnit_winding (n : RenderState) (u : Nat) :
    Frame windingView (restoreTextureUnit n u) := by
  intro d
  simp only [restoreTextureUnit]
  apply frame_runSteps
  intro f hf
  simp only [List.mem_cons, List.mem_singleton, List.not_mem_nil, or_false] at hf
  rcases hf with rfl | rfl
  · exact restoreTextureImageUnit_winding _ _
  · exact restoreFixedUnit_winding _ _

theorem restoreTextureUnits_winding (n : RenderState) (k : Nat) :
    Frame windingView (restoreTextureUnits n k) := by
  induction k with
  | zero => intro d; exact keeps_of_eq _ _ _ rfl
  | succ k ih =>
    intro d
    simp only [restoreTextureUnits]
    apply frame_runSteps
    intro f hf
    simp only [List.mem_cons, List.mem_singleton, List.not_mem_nil, or_false] at hf
    rcases hf with rfl | rfl
    · exact restoreTextureUnit_winding _ _
    · exact ih

theorem restoreChangedTextureUnits_winding (n : RenderState) :
    Frame windingView (restoreChangedTextureUnits n) := by
  intro d
  exact restoreTextureUnits_winding _ _ d

theorem restoreMatrices_winding (n : RenderState) :
    Frame windingView (restoreMatrices n) := by
  intro d
  simp only [restoreMatrices]
  apply keeps_ite <;> intro _
  · apply frame_runSteps
    intro f hf
    simp only [List.mem_cons, List.mem_singleton, List.not_mem_nil, or_false] at hf
    rcases hf with rfl | rfl | rfl
    · intro d
      apply keeps_ite <;> intro _
      · exact setCameraToWorldMatrix_winding _ d
      · exact keeps_of_eq _ _ _ rfl
    · intro d
      apply keeps_ite <;> intro _
      · exact setObjectToWorldMatrix_winding _ d
      · exact keeps_of_eq _ _ _ rfl
    · exact setProjectionMatrix_winding _
  · exact keeps_of_eq _ _ _ rfl

/-! ## The winding invariant -/

theorem preserves_of_frame {α : Type} (P : Device → Prop) (π : Device → α)
    (hP : ∀ d d', π d' = π d → P d → P d') (f : Device → Option Device) (hf : Frame π f) :
    Preserves P f := by
  intro d hd
  cases h : f d with
  | none => exact ensures_none _
  | some y => exact ensures_some _ _ (hP d y (frame_eq _ _ hf d y h) hd)

theorem preserves_eq (P : Device → Prop) (f : Device → Option Device) (hf : Preserves P f)
    (d d' : Device) (hd : P d) (h : f d = some d') : P d' :=
  ensures_eq _ _ (hf d hd) d' h

theorem preserves_of_eq (P : Device → Prop) (f : Device → Option Device)
    (h : ∀ d d', P d → f d = some d' → P d') : Preserves P f := by
  intro d hd
  cases hfd : f d with
  | none => exact ensures_none _
  | some y => exact ensures_some _ _ (h d y hd hfd)

theorem preserves_runSteps (P : Device → Prop) (fs : List (Device → Option Device))
    (h : ∀ f ∈ fs, Preserves P f) : Preserves P (runSteps fs) := by
  induction fs with
  | nil => intro d hd; exact ensures_some _ _ hd
  | cons f fs ih =>
    apply preserves_of_eq
    intro d d' hd hr
    obtain ⟨x, hx, hx'⟩ := runSteps_cons_inv _ _ _ _ hr
    have h1 := preserves_eq P f (h f (List.mem_cons_self _ _)) d x hd hx
    exact preserves_eq P _ (ih (fun g hg => h g (List.mem_cons_of_mem _ hg))) x d' h1 hx'

theorem windingInSync_of_view (d d' : Device) (h : windingView d' = windingView d)
    (hd : WindingInSync d) : WindingInSync d' := by
  simp only [windingView, Prod.mk.injEq] at h
  obtain ⟨h1, h2, h3, h4, h5⟩ := h
  simp only [WindingInSync, InvertYInSync, CullInSync, applyWinding, invertY] at hd ⊢
  simp only [h1, h2, h3, h4, h5]
  exact hd

theorem winding_of_frame (f : Device → Option Device) (hf : Frame windingView f) :
    Preserves WindingInSync f :=
  preserves_of_frame _ _ windingInSync_of_view f hf

theorem cullFace_forceSetCullFace (f : CullFace) (d : Device) :
    (f = CullFace.NONE → (forceSetCullFace f d).gl.cullFace = false) ∧
    (f ≠ CullFace.NONE → (forceSetCullFace f d).gl.cullFace = true ∧
      (forceSetCullFace f d).gl.cullFaceMode = applyWinding d f.value) := by
  unfold forceSetCullFace
  by_cases hf : f = CullFace.NONE
  · simp [hf]
  · simp [hf, applyWinding, invertY]

/-- After forceSetCullFace native culling agrees with the cache. -/
theorem forceSetCullFace_sync (f : CullFace) (d : Device) (hf : f ≠ CullFace.CURRENT)
    (hi : InvertYInSync d) : WindingInSync (forceSetCullFace f d) := by
  obtain ⟨h1, h2⟩ := cullFace_forceSetCullFace f d
  refine ⟨?_, ⟨?_, ?_⟩, ?_⟩
  · simp only [InvertYInSync, state_forceSetCullFace] at hi ⊢
    exact hi
  · intro hc
    simp only [state_forceSetCullFace] at hc
    exact h1 hc
  · intro hc
    simp only [state_forceSetCullFace] at hc
    obtain ⟨h3, h4⟩ := h2 hc
    refine ⟨h3, ?_⟩
    rw [h4]
    simp [applyWinding, invertY]
  · simpa using hf

theorem setCullFace_sync (f : CullFace) : Preserves WindingInSync (setCullFace f) := by
  intro d hd
  simp only [setCullFace]
  apply ensures_ite <;> intro h0
  · apply ensures_some
    apply forceSetCullFace_sync _ _ h0.2
    simpa [InvertYInSync] using hd.1
  · apply ensures_some
    exact windingInSync_of_view d _ (by simp [windingView]) hd

/-- The tail of setDrawFramebuffer brings the flag and native culling in line
with the bound draw framebuffer. -/
theorem updateInvertY_sync (d : Device) (hc : CullInSync d)
    (hn : d.m_state.cullFace ≠ CullFace.CURRENT) :
    Ensures WindingInSync (updateInvertY d) := by
  simp only [updateInvertY]
  apply ensures_ite <;> intro h0
  · apply winding_of_frame _ (forceSetStencilOp_winding _ _ _ _ _ _)
    apply forceSetCullFace_sync
    · simpa [viewport] using hn
    · simp [InvertYInSync, viewport]
  · apply ensures_some
    exact ⟨not_not.mp h0, hc, hn⟩

theorem cullInSync_of_view (d d' : Device)
    (h1 : d'.m_state.matrices.invertY = d.m_state.matrices.invertY)
    (h3 : d'.m_state.cullFace = d.m_state.cullFace)
    (h4 : d'.gl.cullFace = d.gl.cullFace) (h5 : d'.gl.cullFaceMode = d.gl.cullFaceMode)
    (hd : CullInSync d) : CullInSync d' := by
  simp only [CullInSync, applyWinding, invertY] at hd ⊢
  simp only [h1, h3, h4, h5]
  exact hd

theorem setDrawFramebuffer_sync (fbo : Option Framebuffer) :
    Preserves WindingInSync (setDrawFramebuffer fbo) := by
  intro d hd
  simp only [setDrawFramebuffer]
  apply ensures_ite <;> intro h0
  · split
    · apply updateInvertY_sync
      · exact cullInSync_of_view d _ (by simp) (by simp) (by simp) (by simp) hd.2.1
      · simpa using hd.2.2
    · apply ensures_ite <;> intro _
      · split
        · exact ensures_none _
        · rename_i fb _ x hx
          have e := frame_eq _ _ (syncDrawBuffer_winding false) _ _ hx
          simp only [windingView, Prod.mk.injEq, state_withState, state_majGLStateChange,
            gl_withState, gl_majGLStateChange] at e
          obtain ⟨e1, _, e3, e4, e5⟩ := e
          apply updateInvertY_sync
          · exact cullInSync_of_view d _ e1 e3 e4 e5 hd.2.1
          · rw [e3]; exact hd.2.2
      · exact ensures_none _
  · apply ensures_some
    exact hd

theorem setFramebuffer_sync (fbo : Option Framebuffer) :
    Preserves WindingInSync (setFramebuffer fbo) := by
  apply preserves_of_eq
  intro d d' hd h
  simp only [setFramebuffer] at h
  split at h
  · exact Option.noConfusion h
  · rename_i x hx
    exact preserves_eq _ _ (winding_of_frame _ (setReadFramebuffer_winding fbo)) x d'
      (preserves_eq _ _ (setDrawFramebuffer_sync fbo) d x hd hx) h

theorem restoreDrawFramebuffer_sync (n : RenderState) :
    Preserves WindingInSync (restoreDrawFramebuffer n) := by
  intro d hd
  simp only [restoreDrawFramebuffer]
  apply ensures_ite <;> intro _
  · split
    · exact ensures_none _
    · rename_i x hx
      apply ensures_some
      have hx' := preserves_eq _ _ (setDrawFramebuffer_sync _) d x hd hx
      exact windingInSync_of_view x _ (by simp [windingView]) hx'
  · apply ensures_some
    exact hd

theorem setState_sync (n : RenderState) : Preserves WindingInSync (setState n) := by
  apply preserves_runSteps
  intro f hf
  simp only [setStateSteps, List.mem_cons, List.mem_singleton, List.not_mem_nil,
    or_false] at hf
  rcases hf with rfl | rfl | rfl | rfl | rfl | rfl | rfl | rfl | rfl | rfl | rfl | rfl | rfl |
    rfl | rfl | rfl | rfl | rfl | rfl | rfl | rfl | rfl | rfl | rfl | rfl | rfl | rfl | rfl |
    rfl | rfl | rfl
  · exact restoreDrawFramebuffer_sync _
  · exact winding_of_frame _ (restoreReadFramebuffer_winding _)
  · exact winding_of_frame _ (restoreReadFramebuffer_winding _)
  · exact winding_of_frame _ (setViewport_winding _)
  · exact winding_of_frame _ (restoreClip2D_winding _)
  · exact winding_of_frame _ (setDepthWrite_winding _)
  · exact winding_of_frame _ (setColorWrite_winding _)
  · exact winding_of_frame _ (setAlphaWrite_winding _)
  · exact winding_of_frame _ (setDrawBuffer_winding _)
  · exact winding_of_frame _ (setReadBuffer_winding _)
  · exact winding_of_frame _ (setShadeMode_winding _)
  · exact winding_of_frame _ (setDepthTest_winding _)
  · exact winding_of_frame _ (restoreStencil_winding _)
  · exact winding_of_frame _ (setDepthClearValue_winding _)
  · exact winding_of_frame _ (setColorClearValue_winding _)
  · exact winding_of_frame _ (setAlphaTest_winding _ _)
  · exact winding_of_frame _ (setBlendFunc_winding _ _ _)
  · exact winding_of_frame _ (setRenderMode_winding _)
  · exact winding_of_frame _ (setPolygonOffset_winding _)
  · exact winding_of_frame _ (setLineWidth_winding _)
  · exact winding_of_frame _ (setPointSize_winding _)
  · exact winding_of_frame _ (setGlossyCoefficient_winding _)
  · exact winding_of_frame _ (setShininess_winding _)
  · exact winding_of_frame _ (setColor_winding _)
  · exact winding_of_frame _ (setNormal_winding _)
  · exact winding_of_frame _ (restoreChangedTextureUnits_winding _)
  · exact setCullFace_sync _
  · exact winding_of_frame _ (setSRGBConversion_winding _)
  · exact winding_of_frame _ (setDepthRange_winding _ _)
  · exact winding_of_frame _ (restoreMatrices_winding _)
  · exact winding_of_frame _ (adoptDeltas_winding _)

theorem popState_sync : Preserves WindingInSync popState := by
  apply preserves_of_eq
  intro d d' hd h
  obtain ⟨_, top, x, _, hx, e⟩ := popState_some d d' h
  have hx' := preserves_eq _ _ (setState_sync top) d x hd hx
  rw [e]
  exact windingInSync_of_view x _ rfl hx'

theorem pushState_sync : Preserves WindingInSync pushState := by
  intro d hd
  simp only [pushState]
  apply ensures_ite <;> intro _
  · exact ensures_none _
  · apply ensures_some
    exact windingInSync_of_view d _ (by simp [windingView, withState]) hd

theorem pushStateFramebuffer_sync (fb : Option Framebuffer) :
    Preserves WindingInSync (pushStateFramebuffer fb) := by
  apply preserves_of_eq
  intro d d' hd h
  simp only [pushStateFramebuffer] at h
  split at h
  · exact Option.noConfusion h
  · rename_i x hx
    have hx' := preserves_eq _ _ pushState_sync d x hd hx
    split at h
    · refine preserves_eq _ _ (preserves_runSteps _ _ ?_) x d' hx' h
      intro f hf
      simp only [List.mem_cons, List.mem_singleton, List.not_mem_nil, or_false] at hf
      rcases hf with rfl | rfl | rfl
      · exact setFramebuffer_sync _
      · exact winding_of_frame _ (setClip2D_winding _)
      · exact winding_of_frame _ (setViewport_winding _)
    · rw [← Option.some.inj h]
      exact hx'

theorem push2D_sync (fb : Option Framebuffer) (v : Rect2D) (P : Matrix4) :
    Preserves WindingInSync (push2D fb v P) := by
  apply preserves_runSteps
  intro f hf
  simp only [List.mem_cons, List.mem_singleton, List.not_mem_nil, or_false] at hf
  rcases hf with rfl | rfl | rfl | rfl | rfl | rfl | rfl | rfl | rfl
  · exact pushStateFramebuffer_sync _
  · exact winding_of_frame _ (setDepthWrite_winding _)
  · exact winding_of_frame _ (setDepthTest_winding _)
  · exact setCullFace_sync _
  · exact winding_of_frame _ (setViewport_winding _)
  · exact winding_of_frame _ (setObjectToWorldMatrix_winding _)
  · exact winding_of_frame _ (setCameraToWorldMatrix_winding _)
  · exact winding_of_frame _ (setProjectionMatrix_winding _)
  · exact setFramebuffer_sync _

theorem resetTextureUnit_sync (u : Nat) : Preserves WindingInSync (resetTextureUnit u) := by
  intro d hd
  simp only [resetTextureUnit]
  apply ensures_ite <;> intro _
  · exact ensures_none _
  · apply ensures_ite <;> intro _
    · exact ensures_none _
    · apply setState_sync
      exact windingInSync_of_view d _
        (by simp [windingView, RenderState.textureUnitModified]) hd

theorem resetState_sync (d0 d : Device) (h : resetState d0 = some d) : WindingInSync d := by
  rw [resetState_eq] at h
  rw [← Option.some.inj h]
  simp [WindingInSync, InvertYInSync, CullInSync, applyWinding, invertY, resetStateGL,
    resetStateGLTail, RenderState.init, CullFace.value]

theorem beforePrimitive_sync : Preserves WindingInSync beforePrimitive := by
  apply preserves_runSteps
  intro f hf
  simp only [List.mem_cons, List.mem_singleton, List.not_mem_nil, or_false] at hf
  rcases hf with rfl | rfl
  · exact winding_of_frame _ (syncDrawBuffer_winding _)
  · exact winding_of_frame _ (syncReadBuffer_winding _)

theorem clear_sync (cc cd cs complete : Bool) :
    Preserves WindingInSync (clear cc cd cs complete) := by
  intro d hd
  simp only [clear]
  apply ensures_ite <;> intro _
  · exact ensures_none _
  · refine preserves_runSteps _ _ ?_ d hd
    intro f hf
    simp only [List.mem_cons, List.mem_singleton, List.not_mem_nil, or_false] at hf
    rcases hf with rfl | rfl | rfl | rfl
    · exact winding_of_frame _ (syncDrawBuffer_winding _)
    · exact winding_of_frame _ (syncReadBuffer_winding _)
    · intro x hx
      apply ensures_ite <;> intro _
      · exact ensures_some _ _ hx
      · exact ensures_none _
    · exact winding_of_frame _ (clearBuffers_frame windingView (fun _ _ => rfl) (fun _ _ => rfl)
        (fun _ _ => rfl) (fun _ _ => rfl) setColorWrite_winding setDepthWrite_winding _ _ _)

/-- Every operation keeps the winding invariant. -/
theorem op_sync (op : Op) : Preserves WindingInSync op.run := by
  cases op with
  | setGlossyCoefficient c => exact winding_of_frame _ (setGlossyCoefficient_winding c)
  | setShininess s => exact winding_of_frame _ (setShininess_winding s)
  | setRenderMode m => exact winding_of_frame _ (setRenderMode_winding m)
  | setDrawBuffer b => exact winding_of_frame _ (setDrawBuffer_winding b)
  | setReadBuffer b => exact winding_of_frame _ (setReadBuffer_winding b)
  | setCullFace f => exact setCullFace_sync f
  | setSRGBConversion b => exact winding_of_frame _ (setSRGBConversion_winding b)
  | setStencilClearValue v => exact winding_of_frame _ (setStencilClearValue_winding v)
  | setDepthClearValue v => exact winding_of_frame _ (setDepthClearValue_winding v)
  | setColorClearValue c => exact winding_of_frame _ (setColorClearValue_winding c)
  | setViewport v => exact winding_of_frame _ (setViewport_winding v)
  | setClip2D c => exact winding_of_frame _ (setClip2D_winding c)
  | setProjectionMatrix P => exact winding_of_frame _ (setProjectionMatrix_winding P)
  | setObjectToWorldMatrix c => exact winding_of_frame _ (setObjectToWorldMatrix_winding c)
  | setCameraToWorldMatrix c => exact winding_of_frame _ (setCameraToWorldMatrix_winding c)
  | setReadFramebuffer fbo => exact winding_of_frame _ (setReadFramebuffer_winding fbo)
  | setDrawFramebuffer fbo => exact setDrawFramebuffer_sync fbo
  | setFramebuffer fbo => exact setFramebuffer_sync fbo
  | setDepthTest t => exact winding_of_frame _ (setDepthTest_winding t)
  | setStencilConstant r => exact winding_of_frame _ (setStencilConstant_winding r)
  | setStencilTest t => exact winding_of_frame _ (setStencilTest_winding t)
  | setLogicOp o => exact winding_of_frame _ (setLogicOp_winding o)
  | setAlphaTest t r => exact winding_of_frame _ (setAlphaTest_winding t r)
  | setStencilOp a b c e f h => exact winding_of_frame _ (setStencilOp_winding a b c e f h)
  | setBlendFunc s t e => exact winding_of_frame _ (setBlendFunc_winding s t e)
  | setLineWidth w => exact winding_of_frame _ (setLineWidth_winding w)
  | setPointSize w => exact winding_of_frame _ (setPointSize_winding w)
  | setTextureMatrix u m => exact winding_of_frame _ (setTextureMatrix_winding u m)
  | setTextureLODBias u b => exact winding_of_frame _ (setTextureLODBias_winding u b)
  | setTextureCombineMode u m => exact winding_of_frame _ (setTextureCombineMode_winding u m)
  | setPolygonOffset o => exact winding_of_frame _ (setPolygonOffset_winding o)
  | setNormal n => exact winding_of_frame _ (setNormal_winding n)
  | setTexCoord u c => exact winding_of_frame _ (setTexCoord_winding u c)
  | setTexture u t => exact winding_of_frame _ (setTexture_winding u t)
  | setColor c => exact winding_of_frame _ (setColor_winding c)
  | setAlphaWrite a => exact winding_of_frame _ (setAlphaWrite_winding a)
  | setColorWrite a => exact winding_of_frame _ (setColorWrite_winding a)
  | setDepthWrite a => exact winding_of_frame _ (setDepthWrite_winding a)
  | setShadeMode s => exact winding_of_frame _ (setShadeMode_winding s)
  | setDepthRange lo hi => exact winding_of_frame _ (setDepthRange_winding lo hi)
  | resetTextureUnit u => exact resetTextureUnit_sync u
  | pushState => exact pushState_sync
  | pushStateFramebuffer fb => exact pushStateFramebuffer_sync fb
  | popState => exact popState_sync
  | push2D fb v P => exact push2D_sync fb v P
  | pop2D => exact popState_sync
  | resetState => exact preserves_of_eq _ _ (fun d d' _ h => resetState_sync d d' h)
  | beforePrimitive => exact beforePrimitive_sync
  | clear cc cd cs complete => exact clear_sync cc cd cs complete

theorem reachable_sync (d : Device) (h : Reachable d) : WindingInSync d := by
  induction h with
  | reset d0 d h0 => exact resetState_sync d0 d h0
  | step op d d' _ hc ih => exact preserves_eq _ _ (op_sync op) d d' ih hc

/-! ## C14: applyWinding and the native cull face -/

theorem setCullFace_caches (f : CullFace) (d : Device) (hf : f ≠ CullFace.CURRENT) :
    ∃ d', setCullFace f d = some d' ∧ d'.m_state.cullFace = f ∧
      d'.m_state.drawFramebuffer = d.m_state.drawFramebuffer := by
  simp only [setCullFace]
  by_cases h : f ≠ (minStateChange 1 d).m_state.cullFace ∧ f ≠ CullFace.CURRENT
  · rw [if_pos h]
    exact ⟨_, rfl, by simp, by simp⟩
  · rw [if_neg h]
    refine ⟨_, rfl, ?_, by simp⟩
    have h' : f = (minStateChange 1 d).m_state.cullFace := by
      by_contra hc
      exact h ⟨hc, hf⟩
    exact h'.symm

theorem applyWinding_involutive (d : Device) (f : Nat) :
    applyWinding d (applyWinding d f) = f := by
  simp only [applyWinding]
  by_cases hi : invertY d = true
  · simp [hi]
  · simp only [hi, not_false_eq_true, if_true]
    by_cases h1 : f = GL_FRONT
    · subst h1
      decide
    · by_cases h2 : f = GL_BACK
      · subst h2
        decide
      · simp [h1, h2]

/-- C14: applyWinding maps GL_FRONT to GL_BACK and GL_BACK to GL_FRONT exactly
when invertY() is false; it is the identity when invertY() is true and on
every value other than the two, and applying it twice gives the value back.
In every state reachable from resetState through the operations of the
device, setCullFace(f) with f other than CURRENT returns and caches f as it
is; for FRONT and BACK native culling is then enabled, with face f when no
draw framebuffer is bound and with the opposite face when one is bound, and
for NONE native culling is disabled. -/
theorem applyWinding_and_setCullFace (d : Device) :
    ((applyWinding d GL_FRONT = GL_BACK ∧ applyWinding d GL_BACK = GL_FRONT) ↔
      invertY d = false) ∧
    (invertY d = true → ∀ f, applyWinding d f = f) ∧
    (∀ f, f ≠ GL_FRONT → f ≠ GL_BACK → applyWinding d f = f) ∧
    (∀ f, applyWinding d (applyWinding d f) = f) ∧
    (Reachable d → ∀ f, f ≠ CullFace.CURRENT →
      ∃ d', setCullFace f d = some d' ∧ d'.m_state.cullFace = f ∧
        (f = CullFace.NONE → d'.gl.cullFace = false) ∧
        (f = CullFace.FRONT → d'.gl.cullFace = true ∧
          d'.gl.cullFaceMode = if d.m_state.drawFramebuffer = none then GL_FRONT else GL_BACK) ∧
        (f = CullFace.BACK → d'.gl.cullFace = true ∧
          d'.gl.cullFaceMode = if d.m_state.drawFramebuffer = none then GL_BACK else GL_FRONT)) := by
  refine ⟨?_, ?_, ?_, applyWinding_involutive d, ?_⟩
  · simp only [applyWinding]
    cases hi : invertY d <;> simp [GL_FRONT, GL_BACK]
  · intro hi f
    simp [applyWinding, hi]
  · intro f h1 h2
    simp [applyWinding, h1, h2]
  · intro hr f hf
    obtain ⟨d', h, hc, hfb⟩ := setCullFace_caches f d hf
    obtain ⟨hi, ⟨hn, hs⟩, _⟩ := preserves_eq _ _ (setCullFace_sync f) d d' (reachable_sync d hr) h
    rw [hc] at hn hs
    have hy : invertY d' = d.m_state.drawFramebuffer.isNone := by
      rw [← hfb]
      exact hi
    refine ⟨d', h, hc, hn, ?_, ?_⟩
    · intro hff
      obtain ⟨h1, h2⟩ := hs (by rw [hff]; decide)
      refine ⟨h1, ?_⟩
      rw [h2, hff]
      simp only [applyWinding, hy]
      cases d.m_state.drawFramebuffer <;> simp [CullFace.value]
    · intro hff
      obtain ⟨h1, h2⟩ := hs (by rw [hff]; decide)
      refine ⟨h1, ?_⟩
      rw [h2, hff]
      simp only [applyWinding, hy]
      cases d.m_state.drawFramebuffer <;> simp [CullFace.value, GL_FRONT, GL_BACK]

theorem applyWinding_and_setCullFace_witness :
    ∃ d d', runSteps [resetState, setFramebuffer (some testFramebuffer)] (freshDevice 2 2 2) =
        some d ∧
      setCullFace CullFace.FRONT d = some d' ∧ d'.m_state.cullFace = CullFace.FRONT ∧
      d'.gl.cullFace = true ∧ d'.gl.cullFaceMode = GL_BACK := by
  obtain ⟨d, hd⟩ := exists_of_isSome
    (runSteps [resetState, setFramebuffer (some testFramebuffer)] (freshDevice 2 2 2)) (by decide)
  have hq : (runSteps [resetState, setFramebuffer (some testFramebuffer)]
      (freshDevice 2 2 2)).map (fun d => d.m_state.drawFramebuffer) =
      some (some testFramebuffer) := by
    decide
  rw [hd, Option.map_some'] at hq
  have hf := Option.some.inj hq
  obtain ⟨x1, h1, r1⟩ := runSteps_cons_inv _ _ _ _ hd
  obtain ⟨x2, h2, r2⟩ := runSteps_cons_inv _ _ _ _ r1
  have e2 := runSteps_nil_inv _ _ r2
  subst e2
  have hr : Reachable d :=
    Reachable.step (Op.setFramebuffer (some testFramebuffer)) x1 d (Reachable.reset _ x1 h1) h2
  obtain ⟨d', h, hc, _, hfront, _⟩ :=
    (applyWinding_and_setCullFace d).2.2.2.2 hr CullFace.FRONT (by decide)
  obtain ⟨g1, g2⟩ := hfront rfl
  refine ⟨d, d', hd, h, hc, g1, ?_⟩
  rw [g2, hf]
  rfl

/-! ## C15: the Y-inversion flag follows the draw framebuffer -/

theorem updateInvertY_flipped : Frame (fun d => flippedState d.m_state) updateInvertY := by
  apply frame_of_eq
  intro d d' h
  simp only [updateInvertY] at h
  split at h
  · have e := frame_eq _ _ (forceSetStencilOp_keeps _ _ _ _ _ _) _ _ h
    simp only [Prod.mk.injEq] at e
    rw [e.2.1]
    simp [flippedState, viewport]
  · rw [← Option.some.inj h]

/-- Binding or unbinding a draw framebuffer changes none of the cached values
whose native form depends on the Y inversion. -/
theorem setDrawFramebuffer_flipped (fbo : Option Framebuffer) (d d' : Device)
    (h : setDrawFramebuffer fbo d = some d') :
    flippedState d'.m_state = flippedState d.m_state := by
  simp only [setDrawFramebuffer] at h
  split at h
  · split at h
    · have e := frame_eq _ _ updateInvertY_flipped _ _ h
      rw [e]
      simp [flippedState]
    · split at h
      · split at h
        · exact Option.noConfusion h
        · rename_i x hx
          have e := frame_eq _ _ updateInvertY_flipped _ _ h
          have e1 := frame_eq _ _ (syncDrawBuffer_drawBuffer false) _ _ hx
          simp only [Prod.mk.injEq] at e1
          rw [e, e1.1]
          simp [flippedState]
      · exact Option.noConfusion h
  · rw [← Option.some.inj h]

/-- C15: in every state reachable from resetState through any sequence of
the operations of the device (the setters, setDrawFramebuffer, setFramebuffer,
pushState with and without framebuffer, push2D, popState, pop2D,
resetTextureUnit, resetState, beforePrimitive, clear; not setInvertY),
invertY() is true exactly when no draw framebuffer is bound.  Whenever a
setDrawFramebuffer call returns from such a state, the framebuffer handed in
is bound, the flag is true exactly when that framebuffer is null, and the
cached projection matrix, viewport, cull face and six stencil operations are
what they were before the call. -/
theorem invertY_follows_draw_framebuffer (d : Device) (h : Reachable d) :
    (invertY d = true ↔ d.m_state.drawFramebuffer = none) ∧
    (∀ fbo d', setDrawFramebuffer fbo d = some d' →
      d'.m_state.drawFramebuffer = fbo ∧ (invertY d' = true ↔ fbo = none) ∧
      flippedState d'.m_state = flippedState d.m_state) := by
  have key : ∀ x, WindingInSync x → (invertY x = true ↔ x.m_state.drawFramebuffer = none) := by
    intro x hx
    have hi : x.m_state.matrices.invertY = x.m_state.drawFramebuffer.isNone := hx.1
    simp only [invertY, hi]
    exact Option.isNone_iff_eq_none
  refine ⟨key d (reachable_sync d h), ?_⟩
  intro fbo d' hs
  have hb : d'.m_state.drawFramebuffer = fbo :=
    ensures_eq _ _ (setDrawFramebuffer_binds fbo d) d' hs
  have hw := preserves_eq _ _ (setDrawFramebuffer_sync fbo) d d' (reachable_sync d h) hs
  refine ⟨hb, ?_, setDrawFramebuffer_flipped fbo d d' hs⟩
  rw [← hb]
  exact key d' hw

theorem invertY_follows_draw_framebuffer_witness :
    ∃ d d', resetState (freshDevice 2 2 2) = some d ∧ invertY d = true ∧
      setDrawFramebuffer (some testFramebuffer) d = some d' ∧ invertY d' = false ∧
      flippedState d'.m_state = flippedState d.m_state := by
  obtain ⟨d', hd'⟩ := exists_of_isSome
    (runSteps [resetState, setDrawFramebuffer (some testFramebuffer)] (freshDevice 2 2 2))
    (by decide)
  obtain ⟨d, h1, r1⟩ := runSteps_cons_inv _ _ _ _ hd'
  obtain ⟨x2, h2, r2⟩ := runSteps_cons_inv _ _ _ _ r1
  have e2 := runSteps_nil_inv _ _ r2
  subst e2
  have hr : Reachable d := Reachable.reset _ d h1
  obtain ⟨g1, g2⟩ := invertY_follows_draw_framebuffer d hr
  obtain ⟨b1, b2, b3⟩ := g2 (some testFramebuffer) d' h2
  have hn : d.m_state.drawFramebuffer = none := by
    have e := h1
    rw [resetState_eq] at e
    rw [← Option.some.inj e]
    simp [RenderState.init]
  refine ⟨d, d', h1, g1.mpr hn, h2, ?_, b3⟩
  cases hy : invertY d' with
  | false => rfl
  | true => exact Option.noConfusion (b2.mp hy)

/-! ## C16: what resetTextureUnit leaves in the unit -/

/-- C16: resetTextureUnit does not leave the unit in its default state.  It
copies the current state, overwrites the two cache entries of the unit with
their defaults and then calls setState with the copy, which sets the unit back
to the values it had before the call.  From the default state, on a device
with two units: after setTextureLODBias(0, 1), setTextureMatrix(0, M),
setTextureCombineMode(0, TEX_ADD), setTexCoord(0, (1,1,0,1)) and
setTexture(0, T) the call resetTextureUnit(0) returns, and the unit still
holds bias 1, matrix M, TEX_ADD, (1,1,0,1) and T.  The default state of a unit
is the one the constructors give. -/
theorem resetTextureUnit_restores_old_values :
    (runSteps [resetState, setTextureLODBias 0 1, setTextureMatrix 0 testMatrix,
        setTextureCombineMode 0 CombineMode.TEX_ADD, setTexCoord 0 ⟨1, 1, 0, 1⟩,
        setTexture 0 (some testTexture), resetTextureUnit 0] (freshDevice 2 2 2)).map
        (fun d => (d.m_state.textureUnits[0]?, d.m_state.textureImageUnits[0]?)) =
      some (some { texCoord := ⟨1, 1, 0, 1⟩, textureMatrix := testMatrix,
                   combineMode := CombineMode.TEX_ADD, LODBias := 1 },
            some { texture := some testTexture }) ∧
    (RenderState.TextureUnit.default, RenderState.TextureImageUnit.default) =
      ({ texCoord := ⟨0, 0, 0, 1⟩,
         textureMatrix := [1, 0, 0, 0, 0, 1, 0, 0, 0, 0, 1, 0, 0, 0, 0, 1],
         combineMode := CombineMode.TEX_MODULATE, LODBias := 0 },
       { texture := none }) := by
  decide

/-! ## C17: the draw-buffer synchronisation of a framebuffer without colour attachment -/

theorem beginFrame_eq (w : FrameDevice) :
    beginFrame w =
      if w.m_beginEndFrame + 1 = 1 then
        some { device := { w.device with m_stats := Stats.reset w.device.m_stats },
               m_beginEndFrame := w.m_beginEndFrame + 1,
               m_swapBuffersAutomatically := w.m_swapBuffersAutomatically,
               m_swapGLBuffersPending := false,
               swaps := w.swaps + (if w.m_swapGLBuffersPending then 1 else 0) }
      else none := by
  cases hp : w.m_swapGLBuffersPending <;> simp [beginFrame, swapBuffers, hp]

theorem endFrame_eq (w : FrameDevice) :
    endFrame w =
      if w.m_beginEndFrame - 1 ≠ 0 then none
      else if w.device.m_stateStack.length ≠ 0 then none
      else some { w with m_beginEndFrame := w.m_beginEndFrame - 1,
                         m_swapGLBuffersPending := w.m_swapBuffersAutomatically } := rfl

theorem beginFrame_counter (w w' : FrameDevice) (h : beginFrame w = some w') :
    w.m_beginEndFrame = 0 ∧ w'.m_beginEndFrame = 1 := by
  rw [beginFrame_eq] at h
  split at h
  · rename_i hc
    rw [← Option.some.inj h]
    exact ⟨by omega, hc⟩
  · exact Option.noConfusion h

theorem endFrame_counter (w w' : FrameDevice) (h : endFrame w = some w') :
    w.m_beginEndFrame = 1 ∧ w'.m_beginEndFrame = 0 ∧ w.device.m_stateStack = [] ∧
      w'.device = w.device := by
  rw [endFrame_eq] at h
  split at h
  · exact Option.noConfusion h
  · rename_i hc
    split at h
    · exact Option.noConfusion h
    · rename_i hs
      rw [← Option.some.inj h]
      refine ⟨by omega, by simpa using hc, ?_, rfl⟩
      exact List.length_eq_zero.mp (not_not.mp hs)

theorem swapBuffers_eq (w : FrameDevice) :
    swapBuffers w = some { w with swaps := w.swaps + 1, m_swapGLBuffersPending := false } := rfl

theorem setSwapBuffersAutomatically_eq (b : Bool) (w : FrameDevice) :
    setSwapBuffersAutomatically b w =
      if b = w.m_swapBuffersAutomatically then some w
      else some { w with m_swapBuffersAutomatically := b,
                         m_swapGLBuffersPending := false,
                         swaps := w.swaps + (if w.m_swapGLBuffersPending then 1 else 0) } := by
  cases hp : w.m_swapGLBuffersPending <;>
    by_cases hb : b = w.m_swapBuffersAutomatically <;>
    simp [setSwapBuffersAutomatically, swapBuffers, hp, hb]

/-- The calls other than beginFrame and endFrame leave the frame counter
alone. -/
theorem run_counter (c : FrameCall) (w w' : FrameDevice) (h : c.run w = some w') :
    (w'.m_beginEndFrame : Int) + endCount [c] = w.m_beginEndFrame + beginCount [c] ∧
      (w'.m_beginEndFrame = 0 ∨ w'.m_beginEndFrame = 1 ∨ w'.m_beginEndFrame = w.m_beginEndFrame) := by
  cases c with
  | beginFrame =>
    obtain ⟨h0, h1⟩ := beginFrame_counter w w' h
    simp [beginCount, endCount, h0, h1]
  | endFrame =>
    obtain ⟨h0, h1, _, _⟩ := endFrame_counter w w' h
    simp [beginCount, endCount, h0, h1]
  | swapBuffers =>
    simp only [FrameCall.run, swapBuffers_eq] at h
    rw [← Option.some.inj h]
    simp [beginCount, endCount]
  | setSwapBuffersAutomatically b =>
    simp only [FrameCall.run, setSwapBuffersAutomatically_eq] at h
    split at h <;> (rw [← Option.some.inj h]; simp [beginCount, endCount])
  | device f =>
    simp only [FrameCall.run, onDevice] at h
    cases hf : f w.device with
    | none => rw [hf] at h; exact Option.noConfusion h
    | some y =>
      rw [hf, Option.map_some'] at h
      rw [← Option.some.inj h]
      simp [beginCount, endCount]

theorem beginCount_cons (c : FrameCall) (cs : List FrameCall) :
    beginCount (c :: cs) = beginCount [c] + beginCount cs := by
  cases c <;> simp [beginCount]
  omega

theorem endCount_cons (c : FrameCall) (cs : List FrameCall) :
    endCount (c :: cs) = endCount [c] + endCount cs := by
  cases c <;> simp [endCount]
  omega

theorem runFrameCalls_cons (c : FrameCall) (cs : List FrameCall) (w : FrameDevice) :
    runFrameCalls (c :: cs) w = (c.run w).bind (runFrameCalls cs) := rfl

theorem runFrameCalls_prefix (p s : List FrameCall) (w w' : FrameDevice)
    (h : runFrameCalls (p ++ s) w = some w') : ∃ x, runFrameCalls p w = some x := by
  induction p generalizing w with
  | nil => exact ⟨w, rfl⟩
  | cons c p ih =>
    rw [List.cons_append, runFrameCalls_cons] at h
    rw [runFrameCalls_cons]
    cases hc : c.run w with
    | none => rw [hc] at h; exact Option.noConfusion h
    | some y =>
      rw [hc, Option.some_bind] at h
      rw [Option.some_bind]
      exact ih y h

/-- In an accepted sequence started with the counter at 0 or 1 the counter
stays 0 or 1 and moves with the beginFrame and endFrame calls. -/
theorem runFrameCalls_counter (cs : List FrameCall) (w w' : FrameDevice)
    (hw : w.m_beginEndFrame = 0 ∨ w.m_beginEndFrame = 1)
    (h : runFrameCalls cs w = some w') :
    (w'.m_beginEndFrame : Int) + endCount cs = w.m_beginEndFrame + beginCount cs ∧
      (w'.m_beginEndFrame = 0 ∨ w'.m_beginEndFrame = 1) := by
  induction cs generalizing w with
  | nil =>
    rw [← Option.some.inj h]
    exact ⟨by simp [beginCount, endCount], hw⟩
  | cons c cs ih =>
    rw [runFrameCalls_cons] at h
    cases hc : c.run w with
    | none => rw [hc] at h; exact Option.noConfusion h
    | some y =>
      rw [hc, Option.some_bind] at h
      obtain ⟨e1, r1⟩ := run_counter c w y hc
      have hy : y.m_beginEndFrame = 0 ∨ y.m_beginEndFrame = 1 := by
        rcases r1 with r1 | r1 | r1
        · exact Or.inl r1
        · exact Or.inr r1
        · rw [r1]; exact hw
      obtain ⟨e2, r2⟩ := ih y hy h
      refine ⟨?_, r2⟩
      rw [beginCount_cons c cs, endCount_cons c cs]
      push_cast
      omega

/-- C19: beginFrame returns exactly when the open-frame counter is 0 and
leaves it at 1; endFrame returns exactly when the counter is 1 and the state
stack is empty, and leaves the counter at 0.  So beginFrame while a frame is
open and endFrame with no open frame fail their assertion, as does endFrame
with a saved state left on the stack.  In every accepted sequence of frame
calls and device calls started with the counter at 0, after every prefix the
counter is 0 or 1 and equals the number of beginFrame calls minus the number
of endFrame calls of the prefix: the two alternate, beginFrame first. -/
theorem beginFrame_endFrame_alternate (w : FrameDevice) :
    ((beginFrame w).isSome = true ↔ w.m_beginEndFrame = 0) ∧
    (∀ w', beginFrame w = some w' → w'.m_beginEndFrame = 1) ∧
    ((endFrame w).isSome = true ↔ (w.m_beginEndFrame = 1 ∧ w.device.m_stateStack = [])) ∧
    (∀ w', endFrame w = some w' → w'.m_beginEndFrame = 0 ∧ w'.device.m_stateStack = []) ∧
    (∀ p s w', w.m_beginEndFrame = 0 → runFrameCalls (p ++ s) w = some w' →
      ∃ x, runFrameCalls p w = some x ∧
        (x.m_beginEndFrame = 0 ∨ x.m_beginEndFrame = 1) ∧
        (beginCount p : Int) = endCount p + x.m_beginEndFrame) := by
  refine ⟨?_, fun w' h => (beginFrame_counter w w' h).2, ?_, ?_, ?_⟩
  · constructor
    · intro h
      obtain ⟨w', hw'⟩ := Option.isSome_iff_exists.mp h
      exact (beginFrame_counter w w' hw').1
    · intro h
      rw [beginFrame_eq, if_pos (by rw [h]; rfl)]
      rfl
  · constructor
    · intro h
      obtain ⟨w', hw'⟩ := Option.isSome_iff_exists.mp h
      obtain ⟨h1, _, h3, _⟩ := endFrame_counter w w' hw'
      exact ⟨h1, h3⟩
    · intro h
      rw [endFrame_eq, if_neg (by rw [h.1]; decide), if_neg (by rw [h.2]; decide)]
      rfl
  · intro w' h
    obtain ⟨_, h2, h3, h4⟩ := endFrame_counter w w' h
    exact ⟨h2, by rw [h4]; exact h3⟩
  · intro p s w' h0 h
    obtain ⟨x, hx⟩ := runFrameCalls_prefix p s w w' h
    obtain ⟨e, r⟩ := runFrameCalls_counter p w x (Or.inl h0) hx
    refine ⟨x, hx, r, ?_⟩
    rw [h0] at e
    omega

theorem beginFrame_endFrame_alternate_witness :
    (beginFrame (FrameDevice.init (freshDevice 2 2 2))).isSome = true ∧
    endFrame (FrameDevice.init (freshDevice 2 2 2)) = none ∧
    runFrameCalls [.beginFrame, .beginFrame] (FrameDevice.init (freshDevice 2 2 2)) = none ∧
    runFrameCalls [.beginFrame, .device pushState, .endFrame]
      (FrameDevice.init (freshDevice 2 2 2)) = none ∧
    ∃ x, runFrameCalls [.beginFrame, .device pushState, .device popState, .endFrame, .beginFrame]
        (FrameDevice.init (freshDevice 2 2 2)) = some x ∧ x.m_beginEndFrame = 1 := by
  refine ⟨(beginFrame_endFrame_alternate (FrameDevice.init (freshDevice 2 2 2))).1.mpr rfl,
    by decide, by decide, by decide, ?_⟩
  obtain ⟨x, hx⟩ := Option.isSome_iff_exists.mp (show (runFrameCalls
    [.beginFrame, .device pushState, .device popState, .endFrame, .beginFrame]
    (FrameDevice.init (freshDevice 2 2 2))).isSome = true by decide)
  obtain ⟨y, hy, r, e⟩ := (beginFrame_endFrame_alternate
    (FrameDevice.init (freshDevice 2 2 2))).2.2.2.2
    [.beginFrame, .device pushState, .device popState, .endFrame, .beginFrame] [] x rfl
    (by rw [List.append_nil]; exact hx)
  rw [hx] at hy
  have hxy : x = y := Option.some.inj hy
  subst hxy
  refine ⟨x, hx, ?_⟩
  simp only [beginCount, endCount] at e
  omega

/-! ## C20: the pending buffer swap -/

/-- A swap is pending only while automatic swapping is enabled. -/
theorem frameReachable_pending (w : FrameDevice) (h : FrameReachable w) :
    w.m_swapGLBuffersPending = true → w.m_swapBuffersAutomatically = true := by
  induction h with
  | start d => intro hp; exact Bool.noConfusion hp
  | step c w w' _ hc ih =>
    cases c with
    | beginFrame =>
      simp only [FrameCall.run, beginFrame_eq] at hc
      split at hc
      · rw [← Option.some.inj hc]
        intro hp
        exact Bool.noConfusion hp
      · exact Option.noConfusion hc
    | endFrame =>
      simp only [FrameCall.run, endFrame_eq] at hc
      split at hc
      · exact Option.noConfusion hc
      · split at hc
        · exact Option.noConfusion hc
        · rw [← Option.some.inj hc]
          exact fun hp => hp
    | swapBuffers =>
      simp only [FrameCall.run, swapBuffers_eq] at hc
      rw [← Option.some.inj hc]
      intro hp
      exact Bool.noConfusion hp
    | setSwapBuffersAutomatically b =>
      simp only [FrameCall.run, setSwapBuffersAutomatically_eq] at hc
      split at hc
      · rw [← Option.some.inj hc]
        exact ih
      · rw [← Option.some.inj hc]
        intro hp
        exact Bool.noConfusion hp
    | device f =>
      simp only [FrameCall.run, onDevice] at hc
      cases hf : f w.device with
      | none => rw [hf] at hc; exact Option.noConfusion hc
      | some y =>
        rw [hf, Option.map_some'] at hc
        rw [← Option.some.inj hc]
        exact ih

/-- C20: when endFrame returns, the pending-swap flag is the value of
swapBuffersAutomatically() and no buffer was swapped.  When beginFrame returns,
it has swapped the buffers once if a swap was pending and not at all
otherwise, and the flag is cleared.  A call of setSwapBuffersAutomatically
that changes the mode performs a pending swap first and clears the flag.  In
every state reachable from the initial one through frame calls and device
calls a swap is pending only if automatic swapping is enabled; hence with
automatic swapping disabled beginFrame swaps no buffers. -/
theorem pending_swap_follows_mode (w : FrameDevice) :
    (∀ w', endFrame w = some w' →
      w'.m_swapGLBuffersPending = swapBuffersAutomatically w ∧
      swapBuffersAutomatically w' = swapBuffersAutomatically w ∧ w'.swaps = w.swaps) ∧
    (∀ w', beginFrame w = some w' →
      w'.m_swapGLBuffersPending = false ∧
      w'.swaps = w.swaps + (if w.m_swapGLBuffersPending then 1 else 0)) ∧
    (∀ b w', setSwapBuffersAutomatically b w = some w' → b ≠ swapBuffersAutomatically w →
      swapBuffersAutomatically w' = b ∧ w'.m_swapGLBuffersPending = false ∧
      w'.swaps = w.swaps + (if w.m_swapGLBuffersPending then 1 else 0)) ∧
    (FrameReachable w →
      (w.m_swapGLBuffersPending = true → swapBuffersAutomatically w = true) ∧
      (swapBuffersAutomatically w = false →
        ∀ w', beginFrame w = some w' → w'.swaps = w.swaps)) := by
  refine ⟨?_, ?_, ?_, ?_⟩
  · intro w' h
    rw [endFrame_eq] at h
    split at h
    · exact Option.noConfusion h
    · split at h
      · exact Option.noConfusion h
      · rw [← Option.some.inj h]
        exact ⟨rfl, rfl, rfl⟩
  · intro w' h
    rw [beginFrame_eq] at h
    split at h
    · rw [← Option.some.inj h]
      exact ⟨rfl, rfl⟩
    · exact Option.noConfusion h
  · intro b w' h hb
    rw [setSwapBuffersAutomatically_eq] at h
    rw [if_neg (show ¬ b = w.m_swapBuffersAutomatically from hb)] at h
    rw [← Option.some.inj h]
    exact ⟨rfl, rfl, rfl⟩
  · intro hr
    have hinv := frameReachable_pending w hr
    refine ⟨hinv, ?_⟩
    intro ha w' h
    have hp : w.m_swapGLBuffersPending = false := by
      cases hq : w.m_swapGLBuffersPending with
      | false => rfl
      | true =>
        have := hinv hq
        rw [show w.m_swapBuffersAutomatically = false from ha] at this
        exact Bool.noConfusion this
    rw [beginFrame_eq] at h
    split at h
    · rw [← Option.some.inj h]
      simp [hp]
    · exact Option.noConfusion h

theorem pending_swap_follows_mode_witness :
    ∃ w1 w2, runFrameCalls [.beginFrame, .endFrame] (FrameDevice.init (freshDevice 2 2 2)) =
        some w1 ∧
      w1.m_swapGLBuffersPending = true ∧ w1.swaps = 0 ∧
      beginFrame w1 = some w2 ∧ w2.m_swapGLBuffersPending = false ∧ w2.swaps = 1 := by
  obtain ⟨w1, h1⟩ := Option.isSome_iff_exists.mp (show (runFrameCalls [.beginFrame, .endFrame]
    (FrameDevice.init (freshDevice 2 2 2))).isSome = true by decide)
  have q1 : (runFrameCalls [.beginFrame, .endFrame] (FrameDevice.init (freshDevice 2 2 2))).map
      (fun w => (w.m_swapGLBuffersPending, w.swaps, w.m_beginEndFrame)) =
      some (true, 0, 0) := by
    decide
  rw [h1, Option.map_some'] at q1
  have q1 := Option.some.inj q1
  simp only [Prod.mk.injEq] at q1
  obtain ⟨p1, s1, c1⟩ := q1
  obtain ⟨w2, h2⟩ : ∃ w2, beginFrame w1 = some w2 := by
    rw [beginFrame_eq, if_pos (by rw [c1]; rfl)]
    exact ⟨_, rfl⟩
  obtain ⟨p2, s2⟩ := (pending_swap_follows_mode w1).2.1 w2 h2
  refine ⟨w1, w2, h1, p1, s1, h2, p2, ?_⟩
  rw [s2, s1, p1]
  rfl

/-! ## C21: the state after resetState -/

/-- C21: resetState always returns and leaves the cached state at the values
of the RenderState constructor: depth test LEQUAL, depth, colour and alpha
write enabled, blend (ONE, ZERO, ADD), cull face BACK, 2D clip disabled,
stencil test ALWAYS_PASS with all six operations KEEP, alpha test
ALWAYS_PASS, no framebuffer bound, invertY set, shininess 15 and specular
coefficient 0.8.  The native state recorded here agrees with these values
(depth test on with LEQUAL, masks on, blending, stencil, alpha and scissor
test off, culling on with GL_BACK, draw and read buffer GL_BACK).  But the
native material shininess and specular colour are not set: resetState hands
the values it has just cached to setShininess and setGlossyCoefficient, which
issue their native call only for a value that differs from the cache.  The
native material is what it was before the call and the counter of native
calls does not move; on a fresh context, whose material shininess is 0 and
specular colour (0, 0, 0, 1), cache and native state differ after
resetState. -/
theorem resetState_skips_material (d0 : Device) :
    (∃ d, resetState d0 = some d ∧
      d.m_state = RenderState.init d0.width d0.height highestTrackedUnit d0.initialProjection ∧
      (d.m_state.depthTest = DEPTH_LEQUAL ∧ d.m_state.depthWrite = true ∧
        d.m_state.colorWrite = true ∧ d.m_state.alphaWrite = true ∧
        d.m_state.srcBlendFunc = BLEND_ONE ∧ d.m_state.dstBlendFunc = BLEND_ZERO ∧
        d.m_state.blendEq = BLENDEQ_ADD ∧ d.m_state.cullFace = CullFace.BACK ∧
        d.m_state.useClip2D = false ∧ d.m_state.stencil.stencilTest = STENCIL_ALWAYS_PASS ∧
        FrontOpsKeep d.m_state ∧ BackOpsKeep d.m_state ∧
        d.m_state.alphaTest = ALPHA_ALWAYS_PASS ∧ d.m_state.drawFramebuffer = none ∧
        d.m_state.readFramebuffer = none ∧ invertY d = true ∧
        d.m_state.shininess = 15 ∧ d.m_state.specular = ⟨mkRat 4 5, mkRat 4 5, mkRat 4 5⟩) ∧
      (d.gl.depthTest = true ∧ d.gl.depthFunc = GL_LEQUAL ∧ d.gl.depthMask = true ∧
        d.gl.colorMaskRGB = true ∧ d.gl.colorMaskA = true ∧ d.gl.blend = false ∧
        d.gl.stencilTest = false ∧ d.gl.alphaTest = false ∧ d.gl.scissorTest = false ∧
        d.gl.cullFace = true ∧ d.gl.cullFaceMode = GL_BACK ∧
        d.gl.drawBuffer = GL_BACK ∧ d.gl.readBuffer = GL_BACK) ∧
      d.gl.materialShininess = d0.gl.materialShininess ∧
      d.gl.materialSpecular = d0.gl.materialSpecular ∧
      d.m_stats.minorOpenGLStateChanges = d0.m_stats.minorOpenGLStateChanges) ∧
    (resetState (freshDevice 2 2 2)).map
        (fun d => (d.m_state.shininess, d.gl.materialShininess,
          d.m_state.specular, d.gl.materialSpecular)) =
      some (15, 0, ⟨mkRat 4 5, mkRat 4 5, mkRat 4 5⟩, ⟨0, 0, 0, 1⟩) := by
  refine ⟨⟨_, resetState_eq d0, ?_, ?_, ?_, ?_, ?_, ?_⟩, by decide⟩
  · simp
  · simp [RenderState.init, FrontOpsKeep, BackOpsKeep, invertY]
  · simp [resetStateGL, resetStateGLTail]
  · simp [resetStateGL, resetStateGLTail]
  · simp [resetStateGL, resetStateGLTail]
  · simp [minStateChange, withGL, withState]

/-! ## C27: the triangle counter -/

theorem countTriangles_triangles (p : PrimitiveType) (n : Int) (d : Device) :
    (countTriangles p n d).m_stats.triangles =
      (((d.m_stats.triangles : Int) + triangleIncrement p n) % 2 ^ 32).toNat := rfl

/-- C27: countTriangles adds to the 32-bit counter, modulo 2^32, the amount
listed for each primitive type.  The amount is not always non-negative: for
n >= 0 it is negative exactly for LINE_STRIP with n = 0, for TRIANGLE_STRIP and
TRIANGLE_FAN with n < 2 and for QUAD_STRIP with n < 2.  When it is non-negative
and the counter is below 2^32 minus the amount, the counter does not decrease.
After a triangle has been counted, sendSequentialIndices with a LINE_STRIP of
0 vertices returns and takes the counter from 1 back to 0, and a
TRIANGLE_STRIP of 1 vertex on a counter of 0 leaves 2^32 - 1. -/
theorem countTriangles_can_decrease :
    (∀ (n : Int), 0 ≤ n →
      triangleIncrement .LINES n = n / 2 ∧
      triangleIncrement .LINE_STRIP n = n - 1 ∧
      triangleIncrement .TRIANGLES n = n / 3 ∧
      triangleIncrement .TRIANGLE_STRIP n = n - 2 ∧
      triangleIncrement .TRIANGLE_FAN n = n - 2 ∧
      triangleIncrement .QUADS n = 2 * (n / 4) ∧
      triangleIncrement .QUAD_STRIP n = 2 * (n / 2 - 1) ∧
      triangleIncrement .POINTS n = n) ∧
    (∀ (p : PrimitiveType) (n : Int), 0 ≤ n →
      (triangleIncrement p n < 0 ↔
        (p = .LINE_STRIP ∧ n = 0) ∨ (p = .TRIANGLE_STRIP ∧ n < 2) ∨
        (p = .TRIANGLE_FAN ∧ n < 2) ∨ (p = .QUAD_STRIP ∧ n < 2))) ∧
    (∀ (p : PrimitiveType) (n : Int) (d : Device), 0 ≤ triangleIncrement p n →
      (d.m_stats.triangles : Int) + triangleIncrement p n < 2 ^ 32 →
      ((countTriangles p n d).m_stats.triangles : Int) =
        (d.m_stats.triangles : Int) + triangleIncrement p n ∧
      d.m_stats.triangles ≤ (countTriangles p n d).m_stats.triangles) ∧
    (runSteps [resetState, sendSequentialIndices .TRIANGLE_STRIP 3 0]
        (freshDevice 2 2 2)).map (fun d => d.m_stats.triangles) = some 1 ∧
    (runSteps [resetState, sendSequentialIndices .TRIANGLE_STRIP 3 0,
        sendSequentialIndices .LINE_STRIP 0 0]
        (freshDevice 2 2 2)).map (fun d => d.m_stats.triangles) = some 0 ∧
    (runSteps [resetState, sendSequentialIndices .TRIANGLE_STRIP 1 0]
        (freshDevice 2 2 2)).map (fun d => d.m_stats.triangles) = some 4294967295 := by
  refine ⟨?_, ?_, ?_, by decide, by decide, by decide⟩
  · intro n hn
    have e2 : Int.tdiv n 2 = n / 2 := Int.tdiv_eq_ediv hn (by decide)
    have e3 : Int.tdiv n 3 = n / 3 := Int.tdiv_eq_ediv hn (by decide)
    have e4 : Int.tdiv n 4 = n / 4 := Int.tdiv_eq_ediv hn (by decide)
    refine ⟨?_, ?_, ?_, ?_, ?_, ?_, ?_, ?_⟩ <;> simp only [triangleIncrement, e2, e3, e4]
    · ring
    · ring
  · intro p n hn
    have e2 : Int.tdiv n 2 = n / 2 := Int.tdiv_eq_ediv hn (by decide)
    have e3 : Int.tdiv n 3 = n / 3 := Int.tdiv_eq_ediv hn (by decide)
    have e4 : Int.tdiv n 4 = n / 4 := Int.tdiv_eq_ediv hn (by decide)
    cases p <;> simp only [triangleIncrement, e2, e3, e4] <;> simp <;> omega
  · intro p n d h0 h1
    rw [countTriangles_triangles]
    have hs : 0 ≤ (d.m_stats.triangles : Int) + triangleIncrement p n := by omega
    rw [Int.emod_eq_of_lt hs h1, Int.toNat_of_nonneg hs]
    refine ⟨rfl, ?_⟩
    omega

theorem countTriangles_can_decrease_witness :
    ((countTriangles .TRIANGLES 6 (freshDevice 2 2 2)).m_stats.triangles : Int) =
        ((freshDevice 2 2 2).m_stats.triangles : Int) + triangleIncrement .TRIANGLES 6 ∧
      (freshDevice 2 2 2).m_stats.triangles ≤
        (countTriangles .TRIANGLES 6 (freshDevice 2 2 2)).m_stats.triangles :=
  countTriangles_can_decrease.2.2.1 .TRIANGLES 6 (freshDevice 2 2 2) (by decide) (by decide)

/-! ## C28: the change tracking of pushState -/

theorem tracked_mono (d d' : Device) (hd : DeltasTracked d) (he : Env d' = Env d)
    (hu : ∀ v : Nat, d'.m_state.highestTextureUnitThatChanged < (v : Int) →
      d.m_state.highestTextureUnitThatChanged < (v : Int) ∧
      d'.m_state.textureUnits[v]? = d.m_state.textureUnits[v]? ∧
      d'.m_state.textureImageUnits[v]? = d.m_state.textureImageUnits[v]?)
    (hm : d'.m_state.matrices.changed = false →
      d.m_state.matrices.changed = false ∧
      d'.m_state.matrices.objectToWorldMatrix = d.m_state.matrices.objectToWorldMatrix ∧
      d'.m_state.matrices.cameraToWorldMatrix = d.m_state.matrices.cameraToWorldMatrix ∧
      d'.m_state.matrices.projectionMatrix = d.m_state.matrices.projectionMatrix) :
    DeltasTracked d' := by
  intro top htop
  rw [stack_of_env d d' he] at htop
  obtain ⟨h1, h2⟩ := hd top htop
  constructor
  · intro v hv
    obtain ⟨a, b, c⟩ := hu v hv
    obtain ⟨e1, e2⟩ := h1 v a
    exact ⟨b.trans e1, c.trans e2⟩
  · intro hc
    obtain ⟨a, b, c, e⟩ := hm hc
    obtain ⟨x, y, z⟩ := h2 a
    exact ⟨b.trans x, c.trans y, e.trans z⟩

theorem tracked_of_state_eq (d d' : Device) (hd : DeltasTracked d) (he : Env d' = Env d)
    (hs : d'.m_state = d.m_state) : DeltasTracked d' := by
  apply tracked_mono d d' hd he
  · intro v hv
    rw [hs] at hv ⊢
    exact ⟨hv, rfl, rfl⟩
  · intro hc
    rw [hs] at hc ⊢
    exact ⟨hc, rfl, rfl, rfl⟩

/-- A write to the fixed-function texture unit `u` that marks the unit as
modified keeps the change tracking. -/
theorem tracked_unit_write (u : Nat) (tu : RenderState.TextureUnit) (d d' : Device)
    (hd : DeltasTracked d) (he : Env d' = Env d)
    (hs : d'.m_state = { d.m_state with
      textureUnits := d.m_state.textureUnits.set u tu,
      highestTextureUnitThatChanged := max d.m_state.highestTextureUnitThatChanged (u : Int) }) :
    DeltasTracked d' := by
  apply tracked_mono d d' hd he
  · intro v hv
    rw [hs] at hv ⊢
    simp only at hv ⊢
    have h1 : d.m_state.highestTextureUnitThatChanged < (v : Int) :=
      lt_of_le_of_lt (le_max_left _ _) hv
    have h2 : (u : Int) < (v : Int) := lt_of_le_of_lt (le_max_right _ _) hv
    have h3 : u ≠ v := by omega
    refine ⟨h1, ?_, ?_⟩
    · exact List.getElem?_set_ne h3
    · first | rfl | trivial
  · intro hc
    rw [hs] at hc ⊢
    exact ⟨hc, rfl, rfl, rfl⟩

/-- A write to the texture image unit `u` that marks the unit as modified
keeps the change tracking. -/
theorem tracked_image_unit_write (u : Nat) (tiu : RenderState.TextureImageUnit) (d d' : Device)
    (hd : DeltasTracked d) (he : Env d' = Env d)
    (hs : d'.m_state = { d.m_state with
      textureImageUnits := d.m_state.textureImageUnits.set u tiu,
      highestTextureUnitThatChanged := max d.m_state.highestTextureUnitThatChanged (u : Int) }) :
    DeltasTracked d' := by
  apply tracked_mono d d' hd he
  · intro v hv
    rw [hs] at hv ⊢
    simp only at hv ⊢
    have h1 : d.m_state.highestTextureUnitThatChanged < (v : Int) :=
      lt_of_le_of_lt (le_max_left _ _) hv
    have h2 : (u : Int) < (v : Int) := lt_of_le_of_lt (le_max_right _ _) hv
    have h3 : u ≠ v := by omega
    refine ⟨h1, ?_, ?_⟩
    · first | rfl | trivial
    · exact List.getElem?_set_ne h3
  · intro hc
    rw [hs] at hc ⊢
    exact ⟨hc, rfl, rfl, rfl⟩

/-- A change of the matrices that sets `matrices.changed` keeps the change
tracking. -/
theorem tracked_matrix_write (d d' : Device) (hd : DeltasTracked d) (he : Env d' = Env d)
    (hc : d'.m_state.matrices.changed = true)
    (hh : d'.m_state.highestTextureUnitThatChanged = d.m_state.highestTextureUnitThatChanged)
    (h1 : d'.m_state.textureUnits = d.m_state.textureUnits)
    (h2 : d'.m_state.textureImageUnits = d.m_state.textureImageUnits) :
    DeltasTracked d' := by
  apply tracked_mono d d' hd he
  · intro v hv
    rw [hh] at hv
    rw [h1, h2]
    exact ⟨hv, rfl, rfl⟩
  · intro hf
    rw [hc] at hf
    exact Bool.noConfusion hf

theorem pushState_tracked (d d' : Device) (h : pushState d = some d') : DeltasTracked d' := by
  simp only [pushState] at h
  split at h
  · exact Option.noConfusion h
  · have e := Option.some.inj h
    subst e
    intro top htop
    have ht : top = d.m_state := by
      have : (d.m_stateStack ++ [d.m_state]).getLast? = some top := htop
      rw [List.getLast?_append] at this
      simpa using this.symm
    subst ht
    exact ⟨fun v _ => ⟨rfl, rfl⟩, fun _ => ⟨rfl, rfl, rfl⟩⟩

theorem setTextureMatrix_tracked (u : Nat) (m : List ℚ) (d d' : Device) (hd : DeltasTracked d)
    (h : setTextureMatrix u m d = some d') : DeltasTracked d' := by
  simp only [setTextureMatrix] at h
  split at h
  · exact Option.noConfusion h
  · split at h
    · exact Option.noConfusion h
    · split at h
      · exact Option.noConfusion h
      · split at h
        · simp only [forceSetTextureMatrix] at h
          split at h
          · exact Option.noConfusion h
          · rename_i tu _
            have e := Option.some.inj h
            subst e
            exact tracked_unit_write u { tu with textureMatrix := m } d _ hd (by simp) rfl
        · have e := Option.some.inj h
          subst e
          exact hd

theorem setTextureLODBias_tracked (u : Nat) (b : ℚ) (d d' : Device) (hd : DeltasTracked d)
    (h : setTextureLODBias u b d = some d') : DeltasTracked d' := by
  simp only [setTextureLODBias] at h
  split at h
  · exact Option.noConfusion h
  · rename_i tu _
    split at h
    · have e := Option.some.inj h
      subst e
      exact tracked_unit_write u { tu with LODBias := b } d _ hd (by simp) rfl
    · have e := Option.some.inj h
      subst e
      exact tracked_of_state_eq d _ hd (by simp) rfl

theorem setTextureCombineMode_tracked (u : Nat) (mode : CombineMode) (d d' : Device)
    (hd : DeltasTracked d) (h : setTextureCombineMode u mode d = some d') :
    DeltasTracked d' := by
  simp only [setTextureCombineMode] at h
  split at h
  · have e := Option.some.inj h
    subst e
    exact tracked_of_state_eq d _ hd (by simp) rfl
  · split at h
    · exact Option.noConfusion h
    · split at h
      · exact Option.noConfusion h
      · rename_i tu _
        split at h
        · have e := Option.some.inj h
          subst e
          exact tracked_unit_write u { tu with combineMode := mode } d _ hd (by simp) rfl
        · have e := Option.some.inj h
          subst e
          exact tracked_of_state_eq d _ hd (by simp) rfl

theorem setTexCoord_tracked (u : Nat) (t : Vector4) (d d' : Device) (hd : DeltasTracked d)
    (h : setTexCoord u t d = some d') : DeltasTracked d' := by
  simp only [setTexCoord] at h
  split at h
  · exact Option.noConfusion h
  · split at h
    · exact Option.noConfusion h
    · rename_i tu _
      split at h
      · exact Option.noConfusion h
      · have e := Option.some.inj h
        subst e
        exact tracked_unit_write u { tu with texCoord := t } d _ hd (by simp) rfl

theorem setTexture_tracked (u : Nat) (t : Option Texture) (d d' : Device)
    (hd : DeltasTracked d) (h : setTexture u t d = some d') : DeltasTracked d' := by
  simp only [setTexture] at h
  split at h
  · exact Option.noConfusion h
  · split at h
    · exact Option.noConfusion h
    · split at h
      · exact Option.noConfusion h
      · split at h
        · have e := Option.some.inj h
          subst e
          exact hd
        · split at h
          · have e := Option.some.inj h
            subst e
            exact tracked_image_unit_write u _ d _ hd (by simp) rfl
          · have e := Option.some.inj h
            subst e
            exact tracked_image_unit_write u _ d _ hd (by simp) rfl

theorem setObjectToWorldMatrix_tracked (c : CoordinateFrame) (d d' : Device)
    (hd : DeltasTracked d) (h : setObjectToWorldMatrix c d = some d') : DeltasTracked d' := by
  simp only [setObjectToWorldMatrix] at h
  split at h
  · exact Option.noConfusion h
  · have e := Option.some.inj h
    subst e
    exact tracked_matrix_write d _ hd (by simp) rfl rfl rfl rfl

theorem setCameraToWorldMatrix_tracked (c : CoordinateFrame) (d d' : Device)
    (hd : DeltasTracked d) (h : setCameraToWorldMatrix c d = some d') : DeltasTracked d' := by
  simp only [setCameraToWorldMatrix] at h
  split at h
  · exact Option.noConfusion h
  · have e := Option.some.inj h
    subst e
    exact tracked_matrix_write d _ hd (by simp) rfl rfl rfl rfl

theorem setProjectionMatrix_tracked (P : Matrix4) (d d' : Device)
    (hd : DeltasTracked d) (h : setProjectionMatrix P d = some d') : DeltasTracked d' := by
  simp only [setProjectionMatrix] at h
  split at h
  · have e := Option.some.inj h
    subst e
    exact tracked_matrix_write d _ hd (by simp) rfl rfl rfl rfl
  · have e := Option.some.inj h
    subst e
    exact tracked_of_state_eq d _ hd (by simp) rfl

/-- C28: pushState establishes the invariant that every texture unit and
texture image unit above highestTextureUnitThatChanged is as in the snapshot on
top of the stack and that, unless matrices.changed is set, the three matrices
are as in that snapshot; setTextureMatrix, setTextureLODBias,
setTextureCombineMode, setTexCoord, setTexture and the three matrix setters
preserve it.  popState does not: on a device with one fixed-function unit and
two texture coordinate sets, after pushState(); pushState();
setTextureMatrix(1, M) the invariant holds, popState() returns with a stack of
depth one and highestTextureUnitThatChanged = -1, and the texture matrix of
unit 1 is still M while the snapshot on top of the stack holds the identity. -/
theorem popState_breaks_change_tracking :
    (∀ d d', pushState d = some d' → DeltasTracked d') ∧
    (∀ (u : Nat) (m : List ℚ) (d d' : Device), DeltasTracked d →
      setTextureMatrix u m d = some d' → DeltasTracked d') ∧
    (∀ (u : Nat) (b : ℚ) (d d' : Device), DeltasTracked d →
      setTextureLODBias u b d = some d' → DeltasTracked d') ∧
    (∀ (u : Nat) (mode : CombineMode) (d d' : Device), DeltasTracked d →
      setTextureCombineMode u mode d = some d' → DeltasTracked d') ∧
    (∀ (u : Nat) (t : Vector4) (d d' : Device), DeltasTracked d →
      setTexCoord u t d = some d' → DeltasTracked d') ∧
    (∀ (u : Nat) (t : Option Texture) (d d' : Device), DeltasTracked d →
      setTexture u t d = some d' → DeltasTracked d') ∧
    (∀ (c : CoordinateFrame) (d d' : Device), DeltasTracked d →
      setObjectToWorldMatrix c d = some d' → DeltasTracked d') ∧
    (∀ (c : CoordinateFrame) (d d' : Device), DeltasTracked d →
      setCameraToWorldMatrix c d = some d' → DeltasTracked d') ∧
    (∀ (P : Matrix4) (d d' : Device), DeltasTracked d →
      setProjectionMatrix P d = some d' → DeltasTracked d') ∧
    (∃ d d', runSteps [resetState, pushState, pushState, setTextureMatrix 1 testMatrix]
        (freshDevice 1 2 2) = some d ∧
      popState d = some d' ∧ DeltasTracked d ∧ d'.m_stateStack.length = 1 ∧
      d'.m_state.highestTextureUnitThatChanged = -1 ∧
      d'.m_state.textureUnits.map (fun u => u.textureMatrix) =
        [[1, 0, 0, 0, 0, 1, 0, 0, 0, 0, 1, 0, 0, 0, 0, 1], testMatrix] ∧
      d'.m_stateStack.map (fun s => s.textureUnits.map (fun u => u.textureMatrix)) =
        [[[1, 0, 0, 0, 0, 1, 0, 0, 0, 0, 1, 0, 0, 0, 0, 1],
          [1, 0, 0, 0, 0, 1, 0, 0, 0, 0, 1, 0, 0, 0, 0, 1]]] ∧
      ¬ DeltasTracked d') := by
  refine ⟨pushState_tracked, fun u m d d' hd h => setTextureMatrix_tracked u m d d' hd h,
    fun u b d d' hd h => setTextureLODBias_tracked u b d d' hd h,
    fun u m d d' hd h => setTextureCombineMode_tracked u m d d' hd h,
    fun u t d d' hd h => setTexCoord_tracked u t d d' hd h,
    fun u t d d' hd h => setTexture_tracked u t d d' hd h,
    fun c d d' hd h => setObjectToWorldMatrix_tracked c d d' hd h,
    fun c d d' hd h => setCameraToWorldMatrix_tracked c d d' hd h,
    fun P d d' hd h => setProjectionMatrix_tracked P d d' hd h, ?_⟩
  obtain ⟨d2, h2⟩ := exists_of_isSome (runSteps [resetState, pushState, pushState]
    (freshDevice 1 2 2)) (by decide)
  obtain ⟨d, hd⟩ := exists_of_isSome (runSteps [resetState, pushState, pushState,
    setTextureMatrix 1 testMatrix] (freshDevice 1 2 2)) (by decide)
  obtain ⟨d', hd'⟩ := exists_of_isSome (runSteps [resetState, pushState, pushState,
    setTextureMatrix 1 testMatrix, popState] (freshDevice 1 2 2)) (by decide)
  have q1 : d'.m_stateStack.length = 1 := by
    have hq : (runSteps [resetState, pushState, pushState,
        setTextureMatrix 1 testMatrix, popState] (freshDevice 1 2 2)).map
        (fun d => d.m_stateStack.length) = some 1 := by
      decide
    rw [hd', Option.map_some'] at hq
    exact Option.some.inj hq
  have q2 : d'.m_state.highestTextureUnitThatChanged = -1 := by
    have hq : (runSteps [resetState, pushState, pushState,
        setTextureMatrix 1 testMatrix, popState] (freshDevice 1 2 2)).map
        (fun d => d.m_state.highestTextureUnitThatChanged) = some (-1) := by
      decide
    rw [hd', Option.map_some'] at hq
    exact Option.some.inj hq
  have q3 : d'.m_state.textureUnits.map (fun u => u.textureMatrix) =
      [[1, 0, 0, 0, 0, 1, 0, 0, 0, 0, 1, 0, 0, 0, 0, 1], testMatrix] := by
    have hq : (runSteps [resetState, pushState, pushState,
        setTextureMatrix 1 testMatrix, popState] (freshDevice 1 2 2)).map
        (fun d => d.m_state.textureUnits.map (fun u => u.textureMatrix)) =
        some [[1, 0, 0, 0, 0, 1, 0, 0, 0, 0, 1, 0, 0, 0, 0, 1], testMatrix] := by
      decide
    rw [hd', Option.map_some'] at hq
    exact Option.some.inj hq
  have q4 : d'.m_stateStack.map (fun s => s.textureUnits.map (fun u => u.textureMatrix)) =
      [[[1, 0, 0, 0, 0, 1, 0, 0, 0, 0, 1, 0, 0, 0, 0, 1],
        [1, 0, 0, 0, 0, 1, 0, 0, 0, 0, 1, 0, 0, 0, 0, 1]]] := by
    have hq : (runSteps [resetState, pushState, pushState,
        setTextureMatrix 1 testMatrix, popState] (freshDevice 1 2 2)).map
        (fun d => d.m_stateStack.map (fun s => s.textureUnits.map (fun u => u.textureMatrix))) =
        some [[[1, 0, 0, 0, 0, 1, 0, 0, 0, 0, 1, 0, 0, 0, 0, 1],
          [1, 0, 0, 0, 0, 1, 0, 0, 0, 0, 1, 0, 0, 0, 0, 1]]] := by
      decide
    rw [hd', Option.map_some'] at hq
    exact Option.some.inj hq
  have hpop : popState d = some d' := by
    have e : [resetState, pushState, pushState, setTextureMatrix 1 testMatrix, popState] =
        [resetState, pushState, pushState, setTextureMatrix 1 testMatrix] ++ [popState] := rfl
    rw [e, runSteps_append, hd, Option.some_bind] at hd'
    obtain ⟨x, hx, r⟩ := runSteps_cons_inv _ _ _ _ hd'
    have ex := runSteps_nil_inv _ _ r
    subst ex
    exact hx
  have hset : setTextureMatrix 1 testMatrix d2 = some d := by
    have e : [resetState, pushState, pushState, setTextureMatrix 1 testMatrix] =
        [resetState, pushState, pushState] ++ [setTextureMatrix 1 testMatrix] := rfl
    rw [e, runSteps_append, h2, Option.some_bind] at hd
    obtain ⟨x, hx, r⟩ := runSteps_cons_inv _ _ _ _ hd
    have ex := runSteps_nil_inv _ _ r
    subst ex
    exact hx
  have ht2 : DeltasTracked d2 := by
    have e : [resetState, pushState, pushState] = [resetState, pushState] ++ [pushState] := rfl
    rw [e, runSteps_append] at h2
    obtain ⟨d1, _, h1⟩ := Option.bind_eq_some.mp h2
    obtain ⟨x, hx, r⟩ := runSteps_cons_inv _ _ _ _ h1
    have ex := runSteps_nil_inv _ _ r
    subst ex
    exact pushState_tracked d1 _ hx
  refine ⟨d, d', hd, hpop, setTextureMatrix_tracked 1 testMatrix d2 d ht2 hset, q1, q2, q3, q4, ?_⟩
  intro ht
  cases hs : d'.m_stateStack with
  | nil =>
    rw [hs] at q1
    exact absurd q1 (by decide)
  | cons top rest =>
    rw [hs] at q1 q4
    have hr : rest = [] := by
      cases rest with
      | nil => rfl
      | cons _ _ => simp at q1
    subst hr
    obtain ⟨k1, _⟩ := ht top (by rw [hs]; rfl)
    obtain ⟨k2, _⟩ := k1 1 (by rw [q2]; decide)
    have a1 : (d'.m_state.textureUnits.map (fun u => u.textureMatrix))[1]? = some testMatrix := by
      rw [q3]
      rfl
    have a2 : (top.textureUnits.map (fun u => u.textureMatrix))[1]? =
        some [1, 0, 0, 0, 0, 1, 0, 0, 0, 0, 1, 0, 0, 0, 0, 1] := by
      simp only [List.map_cons, List.map_nil, List.cons.injEq, and_true] at q4
      rw [q4]
      rfl
    rw [List.getElem?_map, k2, ← List.getElem?_map, a2] at a1
    exact absurd (Option.some.inj a1) (by decide)

theorem popState_breaks_change_tracking_witness :
    DeltasTracked ((pushState (freshDevice 1 2 2)).get (by decide)) :=
  popState_breaks_change_tracking.1 (freshDevice 1 2 2) _ (by simp)

/-! ## C29: clear restores the write masks -/

theorem setColorWrite_sets (a : Bool) (d d' : Device) (h : setColorWrite a d = some d') :
    Env d' = Env d ∧ d'.m_state = { d.m_state with colorWrite := a } := by
  simp only [setColorWrite] at h
  split at h
  · exact Option.noConfusion h
  · split at h
    · rw [← Option.some.inj h]
      exact ⟨by simp, by simp⟩
    · rename_i hc
      rw [← Option.some.inj h]
      have e : d.m_state.colorWrite = a := by simpa using hc
      subst e
      exact ⟨by simp, by simp⟩

/-- The last statement of setDepthWrite: the depth test is set again when it
is ALWAYS_PASS. -/
theorem setDepthWrite_tail (x d' : Device) (hp : x.m_inPrimitive = false)
    (h : (if x.m_state.depthTest = DEPTH_ALWAYS_PASS then setDepthTest x.m_state.depthTest x
      else some x) = some d') : Env d' = Env x ∧ d'.m_state = x.m_state := by
  split at h
  · obtain ⟨y, hy, he, hs⟩ := quiet_env _ _ (setDepthTest_quiet x.m_state.depthTest x hp rfl)
    rw [hy] at h
    rw [← Option.some.inj h]
    exact ⟨he, hs⟩
  · rw [← Option.some.inj h]
    exact ⟨rfl, rfl⟩

theorem setDepthWrite_sets (a : Bool) (d d' : Device) (h : setDepthWrite a d = some d') :
    Env d' = Env d ∧ d'.m_state = { d.m_state with depthWrite := a } := by
  simp only [setDepthWrite] at h
  split at h
  · exact Option.noConfusion h
  · rename_i hp
    split at h
    · obtain ⟨he, hs⟩ := setDepthWrite_tail _ _ (by simpa using hp) h
      rw [he, hs]
      exact ⟨by simp, by simp⟩
    · rename_i hc
      rw [← Option.some.inj h]
      have e : d.m_state.depthWrite = a := by simpa using hc
      subst e
      exact ⟨by simp, by simp⟩

theorem setColorWrite_total (a : Bool) (d : Device) (hp : d.m_inPrimitive = false) :
    (setColorWrite a d).isSome = true := by
  simp only [setColorWrite]
  rw [if_neg (by rw [hp]; exact Bool.false_ne_true)]
  split <;> rfl

theorem setDepthWrite_tail_total (x : Device) (hp : x.m_inPrimitive = false) :
    (if x.m_state.depthTest = DEPTH_ALWAYS_PASS then setDepthTest x.m_state.depthTest x
      else some x).isSome = true := by
  split
  · obtain ⟨y, hy, _⟩ := quiet_env _ _ (setDepthTest_quiet x.m_state.depthTest x hp rfl)
    rw [hy]
    rfl
  · rfl

theorem setDepthWrite_total (a : Bool) (d : Device) (hp : d.m_inPrimitive = false) :
    (setDepthWrite a d).isSome = true := by
  simp only [setDepthWrite]
  rw [if_neg (by rw [hp]; exact Bool.false_ne_true)]
  split
  · exact setDepthWrite_tail_total _ (by simpa using hp)
  · rfl

/-- What the statements of clear after the synchronisation do to the cached
state: nothing. -/
theorem clearBuffers_state (cc cd cs : Bool) (d d' : Device)
    (h : clearBuffers cc cd cs d = some d') : Env d' = Env d ∧ d'.m_state = d.m_state := by
  simp only [clearBuffers] at h
  split at h
  · exact Option.noConfusion h
  · rename_i x hx
    split at h
    · exact Option.noConfusion h
    · rename_i y hy
      have e1 : Env x = Env d ∧ ∃ c, x.m_state = { d.m_state with colorWrite := c } := by
        by_cases hcc : cc = true
        · rw [if_pos hcc] at hx
          obtain ⟨a1, a2⟩ := setColorWrite_sets _ _ _ hx
          exact ⟨by rw [a1]; simp, true, by rw [a2]; simp⟩
        · rw [if_neg hcc] at hx
          rw [← Option.some.inj hx]
          exact ⟨by simp, d.m_state.colorWrite, by simp⟩
      obtain ⟨ex, c, sx⟩ := e1
      have e2 : Env y = Env x ∧ ∃ w, y.m_state = { x.m_state with depthWrite := w } := by
        by_cases hcd : cd = true
        · rw [if_pos hcd] at hy
          obtain ⟨a1, a2⟩ := setDepthWrite_sets _ _ _ hy
          exact ⟨a1, true, a2⟩
        · rw [if_neg hcd] at hy
          rw [← Option.some.inj hy]
          exact ⟨rfl, x.m_state.depthWrite, by simp⟩
      obtain ⟨ey, w, sy⟩ := e2
      obtain ⟨z, hz, hz'⟩ := runSteps_cons_inv _ _ _ _ h
      obtain ⟨z2, hz2, hz3⟩ := runSteps_cons_inv _ _ _ _ hz'
      have e3 := runSteps_nil_inv _ _ hz3
      subst e3
      obtain ⟨b1, b2⟩ := setColorWrite_sets _ _ _ hz
      obtain ⟨b3, b4⟩ := setDepthWrite_sets _ _ _ hz2
      have hold1 : (majGLStateChange 1 (majStateChange 1 d)).m_state.colorWrite =
          d.m_state.colorWrite := by simp
      have hold2 : x.m_state.depthWrite = d.m_state.depthWrite := by rw [sx]
      have sz : z.m_state = { y.m_state with colorWrite := d.m_state.colorWrite } := by
        rw [b2, hold1]
        by_cases hcs : cs = true <;> simp [hcs]
      have ez : Env z = Env y := by
        rw [b1]
        by_cases hcs : cs = true <;> simp [hcs]
      refine ⟨by rw [b3, ez, ey, ex], ?_⟩
      rw [b4, hold2, sz, sy, sx]

theorem clearBuffers_total (cc cd cs : Bool) (d : Device) (hp : d.m_inPrimitive = false) :
    (clearBuffers cc cd cs d).isSome = true := by
  have h1 : ∃ x, (if cc = true then setColorWrite true (majGLStateChange 1 (majStateChange 1 d))
      else some (majGLStateChange 1 (majStateChange 1 d))) = some x ∧
      x.m_inPrimitive = false := by
    by_cases hcc : cc = true
    · rw [if_pos hcc]
      obtain ⟨x, hx⟩ := exists_of_isSome _ (setColorWrite_total true
        (majGLStateChange 1 (majStateChange 1 d)) (by simpa using hp))
      refine ⟨x, hx, ?_⟩
      rw [inPrimitive_of_env _ _ (setColorWrite_sets _ _ _ hx).1]
      simpa using hp
    · rw [if_neg hcc]
      exact ⟨_, rfl, by simpa using hp⟩
  obtain ⟨x, hx, px⟩ := h1
  have h2 : ∃ y, (if cd = true then setDepthWrite true x else some x) = some y ∧
      y.m_inPrimitive = false := by
    by_cases hcd : cd = true
    · rw [if_pos hcd]
      obtain ⟨y, hy⟩ := exists_of_isSome _ (setDepthWrite_total true x px)
      refine ⟨y, hy, ?_⟩
      rw [inPrimitive_of_env _ _ (setDepthWrite_sets _ _ _ hy).1]
      exact px
    · rw [if_neg hcd]
      exact ⟨_, rfl, px⟩
  obtain ⟨y, hy, py⟩ := h2
  simp only [clearBuffers]
  rw [hx]
  simp only []
  rw [hy]
  simp only []
  have pz : (minStateChange 1 (minGLStateChange 1
      (if cs = true then minStateChange 1 (minGLStateChange 1 y) else y))).m_inPrimitive =
      false := by
    by_cases hcs : cs = true <;> simp [hcs, py]
  obtain ⟨z, hz⟩ := exists_of_isSome _ (setColorWrite_total
    (majGLStateChange 1 (majStateChange 1 d)).m_state.colorWrite _ pz)
  rw [runSteps_cons_some _ _ _ _ hz, runSteps_cons]
  have pz2 : z.m_inPrimitive = false := by
    rw [inPrimitive_of_env _ _ (setColorWrite_sets _ _ _ hz).1]
    exact pz
  obtain ⟨z2, hz2⟩ := exists_of_isSome _ (setDepthWrite_total x.m_state.depthWrite z pz2)
  rw [hz2, Option.some_bind, runSteps_nil]
  rfl

/-- C29: whenever clear returns, for every state and every combination of
the three flags, the cached render state is field by field what it was before
the call (in particular the colour write, depth write and depth test), and so
are the members outside the cache.  It returns outside a primitive when the
bound draw framebuffer, if any, is complete and its draw-buffer array fits the
device. -/
theorem clear_keeps_cached_state (cc cd cs complete : Bool) (d : Device) :
    (∀ d', clear cc cd cs complete d = some d' →
      d'.m_state = d.m_state ∧ Env d' = Env d ∧
      d'.m_state.colorWrite = d.m_state.colorWrite ∧
      d'.m_state.depthWrite = d.m_state.depthWrite ∧
      d'.m_state.depthTest = d.m_state.depthTest) ∧
    (d.m_inPrimitive = false →
      (d.m_state.drawFramebuffer = none ∨ complete = true) →
      (∀ fb, d.m_state.drawFramebuffer = some fb → fb.bindNeedsSync = true →
        fb.openGLDrawArray.length ≤ d.caps.maxDrawBuffers) →
      (clear cc cd cs complete d).isSome = true) := by
  constructor
  · intro d' h
    simp only [clear] at h
    split at h
    · exact Option.noConfusion h
    · obtain ⟨x1, h1, r1⟩ := runSteps_cons_inv _ _ _ _ h
      obtain ⟨x2, h2, r2⟩ := runSteps_cons_inv _ _ _ _ r1
      obtain ⟨x3, h3, r3⟩ := runSteps_cons_inv _ _ _ _ r2
      obtain ⟨x4, h4, r4⟩ := runSteps_cons_inv _ _ _ _ r3
      have e4 := runSteps_nil_inv _ _ r4
      subst e4
      have o1 := frame_eq _ _ (syncDrawBuffer_frame id true) _ _ h1
      have o2 := frame_eq _ _ (syncReadBuffer_frame id true) _ _ h2
      have e3 : x3 = x2 := by
        split at h3
        · exact (Option.some.inj h3).symm
        · exact Option.noConfusion h3
      subst e3
      obtain ⟨v4, s4⟩ := clearBuffers_state _ _ _ _ _ h4
      have hs : d'.m_state = d.m_state := by
        rw [s4]
        exact (view_of_obs id _ _ o2).trans (view_of_obs id _ _ o1)
      have hv : Env d' = Env d := by
        rw [v4]
        exact (env_of_obs id _ _ o2).trans (env_of_obs id _ _ o1)
      exact ⟨hs, hv, by rw [hs], by rw [hs], by rw [hs]⟩
  · intro hp hc hfit
    simp only [clear]
    rw [if_neg (by rw [hp]; exact Bool.false_ne_true)]
    have k1 : ∃ x1, syncDrawBuffer true d = some x1 := by
      simp only [syncDrawBuffer]
      cases hf : d.m_state.drawFramebuffer with
      | none => exact ⟨_, rfl⟩
      | some fb =>
        simp only []
        by_cases hs : fb.bindNeedsSync = true
        · rw [if_pos hs]
          by_cases h0 : 0 < fb.openGLDrawArray.length
          · rw [if_pos h0, if_pos (by simpa using hfit fb hf hs)]
            exact ⟨_, rfl⟩
          · rw [if_neg h0]
            exact ⟨_, rfl⟩
        · rw [if_neg hs]
          exact ⟨_, rfl⟩
    obtain ⟨x1, h1⟩ := k1
    have o1 := frame_eq _ _ (syncDrawBuffer_frame id true) _ _ h1
    have k2 : ∃ x2, syncReadBuffer true x1 = some x2 := by
      simp only [syncReadBuffer]
      split
      · exact ⟨_, rfl⟩
      · split <;> exact ⟨_, rfl⟩
    obtain ⟨x2, h2⟩ := k2
    have o2 := frame_eq _ _ (syncReadBuffer_frame id true) _ _ h2
    have hs2 : x2.m_state = d.m_state := (view_of_obs id _ _ o2).trans (view_of_obs id _ _ o1)
    have hp2 : x2.m_inPrimitive = false := by
      rw [inPrimitive_of_env _ _ ((env_of_obs id _ _ o2).trans (env_of_obs id _ _ o1))]
      exact hp
    rw [runSteps_cons_some _ _ _ _ h1, runSteps_cons_some _ _ _ _ h2]
    have h3 : (fun d : Device =>
        if d.m_state.drawFramebuffer = none ∨ complete = true then some d else none) x2 =
        some x2 := by
      show (if x2.m_state.drawFramebuffer = none ∨ complete = true then some x2 else none) = some x2
      rw [if_pos (by rw [hs2]; exact hc)]
    rw [runSteps_cons_some _ _ _ _ h3, runSteps_cons]
    obtain ⟨x4, h4⟩ := exists_of_isSome _ (clearBuffers_total cc cd cs x2 hp2)
    rw [h4, Option.some_bind, runSteps_nil]
    rfl

theorem clear_keeps_cached_state_witness :
    ∃ d d', runSteps [resetState, setColorWrite false, setDepthWrite false,
        setDepthTest DEPTH_ALWAYS_PASS] (freshDevice 2 2 2) = some d ∧
      clear true true true true d = some d' ∧ d'.m_state = d.m_state ∧
      d'.m_state.colorWrite = false ∧ d'.m_state.depthWrite = false ∧
      d'.m_state.depthTest = DEPTH_ALWAYS_PASS := by
  obtain ⟨d, hd⟩ := exists_of_isSome (runSteps [resetState, setColorWrite false,
    setDepthWrite false, setDepthTest DEPTH_ALWAYS_PASS] (freshDevice 2 2 2)) (by decide)
  have hq : (runSteps [resetState, setColorWrite false, setDepthWrite false,
      setDepthTest DEPTH_ALWAYS_PASS] (freshDevice 2 2 2)).map
      (fun d => (d.m_inPrimitive, d.m_state.drawFramebuffer, d.m_state.colorWrite,
        d.m_state.depthWrite, d.m_state.depthTest)) =
      some (false, none, false, false, DEPTH_ALWAYS_PASS) := by
    decide
  rw [hd, Option.map_some'] at hq
  have hq := Option.some.inj hq
  simp only [Prod.mk.injEq] at hq
  obtain ⟨hp, hf, hc, hw, ht⟩ := hq
  obtain ⟨d', h'⟩ := exists_of_isSome _ ((clear_keeps_cached_state true true true true d).2 hp
    (Or.inl hf) (by intro fb hfb; rw [hf] at hfb; exact Option.noConfusion hfb))
  obtain ⟨hs, _, c1, c2, c3⟩ := (clear_keeps_cached_state true true true true d).1 d' h'
  exact ⟨d, d', hd, h', hs, by rw [c1, hc], by rw [c2, hw], by rw [c3, ht]⟩

/-! ## C30: the texture matrix accessor -/

theorem numTextureCoords_of_env (d d' : Device) (h : Env d' = Env d) :
    d'.m_numTextureCoords = d.m_numTextureCoords := by
  simp only [Env, Prod.mk.injEq] at h
  exact h.2.2.2.2.2.1

theorem forceSetTextureMatrix_caches (u : Nat) (f : List ℚ) (d d' : Device)
    (h : forceSetTextureMatrix u f d = some d') :
    Env d' = Env d ∧ ∃ tu, d'.m_state.textureUnits[u]? = some tu ∧ tu.textureMatrix = f := by
  simp only [forceSetTextureMatrix] at h
  split at h
  · exact Option.noConfusion h
  · rename_i tu htu
    have e := Option.some.inj h
    subst e
    refine ⟨by simp, { tu with textureMatrix := f }, ?_, rfl⟩
    simp only [state_withState, state_minGLStateChange, state_minStateChange,
      RenderState.textureUnitModified, state_writeTextureUnit] at htu ⊢
    have hl : u < d.m_state.textureUnits.length := by
      by_contra hc
      rw [List.getElem?_eq_none (by omega)] at htu
      exact Option.noConfusion htu
    simp [hl]

theorem setTextureMatrix_caches (u : Nat) (f : List ℚ) (d d' : Device)
    (h : setTextureMatrix u f d = some d') :
    Env d' = Env d ∧ u < d.m_numTextureCoords ∧
      ∃ tu, d'.m_state.textureUnits[u]? = some tu ∧ tu.textureMatrix = f := by
  simp only [setTextureMatrix] at h
  split at h
  · exact Option.noConfusion h
  · split at h
    · exact Option.noConfusion h
    · rename_i hu
      have hu' : u < d.m_numTextureCoords := by simpa using hu
      split at h
      · exact Option.noConfusion h
      · rename_i tu htu
        split at h
        · obtain ⟨e, r⟩ := forceSetTextureMatrix_caches u f d d' h
          exact ⟨e, hu', r⟩
        · rename_i hm
          have e := Option.some.inj h
          subst e
          exact ⟨rfl, hu', tu, htu, (not_not.mp hm).symm⟩

/-- C30: for every unit u, matrix M and device on which
setTextureMatrix(u, M) returns, getTextureMatrix(u) called right after it
returns the transpose of M: entry (r, c) of the result is M[c][r], because the
setter stores M row by row and the getter reads the array column by column.
After setTextureMatrix(0, M) for the matrix M with rows (1 2 3 4), (5 6 7 8),
(9 10 11 12), (13 14 15 16) on a freshly reset device the getter returns the
matrix with rows (1 5 9 13), (2 6 10 14), (3 7 11 15), (4 8 12 16), not M. -/
theorem getTextureMatrix_returns_transpose :
    (∀ (u : Nat) (M : Matrix4) (d d' : Device), setTextureMatrix4 u M d = some d' →
      getTextureMatrix u d' = some (transpose M) ∧
      ∀ r c : Nat, r < 4 → c < 4 →
        matrixElement (transpose M) r c = matrixElement M c r) ∧
    (runSteps [resetState, setTextureMatrix4 0 testMatrix4] (freshDevice 2 2 2)).isSome = true ∧
    (runSteps [resetState, setTextureMatrix4 0 testMatrix4] (freshDevice 2 2 2)).bind
        (getTextureMatrix 0) =
      some ⟨[1, 5, 9, 13, 2, 6, 10, 14, 3, 7, 11, 15, 4, 8, 12, 16]⟩ ∧
    (runSteps [resetState, setTextureMatrix4 0 testMatrix4] (freshDevice 2 2 2)).bind
        (getTextureMatrix 0) ≠ some testMatrix4 := by
  refine ⟨?_, by decide, by decide, by decide⟩
  intro u M d d' h
  constructor
  · simp only [setTextureMatrix4] at h
    obtain ⟨e, hu, tu, htu, hm⟩ := setTextureMatrix_caches u _ d d' h
    simp only [getTextureMatrix]
    rw [if_neg (by rw [numTextureCoords_of_env _ _ e]; simpa using hu), htu]
    simp only [hm]
    simp [transpose, matrixElement, List.range, List.range.loop, List.flatMap]
  · intro r c hr hc
    interval_cases r <;> interval_cases c <;>
      simp [transpose, matrixElement, List.range, List.range.loop, List.flatMap]

theorem getTextureMatrix_returns_transpose_witness :
    getTextureMatrix 0 ((setTextureMatrix4 0 testMatrix4
        ((resetState (freshDevice 2 2 2)).get (by decide))).get (by decide)) =
      some (transpose testMatrix4) :=
  (getTextureMatrix_returns_transpose.1 0 testMatrix4
    ((resetState (freshDevice 2 2 2)).get (by decide)) _ (by simp)).1

end RenderDevice

namespace GApp

/-! ## C24: time steps changed by onBeforeSimulation -/

/-- C24: the time steps as onBeforeSimulation leaves them are the ones handed
to onSimulation and onAfterSimulation, and they are also the ones by which
realTime() and simTime() advance: the accumulated times do not advance by the
original steps.  With an override that doubles rdt and sdt, a measured step of
1/50 s and a target duration of 1/60 s, both callbacks receive rdt = 1/25 and
sdt = 1/30, and realTime() and simTime() advance by 1/25 and 1/30 instead of
the original 1/50 and 1/60. -/
theorem simulationBlock_accumulates_changed_steps :
    (∀ (before : BeforeSimulation) (timeStep : ℚ) (a : App),
      (simulationBlock before timeStep a).2 =
        [SimulationCall.onSimulation (before (timeSteps timeStep a)).1
            (before (timeSteps timeStep a)).2.1 (before (timeSteps timeStep a)).2.2,
          SimulationCall.onAfterSimulation (before (timeSteps timeStep a)).1
            (before (timeSteps timeStep a)).2.1 (before (timeSteps timeStep a)).2.2] ∧
      realTime (simulationBlock before timeStep a).1 =
        realTime a + (before (timeSteps timeStep a)).1 ∧
      simTime (simulationBlock before timeStep a).1 =
        simTime a + (before (timeSteps timeStep a)).2.1) ∧
    timeSteps (mkRat 1 50) testApp = (mkRat 1 50, mkRat 1 60, mkRat 1 60) ∧
    (simulationStep doubleSteps (1000 + mkRat 1 50) testApp).2 =
      [SimulationCall.onSimulation (mkRat 1 25) (mkRat 1 30) (mkRat 1 60),
       SimulationCall.onAfterSimulation (mkRat 1 25) (mkRat 1 30) (mkRat 1 60)] ∧
    realTime (simulationStep doubleSteps (1000 + mkRat 1 50) testApp).1 =
      realTime testApp + mkRat 1 25 ∧
    simTime (simulationStep doubleSteps (1000 + mkRat 1 50) testApp).1 =
      simTime testApp + mkRat 1 30 ∧
    realTime (simulationStep doubleSteps (1000 + mkRat 1 50) testApp).1 ≠
      realTime testApp + mkRat 1 50 ∧
    simTime (simulationStep doubleSteps (1000 + mkRat 1 50) testApp).1 ≠
      simTime testApp + mkRat 1 60 := by
  refine ⟨fun before timeStep a => ⟨rfl, rfl, rfl⟩, ?_, ?_, ?_, ?_, ?_, ?_⟩ <;>
    norm_num [simulationStep, simulationBlock, timeSteps, doubleSteps, testApp, realTime,
      simTime, setRealTime, setSimTime, MATCH_REAL_TIME_TARGET, REAL_TIME]

/-! ## C25: the ideal time step -/

/-- C25: in every simulation step the ideal time step handed to onSimulation
(with the default onBeforeSimulation) is realTimeTargetDuration(), whatever the
measured wall-clock step; it is not multiplied by simulationTimeScale().  It
equals realTimeTargetDuration() * simulationTimeScale() only when the target
duration is 0 or the scale is 1.  With the scale set to 0 and a target duration
of 1/60 s, onSimulation receives sdt = 0 but idt = 1/60, not 0. -/
theorem ideal_step_ignores_time_scale :
    (∀ (now : ℚ) (a : App),
      (simulationStep onBeforeSimulation now a).2 =
        [SimulationCall.onSimulation (now - a.m_now) (timeSteps (now - a.m_now) a).2.1
            (realTimeTargetDuration a),
          SimulationCall.onAfterSimulation (now - a.m_now) (timeSteps (now - a.m_now) a).2.1
            (realTimeTargetDuration a)]) ∧
    (∀ (timeStep : ℚ) (a : App),
      (timeSteps timeStep a).2.2 = realTimeTargetDuration a ∧
      ((timeSteps timeStep a).2.2 = realTimeTargetDuration a * simulationTimeScale a ↔
        (realTimeTargetDuration a = 0 ∨ simulationTimeScale a = 1))) ∧
    (simulationStep onBeforeSimulation (1000 + mkRat 1 50)
        (setSimulationTimeScale 0 testApp)).2 =
      [SimulationCall.onSimulation (mkRat 1 50) 0 (mkRat 1 60),
       SimulationCall.onAfterSimulation (mkRat 1 50) 0 (mkRat 1 60)] ∧
    realTimeTargetDuration (setSimulationTimeScale 0 testApp) *
      simulationTimeScale (setSimulationTimeScale 0 testApp) = 0 := by
  refine ⟨fun now a => rfl, ?_, ?_, ?_⟩
  · intro timeStep a
    refine ⟨rfl, ?_⟩
    show a.m_wallClockTargetDuration = a.m_wallClockTargetDuration * a.m_simTimeScale ↔
      (a.m_wallClockTargetDuration = 0 ∨ a.m_simTimeScale = 1)
    constructor
    · intro h
      by_cases h0 : a.m_wallClockTargetDuration = 0
      · exact Or.inl h0
      · right
        have h1 : a.m_wallClockTargetDuration * a.m_simTimeScale =
            a.m_wallClockTargetDuration * 1 := by rw [mul_one]; exact h.symm
        exact mul_left_cancel₀ h0 h1
    · rintro (h | h)
      · rw [h, zero_mul]
      · rw [h, mul_one]
  · norm_num [simulationStep, simulationBlock, timeSteps, onBeforeSimulation, testApp,
      setSimulationTimeScale, MATCH_REAL_TIME_TARGET, REAL_TIME]
  · norm_num [realTimeTargetDuration, simulationTimeScale, setSimulationTimeScale, testApp]

/-! ## C26: the clean-up loops of oneFrame -/

theorem dropLast_getLast_perm {α : Type} (y : α) (b : List α) :
    (((y :: b).getLast (List.cons_ne_nil y b)) :: b).dropLast.Perm b := by
  cases hb : b with
  | nil => simp
  | cons z c =>
    have hne : z :: c ≠ [] := List.cons_ne_nil z c
    rw [List.getLast_cons hne, List.dropLast_cons_of_ne_nil hne]
    have e : z :: c = (z :: c).dropLast ++ [(z :: c).getLast hne] :=
      (List.dropLast_append_getLast hne).symm
    conv_rhs => rw [e]
    exact (List.perm_append_singleton _ _).symm

theorem fastRemove_split {α : Type} (a : List α) (y : α) (b : List α) :
    ∃ t, fastRemove (a ++ y :: b) a.length = a ++ t ∧ t.Perm b := by
  refine ⟨(((y :: b).getLast (List.cons_ne_nil y b)) :: b).dropLast, ?_,
    dropLast_getLast_perm y b⟩
  have hl : (a ++ y :: b).getLast? = some ((y :: b).getLast (List.cons_ne_nil y b)) := by
    rw [List.getLast?_append_of_ne_nil a (List.cons_ne_nil y b),
      List.getLast?_eq_getLast _ (List.cons_ne_nil y b)]
  simp only [fastRemove, hl]
  rw [List.set_append_right _ _ (le_refl _), Nat.sub_self, List.set_cons_zero,
    List.dropLast_append_of_ne_nil _ (List.cons_ne_nil _ _)]

theorem removeExpiredFrom_split {α : Type} (endTime : α → ℚ) (now : ℚ) :
    ∀ (n : Nat) (a b : List α), b.length = n →
      (removeExpiredFrom endTime now (a ++ b) a.length).Perm
        (a ++ b.filter (fun x => decide (now < endTime x))) := by
  intro n
  induction n with
  | zero =>
    intro a b hb
    have e : b = [] := List.length_eq_zero.mp hb
    subst e
    rw [removeExpiredFrom, dif_neg (by simp)]
    simp
  | succ n ih =>
    intro a b hb
    cases b with
    | nil => simp at hb
    | cons y b =>
      have hlen : a.length < (a ++ y :: b).length := by simp
      have hget : (a ++ y :: b)[a.length] = y := List.getElem_of_append rfl rfl
      rw [removeExpiredFrom, dif_pos hlen, hget]
      have hb' : b.length = n := by simpa using hb
      by_cases hy : endTime y ≤ now
      · rw [if_pos hy]
        obtain ⟨t, ht, hp⟩ := fastRemove_split a y b
        rw [ht]
        have hf : (y :: b).filter (fun x => decide (now < endTime x)) =
            b.filter (fun x => decide (now < endTime x)) := by
          rw [List.filter_cons_of_neg]
          simpa using hy
        rw [hf]
        exact (ih a t (by rw [hp.length_eq, hb'])).trans
          (List.Perm.append_left a (hp.filter _))
      · rw [if_neg hy]
        have hf : (y :: b).filter (fun x => decide (now < endTime x)) =
            y :: b.filter (fun x => decide (now < endTime x)) := by
          rw [List.filter_cons_of_pos]
          simpa using hy
        rw [hf]
        have e1 : a ++ y :: b = (a ++ [y]) ++ b := by simp
        have e2 : a.length + 1 = (a ++ [y]).length := by simp
        have e3 : a ++ y :: b.filter (fun x => decide (now < endTime x)) =
            (a ++ [y]) ++ b.filter (fun x => decide (now < endTime x)) := by simp
        rw [e1, e2, e3]
        exact ih (a ++ [y]) b hb'

theorem removeExpiredFrom_perm {α : Type} (endTime : α → ℚ) (now : ℚ) (array : List α) :
    (removeExpiredFrom endTime now array 0).Perm
      (array.filter (fun x => decide (now < endTime x))) :=
  removeExpiredFrom_split endTime now array.length [] array rfl

/-- C26: after the two clean-up loops at the end of oneFrame the debug-shape
array and the debug-label array each hold, as a multiset, exactly the entries
they held before whose endTime is greater than m_now; the loops are total
functions, so they terminate for every array.  A shape added by debugDraw with
displayTime 0 gets endTime 0 and, as the frame time is not negative, is not in
the array afterwards. -/
theorem removeExpired_keeps_unexpired (a : App) :
    (removeExpired a).debugShapeArray.Perm
      (a.debugShapeArray.filter (fun s => decide (a.m_now < s.endTime))) ∧
    (removeExpired a).debugLabelArray.Perm
      (a.debugLabelArray.filter (fun l => decide (a.m_now < l.endTime))) ∧
    (∀ s, s ∈ (removeExpired a).debugShapeArray ↔
      (s ∈ a.debugShapeArray ∧ a.m_now < s.endTime)) ∧
    (∀ l, l ∈ (removeExpired a).debugLabelArray ↔
      (l ∈ a.debugLabelArray ∧ a.m_now < l.endTime)) ∧
    (∀ (shape : Nat) (now : ℚ),
      (debugDraw shape 0 now a).1.debugShapeArray =
        a.debugShapeArray ++ [{ shape := shape, id := a.m_lastDebugID, endTime := 0 }] ∧
      (0 ≤ a.m_now →
        ∀ s ∈ (removeExpired (debugDraw shape 0 now a).1).debugShapeArray, s.endTime ≠ 0)) := by
  have h1 : (removeExpired a).debugShapeArray.Perm
      (a.debugShapeArray.filter (fun s => decide (a.m_now < s.endTime))) :=
    removeExpiredFrom_perm DebugShape.endTime a.m_now a.debugShapeArray
  have h2 : (removeExpired a).debugLabelArray.Perm
      (a.debugLabelArray.filter (fun l => decide (a.m_now < l.endTime))) :=
    removeExpiredFrom_perm DebugLabel.endTime a.m_now a.debugLabelArray
  refine ⟨h1, h2, ?_, ?_, ?_⟩
  · intro s
    rw [h1.mem_iff]
    simp
  · intro l
    rw [h2.mem_iff]
    simp
  · intro shape now
    refine ⟨by simp [debugDraw], ?_⟩
    intro h0 s hs
    have hp : (removeExpired (debugDraw shape 0 now a).1).debugShapeArray.Perm
        ((debugDraw shape 0 now a).1.debugShapeArray.filter
          (fun s => decide ((debugDraw shape 0 now a).1.m_now < s.endTime))) :=
      removeExpiredFrom_perm DebugShape.endTime _ _
    rw [hp.mem_iff] at hs
    have hlt : (debugDraw shape 0 now a).1.m_now < s.endTime := by
      simpa using (List.mem_filter.mp hs).2
    have hn : (debugDraw shape 0 now a).1.m_now = a.m_now := rfl
    rw [hn] at hlt
    intro hz
    rw [hz] at hlt
    exact absurd (lt_of_le_of_lt h0 hlt) (lt_irrefl _)

theorem removeExpired_keeps_unexpired_witness :
    0 ≤ testApp.m_now ∧
      ({ shape := 7, id := testApp.m_lastDebugID, endTime := 0 } : DebugShape) ∉
        (removeExpired (debugDraw 7 0 1000 testApp).1).debugShapeArray :=
  ⟨by norm_num [testApp], fun hmem =>
    ((removeExpired_keeps_unexpired testApp).2.2.2.2 7 1000).2 (by norm_num [testApp])
      _ hmem rfl⟩

end GApp

end G3D

namespace mojo

namespace G3DWidget

/-! ## C22: the mouse button bitmask -/

theorem and_two_pow_ne_zero (m k : Nat) : m &&& 2 ^ k ≠ 0 ↔ m.testBit k = true := by
  rw [Nat.and_two_pow]
  cases m.testBit k <;> simp

theorem and_button_ne_zero (m : Nat) :
    (m &&& 1 ≠ 0 ↔ m.testBit 0 = true) ∧ (m &&& 2 ≠ 0 ↔ m.testBit 1 = true) ∧
    (m &&& 4 ≠ 0 ↔ m.testBit 2 = true) ∧ (m &&& 8 ≠ 0 ↔ m.testBit 3 = true) ∧
    (m &&& 16 ≠ 0 ↔ m.testBit 4 = true) :=
  ⟨and_two_pow_ne_zero m 0, and_two_pow_ne_zero m 1, and_two_pow_ne_zero m 2,
    and_two_pow_ne_zero m 3, and_two_pow_ne_zero m 4⟩

theorem flags_of_bits (m : Nat) :
    getG3DMouseButtonPressedFlags m =
      (if m.testBit 0 = true then 1 else 0) ||| (if m.testBit 2 = true then 2 else 0) |||
      (if m.testBit 1 = true then 4 else 0) ||| (if m.testBit 3 = true then 8 else 0) |||
      (if m.testBit 4 = true then 16 else 0) := by
  simp only [getG3DMouseButtonPressedFlags, LeftButton, RightButton, MiddleButton, XButton1,
    XButton2, (and_button_ne_zero m).1, (and_button_ne_zero m).2.1, (and_button_ne_zero m).2.2.1,
    (and_button_ne_zero m).2.2.2.1, (and_button_ne_zero m).2.2.2.2]
  generalize m.testBit 0 = b0
  generalize m.testBit 1 = b1
  generalize m.testBit 2 = b2
  generalize m.testBit 3 = b3
  generalize m.testBit 4 = b4
  revert b0 b1 b2 b3 b4
  decide

theorem index_of_bits (m : Nat) :
    getG3DMouseButtonPressedIndex m =
      if m.testBit 0 = true then some 0
      else if m.testBit 1 = true then some 2
      else if m.testBit 2 = true then some 1
      else if m.testBit 3 = true then some 3
      else if m.testBit 4 = true then some 4
      else none := by
  simp only [getG3DMouseButtonPressedIndex, LeftButton, RightButton, MiddleButton, XButton1,
    XButton2, (and_button_ne_zero m).1, (and_button_ne_zero m).2.1, (and_button_ne_zero m).2.2.1,
    (and_button_ne_zero m).2.2.2.1, (and_button_ne_zero m).2.2.2.2]

theorem five_buttons_bit (m : Nat) (h : m &&& 31 ≠ 0) :
    m.testBit 0 = true ∨ m.testBit 1 = true ∨ m.testBit 2 = true ∨ m.testBit 3 = true ∨
      m.testBit 4 = true := by
  by_contra hc
  simp only [not_or, Bool.not_eq_true] at hc
  obtain ⟨h0, h1, h2, h3, h4⟩ := hc
  apply h
  apply Nat.eq_of_testBit_eq
  intro i
  rw [Nat.testBit_and, Nat.zero_testBit]
  by_cases hi : i < 5
  · interval_cases i <;> simp [h0, h1, h2, h3, h4]
  · have h31 : Nat.testBit 31 i = false :=
      Nat.testBit_lt_two_pow (lt_of_lt_of_le (by decide : 31 < 2 ^ 5)
        (Nat.pow_le_pow_right (by decide) (by omega)))
    rw [h31, Bool.and_false]

/-- C22: getG3DMouseButtonPressedFlags maps every value of Qt::MouseButtons to
a bitmask in which bit 0 is set iff the left button is in the set, bit 1 iff
the middle button, bit 2 iff the right button, bit 3 iff X1 and bit 4 iff X2;
the result is below 32, is 0 for the empty set and distributes over set union.
For every set that holds one of the five buttons
getG3DMouseButtonPressedIndex returns the position of a bit that is set in
that bitmask; for a single-button set it is that button's bit. -/
theorem getG3DMouseButtonPressedFlags_contract (m n : Nat) :
    ((getG3DMouseButtonPressedFlags m).testBit 0 = true ↔ m &&& LeftButton ≠ 0) ∧
    ((getG3DMouseButtonPressedFlags m).testBit 1 = true ↔ m &&& MiddleButton ≠ 0) ∧
    ((getG3DMouseButtonPressedFlags m).testBit 2 = true ↔ m &&& RightButton ≠ 0) ∧
    ((getG3DMouseButtonPressedFlags m).testBit 3 = true ↔ m &&& XButton1 ≠ 0) ∧
    ((getG3DMouseButtonPressedFlags m).testBit 4 = true ↔ m &&& XButton2 ≠ 0) ∧
    getG3DMouseButtonPressedFlags m < 32 ∧
    getG3DMouseButtonPressedFlags NoButton = 0 ∧
    getG3DMouseButtonPressedFlags (m ||| n) =
      getG3DMouseButtonPressedFlags m ||| getG3DMouseButtonPressedFlags n ∧
    (m &&& (LeftButton ||| RightButton ||| MiddleButton ||| XButton1 ||| XButton2) ≠ 0 →
      ∃ i, getG3DMouseButtonPressedIndex m = some i ∧
        (getG3DMouseButtonPressedFlags m).testBit i = true) ∧
    (getG3DMouseButtonPressedIndex LeftButton = some 0 ∧
      getG3DMouseButtonPressedFlags LeftButton = 2 ^ 0) ∧
    (getG3DMouseButtonPressedIndex MiddleButton = some 1 ∧
      getG3DMouseButtonPressedFlags MiddleButton = 2 ^ 1) ∧
    (getG3DMouseButtonPressedIndex RightButton = some 2 ∧
      getG3DMouseButtonPressedFlags RightButton = 2 ^ 2) ∧
    (getG3DMouseButtonPressedIndex XButton1 = some 3 ∧
      getG3DMouseButtonPressedFlags XButton1 = 2 ^ 3) ∧
    (getG3DMouseButtonPressedIndex XButton2 = some 4 ∧
      getG3DMouseButtonPressedFlags XButton2 = 2 ^ 4) := by
  have hb := and_button_ne_zero m
  refine ⟨?_, ?_, ?_, ?_, ?_, ?_, by decide, ?_, ?_, by decide, by decide, by decide,
    by decide, by decide⟩
  · rw [show LeftButton = 1 from rfl, hb.1, flags_of_bits]
    generalize m.testBit 0 = b0
    generalize m.testBit 1 = b1
    generalize m.testBit 2 = b2
    generalize m.testBit 3 = b3
    generalize m.testBit 4 = b4
    revert b0 b1 b2 b3 b4
    decide
  · rw [show MiddleButton = 4 from rfl, hb.2.2.1, flags_of_bits]
    generalize m.testBit 0 = b0
    generalize m.testBit 1 = b1
    generalize m.testBit 2 = b2
    generalize m.testBit 3 = b3
    generalize m.testBit 4 = b4
    revert b0 b1 b2 b3 b4
    decide
  · rw [show RightButton = 2 from rfl, hb.2.1, flags_of_bits]
    generalize m.testBit 0 = b0
    generalize m.testBit 1 = b1
    generalize m.testBit 2 = b2
    generalize m.testBit 3 = b3
    generalize m.testBit 4 = b4
    revert b0 b1 b2 b3 b4
    decide
  · rw [show XButton1 = 8 from rfl, hb.2.2.2.1, flags_of_bits]
    generalize m.testBit 0 = b0
    generalize m.testBit 1 = b1
    generalize m.testBit 2 = b2
    generalize m.testBit 3 = b3
    generalize m.testBit 4 = b4
    revert b0 b1 b2 b3 b4
    decide
  · rw [show XButton2 = 16 from rfl, hb.2.2.2.2, flags_of_bits]
    generalize m.testBit 0 = b0
    generalize m.testBit 1 = b1
    generalize m.testBit 2 = b2
    generalize m.testBit 3 = b3
    generalize m.testBit 4 = b4
    revert b0 b1 b2 b3 b4
    decide
  · rw [flags_of_bits]
    generalize m.testBit 0 = b0
    generalize m.testBit 1 = b1
    generalize m.testBit 2 = b2
    generalize m.testBit 3 = b3
    generalize m.testBit 4 = b4
    revert b0 b1 b2 b3 b4
    decide
  · rw [flags_of_bits, flags_of_bits, flags_of_bits]
    simp only [Nat.testBit_or]
    generalize m.testBit 0 = b0
    generalize m.testBit 1 = b1
    generalize m.testBit 2 = b2
    generalize m.testBit 3 = b3
    generalize m.testBit 4 = b4
    generalize n.testBit 0 = c0
    generalize n.testBit 1 = c1
    generalize n.testBit 2 = c2
    generalize n.testBit 3 = c3
    generalize n.testBit 4 = c4
    cases b0 <;> cases b1 <;> cases b2 <;> cases b3 <;> cases b4 <;> revert c0 c1 c2 c3 c4 <;>
      decide
  · intro h
    have h5 := five_buttons_bit m h
    rw [index_of_bits, flags_of_bits]
    generalize m.testBit 0 = b0 at h5 ⊢
    generalize m.testBit 1 = b1 at h5 ⊢
    generalize m.testBit 2 = b2 at h5 ⊢
    generalize m.testBit 3 = b3 at h5 ⊢
    generalize m.testBit 4 = b4 at h5 ⊢
    revert b0 b1 b2 b3 b4
    decide

theorem getG3DMouseButtonPressedFlags_contract_witness :
    (LeftButton ||| RightButton) &&&
        (LeftButton ||| RightButton ||| MiddleButton ||| XButton1 ||| XButton2) ≠ 0 ∧
      ∃ i, getG3DMouseButtonPressedIndex (LeftButton ||| RightButton) = some i ∧
        (getG3DMouseButtonPressedFlags (LeftButton ||| RightButton)).testBit i = true :=
  ⟨by decide,
    (getG3DMouseButtonPressedFlags_contract (LeftButton ||| RightButton) NoButton).2.2.2.2.2.2.2.2.1
      (by decide)⟩

/-! ## C23: the order of initialize, update and terminate -/

/-- C23 (counterexample): on a newly constructed widget a second initialize()
right after the first returns, and so does a second terminate() after
initialize() and terminate(), and an update() after terminate(). -/
theorem second_initialize_accepted :
    ((initializeWidget 0 (fun i => some i) 640 480 Widget.new).bind
      (initializeWidget 0 (fun i => some i) 640 480)).isSome = true ∧
    (((initializeWidget 0 (fun i => some i) 640 480 Widget.new).bind terminate).bind
      terminate).isSome = true ∧
    (((initializeWidget 0 (fun i => some i) 640 480 Widget.new).bind terminate).bind
      (update true)).isSome = true := by
  decide

/-- C23: update() and terminate() fail their assertion exactly when the
widget has not been initialized, so on a newly constructed widget both are
rejected before initialize().  The flag m_initialized is set by initialize()
and never cleared: initialize() asserts nothing about it, and after the first
initialize() every update() and terminate() passes its assertion. -/
theorem lifecycle_checks (currentlyActive : Bool) (self : Widget) :
    Widget.new.m_initialized = false ∧
    (self.m_initialized = false →
      update currentlyActive self = none ∧ terminate self = none) ∧
    (self.m_initialized = true →
      (∃ w, update currentlyActive self = some w ∧ w.m_initialized = true) ∧
      (∃ w, terminate self = some w ∧ w.m_initialized = true)) ∧
    (∀ (numJoysticks : Int) (joystickOpen : Nat → Option Nat) (w h : Int) (self' : Widget),
      initializeWidget numJoysticks joystickOpen w h self = some self' →
      self'.m_initialized = true) ∧
    (∀ (numJoysticks : Int) (w h : Int),
      (initializeWidget numJoysticks (fun i => some i) w h self).isSome = true) := by
  refine ⟨rfl, ?_, ?_, ?_, ?_⟩
  · intro h
    simp [update, terminate, h]
  · intro h
    constructor
    · refine ⟨if currentlyActive ≠ self.m_previouslyActive then
        { self with m_previouslyActive := currentlyActive } else self, by simp [update, h], ?_⟩
      split <;> simp [h]
    · exact ⟨{ self with m_joy := [] }, by simp [terminate, h], h⟩
  · intro numJoysticks joystickOpen w h self' hi
    simp only [initializeWidget] at hi
    split at hi
    · exact Option.noConfusion hi
    · rw [← Option.some.inj hi]
  · intro numJoysticks w h
    have ho : ∀ (n i : Nat), (openJoysticks (fun i => some i) i n).isSome = true := by
      intro n
      induction n with
      | zero => intro i; rfl
      | succ n ih =>
        intro i
        simp only [openJoysticks]
        obtain ⟨l, hl⟩ := Option.isSome_iff_exists.mp (ih (i + 1))
        rw [hl]
        rfl
    simp only [initializeWidget]
    generalize (if numJoysticks < 0 ∨ numJoysticks > 10 then 0 else numJoysticks) = j
    have hj : ∃ joy, (if j > 0 then openJoysticks (fun i => some i) 0 j.toNat
        else some self.m_joy) = some joy := by
      by_cases hp : j > 0
      · rw [if_pos hp]
        exact Option.isSome_iff_exists.mp (ho _ _)
      · rw [if_neg hp]
        exact ⟨_, rfl⟩
    obtain ⟨joy, hjoy⟩ := hj
    rw [hjoy]
    rfl

theorem lifecycle_checks_witness :
    Widget.new.m_initialized = false ∧ update true Widget.new = none ∧
      terminate Widget.new = none :=
  ⟨rfl, (lifecycle_checks true Widget.new).2.1 rfl⟩

end G3DWidget

end mojo
